import Mathlib

/-!
Turvo integration backend: status registry, validators, translators, the list path, the
create path and the transport.

A shallow embedding of `internal/service/load/status_mapper.go`,
`internal/service/load/validation.go`, the translators, the list path and the create path of
`internal/service/load/service.go`, `internal/handler/load/handler.go` and
`internal/turvo/client.go`.

Conventions of the embedding
* a Go `string` is a Lean `String` (a sequence of Unicode code points, i.e. valid UTF-8);
* a Go pointer field (`*Customer`, `*time.Time`) is an `Option`;
* a Go `int` is an `Int`, and where the code computes with it the operations are those of a
  64-bit `int`, which wrap around; a Go `error` is an `Option String` (`none` is `nil`);
* in the service, a call of the transport is a parameter that gives the outcome of the call;
  the transport itself runs against an explicit remote system and clock, and leaves a record
  of the requests it has sent;
* a Go `float64` is a Lean `Float`;
* data and functions that live in a library and not in the repository (the Unicode case
  table, `time.Parse`) are parameters of the functions that consult them.
-/

namespace TurvoBackend

/-! ## Strings (`strings.ToLower`, `strings.ReplaceAll`) -/

/-- Lower-casing of one rune as done by `unicode.ToLower`: ASCII runes follow the ASCII rule,
runes from U+0080 upwards are looked up in the library's case table `unicodeLower`. -/
def toLowerRune (unicodeLower : Char → Char) (c : Char) : Char :=
  if c.toNat < 128 then c.toLower else unicodeLower c

/-- Go's `strings.ToLower`: every rune is mapped through `unicode.ToLower`. -/
def ToLower (unicodeLower : Char → Char) (s : String) : String :=
  ⟨s.data.map (toLowerRune unicodeLower)⟩

/-- Scan of `strings.ReplaceAll` for a non-empty pattern `old`: non-overlapping occurrences
are replaced from left to right; `skip` counts the runes of a matched occurrence that are
still to be dropped. -/
def replaceScan (old new : List Char) : Nat → List Char → List Char
  | _, [] => []
  | skip + 1, _ :: cs => replaceScan old new skip cs
  | 0, c :: cs =>
    if old.isPrefixOf (c :: cs) then new ++ replaceScan old new (old.length - 1) cs
    else c :: replaceScan old new 0 cs

/-- Go's `strings.ReplaceAll(s, old, new)`. With an empty `old` the replacement is inserted
before every rune and at the end of the string. -/
def ReplaceAll (s old new : String) : String :=
  if old.data = [] then ⟨new.data ++ s.data.flatMap (fun c => c :: new.data)⟩
  else ⟨replaceScan old.data new.data 0 s.data⟩

/-! ## `status_mapper.go` -/

/-- The function `normalizeStatus`: lower-case, then spaces and hyphens become underscores. -/
def normalizeStatus (unicodeLower : Char → Char) (status : String) : String :=
  let normalized := ToLower unicodeLower status
  let normalized := ReplaceAll normalized " " "_"
  let normalized := ReplaceAll normalized "-" "_"
  normalized

/-- The function `TurvoStatusToAPI`: Turvo status code and value to the API status. -/
def TurvoStatusToAPI (unicodeLower : Char → Char) (statusKey statusValue : String) : String :=
  match statusKey with
  | "2100" => "quote_active"
  | "2101" => "tendered"
  | "2102" => "covered"
  | "2103" => "dispatched"
  | "2104" => "at_pickup"
  | "2105" => "en_route"
  | "2106" => "at_delivery"
  | "2107" => "delivered"
  | "2108" => "ready_for_billing"
  | "2109" => "processing"
  | "2110" => "carrier_paid"
  | "2111" => "customer_paid"
  | "2112" => "completed"
  | "2113" => "canceled"
  | "2114" => "quote_inactive"
  | "2115" => "picked_up"
  | "2116" => "route_complete"
  | "2117" => "tender_offered"
  | "2118" => "tender_accepted"
  | "2119" => "tender_rejected"
  | "2120" => "draft"
  | "2121" => "shipment_ready"
  | "2123" => "acquiring_location"
  | "2124" => "customs_hold"
  | "2125" => "arrived"
  | "2126" => "available"
  | "2127" => "out_gated"
  | "2129" => "in_gated"
  | "2131" => "arriving_to_port"
  | "2132" => "berthing"
  | "2133" => "unloading"
  | "2134" => "ramped"
  | "2135" => "deramped"
  | "2136" => "departed"
  | "2137" => "held"
  | "2138" => "out_for_delivery"
  | "2139" => "in_transshipment"
  | "2140" => "on_hold"
  | "2141" => "interline"
  | _ => normalizeStatus unicodeLower statusValue

/-- The literal `statusMap` of `findTurvoStatusByValue`, keyed by lower-cased display value. -/
def statusMap : List (String × (String × String)) :=
  [ ("quote active", ("2100", "Quote active")),
    ("tendered", ("2101", "Tendered")),
    ("covered", ("2102", "Covered")),
    ("dispatched", ("2103", "Dispatched")),
    ("at pickup", ("2104", "At pickup")),
    ("en route", ("2105", "En route")),
    ("at delivery", ("2106", "At delivery")),
    ("delivered", ("2107", "Delivered")),
    ("ready for billing", ("2108", "Ready for billing")),
    ("processing", ("2109", "Processing")),
    ("carrier paid", ("2110", "Carrier paid")),
    ("customer paid", ("2111", "Customer paid")),
    ("completed", ("2112", "Completed")),
    ("canceled", ("2113", "Canceled")),
    ("quote inactive", ("2114", "Quote inactive")),
    ("picked up", ("2115", "Picked up")),
    ("route complete", ("2116", "Route Complete")),
    ("tender - offered", ("2117", "Tender - offered")),
    ("tender - accepted", ("2118", "Tender - accepted")),
    ("tender - rejected", ("2119", "Tender - rejected")),
    ("draft", ("2120", "Draft")),
    ("shipment ready", ("2121", "Shipment Ready")) ]

/-- The function `findTurvoStatusByValue`: case-insensitive lookup of a display value, with
the draft code as the default. -/
def findTurvoStatusByValue (unicodeLower : Char → Char) (value : String) : String × String :=
  let valueLower := ToLower unicodeLower value
  match statusMap.lookup valueLower with
  | some mapping => (mapping.1, mapping.2)
  | none => ("2120", "Draft")

/-- The function `APIToTurvoStatus`: API status to Turvo status code and value. -/
def APIToTurvoStatus (unicodeLower : Char → Char) (apiStatus : String) : String × String :=
  match apiStatus with
  | "quote_active" => ("2100", "Quote active")
  | "tendered" => ("2101", "Tendered")
  | "covered" => ("2102", "Covered")
  | "dispatched" => ("2103", "Dispatched")
  | "at_pickup" => ("2104", "At pickup")
  | "en_route" => ("2105", "En route")
  | "at_delivery" => ("2106", "At delivery")
  | "delivered" => ("2107", "Delivered")
  | "ready_for_billing" => ("2108", "Ready for billing")
  | "processing" => ("2109", "Processing")
  | "carrier_paid" => ("2110", "Carrier paid")
  | "customer_paid" => ("2111", "Customer paid")
  | "completed" => ("2112", "Completed")
  | "canceled" => ("2113", "Canceled")
  | "quote_inactive" => ("2114", "Quote inactive")
  | "picked_up" => ("2115", "Picked up")
  | "route_complete" => ("2116", "Route Complete")
  | "tender_offered" => ("2117", "Tender - offered")
  | "tender_accepted" => ("2118", "Tender - accepted")
  | "tender_rejected" => ("2119", "Tender - rejected")
  | "draft" => ("2120", "Draft")
  | "shipment_ready" => ("2121", "Shipment Ready")
  | "acquiring_location" => ("2123", "Acquiring Location")
  | "customs_hold" => ("2124", "Customs Hold")
  | "arrived" => ("2125", "Arrived")
  | "available" => ("2126", "Available")
  | "out_gated" => ("2127", "Out Gated")
  | "in_gated" => ("2129", "In Gated")
  | "arriving_to_port" => ("2131", "Arriving to Port")
  | "berthing" => ("2132", "Berthing")
  | "unloading" => ("2133", "Unloading")
  | "ramped" => ("2134", "Ramped")
  | "deramped" => ("2135", "Deramped")
  | "departed" => ("2136", "Departed")
  | "held" => ("2137", "Held")
  | "out_for_delivery" => ("2138", "Out for Delivery")
  | "in_transshipment" => ("2139", "In TransShipment")
  | "on_hold" => ("2140", "On Hold")
  | "interline" => ("2141", "Interline")
  | "pending" => ("2120", "Draft")
  | _ => findTurvoStatusByValue unicodeLower apiStatus

/-! ### The status table, as data

The rows `(key, canonical status, display value)` of the two `switch` statements, listed so
that statements can range over them. `TurvoStatusToAPI_table` and `APIToTurvoStatus_table`
below tie the list to the functions. -/

/-- The 39 rows of the status table: remote key, canonical status, display value. -/
def statusTable : List (String × String × String) :=
  [ ("2100", "quote_active", "Quote active"),
    ("2101", "tendered", "Tendered"),
    ("2102", "covered", "Covered"),
    ("2103", "dispatched", "Dispatched"),
    ("2104", "at_pickup", "At pickup"),
    ("2105", "en_route", "En route"),
    ("2106", "at_delivery", "At delivery"),
    ("2107", "delivered", "Delivered"),
    ("2108", "ready_for_billing", "Ready for billing"),
    ("2109", "processing", "Processing"),
    ("2110", "carrier_paid", "Carrier paid"),
    ("2111", "customer_paid", "Customer paid"),
    ("2112", "completed", "Completed"),
    ("2113", "canceled", "Canceled"),
    ("2114", "quote_inactive", "Quote inactive"),
    ("2115", "picked_up", "Picked up"),
    ("2116", "route_complete", "Route Complete"),
    ("2117", "tender_offered", "Tender - offered"),
    ("2118", "tender_accepted", "Tender - accepted"),
    ("2119", "tender_rejected", "Tender - rejected"),
    ("2120", "draft", "Draft"),
    ("2121", "shipment_ready", "Shipment Ready"),
    ("2123", "acquiring_location", "Acquiring Location"),
    ("2124", "customs_hold", "Customs Hold"),
    ("2125", "arrived", "Arrived"),
    ("2126", "available", "Available"),
    ("2127", "out_gated", "Out Gated"),
    ("2129", "in_gated", "In Gated"),
    ("2131", "arriving_to_port", "Arriving to Port"),
    ("2132", "berthing", "Berthing"),
    ("2133", "unloading", "Unloading"),
    ("2134", "ramped", "Ramped"),
    ("2135", "deramped", "Deramped"),
    ("2136", "departed", "Departed"),
    ("2137", "held", "Held"),
    ("2138", "out_for_delivery", "Out for Delivery"),
    ("2139", "in_transshipment", "In TransShipment"),
    ("2140", "on_hold", "On Hold"),
    ("2141", "interline", "Interline") ]

/-- The keys of the forward table (the `case` labels of `TurvoStatusToAPI`). -/
def forwardKeys : List String := statusTable.map (fun r => r.1)

/-- The canonical statuses of the reverse table other than the alias "pending". -/
def canonicalStatuses : List String := statusTable.map (fun r => r.2.1)

/-- The `(key, display value)` pairs of the status table. -/
def statusPairs : List (String × String) := statusTable.map (fun r => (r.1, r.2.2))

/-- The `case` labels of `APIToTurvoStatus`: the canonical statuses and the alias. -/
def reverseKeys : List String := canonicalStatuses ++ ["pending"]

/-- The `(key, display value)` pairs held by the secondary table `statusMap`. -/
def secondaryPairs : List (String × String) := statusMap.map (fun e => e.2)

/-- The forward table read off `TurvoStatusToAPI`: remote key to canonical status. -/
def forwardTable : List (String × String) := statusTable.map (fun r => (r.1, r.2.1))

/-- The reverse table read off `APIToTurvoStatus`: canonical status to (key, display value),
closed by the alias "pending". -/
def reverseTable : List (String × (String × String)) :=
  statusTable.map (fun r => (r.2.1, (r.1, r.2.2))) ++ [("pending", ("2120", "Draft"))]

/-- The character substitution of `normalizeStatus`: space and hyphen become underscore. -/
def underscoreRune (c : Char) : Char := if c = ' ' ∨ c = '-' then '_' else c

/-! ## Library functions used by the validators and the translator -/

/-- Go's `strconv.Atoi` on a platform with 64-bit `int`: an optional sign, then one or more
ASCII decimal digits, and a value that fits the `int` range; `none` is the parse error. -/
def Atoi (s : String) : Option Int :=
  let signed : Bool × List Char :=
    match s.data with
    | '-' :: rest => (true, rest)
    | '+' :: rest => (false, rest)
    | rest => (false, rest)
  let digits := signed.2
  if digits = [] ∨ digits.all Char.isDigit = false then none
  else
    let n : Int := digits.foldl (fun acc ch => acc * 10 + ((ch.toNat - 48 : Nat) : Int)) 0
    let v : Int := if signed.1 then -n else n
    if v < -(2 ^ 63 : Int) ∨ (2 ^ 63 : Int) - 1 < v then none else some v

/-- Go's `fmt.Sprintf("%d", n)` for an `int`. -/
def formatInt (n : Int) : String :=
  if n < 0 then "-" ++ toString n.natAbs else toString n.natAbs

/-- Go's `%v` rendering of a `[]string`: the elements separated by blanks, in brackets. -/
def formatStrings (xs : List String) : String :=
  "[" ++ " ".intercalate xs ++ "]"

/-- The runes `unicode.IsSpace` accepts (the Unicode `White_Space` property). -/
def isSpace (c : Char) : Bool :=
  let n := c.toNat
  (9 ≤ n && n ≤ 13) || n = 0x20 || n = 0x85 || n = 0xA0 || n = 0x1680 ||
    (0x2000 ≤ n && n ≤ 0x200A) || n = 0x2028 || n = 0x2029 || n = 0x202F || n = 0x205F ||
    n = 0x3000

/-- Go's `strings.TrimSpace`: leading and trailing white space removed. -/
def TrimSpace (s : String) : String :=
  ⟨((s.data.dropWhile isSpace).reverse.dropWhile isSpace).reverse⟩

/-- Splitting of a rune sequence at every occurrence of `sep`; always at least one piece. -/
def splitRunes (sep : Char) : List Char → List (List Char)
  | [] => [[]]
  | c :: cs =>
    if c = sep then [] :: splitRunes sep cs
    else
      match splitRunes sep cs with
      | piece :: pieces => (c :: piece) :: pieces
      | [] => [[c]]

/-- Go's `strings.Split(s, sep)` for a separator of one rune. -/
def Split (s : String) (sep : Char) : List String :=
  (splitRunes sep s.data).map (fun piece => ⟨piece⟩)

/-! ## `time.Time` and its RFC 3339 rendering -/

/-- A `time.Time` as the wall-clock reading it presents in its location, with the location's
offset east of UTC in seconds. -/
structure Time where
  year : Int := 1
  month : Nat := 1
  day : Nat := 1
  hour : Nat := 0
  minute : Nat := 0
  second : Nat := 0
  nanosecond : Nat := 0
  offset : Int := 0

/-- The helper `appendInt` of package `time`: sign, then the decimal digits padded with
zeros to at least `width`. -/
def appendInt (x : Int) (width : Nat) : String :=
  let digits := toString x.natAbs
  let padded := String.mk (List.replicate (width - digits.length) '0') ++ digits
  if x < 0 then "-" ++ padded else padded

/-- The rendering `t.Format(time.RFC3339)`, layout `2006-01-02T15:04:05Z07:00`. -/
def formatRFC3339 (t : Time) : String :=
  let zone : String :=
    if t.offset = 0 then "Z"
    else
      let minutes : Int := Int.tdiv t.offset 60
      let sign := if minutes < 0 then "-" else "+"
      let m : Int := if minutes < 0 then -minutes else minutes
      sign ++ appendInt (m / 60) 2 ++ ":" ++ appendInt (m % 60) 2
  appendInt t.year 4 ++ "-" ++ appendInt t.month 2 ++ "-" ++ appendInt t.day 2 ++ "T" ++
    appendInt t.hour 2 ++ ":" ++ appendInt t.minute 2 ++ ":" ++ appendInt t.second 2 ++ zone

/-! ## `models/load.go` -/

/-- The struct `Customer`. -/
structure Customer where
  externalTMSId : String := ""
  name : String := ""
  addressLine1 : String := ""
  addressLine2 : String := ""
  city : String := ""
  state : String := ""
  zipcode : String := ""
  country : String := ""
  contact : String := ""
  phone : String := ""
  email : String := ""
  refNumber : String := ""

/-- The struct `BillTo`. -/
structure BillTo where
  externalTMSId : String := ""
  name : String := ""
  addressLine1 : String := ""
  addressLine2 : String := ""
  city : String := ""
  state : String := ""
  zipcode : String := ""
  country : String := ""
  contact : String := ""
  phone : String := ""
  email : String := ""

/-- The struct `Pickup`. -/
structure Pickup where
  externalTMSId : String := ""
  name : String := ""
  addressLine1 : String := ""
  addressLine2 : String := ""
  city : String := ""
  state : String := ""
  zipcode : String := ""
  country : String := ""
  contact : String := ""
  phone : String := ""
  email : String := ""
  businessHours : String := ""
  refNumber : String := ""
  readyTime : Option Time := none
  apptTime : Option Time := none
  apptNote : String := ""
  timezone : String := ""
  warehouseId : String := ""

/-- The struct `Consignee`. -/
structure Consignee where
  externalTMSId : String := ""
  name : String := ""
  addressLine1 : String := ""
  addressLine2 : String := ""
  city : String := ""
  state : String := ""
  zipcode : String := ""
  country : String := ""
  contact : String := ""
  phone : String := ""
  email : String := ""
  businessHours : String := ""
  refNumber : String := ""
  mustDeliver : String := ""
  apptTime : Option Time := none
  apptNote : String := ""
  timezone : String := ""
  warehouseId : String := ""

/-- The struct `Carrier`. -/
structure Carrier where
  mcNumber : String := ""
  dotNumber : String := ""
  name : String := ""
  phone : String := ""
  dispatcher : String := ""
  sealNumber : String := ""
  scac : String := ""
  firstDriverName : String := ""
  firstDriverPhone : String := ""
  secondDriverName : String := ""
  secondDriverPhone : String := ""
  email : String := ""
  dispatchCity : String := ""
  dispatchState : String := ""
  externalTMSTruckId : String := ""
  externalTMSTrailerId : String := ""
  confirmationSentTime : Option Time := none
  confirmationReceivedTime : Option Time := none
  dispatchedTime : Option Time := none
  expectedPickupTime : Option Time := none
  pickupStart : Option Time := none
  pickupEnd : Option Time := none
  expectedDeliveryTime : Option Time := none
  deliveryStart : Option Time := none
  deliveryEnd : Option Time := none
  signedBy : String := ""
  externalTMSId : String := ""

/-- The struct `RateData`. -/
structure RateData where
  customerRateType : String := ""
  customerNumHours : Option Float := none
  customerLhRateUsd : Option Float := none
  fscPercent : Option Float := none
  fscPerMile : Option Float := none
  carrierRateType : String := ""
  carrierNumHours : Option Float := none
  carrierLhRateUsd : Option Float := none
  carrierMaxRate : Option Float := none
  netProfitUsd : Option Float := none
  profitPercent : Option Float := none

/-- The struct `Specifications`. -/
structure Specifications where
  minTempFahrenheit : Option Float := none
  maxTempFahrenheit : Option Float := none
  liftgatePickup : Option Bool := none
  liftgateDelivery : Option Bool := none
  insidePickup : Option Bool := none
  insideDelivery : Option Bool := none
  tarps : Option Bool := none
  oversized : Option Bool := none
  hazmat : Option Bool := none
  straps : Option Bool := none
  permits : Option Bool := none
  escorts : Option Bool := none
  Seal : Option Bool := none
  customBonded : Option Bool := none
  labor : Option Bool := none

/-- The struct `Load`, the canonical load record. -/
structure Load where
  externalTMSLoadID : String := ""
  freightLoadID : String := ""
  status : String := ""
  customer : Option Customer := none
  billTo : Option BillTo := none
  pickup : Option Pickup := none
  consignee : Option Consignee := none
  carrier : Option Carrier := none
  rateData : Option RateData := none
  specifications : Option Specifications := none
  inPalletCount : Option Int := none
  outPalletCount : Option Int := none
  numCommodities : Option Int := none
  totalWeight : Option Float := none
  billableWeight : Option Float := none
  poNums : String := ""
  operator : String := ""
  routeMiles : Option Float := none

/-- The struct `LoadCreateResponse`. -/
structure LoadCreateResponse where
  id : String
  createdAt : Time

/-! ## `models/turvo.go`: the create payload and the create response

Fields of the payload that `drumkitToTurvo` never assigns and `ValidateTurvoShipment` never
reads (`groups`, `contributors`, `globalRoute`, `modeInfo`, `use_routing_guide`, and the
`items`, `costs` and `drivers` of the orders) keep their zero value on every path and are
left out. -/

/-- The struct `TurvoKeyValue`. -/
structure TurvoKeyValue where
  key : String := ""
  value : String := ""
  id : Int := 0

/-- The struct `TurvoStatusCode`. -/
structure TurvoStatusCode where
  key : String := ""
  value : String := ""

/-- The struct `TurvoParentAccount`. -/
structure TurvoParentAccount where
  name : String := ""
  id : Int := 0

/-- The struct `TurvoAccount`. -/
structure TurvoAccount where
  id : Int := 0
  name : String := ""
  owner : Option TurvoParentAccount := none

/-- The struct `TurvoDateWithTimezone`. -/
structure TurvoDateWithTimezone where
  date : String := ""
  timeZone : String := ""

/-- The struct `TurvoCreateStatus`. -/
structure TurvoCreateStatus where
  code : TurvoStatusCode := {}
  notes : String := ""
  description : String := ""
  category : String := ""

/-- The struct `TurvoEquipment`. -/
structure TurvoEquipment where
  operation : Int := 0
  type : TurvoKeyValue := {}
  size : TurvoKeyValue := {}
  weight : Float := 0
  weightUnits : TurvoKeyValue := {}
  temp : Float := 0
  tempUnits : TurvoKeyValue := {}
  shipmentLength : Float := 0

/-- The struct `TurvoLane`. -/
structure TurvoLane where
  start : String := ""
  «end» : String := ""

/-- The struct `TurvoExternalId`. -/
structure TurvoExternalId where
  type : TurvoKeyValue := {}
  value : String := ""
  copyToCarrierOrder : Bool := false

/-- The struct `TurvoCreateCustomerOrder`. -/
structure TurvoCreateCustomerOrder where
  customerOrderSourceId : Int := 0
  customer : TurvoAccount := {}
  externalIds : List TurvoExternalId := []

/-- The struct `TurvoCreateCarrierOrder`. -/
structure TurvoCreateCarrierOrder where
  carrierOrderSourceId : Int := 0
  carrier : TurvoAccount := {}

/-- The struct `TurvoCreateParty`. -/
structure TurvoCreateParty where
  account : TurvoAccount := {}

/-- The struct `TurvoShipmentCreate`, the payload of `POST /v1/shipments`. -/
structure TurvoShipmentCreate where
  ltlShipment : Bool := false
  startDate : TurvoDateWithTimezone := {}
  endDate : TurvoDateWithTimezone := {}
  status : Option TurvoCreateStatus := none
  equipment : List TurvoEquipment := []
  lane : TurvoLane := {}
  skipDistanceCalculation : Bool := false
  customerOrder : List TurvoCreateCustomerOrder := []
  carrierOrder : List TurvoCreateCarrierOrder := []
  party : List TurvoCreateParty := []

/-- The struct `TurvoDateWithTimezoneAndFlex`. -/
structure TurvoDateWithTimezoneAndFlex where
  date : String := ""
  timeZone : String := ""
  flex : Int := 0

/-- The struct `TurvoAppointment`. -/
structure TurvoAppointment where
  date : String := ""
  timezone : String := ""
  timeZone : String := ""
  flex : Int := 0
  hasTime : Bool := false

/-- The struct `TurvoAddress`. -/
structure TurvoAddress where
  id : String := ""
  line1 : String := ""
  city : String := ""
  state : String := ""
  zip : String := ""
  lon : Float := 0
  lat : Float := 0

/-- The struct `TurvoContact`. -/
structure TurvoContact where
  id : Int := 0
  name : String := ""

/-- The struct `TurvoEquipmentResponse`. -/
structure TurvoEquipmentResponse where
  deleted : Bool := false
  id : Int := 0
  type : TurvoKeyValue := {}
  size : TurvoKeyValue := {}
  weight : Float := 0
  temp : Float := 0
  shipmentLength : Float := 0

/-- The fields of `TurvoGlobalRouteStopResponse` that the translators read. -/
structure TurvoGlobalRouteStopResponse where
  id : Int := 0
  name : String := ""
  stopType : TurvoKeyValue := {}
  timezone : String := ""
  address : Option TurvoAddress := none
  appointment : Option TurvoAppointment := none
  services : List TurvoKeyValue := []
  poNumbers : List String := []
  notes : String := ""
  contact : Option TurvoContact := none
  deleted : Bool := false

/-- The fields of `TurvoRouteStop` (a stop of a customer order's own route) that the
translators read. -/
structure TurvoRouteStop where
  deleted : Bool := false
  id : Int := 0
  stopType : TurvoKeyValue := {}
  address : Option TurvoAddress := none
  email : String := ""
  extension : String := ""
  phone : String := ""
  services : List TurvoKeyValue := []
  poNumbers : List String := []
  notes : String := ""
  contact : Option TurvoContact := none

/-- The struct `TurvoExternalIdResponse`. -/
structure TurvoExternalIdResponse where
  deleted : Bool := false
  id : Int := 0
  type : TurvoKeyValue := {}
  value : String := ""
  copyToCarrierOrder : Bool := false

/-- The fields of `TurvoAccountResponse` that the translators read. -/
structure TurvoAccountResponse where
  id : Int := 0
  name : String := ""

/-- The fields of `TurvoOrderCostsResponse` that the translators read. -/
structure TurvoOrderCostsResponse where
  subTotal : Float := 0
  totalTax : Float := 0
  totalAmount : Float := 0
  deleted : Bool := false
  notes : String := ""

/-- The fields of `TurvoCustomerOrderResponse` that the translators read. -/
structure TurvoCustomerOrderResponse where
  id : Int := 0
  deleted : Bool := false
  customer : TurvoAccountResponse := {}
  totalMiles : Float := 0
  route : List TurvoRouteStop := []
  costs : Option TurvoOrderCostsResponse := none
  externalIds : List TurvoExternalIdResponse := []

/-- The struct `TurvoDriverContext`. -/
structure TurvoDriverContext where
  id : Int := 0
  name : String := ""
  linkedUserId : Int := 0
  messagingEnabled : Bool := false

/-- The fields of `TurvoPhone` that the translators read. -/
structure TurvoPhone where
  id : String := ""
  extension : String := ""
  number : String := ""
  deleted : Bool := false

/-- The fields of `TurvoEmail` that the translators read. -/
structure TurvoEmail where
  id : String := ""
  email : String := ""
  deleted : Bool := false

/-- The fields of `TurvoDriverResponse` that the translators read. -/
structure TurvoDriverResponse where
  context : Option TurvoDriverContext := none
  phone : Option TurvoPhone := none
  email : Option TurvoEmail := none
  deleted : Bool := false

/-- The fields of `TurvoCarrierOrderResponse` that the translators read. -/
structure TurvoCarrierOrderResponse where
  id : Int := 0
  deleted : Bool := false
  carrier : TurvoAccountResponse := {}
  costs : Option TurvoOrderCostsResponse := none
  externalIds : List TurvoExternalIdResponse := []
  drivers : List TurvoDriverResponse := []

/-- The fields of `TurvoPartyResponse` that the translators read. -/
structure TurvoPartyResponse where
  id : Int := 0
  deleted : Bool := false
  account : TurvoAccountResponse := {}

/-- The fields of `TurvoShipmentCreateDetails` that the create path and the translators
read. -/
structure TurvoShipmentCreateDetails where
  id : Int := 0
  customId : String := ""
  ltlShipment : Bool := false
  startDate : TurvoDateWithTimezone := {}
  endDate : TurvoDateWithTimezoneAndFlex := {}
  status : Option TurvoCreateStatus := none
  equipment : List TurvoEquipmentResponse := []
  lane : TurvoLane := {}
  globalRoute : List TurvoGlobalRouteStopResponse := []
  customerOrder : List TurvoCustomerOrderResponse := []
  carrierOrder : List TurvoCarrierOrderResponse := []
  party : List TurvoPartyResponse := []

/-- The struct `TurvoShipmentCreateResponse`. -/
structure TurvoShipmentCreateResponse where
  status : String := ""
  details : TurvoShipmentCreateDetails := {}

/-! ## `validation.go` -/

/-- The loop of `ValidateTurvoShipment` over the customer orders, from index `i` on, with the
messages collected so far. -/
def customerOrderErrors : Nat → List TurvoCreateCustomerOrder → List String → List String
  | _, [], errors => errors
  | i, order :: rest, errors =>
    let errors :=
      if order.customer.id = 0 then
        errors ++ ["customerOrder[" ++ formatInt i ++ "].customer.id is required"]
      else errors
    let errors :=
      if order.customerOrderSourceId = 0 then
        errors ++ ["customerOrder[" ++ formatInt i ++ "].customerOrderSourceId is required"]
      else errors
    customerOrderErrors (i + 1) rest errors

/-- The slice `errors` of `ValidateTurvoShipment` when all checks have run. -/
def validateTurvoShipmentErrors (shipment : TurvoShipmentCreate) : List String :=
  let errors : List String := []
  let errors :=
    if shipment.startDate.date = "" then errors ++ ["startDate.date is required"] else errors
  let errors :=
    if shipment.endDate.date = "" then errors ++ ["endDate.date is required"] else errors
  let errors :=
    if shipment.lane.start = "" then errors ++ ["lane.start is required"] else errors
  let errors :=
    if shipment.lane.end = "" then errors ++ ["lane.end is required"] else errors
  let errors :=
    if shipment.customerOrder.length = 0 then errors ++ ["customerOrder is required"]
    else customerOrderErrors 0 shipment.customerOrder errors
  errors

/-- The function `ValidateTurvoShipment`; `none` is the `nil` error. -/
def ValidateTurvoShipment (shipment : TurvoShipmentCreate) : Option String :=
  let errors := validateTurvoShipmentErrors shipment
  if errors.length > 0 then some ("validation failed: " ++ formatStrings errors) else none

/-- The slice `errors` of `ValidateLoad` when all checks have run. -/
def validateLoadErrors (load : Load) : List String :=
  let errors : List String := []
  let errors :=
    match load.customer with
    | none => errors ++ ["customer is required"]
    | some customer =>
      if customer.externalTMSId == "" then errors ++ ["customer.externalTMSId is required"]
      else errors
  let errors :=
    match load.pickup with
    | none => errors ++ ["pickup is required"]
    | some pickup =>
      let errors :=
        if pickup.readyTime.isNone && pickup.apptTime.isNone then
          errors ++ ["pickup.readyTime or pickup.apptTime is required (for startDate)"]
        else errors
      let hasCityState : Bool := pickup.city != "" && pickup.state != ""
      let hasName : Bool := pickup.name != ""
      if !hasCityState && !hasName then
        errors ++ ["pickup must have either (city and state) or name (for lane.start)"]
      else errors
  let errors :=
    match load.consignee with
    | none => errors ++ ["consignee is required"]
    | some consignee =>
      let errors :=
        if consignee.apptTime.isNone then
          errors ++ ["consignee.apptTime is required (for endDate)"]
        else errors
      let hasCityState : Bool := consignee.city != "" && consignee.state != ""
      let hasName : Bool := consignee.name != ""
      if !hasCityState && !hasName then
        errors ++ ["consignee must have either (city and state) or name (for lane.end)"]
      else errors
  let errors :=
    match load.carrier with
    | none => errors
    | some carrier =>
      if carrier.externalTMSId == "" then
        errors ++ ["carrier.externalTMSId is required when carrier is provided"]
      else
        match Atoi carrier.externalTMSId with
        | none => errors ++ ["carrier.externalTMSId must be a valid integer"]
        | some _ => errors
  errors

/-- The function `ValidateLoad`; `none` is the `nil` error. -/
def ValidateLoad (load : Load) : Option String :=
  let errors := validateLoadErrors load
  if errors.length > 0 then some ("validation failed: " ++ formatStrings errors) else none

/-! ## `service.go`: the create path -/

/-- The external identifiers `drumkitToTurvo` builds from `poNums`: one entry per non-blank,
trimmed piece of the comma-separated list. -/
def poExternalIds (poNums : String) : List TurvoExternalId :=
  (Split poNums ',').filterMap (fun poNum =>
    let poNum := TrimSpace poNum
    if poNum != "" then
      some { type := { key := "1400", value := "Purchase shipment #" }, value := poNum }
    else none)

/-- The method `drumkitToTurvo`: a canonical load to the create payload. `sourceId` is the
value of `uuid.New().ID()` drawn by this call (an unsigned 32-bit number); the result `none`
is the run-time panic of a nil dereference. -/
def drumkitToTurvo (unicodeLower : Char → Char) (sourceId : Nat) (load : Load) :
    Option TurvoShipmentCreate := do
  let status : Option TurvoCreateStatus :=
    if load.status != "" then
      let code := APIToTurvoStatus unicodeLower load.status
      some { code := { key := code.1, value := code.2 } }
    else none
  let pickup ← load.pickup
  let timezone := if pickup.timezone != "" then pickup.timezone else "America/New_York"
  let startDate : TurvoDateWithTimezone ←
    match pickup.readyTime with
    | some readyTime => some { date := formatRFC3339 readyTime, timeZone := timezone }
    | none =>
      match pickup.apptTime with
      | some apptTime => some { date := formatRFC3339 apptTime, timeZone := timezone }
      | none => none
  let consignee ← load.consignee
  let consigneeTimezone := if consignee.timezone != "" then consignee.timezone else timezone
  let consigneeApptTime ← consignee.apptTime
  let endDate : TurvoDateWithTimezone :=
    { date := formatRFC3339 consigneeApptTime, timeZone := consigneeTimezone }
  let laneStart :=
    if pickup.city != "" && pickup.state != "" then pickup.city ++ ", " ++ pickup.state
    else pickup.name
  let laneEnd :=
    if consignee.city != "" && consignee.state != "" then
      consignee.city ++ ", " ++ consignee.state
    else consignee.name
  let customer ← load.customer
  let customerId : Int :=
    match Atoi customer.externalTMSId with
    | some id => id
    | none => 0
  let externalIds : List TurvoExternalId :=
    if load.poNums != "" || customer.refNumber != "" then
      (if load.poNums != "" then poExternalIds load.poNums else []) ++
        (if customer.refNumber != "" then
          [{ type := { key := "1401", value := "Reference Number" },
             value := customer.refNumber }]
        else [])
    else []
  let customerOrder : TurvoCreateCustomerOrder :=
    { customer := { name := customer.name, id := customerId },
      customerOrderSourceId := (sourceId : Int),
      externalIds := externalIds }
  let party : List TurvoCreateParty :=
    match load.billTo with
    | some billTo =>
      let id : Int :=
        if billTo.externalTMSId != "" then
          match Atoi billTo.externalTMSId with
          | some id => id
          | none => 0
        else 0
      [{ account := { name := billTo.name, id := id } }]
    | none => []
  let carrierOrder : List TurvoCreateCarrierOrder :=
    match load.carrier with
    | some carrier =>
      let id : Int :=
        match Atoi carrier.externalTMSId with
        | some id => id
        | none => 0
      [{ carrier := { name := carrier.name, id := id } }]
    | none => []
  let equipment : List TurvoEquipment :=
    if load.totalWeight.isSome || load.specifications.isSome then
      let equipment : TurvoEquipment := {}
      let equipment :=
        match load.totalWeight with
        | some totalWeight =>
          { equipment with weight := totalWeight, weightUnits := { key := "1520", value := "lb" } }
        | none => equipment
      let equipment :=
        match load.specifications with
        | some specifications =>
          match specifications.minTempFahrenheit, specifications.maxTempFahrenheit with
          | some minTemp, some maxTemp =>
            let avgTemp := (minTemp + maxTemp) / 2
            { equipment with temp := avgTemp, tempUnits := { key := "1510", value := "°F" } }
          | some minTemp, none =>
            { equipment with temp := minTemp, tempUnits := { key := "1510", value := "°F" } }
          | none, some maxTemp =>
            { equipment with temp := maxTemp, tempUnits := { key := "1510", value := "°F" } }
          | none, none => equipment
        | none => equipment
      [{ equipment with type := { key := "1200", value := "Van" } }]
    else []
  let skipDistanceCalculation := if load.routeMiles.isSome then false else true
  return {
    ltlShipment := false
    startDate := startDate
    endDate := endDate
    status := status
    equipment := equipment
    lane := { start := laneStart, «end» := laneEnd }
    skipDistanceCalculation := skipDistanceCalculation
    customerOrder := [customerOrder]
    carrierOrder := carrierOrder
    party := party }

/-- The method `Service.CreateLoad`. The transport's create operation is the parameter
`createShipment`, `sourceId` is the correlation id drawn by the translation and `now` is the
reading of `time.Now()`. The result `none` is a run-time panic. -/
def Service.CreateLoad (unicodeLower : Char → Char)
    (createShipment : TurvoShipmentCreate → Except String TurvoShipmentCreateResponse)
    (sourceId : Nat) (now : Time) (load : Load) : Option (Except String LoadCreateResponse) :=
  match ValidateLoad load with
  | some err => some (.error ("validation error: " ++ err))
  | none =>
    match drumkitToTurvo unicodeLower sourceId load with
    | none => none
    | some turvoShipment =>
      match ValidateTurvoShipment turvoShipment with
      | some err => some (.error ("validation error: " ++ err))
      | none =>
        match createShipment turvoShipment with
        | .error err => some (.error err)
        | .ok response =>
          let createdAt := now
          if response.details.id > 0 then
            some (.ok { id := formatInt response.details.id, createdAt := createdAt })
          else some (.error "invalid response: shipment ID is missing")

/-- The temperature choice of `drumkitToTurvo` (the `if / else if / else if` over the two
bounds), written over an arbitrary number type: the average when both bounds are given, the
single bound when one is, nothing otherwise. -/
def equipmentTemp {α : Type} [Add α] [Div α] [OfNat α 2] :
    Option α → Option α → Option α
  | some minTemp, some maxTemp => some ((minTemp + maxTemp) / 2)
  | some minTemp, none => some minTemp
  | none, some maxTemp => some maxTemp
  | none, none => none

/-! ## `handler.go`: `POST /loads` -/

/-- The status `http.StatusCreated`. -/
def StatusCreated : Nat := 201

/-- The status `http.StatusBadRequest`. -/
def StatusBadRequest : Nat := 400

/-- The status `http.StatusInternalServerError`. -/
def StatusInternalServerError : Nat := 500

/-- What a handler writes: either `http.Error(w, message, code)` or a JSON body under a
status code. -/
inductive HTTPReply where
  | error (message : String) (code : Nat)
  | json (code : Nat) (body : LoadCreateResponse)

/-- The status code of a reply. -/
def HTTPReply.statusCode : HTTPReply → Nat
  | .error _ code => code
  | .json code _ => code

/-- The method `Handler.CreateLoad`. `body` is the outcome of decoding the request body into
a `Load`; the other parameters are those of `Service.CreateLoad`. The result `none` is a
panic that leaves the handler. -/
def Handler.CreateLoad (unicodeLower : Char → Char)
    (createShipment : TurvoShipmentCreate → Except String TurvoShipmentCreateResponse)
    (sourceId : Nat) (now : Time) (body : Except String Load) : Option HTTPReply :=
  match body with
  | .error err => some (.error ("invalid request body: " ++ err) StatusBadRequest)
  | .ok load =>
    match Service.CreateLoad unicodeLower createShipment sourceId now load with
    | none => none
    | some (.error err) => some (.error err StatusInternalServerError)
    | some (.ok response) => some (.json StatusCreated response)

/-! ## `models/turvo.go`: the list view -/

/-- The struct `TurvoShipmentStatus`. -/
structure TurvoShipmentStatus where
  code : TurvoStatusCode := {}

/-- The struct `TurvoCustomerOrder`. -/
structure TurvoCustomerOrder where
  id : Int := 0
  customer : TurvoAccount := {}
  deleted : Bool := false

/-- The struct `TurvoCarrierOrder`. -/
structure TurvoCarrierOrder where
  id : Int := 0
  carrier : TurvoAccount := {}
  deleted : Bool := false

/-- The struct `TurvoPartyOrder`. -/
structure TurvoPartyOrder where
  id : Int := 0
  account : TurvoAccount := {}
  deleted : Bool := false

/-- The struct `TurvoShipment`, a shipment of the list endpoint. -/
structure TurvoShipment where
  id : Int := 0
  customId : String := ""
  netCustomerCosts : Float := 0
  netCarrierCosts : Float := 0
  netRevenue : Float := 0
  status : TurvoShipmentStatus := {}
  customerOrder : List TurvoCustomerOrder := []
  carrierOrder : List TurvoCarrierOrder := []
  party : List TurvoPartyOrder := []
  created : String := ""
  updated : String := ""
  lastUpdatedOn : String := ""
  createdDate : String := ""

/-! ## `service.go`: the list view -/

/-- The body of the loop of `turvoToDrumkit` over `shipment.Party`. -/
def partyToConsignee (load : Load) (party : TurvoPartyOrder) : Load :=
  if !party.deleted && party.account.name != "" then
    if load.consignee.isNone then
      let consignee : Consignee := { name := party.account.name }
      let consignee :=
        if party.account.id > 0 then
          { consignee with externalTMSId := formatInt party.account.id }
        else consignee
      { load with consignee := some consignee }
    else load
  else load

/-- The method `turvoToDrumkit`: a shipment of the list endpoint to a canonical load. -/
def turvoToDrumkit (unicodeLower : Char → Char) (shipment : TurvoShipment) : Load :=
  let idStr := if shipment.id > 0 then formatInt shipment.id else ""
  let load : Load :=
    { externalTMSLoadID := idStr,
      freightLoadID := shipment.customId,
      status := TurvoStatusToAPI unicodeLower shipment.status.code.key shipment.status.code.value }
  let load :=
    match shipment.customerOrder with
    | customerOrder :: _ =>
      if !customerOrder.deleted then
        if customerOrder.customer.name != "" then
          let customer : Customer := { name := customerOrder.customer.name }
          let customer :=
            if customerOrder.customer.id > 0 then
              { customer with externalTMSId := formatInt customerOrder.customer.id }
            else customer
          { load with customer := some customer }
        else load
      else load
    | [] => load
  let load :=
    match shipment.carrierOrder with
    | carrierOrder :: _ =>
      if !carrierOrder.deleted then
        if carrierOrder.carrier.name != "" then
          let carrier : Carrier := { name := carrierOrder.carrier.name }
          let carrier :=
            if carrierOrder.carrier.id > 0 then
              { carrier with mcNumber := formatInt carrierOrder.carrier.id }
            else carrier
          { load with carrier := some carrier }
        else load
      else load
    | [] => load
  let load := shipment.party.foldl partyToConsignee load
  load

/-! ## `service.go`: the detail view

`turvoDetailsToDrumkit` is one long method made of commented blocks; each block is a function
here, named after its comment, and the method is their composition in source order. The
parameter `parseRFC3339` is `time.Parse(time.RFC3339, ·)`, with `none` for a parse error. -/

/-- Go's `strings.Contains`. -/
def Contains (s substr : String) : Bool :=
  s.data.tails.any (fun t => substr.data.isPrefixOf t)

/-- Go's `strings.Join`. -/
def Join (elems : List String) (sep : String) : String :=
  sep.intercalate elems

/-- Block "Map ID and customId". -/
def mapIdentity (shipment : TurvoShipmentCreateDetails) (load : Load) : Load :=
  let load :=
    if shipment.id > 0 then { load with externalTMSLoadID := formatInt shipment.id } else load
  let load :=
    if shipment.customId != "" then { load with freightLoadID := shipment.customId } else load
  load

/-- Block "Map status". -/
def mapStatus (unicodeLower : Char → Char) (shipment : TurvoShipmentCreateDetails)
    (load : Load) : Load :=
  match shipment.status with
  | some status =>
    if status.code.value != "" then
      let apiStatus := TurvoStatusToAPI unicodeLower status.code.key status.code.value
      if apiStatus != "" then { load with status := apiStatus } else load
    else load
  | none => load

/-- Block "Map dates from startDate and endDate". -/
def mapDates (parseRFC3339 : String → Option Time) (shipment : TurvoShipmentCreateDetails)
    (load : Load) : Load :=
  let load :=
    if shipment.startDate.date != "" then
      match parseRFC3339 shipment.startDate.date with
      | some date =>
        { load with
          pickup := some { readyTime := some date, timezone := shipment.startDate.timeZone } }
      | none => load
    else load
  let load :=
    if shipment.endDate.date != "" then
      match parseRFC3339 shipment.endDate.date with
      | some date =>
        let consignee := load.consignee.getD {}
        { load with
          consignee :=
            some { consignee with apptTime := some date, timezone := shipment.endDate.timeZone } }
      | none => load
    else load
  load

/-- What a non-empty `lane.start` does to the pickup group: it names the group if that has
no name, and when it has the form "City, State" it fills a city and a state that are empty. -/
def pickupFromLane (pickup : Pickup) (lane : String) : Pickup :=
  let pickup := if pickup.name == "" then { pickup with name := lane } else pickup
  match Split lane ',' with
  | [part0, part1] =>
    let city := TrimSpace part0
    let state := TrimSpace part1
    let pickup := if pickup.city == "" then { pickup with city := city } else pickup
    let pickup := if pickup.state == "" then { pickup with state := state } else pickup
    pickup
  | _ => pickup

/-- What a non-empty `lane.end` does to the consignee group. -/
def consigneeFromLane (consignee : Consignee) (lane : String) : Consignee :=
  let consignee := if consignee.name == "" then { consignee with name := lane } else consignee
  match Split lane ',' with
  | [part0, part1] =>
    let city := TrimSpace part0
    let state := TrimSpace part1
    let consignee := if consignee.city == "" then { consignee with city := city } else consignee
    let consignee :=
      if consignee.state == "" then { consignee with state := state } else consignee
    consignee
  | _ => consignee

/-- Block "Map lane start and end to pickup and consignee"; the groups are created when
absent. -/
def mapLane (shipment : TurvoShipmentCreateDetails) (load : Load) : Load :=
  let load :=
    if shipment.lane.start != "" then
      { load with pickup := some (pickupFromLane (load.pickup.getD {}) shipment.lane.start) }
    else load
  let load :=
    if shipment.lane.end != "" then
      { load with
        consignee := some (consigneeFromLane (load.consignee.getD {}) shipment.lane.end) }
    else load
  load

/-- The appointment time a stop supplies: its appointment date, when there is one, it is not
empty and it parses. -/
def stopApptTime (parseRFC3339 : String → Option Time) (stop : TurvoGlobalRouteStopResponse) :
    Option Time :=
  match stop.appointment with
  | some appointment => if appointment.date != "" then parseRFC3339 appointment.date else none
  | none => none

/-- What a pickup stop of the global route does to the pickup group (the pickup branch of the
loop body of block "Map globalRoute to pickup and consignee"). -/
def pickupFromStop (parseRFC3339 : String → Option Time) (pickup : Pickup)
    (stop : TurvoGlobalRouteStopResponse) : Pickup :=
  let pickup := { pickup with name := stop.name }
  let pickup :=
    if stop.timezone != "" then { pickup with timezone := stop.timezone } else pickup
  let pickup := if stop.notes != "" then { pickup with apptNote := stop.notes } else pickup
  let pickup :=
    match stop.appointment with
    | some appointment =>
      if appointment.date != "" then
        match parseRFC3339 appointment.date with
        | some apptTime =>
          let pickup := { pickup with apptTime := some apptTime }
          if pickup.readyTime.isNone then { pickup with readyTime := some apptTime }
          else pickup
        | none => pickup
      else pickup
    | none => pickup
  let pickup :=
    match stop.address with
    | some address =>
      { pickup with
        addressLine1 := address.line1, city := address.city, state := address.state,
        zipcode := address.zip }
    | none => pickup
  let pickup :=
    match stop.contact with
    | some contact => { pickup with contact := contact.name }
    | none => pickup
  pickup

/-- What a delivery stop of the global route does to the consignee group (the delivery
branch of the same loop body). -/
def consigneeFromStop (parseRFC3339 : String → Option Time) (consignee : Consignee)
    (stop : TurvoGlobalRouteStopResponse) : Consignee :=
  let consignee := { consignee with name := stop.name }
  let consignee :=
    if stop.timezone != "" then { consignee with timezone := stop.timezone } else consignee
  let consignee :=
    if stop.notes != "" then { consignee with apptNote := stop.notes } else consignee
  let consignee :=
    match stop.appointment with
    | some appointment =>
      if appointment.date != "" then
        match parseRFC3339 appointment.date with
        | some apptTime => { consignee with apptTime := some apptTime }
        | none => consignee
      else consignee
    | none => consignee
  let consignee :=
    match stop.address with
    | some address =>
      { consignee with
        addressLine1 := address.line1, city := address.city, state := address.state,
        zipcode := address.zip }
    | none => consignee
  let consignee :=
    match stop.contact with
    | some contact => { consignee with contact := contact.name }
    | none => consignee
  consignee

/-- The body of the loop of block "Map globalRoute to pickup and consignee": a deleted stop
is skipped, a pickup stop updates the pickup group (created when absent) and, when it has PO
numbers, `poNums`; any other stop updates the consignee group (created when absent). -/
def globalRouteStop (parseRFC3339 : String → Option Time) (load : Load)
    (stop : TurvoGlobalRouteStopResponse) : Load :=
  if stop.deleted then load
  else
    let isPickup : Bool := stop.stopType.value == "Pickup" || stop.stopType.key == "1500"
    if isPickup then
      { load with
        pickup := some (pickupFromStop parseRFC3339 (load.pickup.getD {}) stop),
        poNums := if stop.poNumbers.length > 0 then Join stop.poNumbers ", " else load.poNums }
    else
      { load with
        consignee := some (consigneeFromStop parseRFC3339 (load.consignee.getD {}) stop) }

/-- Block "Map globalRoute to pickup and consignee". -/
def mapGlobalRoute (parseRFC3339 : String → Option Time)
    (shipment : TurvoShipmentCreateDetails) (load : Load) : Load :=
  shipment.globalRoute.foldl (globalRouteStop parseRFC3339) load

/-- What a pickup stop of the customer order's own route does to the pickup group. -/
def pickupFromRouteStop (pickup : Pickup) (routeStop : TurvoRouteStop) : Pickup :=
  let pickup :=
    match routeStop.address with
    | some address =>
      { pickup with
        addressLine1 := address.line1, city := address.city, state := address.state,
        zipcode := address.zip }
    | none => pickup
  let pickup := if routeStop.phone != "" then { pickup with phone := routeStop.phone } else pickup
  let pickup := if routeStop.email != "" then { pickup with email := routeStop.email } else pickup
  let pickup :=
    match routeStop.contact with
    | some contact => { pickup with contact := contact.name }
    | none => pickup
  pickup

/-- What a delivery stop of the customer order's own route does to the consignee group. -/
def consigneeFromRouteStop (consignee : Consignee) (routeStop : TurvoRouteStop) : Consignee :=
  let consignee :=
    match routeStop.address with
    | some address =>
      { consignee with
        addressLine1 := address.line1, city := address.city, state := address.state,
        zipcode := address.zip }
    | none => consignee
  let consignee :=
    if routeStop.phone != "" then { consignee with phone := routeStop.phone } else consignee
  let consignee :=
    if routeStop.email != "" then { consignee with email := routeStop.email } else consignee
  let consignee :=
    match routeStop.contact with
    | some contact => { consignee with contact := contact.name }
    | none => consignee
  consignee

/-- The body of the loop "Map route stops for address and contact information" over the
route of the first customer order: a deleted stop is skipped, a pickup stop updates the pickup
group if there is one, any other stop updates the consignee group if there is one. -/
def customerRouteStop (load : Load) (routeStop : TurvoRouteStop) : Load :=
  if routeStop.deleted then load
  else if routeStop.stopType.value == "Pickup" || routeStop.stopType.key == "1500" then
    match load.pickup with
    | some pickup => { load with pickup := some (pickupFromRouteStop pickup routeStop) }
    | none => load
  else
    match load.consignee with
    | some consignee =>
      { load with consignee := some (consigneeFromRouteStop consignee routeStop) }
    | none => load

/-- The body of the loop "Map external IDs (PO numbers, ref numbers)"; the state is the load
together with the slice `poNums` collected so far. -/
def customerExternalId (state : Load × List String) (extId : TurvoExternalIdResponse) :
    Load × List String :=
  if !extId.deleted then
    if extId.type.key == "1400" || extId.type.value == "Purchase shipment #" then
      (state.1, state.2 ++ [extId.value])
    else if extId.type.key == "1401" || extId.type.value == "Reference Number" then
      ({ state.1 with
          customer := state.1.customer.map (fun c => { c with refNumber := extId.value }) },
        state.2)
    else state
  else state

/-- Block "Map customer order with detailed information". -/
def mapCustomerOrder (shipment : TurvoShipmentCreateDetails) (load : Load) : Load :=
  match shipment.customerOrder with
  | custOrder :: _ =>
    if !custOrder.deleted then
      let customer : Customer := { name := custOrder.customer.name }
      let customer :=
        if custOrder.customer.id > 0 then
          { customer with externalTMSId := formatInt custOrder.customer.id }
        else customer
      let load := { load with customer := some customer }
      let load :=
        if custOrder.route.length > 0 then custOrder.route.foldl customerRouteStop load
        else load
      let load :=
        if custOrder.externalIds.length > 0 then
          let state := custOrder.externalIds.foldl customerExternalId (load, [])
          if state.2.length > 0 then { state.1 with poNums := Join state.2 ", " } else state.1
        else load
      load
    else load
  | [] => load

/-- Block "Map billTo from Party": the loop stops at the first party that is not deleted and
has a name. -/
def mapBillTo (shipment : TurvoShipmentCreateDetails) (load : Load) : Load :=
  match shipment.party.find? (fun party => !party.deleted && party.account.name != "") with
  | some party =>
    let billTo := load.billTo.getD {}
    let billTo := { billTo with name := party.account.name }
    let billTo :=
      if party.account.id > 0 then { billTo with externalTMSId := formatInt party.account.id }
      else billTo
    { load with billTo := some billTo }
  | none => load

/-- Block "Map carrier order with detailed information": the loop stops at the first
carrier order that is not deleted. -/
def mapCarrierOrder (shipment : TurvoShipmentCreateDetails) (load : Load) : Load :=
  match shipment.carrierOrder.find? (fun carrierOrder => !carrierOrder.deleted) with
  | some carrierOrder =>
    let carrier := load.carrier.getD {}
    let carrier := { carrier with name := carrierOrder.carrier.name }
    let carrier :=
      if carrierOrder.carrier.id > 0 then
        { carrier with externalTMSId := formatInt carrierOrder.carrier.id }
      else carrier
    let carrier :=
      match carrierOrder.drivers with
      | driver :: moreDrivers =>
        let carrier :=
          match driver.context with
          | some context =>
            let carrier := { carrier with firstDriverName := context.name }
            let carrier :=
              match driver.phone with
              | some phone => { carrier with firstDriverPhone := phone.number }
              | none => carrier
            let carrier :=
              match driver.email with
              | some email => { carrier with email := email.email }
              | none => carrier
            carrier
          | none => carrier
        match moreDrivers with
        | driver2 :: _ =>
          match driver2.context with
          | some context =>
            let carrier := { carrier with secondDriverName := context.name }
            match driver2.phone with
            | some phone => { carrier with secondDriverPhone := phone.number }
            | none => carrier
          | none => carrier
        | [] => carrier
      | [] => carrier
    { load with carrier := some carrier }
  | none => load

/-- Block "Map equipment to specifications and weight". -/
def mapEquipment (shipment : TurvoShipmentCreateDetails) (load : Load) : Load :=
  match shipment.equipment with
  | equip :: _ =>
    { load with
      totalWeight := if equip.weight > 0 then some equip.weight else load.totalWeight,
      specifications :=
        if equip.temp != 0 then
          some { (load.specifications.getD {}) with
            minTempFahrenheit := some equip.temp, maxTempFahrenheit := some equip.temp }
        else load.specifications }
  | [] => load

/-- The body of the inner loop of block "Map specifications from services in globalRoute",
for one service of a stop. -/
def serviceFlags (unicodeLower : Char → Char) (isPickup : Bool) (spec : Specifications)
    (service : TurvoKeyValue) : Specifications :=
  let serviceValue := ToLower unicodeLower service.value
  let spec :=
    if Contains serviceValue "liftgate" then
      if isPickup then { spec with liftgatePickup := some true }
      else { spec with liftgateDelivery := some true }
    else spec
  let spec :=
    if Contains serviceValue "inside" then
      if isPickup then { spec with insidePickup := some true }
      else { spec with insideDelivery := some true }
    else spec
  let spec := if Contains serviceValue "tarp" then { spec with tarps := some true } else spec
  let spec := if Contains serviceValue "hazmat" then { spec with hazmat := some true } else spec
  let spec := if Contains serviceValue "strap" then { spec with straps := some true } else spec
  let spec := if Contains serviceValue "seal" then { spec with Seal := some true } else spec
  spec

/-- The body of the outer loop of block "Map specifications from services in globalRoute",
for one stop. -/
def stopFlags (unicodeLower : Char → Char) (spec : Specifications)
    (stop : TurvoGlobalRouteStopResponse) : Specifications :=
  if stop.deleted then spec
  else
    let isPickup : Bool := stop.stopType.value == "Pickup" || stop.stopType.key == "1500"
    stop.services.foldl (serviceFlags unicodeLower isPickup) spec

/-- Block "Map specifications from services in globalRoute": the specifications group is
created when absent, then every stop is visited. -/
def mapSpecifications (unicodeLower : Char → Char) (shipment : TurvoShipmentCreateDetails)
    (load : Load) : Load :=
  let spec := load.specifications.getD {}
  { load with specifications := some (shipment.globalRoute.foldl (stopFlags unicodeLower) spec) }

/-- The body of the inner loop of block "Map carrier external IDs", for one identifier. -/
def carrierExternalId (unicodeLower : Char → Char) (carrier : Carrier)
    (extId : TurvoExternalIdResponse) : Carrier :=
  if !extId.deleted then
    let extType := ToLower unicodeLower extId.type.value
    if Contains extType "truck" || extId.type.key == "7605" then
      { carrier with externalTMSTruckId := extId.value }
    else if Contains extType "trailer" || extId.type.key == "7606" then
      { carrier with externalTMSTrailerId := extId.value }
    else if Contains extType "bol" || extId.type.key == "7602" then
      { carrier with sealNumber := extId.value }
    else carrier
  else carrier

/-- The body of the outer loop of block "Map carrier external IDs", for one carrier order. -/
def carrierOrderExternalIds (unicodeLower : Char → Char) (load : Load)
    (carrierOrder : TurvoCarrierOrderResponse) : Load :=
  if !carrierOrder.deleted && carrierOrder.externalIds.length > 0 then
    let carrier := load.carrier.getD {}
    { load with
      carrier := some (carrierOrder.externalIds.foldl (carrierExternalId unicodeLower) carrier) }
  else load

/-- Block "Map carrier external IDs (MC number, DOT number, etc.)". -/
def mapCarrierExternalIds (unicodeLower : Char → Char)
    (shipment : TurvoShipmentCreateDetails) (load : Load) : Load :=
  shipment.carrierOrder.foldl (carrierOrderExternalIds unicodeLower) load

/-- Block "Map rate data from customerOrder costs". -/
def mapCustomerRateData (shipment : TurvoShipmentCreateDetails) (load : Load) : Load :=
  match shipment.customerOrder with
  | custOrder :: _ =>
    if !custOrder.deleted then
      match custOrder.costs with
      | some costs =>
        if !costs.deleted then { load with rateData := some (load.rateData.getD {}) } else load
      | none => load
    else load
  | [] => load

/-- The body of the loop of block "Map rate data from carrierOrder costs". -/
def carrierOrderRateData (load : Load) (carrierOrder : TurvoCarrierOrderResponse) : Load :=
  match carrierOrder.costs with
  | some costs =>
    if !carrierOrder.deleted && !costs.deleted then
      { load with rateData := some (load.rateData.getD {}) }
    else load
  | none => load

/-- Block "Map rate data from carrierOrder costs". -/
def mapCarrierRateData (shipment : TurvoShipmentCreateDetails) (load : Load) : Load :=
  shipment.carrierOrder.foldl carrierOrderRateData load

/-- Block "Map distance from customerOrder totalMiles". -/
def mapDistance (shipment : TurvoShipmentCreateDetails) (load : Load) : Load :=
  match shipment.customerOrder with
  | custOrder :: _ =>
    if !custOrder.deleted then
      { load with
        routeMiles := if custOrder.totalMiles > 0 then some custOrder.totalMiles
          else load.routeMiles }
    else load
  | [] => load

/-- The method `turvoDetailsToDrumkit`: a detailed shipment to a canonical load. -/
def turvoDetailsToDrumkit (unicodeLower : Char → Char) (parseRFC3339 : String → Option Time)
    (shipment : TurvoShipmentCreateDetails) : Load :=
  let load : Load := {}
  let load := mapIdentity shipment load
  let load := mapStatus unicodeLower shipment load
  let load := mapDates parseRFC3339 shipment load
  let load := mapLane shipment load
  let load := mapGlobalRoute parseRFC3339 shipment load
  let load := mapCustomerOrder shipment load
  let load := mapBillTo shipment load
  let load := mapCarrierOrder shipment load
  let load := mapEquipment shipment load
  let load := mapSpecifications unicodeLower shipment load
  let load := mapCarrierExternalIds unicodeLower shipment load
  let load := mapCustomerRateData shipment load
  let load := mapCarrierRateData shipment load
  let load := mapDistance shipment load
  load

/-! ## `service.go`: the create response -/

/-- Block "Map dates" of `turvoCreateResponseToDrumkit`: a start date that parses becomes the
ready-time of the pickup group and an end date that parses the appointment-time of the
consignee group, each only when the load has the group. -/
def overlayDates (parseRFC3339 : String → Option Time) (shipment : TurvoShipmentCreateDetails)
    (load : Load) : Load :=
  let load :=
    if shipment.startDate.date != "" then
      match parseRFC3339 shipment.startDate.date, load.pickup with
      | some date, some pickup =>
        { load with pickup := some { pickup with readyTime := some date } }
      | _, _ => load
    else load
  let load :=
    if shipment.endDate.date != "" then
      match parseRFC3339 shipment.endDate.date, load.consignee with
      | some date, some consignee =>
        { load with consignee := some { consignee with apptTime := some date } }
      | _, _ => load
    else load
  load

/-- Block "Map customer order" of `turvoCreateResponseToDrumkit`: the entry at index 0 of the
customer orders, when there is one, overlays its name and its id on the customer group, which
is created when absent. -/
def overlayCustomerOrder (shipment : TurvoShipmentCreateDetails) (load : Load) : Load :=
  match shipment.customerOrder with
  | custOrder :: _ =>
    let customer := load.customer.getD {}
    let customer :=
      if custOrder.customer.name != "" then { customer with name := custOrder.customer.name }
      else customer
    let customer :=
      if custOrder.customer.id > 0 then
        { customer with externalTMSId := formatInt custOrder.customer.id }
      else customer
    { load with customer := some customer }
  | [] => load

/-- Block "Map carrier order" of `turvoCreateResponseToDrumkit`. -/
def overlayCarrierOrder (shipment : TurvoShipmentCreateDetails) (load : Load) : Load :=
  match shipment.carrierOrder with
  | carrierOrder :: _ =>
    let carrier := load.carrier.getD {}
    let carrier :=
      if carrierOrder.carrier.name != "" then { carrier with name := carrierOrder.carrier.name }
      else carrier
    let carrier :=
      if carrierOrder.carrier.id > 0 then
        { carrier with externalTMSId := formatInt carrierOrder.carrier.id }
      else carrier
    { load with carrier := some carrier }
  | [] => load

/-- The method `turvoCreateResponseToDrumkit`: the original load overlaid with what a create
response echoes. Its blocks "Map ID and customId" and "Map status" are, statement for
statement, those of `turvoDetailsToDrumkit`, and `mapIdentity` and `mapStatus` stand for them
here too. -/
def turvoCreateResponseToDrumkit (unicodeLower : Char → Char)
    (parseRFC3339 : String → Option Time) (response : TurvoShipmentCreateResponse)
    (originalLoad : Load) : Load :=
  let load := originalLoad
  if response.details.id == 0 then load
  else
    let shipment := response.details
    let load := mapIdentity shipment load
    let load := mapStatus unicodeLower shipment load
    let load := overlayDates parseRFC3339 shipment load
    let load := overlayCustomerOrder shipment load
    let load := overlayCarrierOrder shipment load
    load

/-! ## Go's `int`

An `int` is 64 bits wide, as on the amd64 and arm64 targets; its arithmetic wraps around. -/

/-- The value a 64-bit `int` holds when the exact result of an operation is `x`: `x` reduced
modulo `2 ^ 64` into the range from `-2 ^ 63` to `2 ^ 63 - 1` (two's-complement wrap-around). -/
def wrapInt (x : Int) : Int := (x + 2 ^ 63) % 2 ^ 64 - 2 ^ 63

/-- Go's `+` on `int`. -/
def addInt (a b : Int) : Int := wrapInt (a + b)

/-- Go's `-` on `int`. -/
def subInt (a b : Int) : Int := wrapInt (a - b)

/-- Go's `*` on `int`. -/
def mulInt (a b : Int) : Int := wrapInt (a * b)

/-- Go's `/` on `int`: the quotient truncated toward zero; a zero divisor is a run-time panic,
`none`. -/
def divInt (a b : Int) : Option Int := if b = 0 then none else some (wrapInt (Int.tdiv a b))

/-! ## `models/load.go` and `models/turvo.go`: filters and pagination -/

/-- The struct `LoadFilters`. -/
structure LoadFilters where
  status : String := ""
  customerID : String := ""
  pickupDateFrom : Option Time := none
  pickupDateTo : Option Time := none
  page : Int := 0
  limit : Int := 0
  includeDetails : Bool := false

/-- The struct `Pagination`. -/
structure Pagination where
  total : Int := 0
  pages : Int := 0
  page : Int := 0
  limit : Int := 0

/-- The struct `LoadListResponse`. -/
structure LoadListResponse where
  data : List Load := []
  pagination : Pagination := {}

/-- The struct `TurvoPagination`. -/
structure TurvoPagination where
  start : Int := 0
  pageSize : Int := 0
  totalRecordsInPage : Int := 0
  moreAvailable : Bool := false
  lastObjectKey : Option String := none

/-- The struct `TurvoShipmentFilters`. -/
structure TurvoShipmentFilters where
  status : String := ""
  customerID : String := ""
  pickupDateGte : String := ""
  pickupDateLte : String := ""
  start : Int := 0
  pageSize : Int := 0

/-! ## `service.go`: the list path -/

/-- The method `mapToTurvoFilters`. The parameter `toUTC` is the library method `Time.UTC`. -/
def mapToTurvoFilters (unicodeLower : Char → Char) (toUTC : Time → Time)
    (filters : LoadFilters) : TurvoShipmentFilters :=
  let turvoFilters : TurvoShipmentFilters :=
    { pageSize := filters.limit, start := mulInt (subInt filters.page 1) filters.limit }
  let turvoFilters :=
    if filters.status != "" then
      let statusKey := (APIToTurvoStatus unicodeLower filters.status).1
      { turvoFilters with status := statusKey }
    else turvoFilters
  let turvoFilters :=
    if filters.customerID != "" then { turvoFilters with customerID := filters.customerID }
    else turvoFilters
  let turvoFilters :=
    match filters.pickupDateFrom with
    | some pickupDateFrom =>
      let utcDate := toUTC pickupDateFrom
      { turvoFilters with pickupDateGte := formatRFC3339 utcDate }
    | none => turvoFilters
  let turvoFilters :=
    match filters.pickupDateTo with
    | some pickupDateTo =>
      let utcDate := toUTC pickupDateTo
      { turvoFilters with pickupDateLte := formatRFC3339 utcDate }
    | none => turvoFilters
  turvoFilters

/-- The page count of `GetLoads` ("Calculate pages"): one more than the current page when
the remote says more is available, else the total divided by the limit, rounded up by adding
`limit - 1` first, and raised to 1 when it is 0. The result `none` is the panic of a division
by zero. -/
def pageCount (filters : LoadFilters) (turvoPagination : TurvoPagination) : Option Int :=
  let total := turvoPagination.totalRecordsInPage
  if turvoPagination.moreAvailable then some (addInt filters.page 1)
  else
    match divInt (subInt (addInt total filters.limit) 1) filters.limit with
    | some pages => some (if pages == 0 then 1 else pages)
    | none => none

/-- The body of a goroutine of `GetLoads`, up to the store of its result: the load for the
shipment at `index`. The parameter `getShipment` is the outcome of the transport's
`GetShipment` for the call made by that goroutine. -/
def detailedLoad (unicodeLower : Char → Char) (parseRFC3339 : String → Option Time)
    (getShipment : Nat → Int → Except String TurvoShipmentCreateDetails)
    (index : Nat) (baseShipment : TurvoShipment) : Load :=
  match getShipment index baseShipment.id with
  | .error _ => turvoToDrumkit unicodeLower baseShipment
  | .ok detailedShipment => turvoDetailsToDrumkit unicodeLower parseRFC3339 detailedShipment

/-- The method `GetLoads`. The transport's list operation is the parameter `listShipments`
and its get operation the parameter `getShipment`. With `includeDetails` every shipment has a
goroutine of its own, started with the index and the shipment as arguments, which stores its
load at its index under the mutex. The parameter `schedule` is the order in which the
goroutines get to their store; `wg.Wait()` returns when each of them has stored, so it names
every goroutine. The result `none` is a run-time panic. -/
def GetLoads (unicodeLower : Char → Char) (parseRFC3339 : String → Option Time)
    (toUTC : Time → Time)
    (listShipments :
      TurvoShipmentFilters → Except String (List TurvoShipment × TurvoPagination))
    (getShipment : Nat → Int → Except String TurvoShipmentCreateDetails)
    (schedule : List Nat) (filters : LoadFilters) : Option (Except String LoadListResponse) :=
  let turvoFilters := mapToTurvoFilters unicodeLower toUTC filters
  match listShipments turvoFilters with
  | .error err => some (.error err)
  | .ok (turvoShipments, turvoPagination) =>
    let loads : List Load := List.replicate turvoShipments.length {}
    let loads :=
      if filters.includeDetails then
        let goroutines := turvoShipments.enum
        (schedule.filterMap (fun k => goroutines[k]?)).foldl
          (fun loads (index, baseShipment) =>
            loads.set index
              (detailedLoad unicodeLower parseRFC3339 getShipment index baseShipment))
          loads
      else
        turvoShipments.enum.foldl
          (fun loads (i, shipment) => loads.set i (turvoToDrumkit unicodeLower shipment))
          loads
    let total := turvoPagination.totalRecordsInPage
    match pageCount filters turvoPagination with
    | some pages =>
      some (.ok
        { data := loads,
          pagination :=
            { total := total, pages := pages, page := filters.page, limit := filters.limit } })
    | none => none

/-! ## `service.go`: the create path with the transport as an action -/

/-- The method `Service.CreateLoad` once more, with the transport's create operation as an
action of a monad `m` and not as a function, so that a statement can tell whether the
operation is performed: a run that performs no action is a `pure` value. -/
def Service.CreateLoadM {m : Type → Type} [Monad m] (unicodeLower : Char → Char)
    (createShipment : TurvoShipmentCreate → m (Except String TurvoShipmentCreateResponse))
    (sourceId : Nat) (now : Time) (load : Load) : m (Option (Except String LoadCreateResponse)) :=
  match ValidateLoad load with
  | some err => pure (some (.error ("validation error: " ++ err)))
  | none =>
    match drumkitToTurvo unicodeLower sourceId load with
    | none => pure none
    | some turvoShipment =>
      match ValidateTurvoShipment turvoShipment with
      | some err => pure (some (.error ("validation error: " ++ err)))
      | none => do
        let result ← createShipment turvoShipment
        match result with
        | .error err => pure (some (.error err))
        | .ok response =>
          let createdAt := now
          if response.details.id > 0 then
            pure (some (.ok { id := formatInt response.details.id, createdAt := createdAt }))
          else pure (some (.error "invalid response: shipment ID is missing"))

/-- A transport whose create operation records every payload it is sent, in order, and
answers with `reply`. -/
def recordingCreate (reply : TurvoShipmentCreate → Except String TurvoShipmentCreateResponse)
    (shipment : TurvoShipmentCreate) :
    StateM (List TurvoShipmentCreate) (Except String TurvoShipmentCreateResponse) :=
  fun sent => (reply shipment, sent ++ [shipment])

/-! ## `handler.go`: the query parameters of the list endpoint

`parseFilters` is one function made of commented blocks; each block is a function here, and
`parseFilters` is their composition in source order. -/


/-- The status block of `parseFilters`. The parameter `query` is `r.URL.Query().Get`: the
first value of a query parameter, the empty string when the parameter is absent. -/
def parseStatus (query : String → String) (filters : LoadFilters) : LoadFilters :=
  let status := query "status"
  if status != "" then { filters with status := status } else filters

/-- The customer block of `parseFilters`. -/
def parseCustomerID (query : String → String) (filters : LoadFilters) : LoadFilters :=
  let customerID := query "customerId"
  if customerID != "" then { filters with customerID := customerID } else filters

/-- The block of `parseFilters` for `pickupDateSearchFrom`: the start of the day, in UTC. -/
def parsePickupDateFrom (parseRFC3339 : String → Option Time) (query : String → String)
    (filters : LoadFilters) : LoadFilters :=
  let dateFromStr := query "pickupDateSearchFrom"
  if dateFromStr != "" then
    match parseRFC3339 dateFromStr with
    | some dateFrom =>
      let startOfDay : Time :=
        { year := dateFrom.year, month := dateFrom.month, day := dateFrom.day,
          hour := 0, minute := 0, second := 0, nanosecond := 0, offset := 0 }
      { filters with pickupDateFrom := some startOfDay }
    | none => filters
  else filters

/-- The block of `parseFilters` for `pickupDateSearchTo`: the end of the day, in UTC. -/
def parsePickupDateTo (parseRFC3339 : String → Option Time) (query : String → String)
    (filters : LoadFilters) : LoadFilters :=
  let dateToStr := query "pickupDateSearchTo"
  if dateToStr != "" then
    match parseRFC3339 dateToStr with
    | some dateTo =>
      let endOfDay : Time :=
        { year := dateTo.year, month := dateTo.month, day := dateTo.day,
          hour := 23, minute := 59, second := 59, nanosecond := 999999999, offset := 0 }
      { filters with pickupDateTo := some endOfDay }
    | none => filters
  else filters

/-- The page block of `parseFilters`. -/
def parsePage (query : String → String) (filters : LoadFilters) : LoadFilters :=
  let pageStr := query "page"
  if pageStr != "" then
    match Atoi pageStr with
    | some page => if page ≥ 1 then { filters with page := page } else filters
    | none => filters
  else filters

/-- The limit block of `parseFilters`. -/
def parseLimit (query : String → String) (filters : LoadFilters) : LoadFilters :=
  let limitStr := query "limit"
  if limitStr != "" then
    match Atoi limitStr with
    | some limit =>
      let limit := if limit < 1 then 1 else limit
      let limit := if limit > 100 then 100 else limit
      { filters with limit := limit }
    | none => filters
  else filters

/-- The block of `parseFilters` for the `includeDetails` flag. -/
def parseIncludeDetails (query : String → String) (filters : LoadFilters) : LoadFilters :=
  let includeDetails := query "includeDetails"
  if includeDetails != "" then
    if includeDetails == "true" || includeDetails == "1" then
      { filters with includeDetails := true }
    else filters
  else filters

/-- The function `parseFilters` of the handler: the blocks in the order of the source, from
the defaults. The parameter `parseRFC3339` is `time.Parse(time.RFC3339, ·)`. -/
def parseFilters (parseRFC3339 : String → Option Time) (query : String → String) :
    LoadFilters :=
  let filters : LoadFilters := { page := 1, limit := 20 }
  let filters := parseStatus query filters
  let filters := parseCustomerID query filters
  let filters := parsePickupDateFrom parseRFC3339 query filters
  let filters := parsePickupDateTo parseRFC3339 query filters
  let filters := parsePage query filters
  let filters := parseLimit query filters
  let filters := parseIncludeDetails query filters
  filters

/-! ## `models/auth.go` and the response envelopes of `models/turvo.go` -/

/-- The struct `TurvoAuthRequest`. -/
structure TurvoAuthRequest where
  grantType : String := ""
  clientID : String := ""
  clientSecret : String := ""
  username : String := ""
  password : String := ""
  scope : String := ""
  type : String := ""

/-- The struct `TurvoAuthResponse`. -/
structure TurvoAuthResponse where
  accessToken : String := ""
  tokenType : String := ""
  refreshToken : String := ""
  expiresIn : Int := 0
  scope : String := ""
  busId : String := ""
  country : String := ""

/-- The struct `TurvoShipmentsDetails`. -/
structure TurvoShipmentsDetails where
  pagination : TurvoPagination := {}
  shipments : List TurvoShipment := []

/-- The struct `TurvoShipmentsListResponse`. -/
structure TurvoShipmentsListResponse where
  status : String := ""
  details : TurvoShipmentsDetails := {}

/-- The struct `TurvoShipmentResponse`. -/
structure TurvoShipmentResponse where
  status : String := ""
  details : TurvoShipmentCreateDetails := {}

/-- The struct `TurvoShipmentCreateErrorResponseDetails`. -/
structure TurvoShipmentCreateErrorResponseDetails where
  errorMessage : String := ""
  errorCode : String := ""

/-- The struct `TurvoShipmentCreateErrorResponse`. -/
structure TurvoShipmentCreateErrorResponse where
  status : String := ""
  details : TurvoShipmentCreateErrorResponseDetails := {}

/-! ## `turvo/client.go`: the transport

The methods of the client run against the remote system and the clock. Both are explicit
here: a `World` holds what the remote will answer and what the clock will read, a `Trace`
counts the readings of the clock and records, in order, every request the client has sent. A
method takes the world, the client and the trace, and returns its result with the client
and the trace it leaves. One run of a request by the HTTP library is one exchange. An
instant is a number of nanoseconds on the clock, and a `time.Duration` is an `int64` number
of nanoseconds. The locks of the client are left out: a method runs alone. -/

/-- A request as the methods of the client build it with the HTTP library: method and path,
query parameters, body, and the token given with `SetAuthToken`. -/
structure Request where
  method : String := ""
  path : String := ""
  query : List (String × String) := []
  body : Option TurvoShipmentCreate := none
  authToken : String := ""

/-- The library method `SetQueryParam`: the value replaces any value the parameter had. -/
def SetQueryParam (req : Request) (param value : String) : Request :=
  { req with query := req.query.filter (fun p => p.1 != param) ++ [(param, value)] }

/-- The library method `SetBody`. -/
def SetBody (req : Request) (body : TurvoShipmentCreate) : Request :=
  { req with body := some body }

/-- The request that the library method `Get` executes. -/
def Get (req : Request) (url : String) : Request :=
  { req with method := "GET", path := url }

/-- The request that the library method `Post` executes. -/
def Post (req : Request) (url : String) : Request :=
  { req with method := "POST", path := url }

/-- What the HTTP library hands back for an executed request: an error, or a response with
its status code, its status line and its body, together with the values the library decoded
from the body, if it decoded any, for the targets given with `SetResult` and `SetError`. -/
inductive Exchange (α : Type) where
  | failed (err : String) : Exchange α
  | response (statusCode : Int) (status : String) (body : String) (result : Option α)
      (error : Option TurvoShipmentCreateErrorResponse) : Exchange α

/-- The target of `SetResult` after an exchange: the library decodes into it only on a
response with a success status (above 199 and below 300). -/
def decodedResult {α : Type} (statusCode : Int) (result : Option α) (target : α) : α :=
  if 199 < statusCode ∧ statusCode < 300 then result.getD target else target

/-- The target of `SetError` after an exchange: the library decodes into it only on a
response with an error status (above 399). -/
def decodedError (statusCode : Int) (error : Option TurvoShipmentCreateErrorResponse)
    (target : TurvoShipmentCreateErrorResponse) : TurvoShipmentCreateErrorResponse :=
  if 399 < statusCode then error.getD target else target

/-- An entry of the record of what the client has sent: a request for a token to the
authentication endpoint, or a request of one of the calls. -/
inductive Sent where
  | authentication (request : TurvoAuthRequest) : Sent
  | call (request : Request) : Sent

/-- The remote system and the clock, as one run meets them. `clock n` is what the reading
number `n` of `time.Now()` gives. `authReplies n` is the exchange for the authentication
request number `n`; `listReplies n`, `getReplies n` and `createReplies n` are the exchange
for the request number `n` of the calls, according to the result that request expects. -/
structure World where
  clock : Nat → Int
  authReplies : Nat → Exchange TurvoAuthResponse
  listReplies : Nat → Exchange TurvoShipmentsListResponse
  getReplies : Nat → Exchange TurvoShipmentResponse
  createReplies : Nat → Exchange TurvoShipmentCreateResponse

/-- What has happened so far: the number of readings of the clock, and the record of the
requests sent, in order. -/
structure Trace where
  readings : Nat := 0
  sent : List Sent := []

/-- The authentication requests of a record, in order. -/
def authenticationsOf (sent : List Sent) : List TurvoAuthRequest :=
  sent.filterMap (fun s =>
    match s with
    | .authentication request => some request
    | .call _ => none)

/-- The requests of calls of a record, in order. -/
def requestsOf (sent : List Sent) : List Request :=
  sent.filterMap (fun s =>
    match s with
    | .authentication _ => none
    | .call request => some request)

/-- The authentication requests sent so far, in order. -/
def Trace.authentications (t : Trace) : List TurvoAuthRequest := authenticationsOf t.sent

/-- The requests of calls sent so far, in order. -/
def Trace.requests (t : Trace) : List Request := requestsOf t.sent

/-- A reading of `time.Now()`. -/
def Trace.Now (world : World) (t : Trace) : Int × Trace :=
  (world.clock t.readings, { t with readings := t.readings + 1 })

/-- The exchange of an authentication request with the authentication endpoint. -/
def Trace.requestToken (world : World) (t : Trace) (request : TurvoAuthRequest) :
    Exchange TurvoAuthResponse × Trace :=
  (world.authReplies t.authentications.length,
    { t with sent := t.sent ++ [Sent.authentication request] })

/-- The exchange of a request of a call with the remote; `replies` is the stream of the
world that has the result the request expects. -/
def Trace.execute {α : Type} (replies : Nat → Exchange α) (t : Trace) (request : Request) :
    Exchange α × Trace :=
  (replies t.requests.length, { t with sent := t.sent ++ [Sent.call request] })

/-- The struct `Client`: the credentials, the token and its expiry. Of the HTTP client it
holds, the header `Authorization` is kept, which `authenticate` sets. -/
structure Client where
  baseURL : String := ""
  authorization : String := ""
  apiKey : String := ""
  clientName : String := ""
  clientSecret : String := ""
  username : String := ""
  password : String := ""
  token : String := ""
  tokenExpiry : Int := 0

/-- The method `authenticate`; the first component of the result is the error, `none` for
`nil`. -/
def Client.authenticate (world : World) (c : Client) (trace : Trace) :
    Option String × Client × Trace :=
  if c.clientName == "" || c.clientSecret == "" then
    (some "clientName and clientSecret are required for authentication", c, trace)
  else if c.username == "" || c.password == "" then
    (some "username and password are required for authentication", c, trace)
  else
    let authReq : TurvoAuthRequest :=
      { grantType := "password",
        clientID := c.clientName,
        clientSecret := c.clientSecret,
        username := c.username,
        password := c.password,
        scope := "read+trust+write",
        type := "business" }
    let authResp : TurvoAuthResponse := {}
    match trace.requestToken world authReq with
    | (.failed err, trace) => (some ("failed to authenticate: " ++ err), c, trace)
    | (.response statusCode status body result _, trace) =>
      let authResp := decodedResult statusCode result authResp
      if statusCode > 399 then
        (some ("authentication failed: " ++ status ++ " - " ++ body), c, trace)
      else if authResp.accessToken == "" then
        (some "authentication response missing access token", c, trace)
      else
        let expiresIn := authResp.expiresIn
        let expiresIn := if expiresIn == 0 then 3600 else expiresIn
        let (now, trace) := trace.Now world
        let c :=
          { c with
            token := authResp.accessToken,
            tokenExpiry := now + mulInt (subInt expiresIn 300) 1000000000 }
        let c := { c with authorization := authResp.tokenType ++ " " ++ authResp.accessToken }
        (none, c, trace)

/-- The method `ensureAuthenticated`. The clock is read only when there is a token. -/
def Client.ensureAuthenticated (world : World) (c : Client) (trace : Trace) :
    Option String × Client × Trace :=
  let (tokenValid, trace) :=
    if c.token != "" then
      let (now, trace) := trace.Now world
      (decide (now < c.tokenExpiry), trace)
    else (false, trace)
  if tokenValid then (none, c, trace) else c.authenticate world trace

/-- The method `getAuthenticatedRequest`. -/
def Client.getAuthenticatedRequest (world : World) (c : Client) (trace : Trace) :
    Except String Request × Client × Trace :=
  match c.ensureAuthenticated world trace with
  | (some err, c, trace) => (.error err, c, trace)
  | (none, c, trace) =>
    let token := c.token
    (.ok { authToken := token }, c, trace)

/-- The block "Build query parameters" of the list methods, which the block "Re-apply query
parameters" repeats. -/
def listQueryParams (filters : TurvoShipmentFilters) (req : Request) : Request :=
  let req :=
    if filters.status != "" then SetQueryParam req "status[eq]" filters.status else req
  let req :=
    if filters.customerID != "" then SetQueryParam req "customerId[eq]" filters.customerID
    else req
  let req :=
    if filters.pickupDateGte != "" then SetQueryParam req "pickupDate[gte]" filters.pickupDateGte
    else req
  let req :=
    if filters.pickupDateLte != "" then SetQueryParam req "pickupDate[lte]" filters.pickupDateLte
    else req
  let req :=
    if filters.start > 0 then SetQueryParam req "start" (formatInt filters.start) else req
  let req :=
    if filters.pageSize > 0 then SetQueryParam req "pageSize" (formatInt filters.pageSize)
    else req
  req

/-- The method `ListShipmentsWithFiltersAndPagination`. -/
def Client.ListShipmentsWithFiltersAndPagination (world : World)
    (filters : TurvoShipmentFilters) (c : Client) (trace : Trace) :
    Except String (List TurvoShipment × TurvoPagination) × Client × Trace :=
  let response : TurvoShipmentsListResponse := {}
  match c.getAuthenticatedRequest world trace with
  | (.error err, c, trace) => (.error err, c, trace)
  | (.ok req, c, trace) =>
    let req := listQueryParams filters req
    match trace.execute world.listReplies (Get req "/v1/shipments/list") with
    | (.failed err, trace) => (.error ("failed to list shipments: " ++ err), c, trace)
    | (.response statusCode status body result _, trace) =>
      let response := decodedResult statusCode result response
      if statusCode > 399 then
        if statusCode == 401 then
          match c.authenticate world trace with
          | (some authErr, c, trace) => (.error ("authentication failed: " ++ authErr), c, trace)
          | (none, c, trace) =>
            match c.getAuthenticatedRequest world trace with
            | (.error err, c, trace) => (.error err, c, trace)
            | (.ok req, c, trace) =>
              let req := listQueryParams filters req
              match trace.execute world.listReplies (Get req "/v1/shipments/list") with
              | (.failed err, trace) =>
                (.error ("failed to list shipments after re-auth: " ++ err), c, trace)
              | (.response statusCode status body result _, trace) =>
                let response := decodedResult statusCode result response
                if statusCode > 399 then
                  (.error ("turvo API error: " ++ status ++ " - " ++ body), c, trace)
                else (.ok (response.details.shipments, response.details.pagination), c, trace)
        else (.error ("turvo API error: " ++ status ++ " - " ++ body), c, trace)
      else (.ok (response.details.shipments, response.details.pagination), c, trace)

/-- The end of `CreateShipment`, from the check of `response.Status` on. The parameter
`unmarshalError` is `json.Unmarshal` of a body into the error response. -/
def createdShipment
    (unmarshalError :
      String → TurvoShipmentCreateErrorResponse → Except String TurvoShipmentCreateErrorResponse)
    (response : TurvoShipmentCreateResponse) (body : String)
    (errorResponse : TurvoShipmentCreateErrorResponse) :
    Except String TurvoShipmentCreateResponse :=
  if response.status != "SUCCESS" then
    match unmarshalError body errorResponse with
    | .error err => .error ("failed to unmarshal error response: " ++ err)
    | .ok errorResponse =>
      .error ("turvo API error: " ++ errorResponse.status ++ " - " ++
        errorResponse.details.errorMessage)
  else .ok response

/-- The method `CreateShipment`. -/
def Client.CreateShipment (world : World)
    (unmarshalError :
      String → TurvoShipmentCreateErrorResponse → Except String TurvoShipmentCreateErrorResponse)
    (shipment : TurvoShipmentCreate) (c : Client) (trace : Trace) :
    Except String TurvoShipmentCreateResponse × Client × Trace :=
  let response : TurvoShipmentCreateResponse := {}
  let errorResponse : TurvoShipmentCreateErrorResponse := {}
  match c.getAuthenticatedRequest world trace with
  | (.error err, c, trace) => (.error err, c, trace)
  | (.ok req, c, trace) =>
    match trace.execute world.createReplies (Post (SetBody req shipment) "/v1/shipments") with
    | (.failed err, trace) => (.error ("failed to create shipment: " ++ err), c, trace)
    | (.response statusCode status body result error, trace) =>
      let response := decodedResult statusCode result response
      let errorResponse := decodedError statusCode error errorResponse
      if statusCode > 399 then
        if statusCode == 401 then
          match c.authenticate world trace with
          | (some authErr, c, trace) => (.error ("authentication failed: " ++ authErr), c, trace)
          | (none, c, trace) =>
            match c.getAuthenticatedRequest world trace with
            | (.error err, c, trace) => (.error err, c, trace)
            | (.ok req, c, trace) =>
              match trace.execute world.createReplies
                  (Post (SetBody req shipment) "/v1/shipments") with
              | (.failed err, trace) =>
                (.error ("failed to create shipment after re-auth: " ++ err), c, trace)
              | (.response statusCode _ body result _, trace) =>
                let response := decodedResult statusCode result response
                if statusCode > 399 then
                  (.error ("turvo API error: " ++ errorResponse.status ++ " - " ++
                    errorResponse.details.errorMessage), c, trace)
                else (createdShipment unmarshalError response body errorResponse, c, trace)
        else (.error ("turvo API error: " ++ status ++ " - " ++ body), c, trace)
      else (createdShipment unmarshalError response body errorResponse, c, trace)

/-- The end of `GetShipment`, from the check of `response.Status` on. -/
def gotShipment (response : TurvoShipmentResponse) : Except String TurvoShipmentCreateDetails :=
  if response.status != "SUCCESS" then .error ("turvo API error: " ++ response.status)
  else .ok response.details

/-- The method `GetShipment`. -/
def Client.GetShipment (world : World) (shipmentID : Int) (c : Client) (trace : Trace) :
    Except String TurvoShipmentCreateDetails × Client × Trace :=
  let response : TurvoShipmentResponse := {}
  match c.getAuthenticatedRequest world trace with
  | (.error err, c, trace) => (.error err, c, trace)
  | (.ok req, c, trace) =>
    match trace.execute world.getReplies (Get req ("/v1/shipments/" ++ formatInt shipmentID)) with
    | (.failed err, trace) => (.error ("failed to get shipment: " ++ err), c, trace)
    | (.response statusCode status body result _, trace) =>
      let response := decodedResult statusCode result response
      if statusCode > 399 then
        if statusCode == 401 then
          match c.authenticate world trace with
          | (some authErr, c, trace) => (.error ("authentication failed: " ++ authErr), c, trace)
          | (none, c, trace) =>
            match c.getAuthenticatedRequest world trace with
            | (.error err, c, trace) => (.error err, c, trace)
            | (.ok req, c, trace) =>
              match trace.execute world.getReplies
                  (Get req ("/v1/shipments/" ++ formatInt shipmentID)) with
              | (.failed err, trace) =>
                (.error ("failed to get shipment after re-auth: " ++ err), c, trace)
              | (.response statusCode status body result _, trace) =>
                let response := decodedResult statusCode result response
                if statusCode > 399 then
                  (.error ("turvo API error: " ++ status ++ " - " ++ body), c, trace)
                else (gotShipment response, c, trace)
        else (.error ("turvo API error: " ++ status ++ " - " ++ body), c, trace)
      else (gotShipment response, c, trace)

/-! ### Auxiliary definitions for the statements on the translators -/

/-- The consignee `turvoToDrumkit` makes of a party entry. -/
def consigneeOfParty (party : TurvoPartyOrder) : Consignee :=
  { name := party.account.name,
    externalTMSId := if party.account.id > 0 then formatInt party.account.id else "" }

/-- The PO numbers of the last stop of a global route that is not deleted, is a pickup stop
and has PO numbers, if there is such a stop. -/
def lastPickupPoNumbers (stops : List TurvoGlobalRouteStopResponse) : Option (List String) :=
  ((stops.filter (fun s =>
      !s.deleted && (s.stopType.value == "Pickup" || s.stopType.key == "1500") &&
        decide (s.poNumbers.length > 0))).getLast?).map (fun s => s.poNumbers)

/-- The values of the external identifiers that are not deleted and are typed "1400" or
"Purchase shipment #", in order. -/
def purchaseOrderValues (extIds : List TurvoExternalIdResponse) : List String :=
  (extIds.filter (fun e =>
      !e.deleted && (e.type.key == "1400" || e.type.value == "Purchase shipment #"))).map
    (fun e => e.value)

/-- The load when block "Map globalRoute to pickup and consignee" is done. -/
def afterGlobalRoute (lo : Char → Char) (parse : String → Option Time)
    (sh : TurvoShipmentCreateDetails) : Load :=
  mapGlobalRoute parse sh (mapLane sh (mapDates parse sh (mapStatus lo sh (mapIdentity sh {}))))

/-- Whether the detail view classifies a stop of the global route as a pickup stop; every
other stop is a delivery stop. -/
def isPickupStop (stop : TurvoGlobalRouteStopResponse) : Bool :=
  stop.stopType.value == "Pickup" || stop.stopType.key == "1500"

/-- The instant the detail view takes from a date string: none for the empty string, else
what parsing gives. -/
def parseDate (parseRFC3339 : String → Option Time) (date : String) : Option Time :=
  if date != "" then parseRFC3339 date else none

/-- The appointment times that the pickup stops of a global route supply, in route order:
those of the stops that are not deleted and whose appointment date parses. -/
def pickupAppointments (parseRFC3339 : String → Option Time)
    (stops : List TurvoGlobalRouteStopResponse) : List Time :=
  stops.filterMap (fun s =>
    if !s.deleted && isPickupStop s then stopApptTime parseRFC3339 s else none)

/-- The appointment times that the delivery stops of a global route supply, in route
order. -/
def deliveryAppointments (parseRFC3339 : String → Option Time)
    (stops : List TurvoGlobalRouteStopResponse) : List Time :=
  stops.filterMap (fun s =>
    if !s.deleted && !isPickupStop s then stopApptTime parseRFC3339 s else none)

/-- The ready-time of the pickup group of a load, if there is a group and it has one. -/
def Load.readyTime (load : Load) : Option Time := load.pickup.bind (fun p => p.readyTime)

/-- The appointment-time of the consignee group of a load, if there is a group and it has
one. -/
def Load.deliveryTime (load : Load) : Option Time := load.consignee.bind (fun c => c.apptTime)

/-- Whether a service names the keyword: its value, lowered, contains it. -/
def serviceNames (unicodeLower : Char → Char) (keyword : String) (service : TurvoKeyValue) :
    Bool :=
  Contains (ToLower unicodeLower service.value) keyword

/-- Whether a stop counts for the flag of a keyword: it is not deleted and one of its
services names the keyword. -/
def stopOffers (unicodeLower : Char → Char) (keyword : String)
    (stop : TurvoGlobalRouteStopResponse) : Bool :=
  !stop.deleted && stop.services.any (serviceNames unicodeLower keyword)

/-- A flag that is set to true under a condition and is otherwise not set. -/
def flagWhen (condition : Bool) : Option Bool := if condition then some true else none

/-- Whether an external identifier of a carrier order is taken for the truck id. -/
def isTruckId (unicodeLower : Char → Char) (extId : TurvoExternalIdResponse) : Bool :=
  Contains (ToLower unicodeLower extId.type.value) "truck" || extId.type.key == "7605"

/-- Whether an external identifier is taken for the trailer id: it is not taken for the truck
id, and its label names a trailer or its key is "7606". -/
def isTrailerId (unicodeLower : Char → Char) (extId : TurvoExternalIdResponse) : Bool :=
  !isTruckId unicodeLower extId &&
    (Contains (ToLower unicodeLower extId.type.value) "trailer" || extId.type.key == "7606")

/-- Whether an external identifier is taken for the seal number: it is taken for neither the
truck id nor the trailer id, and its label names a BOL or its key is "7602". -/
def isSealId (unicodeLower : Char → Char) (extId : TurvoExternalIdResponse) : Bool :=
  !isTruckId unicodeLower extId && !isTrailerId unicodeLower extId &&
    (Contains (ToLower unicodeLower extId.type.value) "bol" || extId.type.key == "7602")

/-- The external identifiers the detail view reads for the carrier: those that are not
deleted, of the carrier orders that are not deleted, in order. -/
def carrierIdentifiers (shipment : TurvoShipmentCreateDetails) :
    List TurvoExternalIdResponse :=
  (shipment.carrierOrder.filter (fun co => !co.deleted)).flatMap
    (fun co => co.externalIds.filter (fun e => !e.deleted))

/-- The value of the last identifier of a list that passes a test, or a default. -/
def lastValue (test : TurvoExternalIdResponse → Bool) (extIds : List TurvoExternalIdResponse)
    (default : String) : String :=
  (((extIds.filter test).getLast?).map (fun e => e.value)).getD default

/-- The end of block "Map customer order": the PO numbers collected from the external
identifiers, when there are any, become `poNums`. -/
def finishPoNums (state : Load × List String) : Load :=
  if state.2.length > 0 then { state.1 with poNums := Join state.2 ", " } else state.1

/-- The customer that block "Map customer order" makes of a customer order. -/
def customerOfOrder (custOrder : TurvoCustomerOrderResponse) : Customer :=
  { name := custOrder.customer.name,
    externalTMSId := if custOrder.customer.id > 0 then formatInt custOrder.customer.id else "" }

/-- A detail shipment without its soft-deleted entries: the global route without the stops
marked deleted, every customer order without the route stops and the external identifiers
marked deleted, every carrier order without the external identifiers marked deleted. -/
def withoutDeleted (shipment : TurvoShipmentCreateDetails) : TurvoShipmentCreateDetails :=
  { shipment with
    globalRoute := shipment.globalRoute.filter (fun stop => !stop.deleted)
    customerOrder := shipment.customerOrder.map (fun custOrder =>
      { custOrder with
        route := custOrder.route.filter (fun routeStop => !routeStop.deleted)
        externalIds := custOrder.externalIds.filter (fun extId => !extId.deleted) })
    carrierOrder := shipment.carrierOrder.map (fun carrierOrder =>
      { carrierOrder with
        externalIds := carrierOrder.externalIds.filter (fun extId => !extId.deleted) }) }

/-- A customer group without the two fields a create response overlays. -/
def Customer.withoutOverlay (customer : Customer) : Customer :=
  { customer with name := "", externalTMSId := "" }

/-- A carrier group without the two fields a create response overlays. -/
def Carrier.withoutOverlay (carrier : Carrier) : Carrier :=
  { carrier with name := "", externalTMSId := "" }

/-- What a create response does not echo: every field of a load other than
`externalTMSLoadID`, `freightLoadID`, `status`, the pickup ready-time, the consignee
appointment-time and the name and `externalTMSId` of the customer and of the carrier. An
absent customer or carrier group is read as a group with every field empty. -/
def Load.unechoed (load : Load) :
    Option BillTo × Option RateData × Option Specifications × Option Int × Option Int ×
      Option Int × Option Float × Option Float × String × String × Option Float ×
      Option Pickup × Option Consignee × Customer × Carrier :=
  (load.billTo, load.rateData, load.specifications, load.inPalletCount, load.outPalletCount,
    load.numCommodities, load.totalWeight, load.billableWeight, load.poNums, load.operator,
    load.routeMiles,
    load.pickup.map (fun p => { p with readyTime := none }),
    load.consignee.map (fun c => { c with apptTime := none }),
    (load.customer.getD {}).withoutOverlay, (load.carrier.getD {}).withoutOverlay)

/-- The load `GetLoads` is to hold at `index` for `shipment`: the detailed translation of the
shipment the get operation returned when details are asked for and the call succeeded, else
the shallow translation of the listed shipment. -/
def expectedLoad (unicodeLower : Char → Char) (parseRFC3339 : String → Option Time)
    (getShipment : Nat → Int → Except String TurvoShipmentCreateDetails)
    (includeDetails : Bool) (index : Nat) (shipment : TurvoShipment) : Load :=
  if includeDetails then
    match getShipment index shipment.id with
    | .ok detail => turvoDetailsToDrumkit unicodeLower parseRFC3339 detail
    | .error _ => turvoToDrumkit unicodeLower shipment
  else turvoToDrumkit unicodeLower shipment

/-- The pages a run of `GetLoads` reports, when it returns a response. -/
def reportedPages (result : Option (Except String LoadListResponse)) : Option Int :=
  match result with
  | some (.ok response) => some response.pagination.pages
  | _ => none

/-! ### Auxiliary definitions for the statements on the filters, the PO numbers and the status
table -/

/-- The page `parseFilters` leaves for the value `pageStr` of the parameter `page`. -/
def pageOfQuery (pageStr : String) : Int :=
  match Atoi pageStr with
  | some page => if 1 ≤ page then page else 1
  | none => 1

/-- The limit `parseFilters` leaves for the value `limitStr` of the parameter `limit`. -/
def limitOfQuery (limitStr : String) : Int :=
  match Atoi limitStr with
  | some limit => if limit < 1 then 1 else if 100 < limit then 100 else limit
  | none => 20

/-- A query string that has the parameters `page` and `limit` and no other. -/
def pageLimitQuery (page limit : String) (key : String) : String :=
  if key = "page" then page else if key = "limit" then limit else ""

/-- A transport whose create operation answers every payload with the shipment id `id`. -/
def createdWithId (id : Int) (_ : TurvoShipmentCreate) :
    Except String TurvoShipmentCreateResponse :=
  .ok { details := { id := id } }

/-- Whether a string has no white space at its start and none at its end. -/
def isTrimmed (v : String) : Bool :=
  (match v.data.head? with
    | some c => !isSpace c
    | none => true) &&
  (match v.data.getLast? with
    | some c => !isSpace c
    | none => true)

/-- The external identifier `drumkitToTurvo` makes of a PO number. -/
def purchaseOrderId (v : String) : TurvoExternalId :=
  { type := { key := "1400", value := "Purchase shipment #" }, value := v }

/-- The display values of the three tender rows of the status table. -/
def tenderDisplays : List String := ["Tender - offered", "Tender - accepted", "Tender - rejected"]

/-- The course that the three calls share: the request is prepared, built and sent; on a
response with status 401 the client authenticates, prepares and builds the request again
and sends it once more. `build` makes the request of the call of the prepared one, `replies`
is the stream of the world for its result, `zero` the target of `SetResult` at the start;
`failure` and `retryFailure` word the error of an exchange that failed, `retryError` the
error status of the second response, and `finish` makes the result of a response whose
status is no error. -/
def callWithRetry {α β : Type} (world : World) (replies : Nat → Exchange α)
    (build : Request → Request)
    (zero : α) (failure retryFailure : String → String)
    (retryError : String → String → TurvoShipmentCreateErrorResponse → String)
    (finish : α → String → TurvoShipmentCreateErrorResponse → Except String β)
    (c : Client) (trace : Trace) : Except String β × Client × Trace :=
  match c.getAuthenticatedRequest world trace with
  | (.error err, c, trace) => (.error err, c, trace)
  | (.ok req, c, trace) =>
    match trace.execute replies (build req) with
    | (.failed err, trace) => (.error (failure err), c, trace)
    | (.response statusCode status body result error, trace) =>
      let response := decodedResult statusCode result zero
      let errorResponse := decodedError statusCode error {}
      if statusCode > 399 then
        if statusCode == 401 then
          match c.authenticate world trace with
          | (some authErr, c, trace) => (.error ("authentication failed: " ++ authErr), c, trace)
          | (none, c, trace) =>
            match c.getAuthenticatedRequest world trace with
            | (.error err, c, trace) => (.error err, c, trace)
            | (.ok req, c, trace) =>
              match trace.execute replies (build req) with
              | (.failed err, trace) => (.error (retryFailure err), c, trace)
              | (.response statusCode status body result _, trace) =>
                let response := decodedResult statusCode result response
                if statusCode > 399 then (.error (retryError status body errorResponse), c, trace)
                else (finish response body errorResponse, c, trace)
        else (.error ("turvo API error: " ++ status ++ " - " ++ body), c, trace)
      else (finish response body errorResponse, c, trace)

/-! ### Auxiliary definitions for the statements on the transport -/

/-- The status code, the status line and the body of the response of an exchange; none when
the exchange failed. -/
def Exchange.outline {α : Type} : Exchange α → Option (Int × String × String)
  | .failed _ => none
  | .response statusCode status body _ _ => some (statusCode, status, body)

/-- The error of a result, `none` when the result is a value. -/
def errorOf {β : Type} : Except String β → Option String
  | .error err => some err
  | .ok _ => none

/-- One call of the transport: of `ListShipmentsWithFiltersAndPagination` with its filters,
of `GetShipment` with its shipment id, or of `CreateShipment` with its payload. -/
inductive Call where
  | list (filters : TurvoShipmentFilters) : Call
  | get (shipmentID : Int) : Call
  | create (shipment : TurvoShipmentCreate) : Call

/-- The run of a call: the error it returns, `none` when it returns a value, with the
client and the trace it leaves. -/
def Call.run (world : World)
    (unmarshalError :
      String → TurvoShipmentCreateErrorResponse → Except String TurvoShipmentCreateErrorResponse)
    (call : Call) (c : Client) (trace : Trace) : Option String × Client × Trace :=
  match call with
  | .list filters =>
    let r := c.ListShipmentsWithFiltersAndPagination world filters trace
    (errorOf r.1, r.2)
  | .get shipmentID =>
    let r := c.GetShipment world shipmentID trace
    (errorOf r.1, r.2)
  | .create shipment =>
    let r := c.CreateShipment world unmarshalError shipment trace
    (errorOf r.1, r.2)

/-- The request a call makes of the request that `getAuthenticatedRequest` has prepared. -/
def Call.request (call : Call) (req : Request) : Request :=
  match call with
  | .list filters => Get (listQueryParams filters req) "/v1/shipments/list"
  | .get shipmentID => Get req ("/v1/shipments/" ++ formatInt shipmentID)
  | .create shipment => Post (SetBody req shipment) "/v1/shipments"

/-- The response the world has for the request number `n` when that request is of the given
call: status code, status line and body; none when the exchange fails. -/
def Call.response (world : World) (call : Call) (n : Nat) : Option (Int × String × String) :=
  match call with
  | .list _ => (world.listReplies n).outline
  | .get _ => (world.getReplies n).outline
  | .create _ => (world.createReplies n).outline

/-- The authentication request `authenticate` sends for a client. -/
def Client.authRequest (c : Client) : TurvoAuthRequest :=
  { grantType := "password",
    clientID := c.clientName,
    clientSecret := c.clientSecret,
    username := c.username,
    password := c.password,
    scope := "read+trust+write",
    type := "business" }

/-- Whether a client has the four credentials `authenticate` asks for. -/
def Client.hasCredentials (c : Client) : Bool :=
  c.clientName != "" && c.clientSecret != "" && c.username != "" && c.password != ""

/-- The lifetime `authenticate` takes from a response: `expires_in`, or 3600 when that is
0. -/
def lifetime (authResp : TurvoAuthResponse) : Int :=
  if authResp.expiresIn = 0 then 3600 else authResp.expiresIn

/-- Whether two requests have the same method, path, query parameters and body. -/
def sameCall (a b : Request) : Prop :=
  a.method = b.method ∧ a.path = b.path ∧ a.query = b.query ∧ a.body = b.body

/-! ### Sample values -/

/-- A sample canonical load that `ValidateLoad` accepts. -/
def sampleLoad : Load :=
  { status := "covered",
    customer := some { externalTMSId := "4021", name := "Acme Produce" },
    pickup := some { name := "Dock 4", timezone := "America/Chicago",
                     apptTime := some { year := 2024, month := 3, day := 9, hour := 8 } },
    consignee := some { city := "Reno", state := "NV",
                        apptTime := some { year := 2024, month := 3, day := 11 } },
    totalWeight := some 41000,
    specifications := some { minTempFahrenheit := some 34, maxTempFahrenheit := some 38 } }

/-- A list-view shipment whose first customer order and first carrier order are deleted and
whose second ones are not. -/
def deletedFirstShipment : TurvoShipment :=
  { id := 77,
    customerOrder :=
      [ { deleted := true, customer := { name := "Old Customer", id := 1 } },
        { customer := { name := "Acme Produce", id := 2 } } ],
    carrierOrder :=
      [ { deleted := true, carrier := { name := "Old Carrier", id := 3 } },
        { carrier := { name := "Swift Lines", id := 4 } } ] }

/-- A list-view shipment whose first party has no name and whose second party has one. -/
def namelessPartyShipment : TurvoShipment :=
  { id := 78,
    party := [ { account := { name := "", id := 1 } }, { account := { name := "Reno DC", id := 2 } } ] }

/-- A detail shipment whose lane names the pickup and whose only stop is a pickup stop with
an empty name and an address that has a street line only. -/
def clearingStopShipment : TurvoShipmentCreateDetails :=
  { id := 9,
    lane := { start := "Dallas, TX" },
    globalRoute :=
      [ { stopType := { key := "1500", value := "Pickup" },
          address := some { line1 := "1 Main St" } } ] }

/-- A detail shipment whose global route and whose first customer order's own route both
describe the pickup, with different addresses and contacts. -/
def twoRouteShipment : TurvoShipmentCreateDetails :=
  { id := 10,
    globalRoute :=
      [ { stopType := { key := "1500", value := "Pickup" }, name := "Austin Yard",
          address := some { line1 := "1 Main St", city := "Austin", state := "TX", zip := "78701" },
          contact := some { name := "Ann" } } ],
    customerOrder :=
      [ { customer := { name := "Acme Produce", id := 2 },
          route :=
            [ { stopType := { key := "1500", value := "Pickup" },
                address := some { line1 := "9 Elm St", city := "Dallas", state := "TX",
                                  zip := "75201" },
                contact := some { name := "Bob" } } ] } ] }

/-- A detail shipment with PO numbers on a pickup stop, on a delivery stop and among the
external identifiers of the first customer order. -/
def poShipment : TurvoShipmentCreateDetails :=
  { id := 11,
    globalRoute :=
      [ { stopType := { key := "1500", value := "Pickup" }, name := "Austin Yard",
          poNumbers := ["PO-1"] },
        { stopType := { key := "1501", value := "Delivery" }, name := "Reno DC",
          poNumbers := ["PO-2"] } ],
    customerOrder :=
      [ { customer := { name := "Acme Produce", id := 2 },
          externalIds :=
            [ { type := { key := "1400", value := "Purchase shipment #" }, value := "PO-3" } ] } ] }

/-- A reading of `time.Parse(time.RFC3339, ·)` on two date strings; every other string is
taken not to parse. -/
def sampleParse (date : String) : Option Time :=
  if date == "2024-03-09T08:00:00Z" then some { year := 2024, month := 3, day := 9, hour := 8 }
  else if date == "2024-03-11T00:00:00Z" then some { year := 2024, month := 3, day := 11 }
  else none

/-- A detail shipment whose start and end dates do not parse and whose global route has a
pickup stop and a delivery stop with appointments that do. -/
def unparsedDatesShipment : TurvoShipmentCreateDetails :=
  { id := 12,
    startDate := { date := "tomorrow" },
    endDate := { date := "next week" },
    globalRoute :=
      [ { stopType := { key := "1500", value := "Pickup" }, name := "Austin Yard",
          appointment := some { date := "2024-03-09T08:00:00Z" } },
        { stopType := { key := "1501", value := "Delivery" }, name := "Reno DC",
          appointment := some { date := "2024-03-11T00:00:00Z" } } ] }

/-- A detail shipment with soft-deleted entries of the four kinds: a stop of the global
route, a stop of the customer order's route, an external identifier of the customer order and
an external identifier of the carrier order. -/
def deletedEntriesShipment : TurvoShipmentCreateDetails :=
  { id := 13,
    globalRoute :=
      [ { stopType := { key := "1500", value := "Pickup" }, name := "Austin Yard" },
        { deleted := true, stopType := { key := "1500", value := "Pickup" }, name := "Old Yard",
          services := [ { key := "1", value := "Liftgate" } ], poNumbers := ["PO-9"] } ],
    customerOrder :=
      [ { customer := { name := "Acme Produce", id := 2 },
          route :=
            [ { deleted := true, stopType := { key := "1500", value := "Pickup" },
                address := some { line1 := "9 Elm St", city := "Dallas", state := "TX" } } ],
          externalIds :=
            [ { deleted := true, type := { key := "1400", value := "Purchase shipment #" },
                value := "PO-8" },
              { type := { key := "1400", value := "Purchase shipment #" }, value := "PO-3" } ] } ],
    carrierOrder :=
      [ { carrier := { name := "Swift Lines", id := 4 },
          externalIds :=
            [ { deleted := true, type := { key := "7605", value := "Truck #" },
                value := "T-1" } ] } ] }

/-- The shipment `deletedEntriesShipment` with its soft-deleted entries taken out. -/
def livingEntriesShipment : TurvoShipmentCreateDetails :=
  { id := 13,
    globalRoute :=
      [ { stopType := { key := "1500", value := "Pickup" }, name := "Austin Yard" } ],
    customerOrder :=
      [ { customer := { name := "Acme Produce", id := 2 },
          externalIds :=
            [ { type := { key := "1400", value := "Purchase shipment #" }, value := "PO-3" } ] } ],
    carrierOrder := [ { carrier := { name := "Swift Lines", id := 4 } } ] }

/-- A create response whose first customer order and first carrier order are marked deleted
and are followed by orders that are not. -/
def deletedFirstResponse : TurvoShipmentCreateResponse :=
  { status := "SUCCESS",
    details :=
      { id := 5,
        customerOrder :=
          [ { deleted := true, customer := { name := "Old Customer", id := 1 } },
            { customer := { name := "Acme Produce", id := 2 } } ],
        carrierOrder :=
          [ { deleted := true, carrier := { name := "Old Carrier", id := 3 } },
            { carrier := { name := "Swift Lines", id := 4 } } ] } }

/-- A create response without a shipment id that carries other data all the same. -/
def invalidResponse : TurvoShipmentCreateResponse :=
  { status := "SUCCESS",
    details :=
      { id := 0, customId := "L-9",
        customerOrder := [ { customer := { name := "Other Customer", id := 8 } } ] } }

/-- A create response whose first customer order and first carrier order are not deleted. -/
def liveFirstResponse : TurvoShipmentCreateResponse :=
  { status := "SUCCESS",
    details :=
      { id := 6,
        customerOrder :=
          [ { customer := { name := "Acme Produce", id := 2 } },
            { customer := { name := "Other Customer", id := 8 } } ],
        carrierOrder := [ { carrier := { name := "", id := 4 } } ] } }

/-- Three listed shipments, A, B and C. -/
def threeShipments : List TurvoShipment :=
  [ { id := 101, customId := "A" }, { id := 102, customId := "B" }, { id := 103, customId := "C" } ]

/-- A list operation of the transport that answers every query with `threeShipments` in a
page of 47 records that is the last one. -/
def sampleList (_ : TurvoShipmentFilters) :
    Except String (List TurvoShipment × TurvoPagination) :=
  .ok (threeShipments, { totalRecordsInPage := 47, moreAvailable := false })

/-- A get operation of the transport that fails for shipment 102 and answers every other id
with a detailed shipment of that id. -/
def sampleGet (_ : Nat) (shipmentID : Int) : Except String TurvoShipmentCreateDetails :=
  if shipmentID = 102 then .error "turvo API error: 500 Internal Server Error"
  else .ok { id := shipmentID, customId := "detail of " ++ formatInt shipmentID }

/-- A list operation that reports the largest `int` as the number of records. -/
def hugeList (_ : TurvoShipmentFilters) :
    Except String (List TurvoShipment × TurvoPagination) :=
  .ok ([], { totalRecordsInPage := 9223372036854775807, moreAvailable := false })

/-- A list operation that answers every query with `threeShipments` and says that more is
available. -/
def sampleMoreList (_ : TurvoShipmentFilters) :
    Except String (List TurvoShipment × TurvoPagination) :=
  .ok (threeShipments, { totalRecordsInPage := 3, moreAvailable := true })

/-- A load that `ValidateLoad` accepts and whose customer id is no number, so that the
payload made of it has no customer id. -/
def badIdLoad : Load :=
  { customer := some { externalTMSId := "abc", name := "Acme" },
    pickup := some { name := "Dock 4", readyTime := some {} },
    consignee := some { city := "Reno", state := "NV", apptTime := some {} } }

/-- A list-view shipment whose first carrier order is not deleted and has a carrier with a
name and a positive id. -/
def carrierIdShipment : TurvoShipment :=
  { id := 79, carrierOrder := [ { carrier := { name := "Swift Lines", id := 4 } } ] }

/-- A detail-view shipment whose first customer order has the PO numbers "PO-1" and "PO 2" as
external identifiers. -/
def twoPoShipment : TurvoShipmentCreateDetails :=
  { id := 81,
    customerOrder :=
      [ { externalIds :=
            [ { type := { key := "1400", value := "Purchase shipment #" }, value := "PO-1" },
              { type := { key := "1400", value := "Purchase shipment #" }, value := "PO 2" } ] } ] }

/-- A world for the examples: the clock reads `n` seconds at reading number `n`; the
authentication endpoint answers every request with status 200 and the token "fresh" that
expires in `expiresIn` seconds; the responses to the requests of calls have the status
codes of `statusCodes`, in order, and 200 from then on, with a result whose status is
"SUCCESS". -/
def sampleWorld (expiresIn : Int) (statusCodes : List Int) : World :=
  { clock := fun n => (n : Int) * 1000000000,
    authReplies := fun _ =>
      .response 200 "200 OK" ""
        (some { accessToken := "fresh", tokenType := "Bearer", expiresIn := expiresIn }) none,
    listReplies := fun n =>
      .response (statusCodes.getD n 200) "status" "body" (some { status := "SUCCESS" }) none,
    getReplies := fun n =>
      .response (statusCodes.getD n 200) "status" "body" (some { status := "SUCCESS" }) none,
    createReplies := fun n =>
      .response (statusCodes.getD n 200) "status" "body" (some { status := "SUCCESS" }) none }

/-- A client that has its credentials and no token. -/
def sampleClient : Client :=
  { clientName := "name", clientSecret := "secret", username := "user", password := "pass" }

/-- A client that has its credentials and a token that is valid until the instant of 1000
seconds. -/
def validClient : Client :=
  { sampleClient with token := "held", tokenExpiry := 1000000000000 }

/-- A `json.Unmarshal` for the examples: the target is left as it is. -/
def sampleUnmarshal (_ : String) (target : TurvoShipmentCreateErrorResponse) :
    Except String TurvoShipmentCreateErrorResponse :=
  .ok target

/-! ### The rules of the canonical-load validator, in the words of the specification

Each rule is a test for its violation paired with the message that names it. -/

/-- Customer required, with a non-blank `externalTMSId`. -/
def customerRules : List ((Load → Bool) × String) :=
  [ (fun l => l.customer.isNone, "customer is required"),
    (fun l => l.customer.any (fun c => c.externalTMSId == ""),
      "customer.externalTMSId is required") ]

/-- Pickup required, with (ready-time or appointment-time) and ((city and state) or name). -/
def pickupRules : List ((Load → Bool) × String) :=
  [ (fun l => l.pickup.isNone, "pickup is required"),
    (fun l => l.pickup.any (fun p => p.readyTime.isNone && p.apptTime.isNone),
      "pickup.readyTime or pickup.apptTime is required (for startDate)"),
    (fun l => l.pickup.any (fun p => !((p.city != "" && p.state != "") || p.name != "")),
      "pickup must have either (city and state) or name (for lane.start)") ]

/-- Consignee required, with appointment-time and ((city and state) or name). -/
def consigneeRules : List ((Load → Bool) × String) :=
  [ (fun l => l.consignee.isNone, "consignee is required"),
    (fun l => l.consignee.any (fun c => c.apptTime.isNone),
      "consignee.apptTime is required (for endDate)"),
    (fun l => l.consignee.any (fun c => !((c.city != "" && c.state != "") || c.name != "")),
      "consignee must have either (city and state) or name (for lane.end)") ]

/-- Carrier optional; if present its `externalTMSId` is non-blank and parses as an integer. -/
def carrierRules : List ((Load → Bool) × String) :=
  [ (fun l => l.carrier.any (fun c => c.externalTMSId == ""),
      "carrier.externalTMSId is required when carrier is provided"),
    (fun l => l.carrier.any (fun c => c.externalTMSId != "" && (Atoi c.externalTMSId).isNone),
      "carrier.externalTMSId must be a valid integer") ]

/-- All rules, in the fixed order customer, pickup, consignee, carrier. -/
def loadRules : List ((Load → Bool) × String) :=
  customerRules ++ pickupRules ++ consigneeRules ++ carrierRules

/-- The messages of the rules a load violates, in rule order. -/
def violatedRules (load : Load) : List String :=
  (loadRules.filter (fun r => r.1 load)).map (fun r => r.2)

/-! ## Lemmas on strings and tables -/

theorem replaceScan_single (a b : Char) (l : List Char) :
    replaceScan [a] [b] 0 l = l.map (fun c => if c = a then b else c) := by
  induction l with
  | nil => rfl
  | cons c cs ih =>
    by_cases h : c = a
    · subst h
      simp [replaceScan, List.isPrefixOf, ih]
    · have h2 : ¬ a = c := fun e => h e.symm
      simp [replaceScan, List.isPrefixOf, ih, h, h2]

theorem normalizeStatus_eq_map (lo : Char → Char) (v : String) :
    normalizeStatus lo v = ⟨(ToLower lo v).data.map underscoreRune⟩ := by
  have e1 : (" " : String).data = [' '] := rfl
  have e2 : ("-" : String).data = ['-'] := rfl
  have e3 : ("_" : String).data = ['_'] := rfl
  simp only [normalizeStatus, ReplaceAll, e1, e2, e3, replaceScan_single, List.map_map]
  simp only [List.cons_ne_nil, if_false, replaceScan_single, List.map_map]
  congr 1
  apply List.map_congr_left
  intro c _
  simp only [Function.comp, underscoreRune]
  by_cases h1 : c = ' '
  · subst h1; decide
  · by_cases h2 : c = '-'
    · subst h2; decide
    · simp [h1, h2]

theorem lookup_eq_none_of_not_mem {β : Type} (k : String) (l : List (String × β))
    (h : k ∉ l.map (fun p => p.1)) : l.lookup k = none := by
  induction l with
  | nil => rfl
  | cons p ps ih =>
    obtain ⟨a, b⟩ := p
    simp only [List.map, List.mem_cons, not_or] at h
    have hne : (k == a) = false := by simpa using h.1
    simp only [List.lookup, hne]
    exact ih h.2

theorem mem_of_lookup_eq_some {β : Type} (k : String) (v : β) (l : List (String × β))
    (h : l.lookup k = some v) : (k, v) ∈ l := by
  induction l with
  | nil => simp [List.lookup] at h
  | cons p ps ih =>
    obtain ⟨a, b⟩ := p
    by_cases hka : k = a
    · subst hka
      simp only [List.lookup, beq_self_eq_true, Option.some.injEq] at h
      subst h
      exact List.mem_cons_self _ _
    · have hne : (k == a) = false := by simpa using hka
      simp only [List.lookup, hne] at h
      exact List.mem_cons_of_mem _ (ih h)

theorem ToLower_of_ascii (lo : Char → Char) (s : String) (h : ∀ c ∈ s.data, c.toNat < 128) :
    ToLower lo s = ⟨s.data.map Char.toLower⟩ := by
  unfold ToLower
  congr 1
  apply List.map_congr_left
  intro c hc
  simp [toLowerRune, h c hc]

theorem TurvoStatusToAPI_table (lo : Char → Char) (k v : String) :
    TurvoStatusToAPI lo k v =
      match forwardTable.lookup k with
      | some s => s
      | none => normalizeStatus lo v := by
  unfold TurvoStatusToAPI
  split <;> first | rfl | skip
  rw [lookup_eq_none_of_not_mem]
  simp only [forwardTable, statusTable, List.map, List.append, List.mem_cons, List.mem_nil_iff, or_false, not_or,
    List.cons_append, List.nil_append]
  repeat' apply And.intro
  all_goals assumption

theorem APIToTurvoStatus_table (lo : Char → Char) (s : String) :
    APIToTurvoStatus lo s =
      match reverseTable.lookup s with
      | some p => p
      | none => findTurvoStatusByValue lo s := by
  unfold APIToTurvoStatus
  split <;> first | rfl | skip
  rw [lookup_eq_none_of_not_mem]
  simp only [reverseTable, statusTable, List.map, List.append, List.mem_cons, List.mem_nil_iff, or_false, not_or,
    List.cons_append, List.nil_append]
  repeat' apply And.intro
  all_goals assumption

theorem statusTable_lookups :
    ∀ r ∈ statusTable,
      forwardTable.lookup r.1 = some r.2.1 ∧ reverseTable.lookup r.2.1 = some (r.1, r.2.2) := by
  decide

theorem statusMap_keys_lowered :
    ∀ e ∈ statusMap, (∀ c ∈ e.2.2.data, c.toNat < 128) ∧ (⟨e.2.2.data.map Char.toLower⟩ : String) = e.1 := by
  decide

theorem statusMap_lookups : ∀ e ∈ statusMap, statusMap.lookup e.1 = some e.2 := by
  decide

theorem reverseTable_values : ∀ e ∈ reverseTable, e.2 ∈ statusPairs := by decide
theorem statusMap_values : ∀ e ∈ statusMap, e.2 ∈ statusPairs := by decide
theorem statusPairs_forward :
    ∀ p ∈ statusPairs, p.1 ≠ "" ∧ ∃ c ∈ canonicalStatuses, forwardTable.lookup p.1 = some c := by
  decide
theorem forwardKeys_length : forwardKeys.length = 39 ∧ forwardKeys.Nodup := by decide
theorem secondaryPairs_eq : secondaryPairs = statusPairs.take 22 := by decide

/-! ## The status registry -/

/-- C1: for every (key, display value) pair of the status table and every display string `v`,
the forward mapping followed by the reverse mapping returns exactly that pair. -/
theorem status_round_trip (lo : Char → Char) (k d v : String) (h : (k, d) ∈ statusPairs) :
    APIToTurvoStatus lo (TurvoStatusToAPI lo k v) = (k, d) := by
  simp only [statusPairs, List.mem_map] at h
  obtain ⟨r, hr, hrk⟩ := h
  obtain ⟨h1, h2⟩ := statusTable_lookups r hr
  have hk : r.1 = k := congrArg Prod.fst hrk
  have hd : r.2.2 = d := congrArg Prod.snd hrk
  rw [TurvoStatusToAPI_table, ← hk, h1]
  simp only []
  rw [APIToTurvoStatus_table, h2, hd]

theorem status_round_trip_witness :
    ("2117", "Tender - offered") ∈ statusPairs ∧
      APIToTurvoStatus id (TurvoStatusToAPI id "2117" "anything") = ("2117", "Tender - offered") :=
  ⟨by decide, status_round_trip id "2117" "Tender - offered" "anything" (by decide)⟩

/-- C2: for a remote key outside the forward table the canonical status is the display value
lower-cased with every space and hyphen turned into an underscore, rune by rune; the value
"Some New State" becomes "some_new_state". -/
theorem unknown_key_normalizes (lo : Char → Char) (key v : String) (h : key ∉ forwardKeys) :
    TurvoStatusToAPI lo key v = ⟨(ToLower lo v).data.map underscoreRune⟩ ∧
      TurvoStatusToAPI lo key "Some New State" = "some_new_state" := by
  have hn : forwardTable.lookup key = none := by
    apply lookup_eq_none_of_not_mem
    simpa [forwardKeys, forwardTable, List.map_map] using h
  have hv : ∀ w, TurvoStatusToAPI lo key w = normalizeStatus lo w := by
    intro w
    rw [TurvoStatusToAPI_table, hn]
  refine ⟨?_, ?_⟩
  · rw [hv, normalizeStatus_eq_map]
  · rw [hv]; rfl

theorem unknown_key_normalizes_witness :
    "9999" ∉ forwardKeys ∧
      (TurvoStatusToAPI id "9999" "In-Yard Hold" =
          ⟨(ToLower id "In-Yard Hold").data.map underscoreRune⟩ ∧
        TurvoStatusToAPI id "9999" "Some New State" = "some_new_state") :=
  ⟨by decide, unknown_key_normalizes id "9999" "In-Yard Hold" (by decide)⟩

theorem findTurvoStatusByValue_default (lo : Char → Char) (s : String)
    (h : ToLower lo s ∉ statusMap.map (fun e => e.1)) :
    findTurvoStatusByValue lo s = ("2120", "Draft") := by
  unfold findTurvoStatusByValue
  simp only [lookup_eq_none_of_not_mem _ _ h]

theorem statusMap_lowered (lo : Char → Char) :
    statusMap.map (fun e => ToLower lo e.2.2) = statusMap.map (fun e => e.1) := by
  apply List.map_congr_left
  intro e he
  obtain ⟨ha, hb⟩ := statusMap_keys_lowered e he
  rw [ToLower_of_ascii lo _ ha, hb]

/-- C3: a string that is no canonical status of the reverse table, is not "pending" and is
not, up to letter case, a display value of the secondary table maps to the draft code. -/
theorem unknown_status_defaults_to_draft (lo : Char → Char) (s : String)
    (h1 : s ∉ canonicalStatuses) (h2 : s ≠ "pending")
    (h3 : ToLower lo s ∉ statusMap.map (fun e => ToLower lo e.2.2)) :
    APIToTurvoStatus lo s = ("2120", "Draft") := by
  have hn : reverseTable.lookup s = none := by
    apply lookup_eq_none_of_not_mem
    simp only [reverseTable, List.map_append, List.map_map, List.mem_append, not_or]
    refine ⟨?_, by simpa using h2⟩
    simpa [canonicalStatuses] using h1
  rw [APIToTurvoStatus_table, hn]
  rw [statusMap_lowered] at h3
  exact findTurvoStatusByValue_default lo s h3

theorem unknown_status_defaults_to_draft_witness :
    APIToTurvoStatus id "totally_unknown" = ("2120", "Draft") :=
  unknown_status_defaults_to_draft id "totally_unknown" (by decide) (by decide) (by decide)

theorem findTurvoStatusByValue_mem (lo : Char → Char) (s : String) :
    findTurvoStatusByValue lo s ∈ statusPairs := by
  unfold findTurvoStatusByValue
  simp only []
  cases hl : statusMap.lookup (ToLower lo s) with
  | none => decide
  | some m => exact statusMap_values _ (mem_of_lookup_eq_some _ _ _ hl)

/-- C4: `APIToTurvoStatus` returns, for every input string, one of the (key, display value)
pairs of the status table; its key is never empty and `TurvoStatusToAPI` maps it to a
canonical status of the table. -/
theorem APIToTurvoStatus_total (lo : Char → Char) (s : String) :
    APIToTurvoStatus lo s ∈ statusPairs ∧ (APIToTurvoStatus lo s).1 ≠ "" ∧
      ∀ v, TurvoStatusToAPI lo (APIToTurvoStatus lo s).1 v ∈ canonicalStatuses := by
  have hmem : APIToTurvoStatus lo s ∈ statusPairs := by
    rw [APIToTurvoStatus_table]
    cases hl : reverseTable.lookup s with
    | none => exact findTurvoStatusByValue_mem lo s
    | some p => exact reverseTable_values _ (mem_of_lookup_eq_some _ _ _ hl)
  obtain ⟨hne, c, hc, hlk⟩ := statusPairs_forward _ hmem
  refine ⟨hmem, hne, fun v => ?_⟩
  rw [TurvoStatusToAPI_table, hlk]
  exact hc

/-- C5: on every canonical status of the reverse table other than "pending" the forward
mapping undoes the reverse mapping; "pending" is an alias of the draft code, which maps
back to "draft". -/
theorem reverse_then_forward (lo : Char → Char) (s : String)
    (hs : s ∈ reverseKeys) (hp : s ≠ "pending") :
    TurvoStatusToAPI lo (APIToTurvoStatus lo s).1 (APIToTurvoStatus lo s).2 = s ∧
      APIToTurvoStatus lo "pending" = ("2120", "Draft") ∧
      TurvoStatusToAPI lo "2120" "Draft" = "draft" := by
  refine ⟨?_, rfl, rfl⟩
  have hc : s ∈ canonicalStatuses := by
    simp only [reverseKeys, List.mem_append, List.mem_singleton] at hs
    exact hs.resolve_right hp
  simp only [canonicalStatuses, List.mem_map] at hc
  obtain ⟨r, hr, rfl⟩ := hc
  obtain ⟨h1, h2⟩ := statusTable_lookups r hr
  rw [APIToTurvoStatus_table, h2]
  simp only []
  rw [TurvoStatusToAPI_table, h1]

theorem reverse_then_forward_witness :
    TurvoStatusToAPI id (APIToTurvoStatus id "out_for_delivery").1
        (APIToTurvoStatus id "out_for_delivery").2 = "out_for_delivery" ∧
      APIToTurvoStatus id "pending" = ("2120", "Draft") ∧
      TurvoStatusToAPI id "2120" "Draft" = "draft" :=
  reverse_then_forward id "out_for_delivery" (by decide) (by decide)

/-- C6: a string outside the primary table whose lower-case form equals the lower-cased
display value of one of the codes 2100..2121 is mapped to that code's key and display value,
whatever its letter case. -/
theorem display_value_fallback (lo : Char → Char) (s k d : String)
    (h1 : s ∉ reverseKeys) (hkd : (k, d) ∈ secondaryPairs)
    (h2 : ToLower lo s = ToLower lo d) :
    APIToTurvoStatus lo s = (k, d) := by
  have hn : reverseTable.lookup s = none := by
    apply lookup_eq_none_of_not_mem
    have : reverseTable.map (fun p => p.1) = reverseKeys := by
      simp [reverseTable, reverseKeys, canonicalStatuses, List.map_map]
    rw [this]; exact h1
  simp only [secondaryPairs, List.mem_map] at hkd
  obtain ⟨e, he, hek⟩ := hkd
  obtain ⟨ha, hb⟩ := statusMap_keys_lowered e he
  have hd : e.2.2 = d := congrArg Prod.snd hek
  have hlow : ToLower lo s = e.1 := by
    rw [h2, ← hd, ToLower_of_ascii lo _ ha, hb]
  rw [APIToTurvoStatus_table, hn]
  unfold findTurvoStatusByValue
  simp only [hlow, statusMap_lookups e he]
  exact hek

theorem display_value_fallback_witness :
    APIToTurvoStatus id "TENDER - OFFERED" = ("2117", "Tender - offered") :=
  display_value_fallback id "TENDER - OFFERED" "2117" "Tender - offered"
    (by decide) (by decide) (by decide)

/-! ## The validators -/

theorem ite_append_single (b : Prop) [Decidable b] (e x : List String) :
    (if b then e ++ x else e) = e ++ (if b then x else []) := by
  split_ifs <;> simp

theorem filter_cons_append {α : Type} (p : α → Bool) (a : α) (l : List α) :
    (a :: l).filter p = (if p a = true then [a] else []) ++ l.filter p := by
  rw [List.filter_cons]; split_ifs <;> simp

theorem map_ite_single {α β : Type} (f : α → β) (b : Prop) [Decidable b] (a : α) :
    List.map f (if b then [a] else []) = if b then [f a] else [] := by
  split_ifs <;> rfl

set_option maxHeartbeats 400000 in
theorem validateLoadErrors_eq_rules (load : Load) :
    validateLoadErrors load = violatedRules load := by
  unfold validateLoadErrors violatedRules loadRules customerRules pickupRules consigneeRules
    carrierRules
  rcases hc : load.customer with _ | c <;> rcases hp : load.pickup with _ | p <;>
    rcases hn : load.consignee with _ | n <;> rcases hr : load.carrier with _ | r <;>
    (try (cases hb : (r.externalTMSId == "") <;> cases hat : Atoi r.externalTMSId)) <;>
    simp only [*, List.map_cons, ite_append_single, filter_cons_append, map_ite_single,
      List.filter_nil, List.map_append, List.map_nil, List.append_assoc, List.nil_append,
      List.append_nil, List.cons_append, Option.isNone_none, Option.isNone_some,
      Option.any_none, Option.any_some, Bool.not_or, Bool.false_eq_true, if_false, if_true,
      bne, Bool.not_true, Bool.not_false, Bool.false_and, Bool.true_and] <;>
    (try split_ifs) <;> rfl

theorem ValidateLoad_eq (load : Load) :
    ValidateLoad load =
      if validateLoadErrors load = [] then none
      else some ("validation failed: " ++ formatStrings (validateLoadErrors load)) := by
  unfold ValidateLoad
  cases h : validateLoadErrors load <;> simp

theorem ValidateLoad_none_iff (load : Load) :
    ValidateLoad load = none ↔ validateLoadErrors load = [] := by
  rw [ValidateLoad_eq]
  split_ifs with h <;> simp [h]

theorem customerRules_ok (load : Load) :
    (∀ r ∈ customerRules, r.1 load = false) ↔
      ∃ c, load.customer = some c ∧ c.externalTMSId ≠ "" := by
  unfold customerRules
  rcases hc : load.customer with _ | c <;> simp [hc]

theorem pickupRules_ok (load : Load) :
    (∀ r ∈ pickupRules, r.1 load = false) ↔
      ∃ p, load.pickup = some p ∧ (p.readyTime ≠ none ∨ p.apptTime ≠ none) ∧
        ((p.city ≠ "" ∧ p.state ≠ "") ∨ p.name ≠ "") := by
  unfold pickupRules
  rcases hp : load.pickup with _ | p
  · simp [hp]
  · simp only [List.forall_mem_cons, hp, Option.isNone_some, Option.any_some, true_and,
      Option.some.injEq, exists_eq_left', List.not_mem_nil, false_implies, implies_true,
      and_true]
    cases p.readyTime <;> cases p.apptTime <;> simp <;> tauto

theorem consigneeRules_ok (load : Load) :
    (∀ r ∈ consigneeRules, r.1 load = false) ↔
      ∃ c, load.consignee = some c ∧ c.apptTime ≠ none ∧
        ((c.city ≠ "" ∧ c.state ≠ "") ∨ c.name ≠ "") := by
  unfold consigneeRules
  rcases hn : load.consignee with _ | n
  · simp [hn]
  · simp only [List.forall_mem_cons, hn, Option.isNone_some, Option.any_some, true_and,
      Option.some.injEq, exists_eq_left', List.not_mem_nil, false_implies, implies_true,
      and_true]
    cases n.apptTime <;> simp
    tauto

theorem carrierRules_ok (load : Load) :
    (∀ r ∈ carrierRules, r.1 load = false) ↔
      ∀ c, load.carrier = some c →
        c.externalTMSId ≠ "" ∧ ∃ n, Atoi c.externalTMSId = some n := by
  unfold carrierRules
  rcases hr : load.carrier with _ | r
  · simp [hr]
  · simp only [List.forall_mem_cons, hr, Option.any_some, Option.some.injEq, forall_eq',
      List.not_mem_nil, false_implies, implies_true, and_true]
    cases Atoi r.externalTMSId <;> simp

/-- C7: `ValidateLoad` returns no error exactly when the customer is present with a non-empty
`externalTMSId`, the pickup is present with a ready-time or an appointment-time and with
(city and state) or a name, the consignee is present with an appointment-time and with
(city and state) or a name, and the carrier is absent or has a non-empty `externalTMSId`
that `strconv.Atoi` parses. -/
theorem ValidateLoad_accepts_iff (load : Load) :
    ValidateLoad load = none ↔
      (∃ c, load.customer = some c ∧ c.externalTMSId ≠ "") ∧
      (∃ p, load.pickup = some p ∧ (p.readyTime ≠ none ∨ p.apptTime ≠ none) ∧
          ((p.city ≠ "" ∧ p.state ≠ "") ∨ p.name ≠ "")) ∧
      (∃ c, load.consignee = some c ∧ c.apptTime ≠ none ∧
          ((c.city ≠ "" ∧ c.state ≠ "") ∨ c.name ≠ "")) ∧
      (∀ c, load.carrier = some c →
          c.externalTMSId ≠ "" ∧ ∃ n, Atoi c.externalTMSId = some n) := by
  rw [ValidateLoad_none_iff, validateLoadErrors_eq_rules]
  unfold violatedRules loadRules
  rw [List.map_eq_nil_iff, List.filter_eq_nil_iff]
  simp only [List.mem_append, or_imp, forall_and, Bool.not_eq_true, and_assoc]
  rw [customerRules_ok, pickupRules_ok, consigneeRules_ok, carrierRules_ok]
  constructor
  · rintro ⟨a, b, c, d⟩
    exact ⟨a, b, c, fun x hx => (d x hx).1, fun x hx => (d x hx).2⟩
  · rintro ⟨a, b, c, d, e⟩
    exact ⟨a, b, c, fun x hx => ⟨d x hx, e x hx⟩⟩

theorem mem_violatedRules (load : Load) (test : Load → Bool) (msg : String)
    (hr : (test, msg) ∈ loadRules) (ht : test load = true) : msg ∈ violatedRules load := by
  unfold violatedRules
  exact List.mem_map.mpr ⟨(test, msg), List.mem_filter.mpr ⟨hr, ht⟩, rfl⟩

/-- C8: the messages collected by `ValidateLoad` are exactly the messages of the violated
rules, one per rule and in the order customer, pickup, consignee, carrier; the error text
lists them all. A consignee without `apptTime` and a carrier whose non-empty `externalTMSId`
is no integer (such as "abc") are each reported, whatever else is violated. -/
theorem ValidateLoad_reports_all (load : Load) :
    validateLoadErrors load = violatedRules load ∧
      (loadRules.map (fun r => r.2)).Nodup ∧
      ValidateLoad load =
        (if violatedRules load = [] then none
          else some ("validation failed: " ++ formatStrings (violatedRules load))) ∧
      (∀ c, load.consignee = some c → c.apptTime = none →
        "consignee.apptTime is required (for endDate)" ∈ validateLoadErrors load) ∧
      (∀ c, load.carrier = some c → c.externalTMSId ≠ "" → Atoi c.externalTMSId = none →
        "carrier.externalTMSId must be a valid integer" ∈ validateLoadErrors load) ∧
      Atoi "abc" = none := by
  refine ⟨validateLoadErrors_eq_rules load, by decide, ?_, ?_, ?_, by decide⟩
  · rw [ValidateLoad_eq, validateLoadErrors_eq_rules]
  · intro c hc ha
    rw [validateLoadErrors_eq_rules]
    refine mem_violatedRules load (fun l => l.consignee.any (fun c => c.apptTime.isNone)) _ ?_ ?_
    · simp [loadRules, consigneeRules]
    · simp [hc, ha]
  · intro c hc hne ha
    rw [validateLoadErrors_eq_rules]
    refine mem_violatedRules load
      (fun l => l.carrier.any (fun c => c.externalTMSId != "" && (Atoi c.externalTMSId).isNone))
      _ ?_ ?_
    · simp [loadRules, carrierRules]
    · simp [hc, ha, hne]

theorem ValidateLoad_reports_all_witness :
    "consignee.apptTime is required (for endDate)" ∈
        validateLoadErrors { consignee := some {}, carrier := some { externalTMSId := "abc" } } ∧
      "carrier.externalTMSId must be a valid integer" ∈
        validateLoadErrors { consignee := some {}, carrier := some { externalTMSId := "abc" } } :=
  ⟨(ValidateLoad_reports_all
      { consignee := some {}, carrier := some { externalTMSId := "abc" } }).2.2.2.1 {} rfl rfl,
    (ValidateLoad_reports_all
      { consignee := some {}, carrier := some { externalTMSId := "abc" } }).2.2.2.2.1
      { externalTMSId := "abc" } rfl (by decide) (by decide)⟩

theorem customerOrderErrors_append (os : List TurvoCreateCustomerOrder) :
    ∀ (i : Nat) (e : List String),
      customerOrderErrors i os e = e ++ customerOrderErrors i os [] := by
  induction os with
  | nil => intro i e; simp [customerOrderErrors]
  | cons o rest ih =>
    intro i e
    simp only [customerOrderErrors]
    rw [ih (i + 1)]
    conv_rhs => rw [ih (i + 1)]
    split_ifs <;> simp

theorem customerOrderErrors_eq_nil (os : List TurvoCreateCustomerOrder) :
    ∀ (i : Nat), customerOrderErrors i os [] = [] ↔
      ∀ o ∈ os, o.customer.id ≠ 0 ∧ o.customerOrderSourceId ≠ 0 := by
  induction os with
  | nil => intro i; simp [customerOrderErrors]
  | cons o rest ih =>
    intro i
    simp only [customerOrderErrors]
    rw [customerOrderErrors_append, List.append_eq_nil, ih (i + 1)]
    simp only [List.forall_mem_cons]
    split_ifs <;> simp_all

theorem customerOrderErrors_names (os : List TurvoCreateCustomerOrder) :
    ∀ (i j : Nat) (o : TurvoCreateCustomerOrder), os[j]? = some o →
      (o.customer.id = 0 →
        "customerOrder[" ++ formatInt ((i + j : Nat) : Int) ++ "].customer.id is required" ∈
          customerOrderErrors i os []) ∧
      (o.customerOrderSourceId = 0 →
        "customerOrder[" ++ formatInt ((i + j : Nat) : Int) ++ "].customerOrderSourceId is required" ∈
          customerOrderErrors i os []) := by
  induction os with
  | nil => intro i j o h; simp at h
  | cons o' rest ih =>
    intro i j o h
    simp only [customerOrderErrors]
    rw [customerOrderErrors_append]
    cases j with
    | zero =>
      simp only [List.getElem?_cons_zero, Option.some.injEq] at h
      subst h
      refine ⟨fun h0 => ?_, fun h0 => ?_⟩
      · apply List.mem_append_left
        simp only [h0, if_true, List.nil_append, Nat.add_zero]
        split_ifs <;> simp
      · apply List.mem_append_left
        simp only [h0, if_true, Nat.add_zero]
        split_ifs <;> simp
    | succ j =>
      simp only [List.getElem?_cons_succ] at h
      have := ih (i + 1) j o h
      have e : i + 1 + j = i + (j + 1) := by omega
      rw [e] at this
      exact ⟨fun h0 => List.mem_append_right _ (this.1 h0),
        fun h0 => List.mem_append_right _ (this.2 h0)⟩

theorem ValidateTurvoShipment_eq (sh : TurvoShipmentCreate) :
    ValidateTurvoShipment sh =
      if validateTurvoShipmentErrors sh = [] then none
      else some ("validation failed: " ++ formatStrings (validateTurvoShipmentErrors sh)) := by
  unfold ValidateTurvoShipment
  cases h : validateTurvoShipmentErrors sh <;> simp

theorem validateTurvoShipmentErrors_eq (sh : TurvoShipmentCreate) :
    validateTurvoShipmentErrors sh =
      (if sh.startDate.date = "" then ["startDate.date is required"] else []) ++
      ((if sh.endDate.date = "" then ["endDate.date is required"] else []) ++
      ((if sh.lane.start = "" then ["lane.start is required"] else []) ++
      ((if sh.lane.end = "" then ["lane.end is required"] else []) ++
      (if sh.customerOrder.length = 0 then ["customerOrder is required"]
        else customerOrderErrors 0 sh.customerOrder [])))) := by
  unfold validateTurvoShipmentErrors
  simp only [List.nil_append]
  rw [customerOrderErrors_append]
  split_ifs <;> simp

/-- C9: `ValidateTurvoShipment` returns no error exactly when both dates and both lane ends
are non-empty, there is at least one customer order, and every order has a non-zero customer
id and a non-zero `customerOrderSourceId`; an order at index `i` that offends is named, by
that index, in a message of its own for each of the two fields. -/
theorem ValidateTurvoShipment_accepts_iff (sh : TurvoShipmentCreate) :
    (ValidateTurvoShipment sh = none ↔
        sh.startDate.date ≠ "" ∧ sh.endDate.date ≠ "" ∧ sh.lane.start ≠ "" ∧
          sh.lane.end ≠ "" ∧ sh.customerOrder ≠ [] ∧
          ∀ o ∈ sh.customerOrder, o.customer.id ≠ 0 ∧ o.customerOrderSourceId ≠ 0) ∧
      (ValidateTurvoShipment sh ≠ none →
        ValidateTurvoShipment sh =
          some ("validation failed: " ++ formatStrings (validateTurvoShipmentErrors sh))) ∧
      ∀ (i : Nat) (o : TurvoCreateCustomerOrder), sh.customerOrder[i]? = some o →
        (o.customer.id = 0 →
          "customerOrder[" ++ formatInt (i : Int) ++ "].customer.id is required" ∈
            validateTurvoShipmentErrors sh) ∧
        (o.customerOrderSourceId = 0 →
          "customerOrder[" ++ formatInt (i : Int) ++ "].customerOrderSourceId is required" ∈
            validateTurvoShipmentErrors sh) := by
  refine ⟨?_, ?_, ?_⟩
  · rw [ValidateTurvoShipment_eq]
    have hnil : (validateTurvoShipmentErrors sh = []) ↔
        sh.startDate.date ≠ "" ∧ sh.endDate.date ≠ "" ∧ sh.lane.start ≠ "" ∧
          sh.lane.end ≠ "" ∧ sh.customerOrder ≠ [] ∧
          ∀ o ∈ sh.customerOrder, o.customer.id ≠ 0 ∧ o.customerOrderSourceId ≠ 0 := by
      rw [validateTurvoShipmentErrors_eq]
      simp only [List.append_eq_nil, List.length_eq_zero]
      by_cases hco : sh.customerOrder = []
      · simp [hco]
      · have hlen : ¬ sh.customerOrder.length = 0 := fun h => hco (List.length_eq_zero.mp h)
        simp only [hlen, if_false, customerOrderErrors_eq_nil]
        simp [hco]
    rw [← hnil]
    split_ifs with h <;> simp [h]
  · rw [ValidateTurvoShipment_eq]
    split_ifs with h <;> simp
  · intro i o hio
    have hne : sh.customerOrder.length ≠ 0 := by
      intro h0
      rw [List.length_eq_zero] at h0
      simp [h0] at hio
    have := customerOrderErrors_names sh.customerOrder 0 i o hio
    simp only [Nat.zero_add] at this
    rw [validateTurvoShipmentErrors_eq]
    simp only [hne, if_false]
    exact ⟨fun h0 => by simp only [List.mem_append]; right; right; right; right; exact this.1 h0,
      fun h0 => by simp only [List.mem_append]; right; right; right; right; exact this.2 h0⟩

theorem ValidateTurvoShipment_accepts_iff_witness :
    "customerOrder[1].customer.id is required" ∈
      validateTurvoShipmentErrors
        { customerOrder := [{ customer := { id := 3 }, customerOrderSourceId := 5 }, {}] } :=
  ((ValidateTurvoShipment_accepts_iff
      { customerOrder := [{ customer := { id := 3 }, customerOrderSourceId := 5 }, {}] }).2.2
    1 {} rfl).1 rfl

/-! ## Validation failures at the handler -/

theorem Service_CreateLoad_rejects_load (lo : Char → Char)
    (createShipment : TurvoShipmentCreate → Except String TurvoShipmentCreateResponse)
    (sourceId : Nat) (now : Time) (load : Load) (h : ValidateLoad load ≠ none) :
    Service.CreateLoad lo createShipment sourceId now load =
      some (.error ("validation error: " ++
        ("validation failed: " ++ formatStrings (validateLoadErrors load)))) := by
  have hv := ValidateLoad_eq load
  rw [hv] at h
  split_ifs at h hv with h0
  · exact absurd rfl h
  · unfold Service.CreateLoad
    simp only [hv]

theorem Service_CreateLoad_rejects_payload (lo : Char → Char)
    (createShipment : TurvoShipmentCreate → Except String TurvoShipmentCreateResponse)
    (sourceId : Nat) (now : Time) (load : Load) (p : TurvoShipmentCreate)
    (hl : ValidateLoad load = none) (hp : drumkitToTurvo lo sourceId load = some p)
    (h : ValidateTurvoShipment p ≠ none) :
    Service.CreateLoad lo createShipment sourceId now load =
      some (.error ("validation error: " ++
        ("validation failed: " ++ formatStrings (validateTurvoShipmentErrors p)))) := by
  have hv := ValidateTurvoShipment_eq p
  rw [hv] at h
  split_ifs at h hv with h0
  · exact absurd rfl h
  · unfold Service.CreateLoad
    simp only [hl, hp, hv]

/-- C10 (as the code has it): a load rejected by `ValidateLoad`, or whose translated payload
is rejected by `ValidateTurvoShipment`, makes the `POST /loads` handler reply with status 500
and with the text of the wrapped validation error. -/
theorem Handler_CreateLoad_validation_500 (lo : Char → Char)
    (createShipment : TurvoShipmentCreate → Except String TurvoShipmentCreateResponse)
    (sourceId : Nat) (now : Time) (load : Load)
    (h : ValidateLoad load ≠ none ∨
      ∃ p, drumkitToTurvo lo sourceId load = some p ∧ ValidateTurvoShipment p ≠ none) :
    ∃ errors : List String, errors ≠ [] ∧
      Handler.CreateLoad lo createShipment sourceId now (.ok load) =
        some (.error ("validation error: " ++ ("validation failed: " ++ formatStrings errors))
          500) := by
  by_cases hv : ValidateLoad load = none
  · rcases h with h | ⟨p, hp, hq⟩
    · exact absurd hv h
    · refine ⟨validateTurvoShipmentErrors p, ?_, ?_⟩
      · intro h0
        rw [ValidateTurvoShipment_eq, if_pos h0] at hq
        exact hq rfl
      · unfold Handler.CreateLoad
        simp only [Service_CreateLoad_rejects_payload lo createShipment sourceId now load p hv hp hq]
        rfl
  · refine ⟨validateLoadErrors load, ?_, ?_⟩
    · intro h0
      rw [ValidateLoad_eq, if_pos h0] at hv
      exact hv rfl
    · unfold Handler.CreateLoad
      simp only [Service_CreateLoad_rejects_load lo createShipment sourceId now load hv]
      rfl

theorem Handler_CreateLoad_validation_500_witness :
    ∃ errors : List String, errors ≠ [] ∧
      Handler.CreateLoad id (fun _ => .error "remote down") 7 {}
          (.ok { customer := some { externalTMSId := "abc", name := "Acme" },
                 pickup := some { name := "Dock 4", readyTime := some {} },
                 consignee := some { city := "Reno", state := "NV", apptTime := some {} } }) =
        some (.error ("validation error: " ++ ("validation failed: " ++ formatStrings errors))
          500) :=
  Handler_CreateLoad_validation_500 id (fun _ => .error "remote down") 7 {} _
    (Or.inr ⟨_, rfl, by decide⟩)

/-- C10 (as stated) fails: the empty load is rejected by `ValidateLoad`, and the handler
answers 500, which is no 4xx status. -/
theorem validation_failure_is_not_4xx :
    ValidateLoad {} ≠ none ∧
      (Handler.CreateLoad id (fun _ => .error "remote down") 7 {} (.ok {})).map
          HTTPReply.statusCode = some 500 ∧
      ¬ ∃ r, Handler.CreateLoad id (fun _ => .error "remote down") 7 {} (.ok {}) = some r ∧
          400 ≤ r.statusCode ∧ r.statusCode < 500 := by
  refine ⟨by decide, by decide, ?_⟩
  rintro ⟨r, hr, h1, h2⟩
  have h500 : (Handler.CreateLoad id (fun _ => .error "remote down") 7 {} (.ok {})).map
      HTTPReply.statusCode = some 500 := by decide
  rw [hr] at h500
  simp only [Option.map_some', Option.some.injEq] at h500
  omega

/-! ## The create translation on validated loads, the list view and the detail view -/

theorem validated_groups (load : Load) (h : ValidateLoad load = none) :
    ∃ c p n t, load.customer = some c ∧ load.pickup = some p ∧ load.consignee = some n ∧
      n.apptTime = some t ∧ c.externalTMSId ≠ "" ∧
      (p.readyTime ≠ none ∨ p.apptTime ≠ none) ∧
      ((p.city ≠ "" ∧ p.state ≠ "") ∨ p.name ≠ "") ∧
      ((n.city ≠ "" ∧ n.state ≠ "") ∨ n.name ≠ "") := by
  rw [ValidateLoad_none_iff, validateLoadErrors_eq_rules] at h
  unfold violatedRules loadRules at h
  rw [List.map_eq_nil_iff, List.filter_eq_nil_iff] at h
  simp only [List.mem_append, or_imp, forall_and, Bool.not_eq_true, and_assoc] at h
  rw [customerRules_ok, pickupRules_ok, consigneeRules_ok] at h
  obtain ⟨⟨c, hc, hc'⟩, ⟨p, hp, hp1, hp2⟩, ⟨n, hn, hn1, hn2⟩, _⟩ := h
  cases ht : n.apptTime with
  | none => exact absurd ht hn1
  | some t => exact ⟨c, p, n, t, hc, hp, hn, ht, hc', hp1, hp2, hn2⟩

theorem drumkitToTurvo_fields (lo : Char → Char) (sourceId : Nat) (load : Load)
    (c : Customer) (p : Pickup) (n : Consignee) (t s : Time)
    (hc : load.customer = some c) (hp : load.pickup = some p) (hn : load.consignee = some n)
    (ht : n.apptTime = some t)
    (hs : p.readyTime = some s ∨ (p.readyTime = none ∧ p.apptTime = some s)) :
    ∃ payload, drumkitToTurvo lo sourceId load = some payload ∧
      payload.startDate =
        { date := formatRFC3339 s,
          timeZone := if p.timezone != "" then p.timezone else "America/New_York" } ∧
      payload.endDate =
        { date := formatRFC3339 t,
          timeZone := if n.timezone != "" then n.timezone
            else if p.timezone != "" then p.timezone else "America/New_York" } ∧
      payload.lane.start =
        (if p.city != "" && p.state != "" then p.city ++ ", " ++ p.state else p.name) ∧
      payload.lane.end =
        (if n.city != "" && n.state != "" then n.city ++ ", " ++ n.state else n.name) := by
  unfold drumkitToTurvo
  rcases hs with hs | ⟨hs0, hs⟩
  · simp only [hc, hp, hn, ht, hs, Option.bind_eq_bind, Option.some_bind, Option.pure_def,
      bind_pure_comp, Option.map_some']
    exact ⟨_, rfl, rfl, rfl, rfl, rfl⟩
  · simp only [hc, hp, hn, ht, hs, hs0, Option.bind_eq_bind, Option.some_bind, Option.pure_def,
      bind_pure_comp, Option.map_some']
    exact ⟨_, rfl, rfl, rfl, rfl, rfl⟩

theorem start_time_cases (p : Pickup) (h : p.readyTime ≠ none ∨ p.apptTime ≠ none) :
    ∃ s, p.readyTime = some s ∨ (p.readyTime = none ∧ p.apptTime = some s) := by
  cases hr : p.readyTime with
  | some s => exact ⟨s, Or.inl rfl⟩
  | none =>
    cases ha : p.apptTime with
    | some s => exact ⟨s, Or.inr ⟨rfl, rfl⟩⟩
    | none => simp [hr, ha] at h

theorem drumkitToTurvo_equipment (lo : Char → Char) (sourceId : Nat) (load : Load)
    (c : Customer) (p : Pickup) (n : Consignee) (t s : Time)
    (hc : load.customer = some c) (hp : load.pickup = some p) (hn : load.consignee = some n)
    (ht : n.apptTime = some t)
    (hs : p.readyTime = some s ∨ (p.readyTime = none ∧ p.apptTime = some s)) :
    ∃ payload, drumkitToTurvo lo sourceId load = some payload ∧
      (load.totalWeight = none → load.specifications = none → payload.equipment = []) ∧
      ((load.totalWeight ≠ none ∨ load.specifications ≠ none) →
        ∃ e, payload.equipment = [e] ∧
          (∀ w, load.totalWeight = some w → e.weight = w) ∧
          (∀ sp, load.specifications = some sp →
            (∀ a b, sp.minTempFahrenheit = some a → sp.maxTempFahrenheit = some b →
              e.temp = (a + b) / 2) ∧
            (∀ a, sp.minTempFahrenheit = some a → sp.maxTempFahrenheit = none → e.temp = a) ∧
            (∀ b, sp.minTempFahrenheit = none → sp.maxTempFahrenheit = some b →
              e.temp = b))) := by
  unfold drumkitToTurvo
  rcases hs with hs | ⟨hs0, hs⟩
  all_goals simp only [*, Option.bind_eq_bind, Option.some_bind, Option.pure_def]
  all_goals refine ⟨_, rfl, ?_, ?_⟩
  all_goals first
    | (intro hw hsp
       simp only [hw, hsp, Option.isSome_none, Bool.or_self, Bool.false_eq_true, if_false])
    | (intro hor
       have hb : (load.totalWeight.isSome || load.specifications.isSome) = true := by
         rcases hor with h | h
         · simp [Option.isSome_iff_ne_none, h]
         · simp [Option.isSome_iff_ne_none, h]
       simp only [hb, if_true]
       refine ⟨_, rfl, ?_, ?_⟩
       · intro w hw
         simp only [hw]
         cases load.specifications with
         | none => rfl
         | some sp =>
           cases hmin : sp.minTempFahrenheit <;> cases hmax : sp.maxTempFahrenheit <;>
             simp only [hmin, hmax]
       · intro sp hsp
         simp only [hsp]
         refine ⟨?_, ?_, ?_⟩
         · intro a b ha hb; simp only [ha, hb]
         · intro a ha hb; simp only [ha, hb]
         · intro b ha hb; simp only [ha, hb])

theorem validated_payload (load : Load) (h : ValidateLoad load = none) :
    ∃ c p n t s, load.customer = some c ∧ load.pickup = some p ∧ load.consignee = some n ∧
      n.apptTime = some t ∧
      (p.readyTime = some s ∨ (p.readyTime = none ∧ p.apptTime = some s)) ∧
      ((p.city ≠ "" ∧ p.state ≠ "") ∨ p.name ≠ "") ∧
      ((n.city ≠ "" ∧ n.state ≠ "") ∨ n.name ≠ "") := by
  obtain ⟨c, p, n, t, hc, hp, hn, ht, _, hs, hlp, hln⟩ := validated_groups load h
  obtain ⟨s, hs'⟩ := start_time_cases p hs
  exact ⟨c, p, n, t, s, hc, hp, hn, ht, hs', hlp, hln⟩

/-- C11: on a load that `ValidateLoad` accepts, `drumkitToTurvo` meets no absent group or
timestamp (customer, pickup and consignee are present, so is the consignee's `apptTime`, and
the pickup's `apptTime` is present whenever its `readyTime` is not) and returns a payload. -/
theorem drumkitToTurvo_safe (lo : Char → Char) (sourceId : Nat) (load : Load)
    (h : ValidateLoad load = none) :
    (∃ c p n t, load.customer = some c ∧ load.pickup = some p ∧ load.consignee = some n ∧
        n.apptTime = some t ∧ (p.readyTime = none → p.apptTime ≠ none)) ∧
      ∃ payload, drumkitToTurvo lo sourceId load = some payload := by
  obtain ⟨c, p, n, t, s, hc, hp, hn, ht, hs, _, _⟩ := validated_payload load h
  obtain ⟨payload, hpl, _⟩ := drumkitToTurvo_fields lo sourceId load c p n t s hc hp hn ht hs
  refine ⟨⟨c, p, n, t, hc, hp, hn, ht, ?_⟩, payload, hpl⟩
  intro hr
  rcases hs with hs | ⟨_, hs⟩
  · simp [hr] at hs
  · simp [hs]

theorem drumkitToTurvo_safe_witness :
    ∃ payload, drumkitToTurvo id 7 sampleLoad = some payload :=
  (drumkitToTurvo_safe id 7 sampleLoad (by decide)).2

theorem append_comma_ne_empty (a b : String) : a ++ ", " ++ b ≠ "" := by
  intro h
  have := congrArg String.length h
  simp only [String.length_append] at this
  have h2 : (", " : String).length = 2 := by decide
  have h0 : ("" : String).length = 0 := by decide
  omega

/-- C12: for a validated load, `lane.start` is "city, state" of the pickup when both are
non-empty and the pickup's name otherwise, `lane.end` likewise from the consignee, and both
are non-empty. -/
theorem lane_of_validated_load (lo : Char → Char) (sourceId : Nat) (load : Load)
    (payload : TurvoShipmentCreate) (hv : ValidateLoad load = none)
    (hpl : drumkitToTurvo lo sourceId load = some payload) :
    ∃ p n, load.pickup = some p ∧ load.consignee = some n ∧
      payload.lane.start =
        (if p.city ≠ "" ∧ p.state ≠ "" then p.city ++ ", " ++ p.state else p.name) ∧
      payload.lane.end =
        (if n.city ≠ "" ∧ n.state ≠ "" then n.city ++ ", " ++ n.state else n.name) ∧
      payload.lane.start ≠ "" ∧ payload.lane.end ≠ "" := by
  obtain ⟨c, p, n, t, s, hc, hp, hn, ht, hs, hlp, hln⟩ := validated_payload load hv
  obtain ⟨payload', hpl', _, _, h1, h2⟩ :=
    drumkitToTurvo_fields lo sourceId load c p n t s hc hp hn ht hs
  rw [hpl] at hpl'
  simp only [Option.some.injEq] at hpl'
  subst hpl'
  have e1 : payload.lane.start =
      (if p.city ≠ "" ∧ p.state ≠ "" then p.city ++ ", " ++ p.state else p.name) := by
    rw [h1]
    by_cases hcs : p.city ≠ "" ∧ p.state ≠ ""
    · simp [hcs]
    · rw [if_neg hcs]
      have : ¬ ((p.city != "" && p.state != "") = true) := by
        simpa [bne_iff_ne, Bool.and_eq_true] using hcs
      rw [if_neg this]
  have e2 : payload.lane.end =
      (if n.city ≠ "" ∧ n.state ≠ "" then n.city ++ ", " ++ n.state else n.name) := by
    rw [h2]
    by_cases hcs : n.city ≠ "" ∧ n.state ≠ ""
    · simp [hcs]
    · rw [if_neg hcs]
      have : ¬ ((n.city != "" && n.state != "") = true) := by
        simpa [bne_iff_ne, Bool.and_eq_true] using hcs
      rw [if_neg this]
  refine ⟨p, n, hp, hn, e1, e2, ?_, ?_⟩
  · rw [e1]
    split_ifs with hcs
    · exact append_comma_ne_empty _ _
    · exact hlp.resolve_left hcs
  · rw [e2]
    split_ifs with hcs
    · exact append_comma_ne_empty _ _
    · exact hln.resolve_left hcs

theorem lane_of_validated_load_witness :
    ∃ p n, sampleLoad.pickup = some p ∧ sampleLoad.consignee = some n ∧
      ((drumkitToTurvo id 7 sampleLoad).getD {}).lane.start =
        (if p.city ≠ "" ∧ p.state ≠ "" then p.city ++ ", " ++ p.state else p.name) ∧
      ((drumkitToTurvo id 7 sampleLoad).getD {}).lane.end =
        (if n.city ≠ "" ∧ n.state ≠ "" then n.city ++ ", " ++ n.state else n.name) ∧
      ((drumkitToTurvo id 7 sampleLoad).getD {}).lane.start ≠ "" ∧
      ((drumkitToTurvo id 7 sampleLoad).getD {}).lane.end ≠ "" :=
  lane_of_validated_load id 7 sampleLoad _ (by decide) rfl

/-- C13: for a validated load, `startDate` renders the pickup's `readyTime` when present and
its `apptTime` otherwise, in the pickup's timezone or "America/New_York" when that is empty;
`endDate` renders the consignee's `apptTime`, in the consignee's timezone or, when that is
empty, in the time zone resolved for the start date. -/
theorem dates_of_validated_load (lo : Char → Char) (sourceId : Nat) (load : Load)
    (payload : TurvoShipmentCreate) (hv : ValidateLoad load = none)
    (hpl : drumkitToTurvo lo sourceId load = some payload) :
    ∃ p n t, load.pickup = some p ∧ load.consignee = some n ∧ n.apptTime = some t ∧
      (∀ r, p.readyTime = some r → payload.startDate.date = formatRFC3339 r) ∧
      (∀ a, p.readyTime = none → p.apptTime = some a →
        payload.startDate.date = formatRFC3339 a) ∧
      payload.startDate.timeZone =
        (if p.timezone = "" then "America/New_York" else p.timezone) ∧
      payload.endDate.date = formatRFC3339 t ∧
      payload.endDate.timeZone =
        (if n.timezone = "" then payload.startDate.timeZone else n.timezone) := by
  obtain ⟨c, p, n, t, s, hc, hp, hn, ht, hs, _, _⟩ := validated_payload load hv
  obtain ⟨payload', hpl', h1, h2, _, _⟩ :=
    drumkitToTurvo_fields lo sourceId load c p n t s hc hp hn ht hs
  rw [hpl] at hpl'
  simp only [Option.some.injEq] at hpl'
  subst hpl'
  refine ⟨p, n, t, hp, hn, ht, ?_, ?_, ?_, ?_, ?_⟩
  · intro r hr
    rw [h1]
    rcases hs with hs | ⟨hs0, _⟩
    · rw [hr] at hs
      simp only [Option.some.injEq] at hs
      rw [hs]
    · rw [hr] at hs0
      simp at hs0
  · intro a hr ha
    rw [h1]
    rcases hs with hs | ⟨_, hs⟩
    · rw [hr] at hs
      simp at hs
    · rw [ha] at hs
      simp only [Option.some.injEq] at hs
      rw [hs]
  · rw [h1]
    by_cases hz : p.timezone = "" <;> simp [hz]
  · rw [h2]
  · rw [h1, h2]
    by_cases hz : n.timezone = "" <;> by_cases hy : p.timezone = "" <;> simp [hz, hy]

theorem dates_of_validated_load_witness :
    ∃ p n t, sampleLoad.pickup = some p ∧ sampleLoad.consignee = some n ∧
      n.apptTime = some t ∧
      (∀ r, p.readyTime = some r →
        ((drumkitToTurvo id 7 sampleLoad).getD {}).startDate.date = formatRFC3339 r) ∧
      (∀ a, p.readyTime = none → p.apptTime = some a →
        ((drumkitToTurvo id 7 sampleLoad).getD {}).startDate.date = formatRFC3339 a) ∧
      ((drumkitToTurvo id 7 sampleLoad).getD {}).startDate.timeZone =
        (if p.timezone = "" then "America/New_York" else p.timezone) ∧
      ((drumkitToTurvo id 7 sampleLoad).getD {}).endDate.date = formatRFC3339 t ∧
      ((drumkitToTurvo id 7 sampleLoad).getD {}).endDate.timeZone =
        (if n.timezone = "" then ((drumkitToTurvo id 7 sampleLoad).getD {}).startDate.timeZone
          else n.timezone) :=
  dates_of_validated_load id 7 sampleLoad _ (by decide) rfl

/-- C14: for a validated load, the payload has an equipment block exactly when the load has
a total weight or a specifications group, and then it has exactly one. -/
theorem equipment_of_validated_load (lo : Char → Char) (sourceId : Nat) (load : Load)
    (payload : TurvoShipmentCreate) (hv : ValidateLoad load = none)
    (hpl : drumkitToTurvo lo sourceId load = some payload) :
    (payload.equipment ≠ [] ↔ (load.totalWeight ≠ none ∨ load.specifications ≠ none)) ∧
      (payload.equipment ≠ [] → payload.equipment.length = 1) := by
  obtain ⟨c, p, n, t, s, hc, hp, hn, ht, hs, _, _⟩ := validated_payload load hv
  obtain ⟨payload', hpl', h1, h2⟩ :=
    drumkitToTurvo_equipment lo sourceId load c p n t s hc hp hn ht hs
  rw [hpl] at hpl'
  simp only [Option.some.injEq] at hpl'
  subst hpl'
  by_cases hor : load.totalWeight ≠ none ∨ load.specifications ≠ none
  · obtain ⟨e, he, _⟩ := h2 hor
    simp [he, hor]
  · have hw : load.totalWeight = none := by
      by_contra hw
      exact hor (Or.inl hw)
    have hsp : load.specifications = none := by
      by_contra hsp
      exact hor (Or.inr hsp)
    simp [h1 hw hsp, hw, hsp]

theorem equipment_of_validated_load_witness :
    (((drumkitToTurvo id 7 sampleLoad).getD {}).equipment ≠ [] ↔
        (sampleLoad.totalWeight ≠ none ∨ sampleLoad.specifications ≠ none)) ∧
      (((drumkitToTurvo id 7 sampleLoad).getD {}).equipment ≠ [] →
        ((drumkitToTurvo id 7 sampleLoad).getD {}).equipment.length = 1) :=
  equipment_of_validated_load id 7 sampleLoad _ (by decide) rfl

/-- C15: for a validated load with a specifications group, the one emitted equipment block
carries the temperature `(min + max) / 2` when both bounds are given and the single bound when
one is given, which is the choice `equipmentTemp`; over the rationals that choice lies between
`min` and `max` whenever `min ≤ max`. -/
theorem temperature_of_validated_load (lo : Char → Char) (sourceId : Nat) (load : Load)
    (payload : TurvoShipmentCreate) (sp : Specifications) (hv : ValidateLoad load = none)
    (hpl : drumkitToTurvo lo sourceId load = some payload)
    (hsp : load.specifications = some sp) :
    (∃ e, payload.equipment = [e] ∧
      (∀ a b, sp.minTempFahrenheit = some a → sp.maxTempFahrenheit = some b →
        e.temp = (a + b) / 2) ∧
      (∀ a, sp.minTempFahrenheit = some a → sp.maxTempFahrenheit = none → e.temp = a) ∧
      (∀ b, sp.minTempFahrenheit = none → sp.maxTempFahrenheit = some b → e.temp = b) ∧
      (∀ x, equipmentTemp sp.minTempFahrenheit sp.maxTempFahrenheit = some x → e.temp = x)) ∧
      (∀ a b x : ℚ, a ≤ b → equipmentTemp (some a) (some b) = some x → a ≤ x ∧ x ≤ b) ∧
      (∀ a : ℚ, equipmentTemp (some a) none = some a ∧ equipmentTemp none (some a) = some a) := by
  obtain ⟨c, p, n, t, s, hc, hp, hn, ht, hs, _, _⟩ := validated_payload load hv
  obtain ⟨payload', hpl', _, h2⟩ :=
    drumkitToTurvo_equipment lo sourceId load c p n t s hc hp hn ht hs
  rw [hpl] at hpl'
  simp only [Option.some.injEq] at hpl'
  subst hpl'
  obtain ⟨e, he, _, htemp⟩ := h2 (Or.inr (by simp [hsp]))
  obtain ⟨hboth, hmin, hmax⟩ := htemp sp hsp
  refine ⟨⟨e, he, hboth, hmin, hmax, ?_⟩, ?_, fun a => ⟨rfl, rfl⟩⟩
  · intro x hx
    cases ha : sp.minTempFahrenheit with
    | none =>
      cases hb : sp.maxTempFahrenheit with
      | none => simp [equipmentTemp, ha, hb] at hx
      | some b =>
        simp only [equipmentTemp, ha, hb, Option.some.injEq] at hx
        rw [← hx]; exact hmax b ha hb
    | some a =>
      cases hb : sp.maxTempFahrenheit with
      | none =>
        simp only [equipmentTemp, ha, hb, Option.some.injEq] at hx
        rw [← hx]; exact hmin a ha hb
      | some b =>
        simp only [equipmentTemp, ha, hb, Option.some.injEq] at hx
        rw [← hx]; exact hboth a b ha hb
  · intro a b x hab hx
    simp only [equipmentTemp, Option.some.injEq] at hx
    subst hx
    constructor <;> linarith

theorem temperature_of_validated_load_witness :
    ∃ e, ((drumkitToTurvo id 7 sampleLoad).getD {}).equipment = [e] ∧
      e.temp = ((34 : Float) + 38) / 2 := by
  obtain ⟨⟨e, he, hboth, _⟩, _⟩ :=
    temperature_of_validated_load id 7 sampleLoad _
      { minTempFahrenheit := some 34, maxTempFahrenheit := some 38 } (by decide) rfl rfl
  exact ⟨e, he, hboth 34 38 rfl rfl⟩

theorem partyToConsignee_customer (load : Load) (party : TurvoPartyOrder) :
    (partyToConsignee load party).customer = load.customer ∧
      (partyToConsignee load party).carrier = load.carrier := by
  unfold partyToConsignee
  split_ifs <;> exact ⟨rfl, rfl⟩

theorem foldl_partyToConsignee_customer (parties : List TurvoPartyOrder) :
    ∀ load : Load, (parties.foldl partyToConsignee load).customer = load.customer ∧
      (parties.foldl partyToConsignee load).carrier = load.carrier := by
  induction parties with
  | nil => intro load; exact ⟨rfl, rfl⟩
  | cons p ps ih =>
    intro load
    simp only [List.foldl_cons]
    obtain ⟨h1, h2⟩ := ih (partyToConsignee load p)
    obtain ⟨h3, h4⟩ := partyToConsignee_customer load p
    exact ⟨h1.trans h3, h2.trans h4⟩

theorem partyToConsignee_consignee (load : Load) (party : TurvoPartyOrder) :
    (partyToConsignee load party).consignee =
      match load.consignee with
      | some c => some c
      | none =>
        if (!party.deleted && party.account.name != "") = true then
          some (consigneeOfParty party)
        else none := by
  unfold partyToConsignee consigneeOfParty
  cases hc : load.consignee with
  | some c => split_ifs <;> simp_all
  | none =>
    simp only [hc, Option.isNone_none, if_true]
    split_ifs <;> first | rfl | exact hc

theorem foldl_partyToConsignee_consignee (parties : List TurvoPartyOrder) :
    ∀ load : Load, (parties.foldl partyToConsignee load).consignee =
      match load.consignee with
      | some c => some c
      | none =>
        (parties.find? (fun p => !p.deleted && p.account.name != "")).map consigneeOfParty := by
  induction parties with
  | nil => intro load; cases h : load.consignee <;> simp [h]
  | cons p ps ih =>
    intro load
    simp only [List.foldl_cons]
    rw [ih, partyToConsignee_consignee]
    cases hc : load.consignee with
    | some c => rfl
    | none =>
      simp only [List.find?_cons]
      cases hb : (!p.deleted && p.account.name != "") <;> simp

/-- C16 (as the code has it): in the list view the customer and the carrier come from the
first entry of their order array and from no other. When the first customer order is not
deleted and has a name, the customer carries that name and, when the id is positive, the
decimal id as `externalTMSId`; when the first carrier order is not deleted and has a name,
the carrier carries that name. When the first entry is deleted or nameless, or the array is
empty, no customer (carrier) is produced, whatever the later entries are. -/
theorem turvoToDrumkit_first_order (lo : Char → Char) (shipment : TurvoShipment) :
    (turvoToDrumkit lo shipment).customer =
        (match shipment.customerOrder with
          | o :: _ =>
            if o.deleted = false ∧ o.customer.name ≠ "" then
              some { name := o.customer.name,
                     externalTMSId := if o.customer.id > 0 then formatInt o.customer.id else "" }
            else none
          | [] => none) ∧
      (turvoToDrumkit lo shipment).carrier.map (fun c => c.name) =
        (match shipment.carrierOrder with
          | o :: _ => if o.deleted = false ∧ o.carrier.name ≠ "" then some o.carrier.name else none
          | [] => none) := by
  unfold turvoToDrumkit
  simp only []
  constructor
  · rw [(foldl_partyToConsignee_customer _ _).1]
    rcases shipment.customerOrder with _ | ⟨o, _⟩ <;>
      rcases shipment.carrierOrder with _ | ⟨o', _⟩ <;>
      simp only [] <;> split_ifs <;> simp_all
  · rw [(foldl_partyToConsignee_customer _ _).2]
    rcases shipment.customerOrder with _ | ⟨o, _⟩ <;>
      rcases shipment.carrierOrder with _ | ⟨o', _⟩ <;>
      simp only [] <;> (try split_ifs) <;> simp_all

/-- C16 (as stated) fails: the order arrays of `deletedFirstShipment` hold non-deleted
entries after a deleted one, and no customer and no carrier is produced. -/
theorem turvoToDrumkit_ignores_later_orders :
    (deletedFirstShipment.customerOrder.find? (fun o => !o.deleted)).map
        (fun o => (o.customer.name, o.customer.id)) = some ("Acme Produce", 2) ∧
      (deletedFirstShipment.carrierOrder.find? (fun o => !o.deleted)).map
        (fun o => (o.carrier.name, o.carrier.id)) = some ("Swift Lines", 4) ∧
      (turvoToDrumkit id deletedFirstShipment).customer.isNone = true ∧
      (turvoToDrumkit id deletedFirstShipment).carrier.isNone = true := by
  decide

/-- C17 (as the code has it): in the list view the consignee comes from the first party
entry that is not deleted and has a name, with the decimal id as `externalTMSId` when the id
is positive; no consignee is produced when no such entry exists, in particular when every
party entry is deleted. -/
theorem turvoToDrumkit_consignee (lo : Char → Char) (shipment : TurvoShipment) :
    (turvoToDrumkit lo shipment).consignee =
        (shipment.party.find? (fun p => !p.deleted && p.account.name != "")).map
          (fun p => { name := p.account.name,
                      externalTMSId := if p.account.id > 0 then formatInt p.account.id else "" }) ∧
      ((∀ p ∈ shipment.party, p.deleted = true) →
        (turvoToDrumkit lo shipment).consignee = none) := by
  have h : (turvoToDrumkit lo shipment).consignee =
      (shipment.party.find? (fun p => !p.deleted && p.account.name != "")).map
        consigneeOfParty := by
    unfold turvoToDrumkit
    simp only []
    rw [foldl_partyToConsignee_consignee]
    rcases shipment.customerOrder with _ | ⟨o, _⟩ <;>
      rcases shipment.carrierOrder with _ | ⟨o', _⟩ <;>
      simp only [] <;> split_ifs <;> rfl
  refine ⟨h, ?_⟩
  intro hall
  rw [h]
  have : shipment.party.find? (fun p => !p.deleted && p.account.name != "") = none := by
    rw [List.find?_eq_none]
    intro p hp
    simp [hall p hp]
  rw [this]; rfl

/-- C17 (as stated) fails: the first non-deleted party of `namelessPartyShipment` has the
empty name and id 1, and the consignee carries the name and id of the second party. -/
theorem turvoToDrumkit_skips_nameless_party :
    (namelessPartyShipment.party.find? (fun p => !p.deleted)).map
        (fun p => (p.account.name, p.account.id)) = some ("", 1) ∧
      (turvoToDrumkit id namelessPartyShipment).consignee.map
        (fun c => (c.name, c.externalTMSId)) = some ("Reno DC", "2") := by
  decide

theorem turvoToDrumkit_consignee_witness :
    (turvoToDrumkit id
        { party := [ { deleted := true, account := { name := "Reno DC", id := 5 } } ] }).consignee =
      none :=
  (turvoToDrumkit_consignee id
    { party := [ { deleted := true, account := { name := "Reno DC", id := 5 } } ] }).2
    (by decide)

theorem pickupFromStop_eq (parse : String → Option Time) (p : Pickup)
    (stop : TurvoGlobalRouteStopResponse) :
    pickupFromStop parse p stop =
      { p with
        name := stop.name
        timezone := if stop.timezone != "" then stop.timezone else p.timezone
        apptNote := if stop.notes != "" then stop.notes else p.apptNote
        apptTime :=
          match stopApptTime parse stop with
          | some t => some t
          | none => p.apptTime
        readyTime :=
          match stopApptTime parse stop with
          | some t => if p.readyTime.isNone then some t else p.readyTime
          | none => p.readyTime
        addressLine1 :=
          match stop.address with
          | some a => a.line1
          | none => p.addressLine1
        city :=
          match stop.address with
          | some a => a.city
          | none => p.city
        state :=
          match stop.address with
          | some a => a.state
          | none => p.state
        zipcode :=
          match stop.address with
          | some a => a.zip
          | none => p.zipcode
        contact :=
          match stop.contact with
          | some c => c.name
          | none => p.contact } := by
  unfold pickupFromStop stopApptTime
  cases h1 : (stop.timezone != "") <;> cases h2 : (stop.notes != "") <;>
    rcases stop.contact with _ | c <;> rcases stop.address with _ | a <;>
    rcases stop.appointment with _ | ap <;> simp only [Bool.false_eq_true, if_false, if_true] <;>
    first
      | rfl
      | (cases h3 : (ap.date != "") <;> simp only [Bool.false_eq_true, if_false, if_true] <;>
          first
            | rfl
            | (cases h4 : parse ap.date <;> simp only [] <;>
                first
                  | rfl
                  | (cases h5 : p.readyTime.isNone <;>
                      simp only [Bool.false_eq_true, if_false, if_true])))

theorem consigneeFromStop_eq (parse : String → Option Time) (n : Consignee)
    (stop : TurvoGlobalRouteStopResponse) :
    consigneeFromStop parse n stop =
      { n with
        name := stop.name
        timezone := if stop.timezone != "" then stop.timezone else n.timezone
        apptNote := if stop.notes != "" then stop.notes else n.apptNote
        apptTime :=
          match stopApptTime parse stop with
          | some t => some t
          | none => n.apptTime
        addressLine1 :=
          match stop.address with
          | some a => a.line1
          | none => n.addressLine1
        city :=
          match stop.address with
          | some a => a.city
          | none => n.city
        state :=
          match stop.address with
          | some a => a.state
          | none => n.state
        zipcode :=
          match stop.address with
          | some a => a.zip
          | none => n.zipcode
        contact :=
          match stop.contact with
          | some c => c.name
          | none => n.contact } := by
  unfold consigneeFromStop stopApptTime
  cases h1 : (stop.timezone != "") <;> cases h2 : (stop.notes != "") <;>
    rcases stop.contact with _ | c <;> rcases stop.address with _ | a <;>
    rcases stop.appointment with _ | ap <;> simp only [Bool.false_eq_true, if_false, if_true] <;>
    first
      | rfl
      | (cases h3 : (ap.date != "") <;> simp only [Bool.false_eq_true, if_false, if_true] <;>
          first
            | rfl
            | (cases h4 : parse ap.date <;> simp only []))

theorem pickupFromRouteStop_eq (p : Pickup) (stop : TurvoRouteStop) :
    pickupFromRouteStop p stop =
      { p with
        addressLine1 :=
          match stop.address with
          | some a => a.line1
          | none => p.addressLine1
        city :=
          match stop.address with
          | some a => a.city
          | none => p.city
        state :=
          match stop.address with
          | some a => a.state
          | none => p.state
        zipcode :=
          match stop.address with
          | some a => a.zip
          | none => p.zipcode
        phone := if stop.phone != "" then stop.phone else p.phone
        email := if stop.email != "" then stop.email else p.email
        contact :=
          match stop.contact with
          | some c => c.name
          | none => p.contact } := by
  unfold pickupFromRouteStop
  cases h1 : (stop.phone != "") <;> cases h2 : (stop.email != "") <;>
    rcases stop.contact with _ | c <;> rcases stop.address with _ | a <;>
    simp only [Bool.false_eq_true, if_false, if_true]

theorem consigneeFromRouteStop_eq (n : Consignee) (stop : TurvoRouteStop) :
    consigneeFromRouteStop n stop =
      { n with
        addressLine1 :=
          match stop.address with
          | some a => a.line1
          | none => n.addressLine1
        city :=
          match stop.address with
          | some a => a.city
          | none => n.city
        state :=
          match stop.address with
          | some a => a.state
          | none => n.state
        zipcode :=
          match stop.address with
          | some a => a.zip
          | none => n.zipcode
        phone := if stop.phone != "" then stop.phone else n.phone
        email := if stop.email != "" then stop.email else n.email
        contact :=
          match stop.contact with
          | some c => c.name
          | none => n.contact } := by
  unfold consigneeFromRouteStop
  cases h1 : (stop.phone != "") <;> cases h2 : (stop.email != "") <;>
    rcases stop.contact with _ | c <;> rcases stop.address with _ | a <;>
    simp only [Bool.false_eq_true, if_false, if_true]

theorem bne_empty_ite (s t u : String) :
    (if (s != "") = true then t else u) = (if s = "" then u else t) := by
  by_cases h : s = ""
  · subst h; rfl
  · have hb : (s != "") = true := by simpa [bne_iff_ne] using h
    rw [if_pos hb, if_neg h]

/-- C18 (as the code has it): a non-deleted stop of the global route never clears the
timezone, the note or the appointment-time of the group it is classified to (a pickup stop
also keeps a ready-time that is set); the name is always replaced by the stop's name, the
address line, city, state and zip are replaced together by the stop's address whenever the
stop has an address group, and the contact by the stop's contact name whenever it has a contact
group, empty values included; the other group is left as it is. -/
theorem globalRouteStop_fields (parse : String → Option Time) (load : Load)
    (stop : TurvoGlobalRouteStopResponse) (hd : stop.deleted = false) :
    ((stop.stopType.value == "Pickup" || stop.stopType.key == "1500") = true →
      ∃ p', (globalRouteStop parse load stop).pickup = some p' ∧
        (globalRouteStop parse load stop).consignee = load.consignee ∧
        p'.name = stop.name ∧
        p'.timezone =
          (if stop.timezone = "" then (load.pickup.getD {}).timezone else stop.timezone) ∧
        p'.apptNote =
          (if stop.notes = "" then (load.pickup.getD {}).apptNote else stop.notes) ∧
        ((load.pickup.getD {}).apptTime ≠ none → p'.apptTime ≠ none) ∧
        ((load.pickup.getD {}).readyTime ≠ none →
          p'.readyTime = (load.pickup.getD {}).readyTime) ∧
        (stop.address = none →
          p'.addressLine1 = (load.pickup.getD {}).addressLine1 ∧
          p'.city = (load.pickup.getD {}).city ∧ p'.state = (load.pickup.getD {}).state ∧
          p'.zipcode = (load.pickup.getD {}).zipcode) ∧
        (∀ a, stop.address = some a →
          p'.addressLine1 = a.line1 ∧ p'.city = a.city ∧ p'.state = a.state ∧
          p'.zipcode = a.zip) ∧
        (stop.contact = none → p'.contact = (load.pickup.getD {}).contact) ∧
        (∀ c, stop.contact = some c → p'.contact = c.name)) ∧
    ((stop.stopType.value == "Pickup" || stop.stopType.key == "1500") = false →
      ∃ n', (globalRouteStop parse load stop).consignee = some n' ∧
        (globalRouteStop parse load stop).pickup = load.pickup ∧
        n'.name = stop.name ∧
        n'.timezone =
          (if stop.timezone = "" then (load.consignee.getD {}).timezone else stop.timezone) ∧
        n'.apptNote =
          (if stop.notes = "" then (load.consignee.getD {}).apptNote else stop.notes) ∧
        ((load.consignee.getD {}).apptTime ≠ none → n'.apptTime ≠ none) ∧
        (stop.address = none →
          n'.addressLine1 = (load.consignee.getD {}).addressLine1 ∧
          n'.city = (load.consignee.getD {}).city ∧
          n'.state = (load.consignee.getD {}).state ∧
          n'.zipcode = (load.consignee.getD {}).zipcode) ∧
        (∀ a, stop.address = some a →
          n'.addressLine1 = a.line1 ∧ n'.city = a.city ∧ n'.state = a.state ∧
          n'.zipcode = a.zip) ∧
        (stop.contact = none → n'.contact = (load.consignee.getD {}).contact) ∧
        (∀ c, stop.contact = some c → n'.contact = c.name)) := by
  constructor
  · intro hp
    refine ⟨pickupFromStop parse (load.pickup.getD {}) stop, ?_, ?_, ?_⟩
    · unfold globalRouteStop; simp only [hd, hp, Bool.false_eq_true, if_false, if_true]
    · unfold globalRouteStop; simp only [hd, hp, Bool.false_eq_true, if_false, if_true]
    · rw [pickupFromStop_eq]
      generalize load.pickup.getD {} = p
      refine ⟨rfl, bne_empty_ite _ _ _, bne_empty_ite _ _ _, ?_, ?_, ?_, ?_, ?_, ?_⟩
      · intro h
        cases stopApptTime parse stop <;> simp [h]
      · intro h
        cases hr : p.readyTime with
        | none => exact absurd hr h
        | some r => cases stopApptTime parse stop <;> simp [hr]
      · intro h; simp [h]
      · intro a h; simp [h]
      · intro h; simp only [h]
      · intro c h; simp only [h]
  · intro hp
    refine ⟨consigneeFromStop parse (load.consignee.getD {}) stop, ?_, ?_, ?_⟩
    · unfold globalRouteStop; simp only [hd, hp, Bool.false_eq_true, if_false, if_true]
    · unfold globalRouteStop; simp only [hd, hp, Bool.false_eq_true, if_false, if_true]
    · rw [consigneeFromStop_eq]
      generalize load.consignee.getD {} = n
      refine ⟨rfl, bne_empty_ite _ _ _, bne_empty_ite _ _ _, ?_, ?_, ?_, ?_, ?_⟩
      · intro h
        cases stopApptTime parse stop <;> simp [h]
      · intro h; simp [h]
      · intro a h; simp [h]
      · intro h; simp only [h]
      · intro c h; simp only [h]

theorem mapIdentity_poNums (sh : TurvoShipmentCreateDetails) (load : Load) :
    (mapIdentity sh load).poNums = load.poNums := by
  unfold mapIdentity
  simp only []
  split_ifs <;> rfl

theorem mapStatus_poNums (lo : Char → Char) (sh : TurvoShipmentCreateDetails) (load : Load) :
    (mapStatus lo sh load).poNums = load.poNums := by
  unfold mapStatus
  cases sh.status with
  | none => rfl
  | some st => simp only []; split_ifs <;> rfl

theorem mapDates_poNums (parse : String → Option Time) (sh : TurvoShipmentCreateDetails)
    (load : Load) : (mapDates parse sh load).poNums = load.poNums := by
  unfold mapDates
  cases parse sh.startDate.date <;> cases parse sh.endDate.date <;> simp only [] <;>
    split_ifs <;> rfl

theorem mapLane_poNums (sh : TurvoShipmentCreateDetails) (load : Load) :
    (mapLane sh load).poNums = load.poNums := by
  unfold mapLane
  simp only []
  split_ifs <;> rfl

theorem mapBillTo_kept (sh : TurvoShipmentCreateDetails) (load : Load) :
    (mapBillTo sh load).pickup = load.pickup ∧ (mapBillTo sh load).consignee = load.consignee ∧
      (mapBillTo sh load).poNums = load.poNums := by
  unfold mapBillTo
  cases sh.party.find? _ <;> exact ⟨rfl, rfl, rfl⟩

theorem mapCarrierOrder_kept (sh : TurvoShipmentCreateDetails) (load : Load) :
    (mapCarrierOrder sh load).pickup = load.pickup ∧
      (mapCarrierOrder sh load).consignee = load.consignee ∧
      (mapCarrierOrder sh load).poNums = load.poNums := by
  unfold mapCarrierOrder
  cases sh.carrierOrder.find? _ <;> exact ⟨rfl, rfl, rfl⟩

theorem mapEquipment_kept (sh : TurvoShipmentCreateDetails) (load : Load) :
    (mapEquipment sh load).pickup = load.pickup ∧
      (mapEquipment sh load).consignee = load.consignee ∧
      (mapEquipment sh load).poNums = load.poNums := by
  unfold mapEquipment
  cases sh.equipment <;> exact ⟨rfl, rfl, rfl⟩

theorem mapSpecifications_kept (lo : Char → Char) (sh : TurvoShipmentCreateDetails)
    (load : Load) :
    (mapSpecifications lo sh load).pickup = load.pickup ∧
      (mapSpecifications lo sh load).consignee = load.consignee ∧
      (mapSpecifications lo sh load).poNums = load.poNums :=
  ⟨rfl, rfl, rfl⟩

theorem carrierOrderExternalIds_kept (lo : Char → Char) (load : Load)
    (co : TurvoCarrierOrderResponse) :
    (carrierOrderExternalIds lo load co).pickup = load.pickup ∧
      (carrierOrderExternalIds lo load co).consignee = load.consignee ∧
      (carrierOrderExternalIds lo load co).poNums = load.poNums := by
  unfold carrierOrderExternalIds
  split_ifs <;> exact ⟨rfl, rfl, rfl⟩

theorem mapCarrierExternalIds_kept (lo : Char → Char) (sh : TurvoShipmentCreateDetails)
    (load : Load) :
    (mapCarrierExternalIds lo sh load).pickup = load.pickup ∧
      (mapCarrierExternalIds lo sh load).consignee = load.consignee ∧
      (mapCarrierExternalIds lo sh load).poNums = load.poNums := by
  unfold mapCarrierExternalIds
  generalize sh.carrierOrder = cos
  induction cos generalizing load with
  | nil => exact ⟨rfl, rfl, rfl⟩
  | cons co rest ih =>
    simp only [List.foldl_cons]
    obtain ⟨h1, h2, h3⟩ := ih (carrierOrderExternalIds lo load co)
    obtain ⟨k1, k2, k3⟩ := carrierOrderExternalIds_kept lo load co
    exact ⟨h1.trans k1, h2.trans k2, h3.trans k3⟩

theorem mapCustomerRateData_kept (sh : TurvoShipmentCreateDetails) (load : Load) :
    (mapCustomerRateData sh load).pickup = load.pickup ∧
      (mapCustomerRateData sh load).consignee = load.consignee ∧
      (mapCustomerRateData sh load).poNums = load.poNums := by
  unfold mapCustomerRateData
  rcases sh.customerOrder with _ | ⟨co, _⟩
  · exact ⟨rfl, rfl, rfl⟩
  · simp only []
    rcases co.costs with _ | costs <;> simp only [] <;> split_ifs <;> exact ⟨rfl, rfl, rfl⟩

theorem carrierOrderRateData_kept (load : Load) (co : TurvoCarrierOrderResponse) :
    (carrierOrderRateData load co).pickup = load.pickup ∧
      (carrierOrderRateData load co).consignee = load.consignee ∧
      (carrierOrderRateData load co).poNums = load.poNums := by
  unfold carrierOrderRateData
  rcases co.costs with _ | costs
  · exact ⟨rfl, rfl, rfl⟩
  · cases h : (!co.deleted && !costs.deleted)
    · simp only [h, Bool.false_eq_true, if_false, and_self]
    · simp only [h, if_true, and_self]

theorem mapCarrierRateData_kept (sh : TurvoShipmentCreateDetails) (load : Load) :
    (mapCarrierRateData sh load).pickup = load.pickup ∧
      (mapCarrierRateData sh load).consignee = load.consignee ∧
      (mapCarrierRateData sh load).poNums = load.poNums := by
  unfold mapCarrierRateData
  generalize sh.carrierOrder = cos
  induction cos generalizing load with
  | nil => exact ⟨rfl, rfl, rfl⟩
  | cons co rest ih =>
    simp only [List.foldl_cons]
    obtain ⟨h1, h2, h3⟩ := ih (carrierOrderRateData load co)
    obtain ⟨k1, k2, k3⟩ := carrierOrderRateData_kept load co
    exact ⟨h1.trans k1, h2.trans k2, h3.trans k3⟩

theorem mapDistance_kept (sh : TurvoShipmentCreateDetails) (load : Load) :
    (mapDistance sh load).pickup = load.pickup ∧
      (mapDistance sh load).consignee = load.consignee ∧
      (mapDistance sh load).poNums = load.poNums := by
  unfold mapDistance
  rcases sh.customerOrder with _ | ⟨co, _⟩
  · exact ⟨rfl, rfl, rfl⟩
  · simp only []; split_ifs <;> exact ⟨rfl, rfl, rfl⟩

/-- The blocks of `turvoDetailsToDrumkit` after "Map customer order" leave the pickup group,
the consignee group and `poNums` as that block left them. -/
theorem turvoDetailsToDrumkit_kept (lo : Char → Char) (parse : String → Option Time)
    (sh : TurvoShipmentCreateDetails) :
    (turvoDetailsToDrumkit lo parse sh).pickup =
        (mapCustomerOrder sh (mapGlobalRoute parse sh (mapLane sh (mapDates parse sh
          (mapStatus lo sh (mapIdentity sh {})))))).pickup ∧
      (turvoDetailsToDrumkit lo parse sh).consignee =
        (mapCustomerOrder sh (mapGlobalRoute parse sh (mapLane sh (mapDates parse sh
          (mapStatus lo sh (mapIdentity sh {})))))).consignee ∧
      (turvoDetailsToDrumkit lo parse sh).poNums =
        (mapCustomerOrder sh (mapGlobalRoute parse sh (mapLane sh (mapDates parse sh
          (mapStatus lo sh (mapIdentity sh {})))))).poNums := by
  unfold turvoDetailsToDrumkit
  simp only []
  generalize mapCustomerOrder sh (mapGlobalRoute parse sh (mapLane sh (mapDates parse sh
    (mapStatus lo sh (mapIdentity sh {}))))) = L
  obtain ⟨a1, a2, a3⟩ := mapBillTo_kept sh L
  obtain ⟨b1, b2, b3⟩ := mapCarrierOrder_kept sh (mapBillTo sh L)
  obtain ⟨c1, c2, c3⟩ := mapEquipment_kept sh (mapCarrierOrder sh (mapBillTo sh L))
  obtain ⟨d1, d2, d3⟩ :=
    mapSpecifications_kept lo sh (mapEquipment sh (mapCarrierOrder sh (mapBillTo sh L)))
  obtain ⟨e1, e2, e3⟩ := mapCarrierExternalIds_kept lo sh
    (mapSpecifications lo sh (mapEquipment sh (mapCarrierOrder sh (mapBillTo sh L))))
  obtain ⟨f1, f2, f3⟩ := mapCustomerRateData_kept sh (mapCarrierExternalIds lo sh
    (mapSpecifications lo sh (mapEquipment sh (mapCarrierOrder sh (mapBillTo sh L)))))
  obtain ⟨g1, g2, g3⟩ := mapCarrierRateData_kept sh (mapCustomerRateData sh
    (mapCarrierExternalIds lo sh
      (mapSpecifications lo sh (mapEquipment sh (mapCarrierOrder sh (mapBillTo sh L))))))
  obtain ⟨h1, h2, h3⟩ := mapDistance_kept sh (mapCarrierRateData sh (mapCustomerRateData sh
    (mapCarrierExternalIds lo sh
      (mapSpecifications lo sh (mapEquipment sh (mapCarrierOrder sh (mapBillTo sh L)))))))
  exact ⟨by rw [h1, g1, f1, e1, d1, c1, b1, a1], by rw [h2, g2, f2, e2, d2, c2, b2, a2],
    by rw [h3, g3, f3, e3, d3, c3, b3, a3]⟩

theorem globalRouteStop_poNums (parse : String → Option Time) (load : Load)
    (stop : TurvoGlobalRouteStopResponse) :
    (globalRouteStop parse load stop).poNums =
      if (!stop.deleted && (stop.stopType.value == "Pickup" || stop.stopType.key == "1500") &&
          decide (stop.poNumbers.length > 0)) = true then
        Join stop.poNumbers ", "
      else load.poNums := by
  unfold globalRouteStop
  cases hd : stop.deleted <;>
    cases hp : (stop.stopType.value == "Pickup" || stop.stopType.key == "1500") <;>
    by_cases hl : stop.poNumbers.length > 0 <;>
    simp [hl]

theorem mapGlobalRoute_poNums (parse : String → Option Time)
    (sh : TurvoShipmentCreateDetails) (load : Load) :
    (mapGlobalRoute parse sh load).poNums =
      match lastPickupPoNumbers sh.globalRoute with
      | some pos => Join pos ", "
      | none => load.poNums := by
  unfold mapGlobalRoute
  generalize sh.globalRoute = stops
  induction stops using List.reverseRecOn with
  | nil => rfl
  | append_singleton l a ih =>
    rw [List.foldl_append, List.foldl_cons, List.foldl_nil, globalRouteStop_poNums, ih]
    unfold lastPickupPoNumbers
    rw [List.filter_append, List.getLast?_append]
    cases hb : (!a.deleted && (a.stopType.value == "Pickup" || a.stopType.key == "1500") &&
        decide (a.poNumbers.length > 0))
    · simp [List.filter_cons, hb]
    · simp [List.filter_cons, hb]

theorem customerRouteStop_poNums (load : Load) (stop : TurvoRouteStop) :
    (customerRouteStop load stop).poNums = load.poNums ∧
      (customerRouteStop load stop).customer = load.customer := by
  unfold customerRouteStop
  cases load.pickup <;> cases load.consignee <;> simp only [] <;> split_ifs <;>
    exact ⟨rfl, rfl⟩

theorem foldl_customerRouteStop_poNums (stops : List TurvoRouteStop) (load : Load) :
    (stops.foldl customerRouteStop load).poNums = load.poNums := by
  induction stops generalizing load with
  | nil => rfl
  | cons s rest ih =>
    simp only [List.foldl_cons]
    rw [ih, (customerRouteStop_poNums load s).1]

theorem foldl_customerExternalId (extIds : List TurvoExternalIdResponse)
    (state : Load × List String) :
    (extIds.foldl customerExternalId state).2 = state.2 ++ purchaseOrderValues extIds ∧
      (extIds.foldl customerExternalId state).1.poNums = state.1.poNums := by
  induction extIds generalizing state with
  | nil => simp [purchaseOrderValues]
  | cons e rest ih =>
    simp only [List.foldl_cons]
    obtain ⟨h1, h2⟩ := ih (customerExternalId state e)
    rw [h1, h2]
    unfold customerExternalId purchaseOrderValues
    cases hd : e.deleted <;>
      cases hk : (e.type.key == "1400" || e.type.value == "Purchase shipment #") <;>
      simp [List.filter_cons, hd, hk]
    split_ifs <;> simp

theorem mapCustomerOrder_poNums (sh : TurvoShipmentCreateDetails) (load : Load) :
    (mapCustomerOrder sh load).poNums =
      match sh.customerOrder with
      | custOrder :: _ =>
        if custOrder.deleted = false ∧ purchaseOrderValues custOrder.externalIds ≠ [] then
          Join (purchaseOrderValues custOrder.externalIds) ", "
        else load.poNums
      | [] => load.poNums := by
  unfold mapCustomerOrder
  rcases sh.customerOrder with _ | ⟨co, _⟩
  · rfl
  · simp only []
    cases hd : co.deleted
    · simp only [Bool.not_false, if_true, true_and]
      have hfold := fun (l : Load) => foldl_customerExternalId co.externalIds (l, [])
      simp only [List.nil_append] at hfold
      have hroute : ∀ l : Load,
          (if co.route.length > 0 then co.route.foldl customerRouteStop l else l).poNums =
            l.poNums := by
        intro l
        split_ifs
        · exact foldl_customerRouteStop_poNums _ _
        · rfl
      by_cases hlen : co.externalIds.length > 0
      · simp only [hlen, if_true]
        by_cases hpo : purchaseOrderValues co.externalIds = []
        · simp only [hpo, ne_eq, not_true, if_false, (hfold _).1, List.length_nil,
            gt_iff_lt, lt_self_iff_false, (hfold _).2, hroute]
        · have hpos : (purchaseOrderValues co.externalIds).length > 0 :=
            List.length_pos.mpr hpo
          simp only [hpo, ne_eq, not_false_eq_true, if_true, (hfold _).1, hpos]
      · have hnil : co.externalIds = [] := by
          cases h : co.externalIds with
          | nil => rfl
          | cons a b => simp [h] at hlen
        simp only [hnil, List.length_nil, gt_iff_lt, lt_self_iff_false, if_false,
          purchaseOrderValues, List.filter_nil, List.map_nil, ne_eq, not_true, hroute]
    · simp only [Bool.not_true, Bool.false_eq_true, if_false, Bool.true_eq_false, false_and]

theorem customerRouteStop_congr (l1 l2 : Load) (stop : TurvoRouteStop)
    (hp : l1.pickup = l2.pickup) (hn : l1.consignee = l2.consignee) :
    (customerRouteStop l1 stop).pickup = (customerRouteStop l2 stop).pickup ∧
      (customerRouteStop l1 stop).consignee = (customerRouteStop l2 stop).consignee := by
  unfold customerRouteStop
  rcases hp2 : l2.pickup with _ | p <;> rcases hn2 : l2.consignee with _ | n <;>
    rw [hp2] at hp <;> rw [hn2] at hn <;>
    simp only [hp, hn] <;> split_ifs <;> simp only [hp, hn, hp2, hn2, and_self]

theorem foldl_customerRouteStop_congr (stops : List TurvoRouteStop) (l1 l2 : Load)
    (hp : l1.pickup = l2.pickup) (hn : l1.consignee = l2.consignee) :
    (stops.foldl customerRouteStop l1).pickup = (stops.foldl customerRouteStop l2).pickup ∧
      (stops.foldl customerRouteStop l1).consignee =
        (stops.foldl customerRouteStop l2).consignee := by
  induction stops generalizing l1 l2 with
  | nil => exact ⟨hp, hn⟩
  | cons s rest ih =>
    simp only [List.foldl_cons]
    obtain ⟨h1, h2⟩ := customerRouteStop_congr l1 l2 s hp hn
    exact ih _ _ h1 h2

theorem customerExternalId_groups (state : Load × List String) (e : TurvoExternalIdResponse) :
    (customerExternalId state e).1.pickup = state.1.pickup ∧
      (customerExternalId state e).1.consignee = state.1.consignee := by
  unfold customerExternalId
  split_ifs <;> exact ⟨rfl, rfl⟩

theorem foldl_customerExternalId_groups (extIds : List TurvoExternalIdResponse)
    (state : Load × List String) :
    (extIds.foldl customerExternalId state).1.pickup = state.1.pickup ∧
      (extIds.foldl customerExternalId state).1.consignee = state.1.consignee := by
  induction extIds generalizing state with
  | nil => exact ⟨rfl, rfl⟩
  | cons e rest ih =>
    simp only [List.foldl_cons]
    obtain ⟨h1, h2⟩ := ih (customerExternalId state e)
    obtain ⟨k1, k2⟩ := customerExternalId_groups state e
    exact ⟨h1.trans k1, h2.trans k2⟩

theorem mapCustomerOrder_groups (sh : TurvoShipmentCreateDetails) (load : Load)
    (co : TurvoCustomerOrderResponse) (rest : List TurvoCustomerOrderResponse)
    (hco : sh.customerOrder = co :: rest) (hd : co.deleted = false) :
    (mapCustomerOrder sh load).pickup = (co.route.foldl customerRouteStop load).pickup ∧
      (mapCustomerOrder sh load).consignee =
        (co.route.foldl customerRouteStop load).consignee := by
  unfold mapCustomerOrder
  simp only [hco, hd, Bool.not_false, if_true]
  have hroute : ∀ l : Load,
      (if co.route.length > 0 then co.route.foldl customerRouteStop l else l) =
        co.route.foldl customerRouteStop l := by
    intro l
    split_ifs with h
    · rfl
    · cases hr : co.route with
      | nil => rfl
      | cons a b => simp [hr] at h
  simp only [hroute]
  have hcongr := fun (c : Option Customer) =>
    foldl_customerRouteStop_congr co.route { load with customer := c } load rfl rfl
  split_ifs
  all_goals first
    | exact hcongr _
    | exact ⟨(foldl_customerExternalId_groups _ _).1.trans (hcongr _).1,
        (foldl_customerExternalId_groups _ _).2.trans (hcongr _).2⟩

/-- C18 (as stated) fails: in `clearingStopShipment` the lane has named the pickup and set
its city and state before the only stop of the global route, which is not deleted, is
applied; after it the name, the city and the state are empty. -/
theorem globalRouteStop_clears_fields :
    clearingStopShipment.globalRoute.map (fun s => s.deleted) = [false] ∧
      (mapLane clearingStopShipment (mapDates (fun _ => none) clearingStopShipment
          (mapStatus id clearingStopShipment (mapIdentity clearingStopShipment {})))).pickup.map
        (fun p => (p.name, p.city, p.state)) = some ("Dallas, TX", "Dallas", "TX") ∧
      (afterGlobalRoute id (fun _ => none) clearingStopShipment).pickup.map
        (fun p => (p.name, p.city, p.state)) = some ("", "", "") ∧
      (turvoDetailsToDrumkit id (fun _ => none) clearingStopShipment).pickup.map
        (fun p => (p.name, p.city, p.state)) = some ("", "", "") := by
  decide

theorem globalRouteStop_fields_witness :
    ∃ p', (globalRouteStop (fun _ => none)
          { pickup := some { name := "Dock 4", timezone := "America/Chicago",
                             apptNote := "call ahead" } }
          { stopType := { key := "1500", value := "Pickup" }, name := "Warehouse 7" }).pickup =
        some p' ∧
      p'.name = "Warehouse 7" ∧ p'.timezone = "America/Chicago" ∧
      p'.apptNote = "call ahead" := by
  obtain ⟨p', h1, _, h2, h3, h4, _⟩ :=
    (globalRouteStop_fields (fun _ => none)
      { pickup := some { name := "Dock 4", timezone := "America/Chicago",
                         apptNote := "call ahead" } }
      { stopType := { key := "1500", value := "Pickup" }, name := "Warehouse 7" } rfl).1
      (by decide)
  exact ⟨p', h1, h2, h3, h4⟩

/-- C19 (as the code has it): the customer order's own route is applied after the global
route and overwrites. A non-deleted stop of that route replaces the address line, city, state
and zip of the group it is classified to whenever it has an address group, the contact
whenever it has a contact group, and the phone and e-mail whenever its own are non-empty,
whatever the group held before; a group that is absent is not created. For a shipment whose
first customer order is not deleted, the pickup and consignee of the result are those obtained
by applying the stops of that route, in order, to the load left by the global route. -/
theorem customerRouteStop_overwrites (load : Load) (stop : TurvoRouteStop)
    (hd : stop.deleted = false) :
    ((stop.stopType.value == "Pickup" || stop.stopType.key == "1500") = true →
      (load.pickup = none → customerRouteStop load stop = load) ∧
      ∀ p, load.pickup = some p →
        ∃ p', (customerRouteStop load stop).pickup = some p' ∧
          (customerRouteStop load stop).consignee = load.consignee ∧
          (∀ a, stop.address = some a →
            p'.addressLine1 = a.line1 ∧ p'.city = a.city ∧ p'.state = a.state ∧
            p'.zipcode = a.zip) ∧
          (stop.address = none →
            p'.addressLine1 = p.addressLine1 ∧ p'.city = p.city ∧ p'.state = p.state ∧
            p'.zipcode = p.zipcode) ∧
          p'.phone = (if stop.phone = "" then p.phone else stop.phone) ∧
          p'.email = (if stop.email = "" then p.email else stop.email) ∧
          (∀ c, stop.contact = some c → p'.contact = c.name) ∧
          (stop.contact = none → p'.contact = p.contact)) ∧
    ((stop.stopType.value == "Pickup" || stop.stopType.key == "1500") = false →
      (load.consignee = none → customerRouteStop load stop = load) ∧
      ∀ n, load.consignee = some n →
        ∃ n', (customerRouteStop load stop).consignee = some n' ∧
          (customerRouteStop load stop).pickup = load.pickup ∧
          (∀ a, stop.address = some a →
            n'.addressLine1 = a.line1 ∧ n'.city = a.city ∧ n'.state = a.state ∧
            n'.zipcode = a.zip) ∧
          (stop.address = none →
            n'.addressLine1 = n.addressLine1 ∧ n'.city = n.city ∧ n'.state = n.state ∧
            n'.zipcode = n.zipcode) ∧
          n'.phone = (if stop.phone = "" then n.phone else stop.phone) ∧
          n'.email = (if stop.email = "" then n.email else stop.email) ∧
          (∀ c, stop.contact = some c → n'.contact = c.name) ∧
          (stop.contact = none → n'.contact = n.contact)) ∧
    (∀ (lo : Char → Char) (parse : String → Option Time) (sh : TurvoShipmentCreateDetails)
        (co : TurvoCustomerOrderResponse) (rest : List TurvoCustomerOrderResponse),
      sh.customerOrder = co :: rest → co.deleted = false →
        (turvoDetailsToDrumkit lo parse sh).pickup =
          (co.route.foldl customerRouteStop (afterGlobalRoute lo parse sh)).pickup ∧
        (turvoDetailsToDrumkit lo parse sh).consignee =
          (co.route.foldl customerRouteStop (afterGlobalRoute lo parse sh)).consignee) := by
  refine ⟨?_, ?_, ?_⟩
  · intro hp
    constructor
    · intro hnone
      unfold customerRouteStop
      simp only [hd, hp, hnone, Bool.false_eq_true, if_false, if_true]
    · intro p hsome
      refine ⟨pickupFromRouteStop p stop, ?_, ?_, ?_⟩
      · unfold customerRouteStop
        simp only [hd, hp, hsome, Bool.false_eq_true, if_false, if_true]
      · unfold customerRouteStop
        simp only [hd, hp, hsome, Bool.false_eq_true, if_false, if_true]
      · rw [pickupFromRouteStop_eq]
        refine ⟨?_, ?_, bne_empty_ite _ _ _, bne_empty_ite _ _ _, ?_, ?_⟩
        · intro a h; simp [h]
        · intro h; simp [h]
        · intro c h; simp only [h]
        · intro h; simp only [h]
  · intro hp
    constructor
    · intro hnone
      unfold customerRouteStop
      simp only [hd, hp, hnone, Bool.false_eq_true, if_false]
    · intro n hsome
      refine ⟨consigneeFromRouteStop n stop, ?_, ?_, ?_⟩
      · unfold customerRouteStop
        simp only [hd, hp, hsome, Bool.false_eq_true, if_false]
      · unfold customerRouteStop
        simp only [hd, hp, hsome, Bool.false_eq_true, if_false]
      · rw [consigneeFromRouteStop_eq]
        refine ⟨?_, ?_, bne_empty_ite _ _ _, bne_empty_ite _ _ _, ?_, ?_⟩
        · intro a h; simp [h]
        · intro h; simp [h]
        · intro c h; simp only [h]
        · intro h; simp only [h]
  · intro lo parse sh co rest hco hdel
    obtain ⟨k1, k2, _⟩ := turvoDetailsToDrumkit_kept lo parse sh
    obtain ⟨m1, m2⟩ := mapCustomerOrder_groups sh (afterGlobalRoute lo parse sh) co rest hco hdel
    unfold afterGlobalRoute at m1 m2 ⊢
    exact ⟨k1.trans m1, k2.trans m2⟩

theorem customerRouteStop_overwrites_witness :
    ∃ p', (customerRouteStop
          { pickup := some { name := "Austin Yard", city := "Austin", contact := "Ann" } }
          { stopType := { key := "1500", value := "Pickup" },
            address := some { line1 := "9 Elm St", city := "Dallas" },
            contact := some { name := "Bob" } }).pickup = some p' ∧
      p'.city = "Dallas" ∧ p'.contact = "Bob" := by
  obtain ⟨p', h1, _, h2, _, _, _, h3, _⟩ :=
    ((customerRouteStop_overwrites
      { pickup := some { name := "Austin Yard", city := "Austin", contact := "Ann" } }
      { stopType := { key := "1500", value := "Pickup" },
        address := some { line1 := "9 Elm St", city := "Dallas" },
        contact := some { name := "Bob" } } rfl).1 (by decide)).2 _ rfl
  exact ⟨p', h1, (h2 _ rfl).2.1, h3 _ rfl⟩

/-- C19 (as stated) fails: in `twoRouteShipment` the global route sets the pickup's city to
"Austin" and its contact to "Ann", and the result carries "Dallas" and "Bob" from the
customer order's own route. -/
theorem customer_route_overrides_global_route :
    (afterGlobalRoute id (fun _ => none) twoRouteShipment).pickup.map
        (fun p => (p.addressLine1, p.city, p.contact)) = some ("1 Main St", "Austin", "Ann") ∧
      (turvoDetailsToDrumkit id (fun _ => none) twoRouteShipment).pickup.map
        (fun p => (p.addressLine1, p.city, p.contact)) = some ("9 Elm St", "Dallas", "Bob") := by
  decide

/-- C20 (as the code has it): `poNums` holds the PO numbers of one source only, joined with
", ": the values of the non-deleted external identifiers typed "1400" or "Purchase shipment #"
of the first customer order, when that order is not deleted and has such an identifier;
otherwise the PO numbers of the last non-deleted pickup stop of the global route that has
any; otherwise nothing. -/
theorem turvoDetailsToDrumkit_poNums (lo : Char → Char) (parse : String → Option Time)
    (sh : TurvoShipmentCreateDetails) :
    (turvoDetailsToDrumkit lo parse sh).poNums =
      match sh.customerOrder with
      | custOrder :: _ =>
        if custOrder.deleted = false ∧ purchaseOrderValues custOrder.externalIds ≠ [] then
          Join (purchaseOrderValues custOrder.externalIds) ", "
        else
          match lastPickupPoNumbers sh.globalRoute with
          | some pos => Join pos ", "
          | none => ""
      | [] =>
        match lastPickupPoNumbers sh.globalRoute with
        | some pos => Join pos ", "
        | none => "" := by
  rw [(turvoDetailsToDrumkit_kept lo parse sh).2.2, mapCustomerOrder_poNums,
    mapGlobalRoute_poNums, mapLane_poNums, mapDates_poNums, mapStatus_poNums,
    mapIdentity_poNums]

/-- C20 (as stated) fails: `poShipment` has "PO-1" on a non-deleted pickup stop, "PO-2" on a
non-deleted delivery stop and "PO-3" as a customer-order identifier typed "1400"; the
resulting `poNums` is "PO-3", in which neither "PO-1" nor "PO-2" occurs. -/
theorem poNums_keeps_one_source :
    (turvoDetailsToDrumkit id (fun _ => none) poShipment).poNums = "PO-3" ∧
      Contains (turvoDetailsToDrumkit id (fun _ => none) poShipment).poNums "PO-1" = false ∧
      Contains (turvoDetailsToDrumkit id (fun _ => none) poShipment).poNums "PO-2" = false ∧
      (afterGlobalRoute id (fun _ => none) poShipment).poNums = "PO-1" := by
  decide

/-! ## The detail view: dates, flags, carrier identifiers and soft-deleted entries -/

theorem globalRouteStop_times (parse : String → Option Time) (load : Load)
    (stop : TurvoGlobalRouteStopResponse) :
    (globalRouteStop parse load stop).readyTime =
        (match load.readyTime with
          | some t => some t
          | none => if !stop.deleted && isPickupStop stop then stopApptTime parse stop else none) ∧
      (globalRouteStop parse load stop).deliveryTime =
        (match (if !stop.deleted && !isPickupStop stop then stopApptTime parse stop else none) with
          | some t => some t
          | none => load.deliveryTime) := by
  unfold globalRouteStop isPickupStop Load.readyTime Load.deliveryTime
  cases hd : stop.deleted <;>
    cases hp : (stop.stopType.value == "Pickup" || stop.stopType.key == "1500") <;>
    simp only [Bool.false_eq_true, if_false, if_true, Bool.not_false, Bool.not_true,
      Bool.and_true, Bool.and_false, Bool.true_and, Bool.false_and, Option.bind_some,
      Option.some_bind, pickupFromStop_eq, consigneeFromStop_eq]
  all_goals
    rcases load.pickup with _ | p <;> rcases load.consignee with _ | n <;>
      cases stopApptTime parse stop <;>
      simp only [Option.getD_none, Option.getD_some, Option.bind_none, Option.none_bind,
        Option.some_bind, Option.bind_some, Option.isNone_none, if_true, and_self, and_true] <;>
      (try (rcases p.readyTime with _ | r <;> simp))

theorem foldl_globalRouteStop_readyTime (parse : String → Option Time)
    (stops : List TurvoGlobalRouteStopResponse) (load : Load) :
    (stops.foldl (globalRouteStop parse) load).readyTime =
      (match load.readyTime with
        | some t => some t
        | none => (pickupAppointments parse stops).head?) := by
  induction stops generalizing load with
  | nil =>
    rw [List.foldl_nil]
    cases h : load.readyTime <;> rfl
  | cons s rest ih =>
    rw [List.foldl_cons, ih, (globalRouteStop_times parse load s).1]
    unfold pickupAppointments
    rw [List.filterMap_cons]
    cases load.readyTime with
    | some t => rfl
    | none =>
      cases (if (!s.deleted && isPickupStop s) = true then stopApptTime parse s else none) <;> rfl

theorem foldl_globalRouteStop_deliveryTime (parse : String → Option Time)
    (stops : List TurvoGlobalRouteStopResponse) (load : Load) :
    (stops.foldl (globalRouteStop parse) load).deliveryTime =
      (match (deliveryAppointments parse stops).getLast? with
        | some t => some t
        | none => load.deliveryTime) := by
  induction stops using List.reverseRecOn with
  | nil => rfl
  | append_singleton l a ih =>
    rw [List.foldl_append, List.foldl_cons, List.foldl_nil,
      (globalRouteStop_times parse _ a).2, ih]
    unfold deliveryAppointments
    rw [List.filterMap_append, List.getLast?_append]
    cases hc : (if (!a.deleted && !isPickupStop a) = true then stopApptTime parse a else none) <;>
      simp only [List.filterMap_cons, List.filterMap_nil, hc, List.getLast?_nil,
        List.getLast?_singleton, Option.or_none, Option.or_some, Option.none_or]

theorem customerRouteStop_times (load : Load) (stop : TurvoRouteStop) :
    (customerRouteStop load stop).readyTime = load.readyTime ∧
      (customerRouteStop load stop).deliveryTime = load.deliveryTime := by
  unfold customerRouteStop Load.readyTime Load.deliveryTime
  rcases hp : load.pickup with _ | p <;> rcases hn : load.consignee with _ | n <;>
    simp only [pickupFromRouteStop_eq, consigneeFromRouteStop_eq] <;> split_ifs <;>
    simp only [hp, hn, Option.some_bind, Option.none_bind, and_self]

theorem foldl_customerRouteStop_times (stops : List TurvoRouteStop) (load : Load) :
    (stops.foldl customerRouteStop load).readyTime = load.readyTime ∧
      (stops.foldl customerRouteStop load).deliveryTime = load.deliveryTime := by
  induction stops generalizing load with
  | nil => exact ⟨rfl, rfl⟩
  | cons s rest ih =>
    simp only [List.foldl_cons]
    obtain ⟨h1, h2⟩ := ih (customerRouteStop load s)
    obtain ⟨k1, k2⟩ := customerRouteStop_times load s
    exact ⟨h1.trans k1, h2.trans k2⟩

theorem mapCustomerOrder_times (sh : TurvoShipmentCreateDetails) (load : Load) :
    (mapCustomerOrder sh load).readyTime = load.readyTime ∧
      (mapCustomerOrder sh load).deliveryTime = load.deliveryTime := by
  rcases hco : sh.customerOrder with _ | ⟨co, rest⟩
  · unfold mapCustomerOrder
    rw [hco]
    exact ⟨rfl, rfl⟩
  · cases hd : co.deleted
    · obtain ⟨h1, h2⟩ := mapCustomerOrder_groups sh load co rest hco hd
      obtain ⟨k1, k2⟩ := foldl_customerRouteStop_times co.route load
      unfold Load.readyTime Load.deliveryTime at *
      rw [h1, h2]
      exact ⟨k1, k2⟩
    · unfold mapCustomerOrder
      rw [hco]
      simp only [hd, Bool.not_true, Bool.false_eq_true, if_false, and_self]

theorem pickupFromLane_readyTime (p : Pickup) (lane : String) :
    (pickupFromLane p lane).readyTime = p.readyTime := by
  unfold pickupFromLane
  simp only []
  split <;> split_ifs <;> rfl

theorem consigneeFromLane_apptTime (n : Consignee) (lane : String) :
    (consigneeFromLane n lane).apptTime = n.apptTime := by
  unfold consigneeFromLane
  simp only []
  split <;> split_ifs <;> rfl

theorem mapLane_times (sh : TurvoShipmentCreateDetails) (load : Load) :
    (mapLane sh load).readyTime = load.readyTime ∧
      (mapLane sh load).deliveryTime = load.deliveryTime := by
  unfold mapLane Load.readyTime Load.deliveryTime
  rcases hp : load.pickup with _ | p <;> rcases hn : load.consignee with _ | n <;>
    simp only [] <;> split_ifs <;>
    simp only [hp, hn, Option.some_bind, Option.none_bind, Option.getD_none, Option.getD_some,
      pickupFromLane_readyTime, consigneeFromLane_apptTime, and_self]

theorem mapDates_times (parse : String → Option Time) (sh : TurvoShipmentCreateDetails)
    (load : Load) :
    (mapDates parse sh load).readyTime =
        (match parseDate parse sh.startDate.date with
          | some t => some t
          | none => load.readyTime) ∧
      (mapDates parse sh load).deliveryTime =
        (match parseDate parse sh.endDate.date with
          | some t => some t
          | none => load.deliveryTime) := by
  unfold mapDates parseDate Load.readyTime Load.deliveryTime
  cases h1 : (sh.startDate.date != "") <;> cases h2 : (sh.endDate.date != "") <;>
    cases h3 : parse sh.startDate.date <;> cases h4 : parse sh.endDate.date <;>
    simp only [Bool.false_eq_true, if_false, if_true, Option.some_bind, and_self]

theorem mapStatus_groups (lo : Char → Char) (sh : TurvoShipmentCreateDetails) (load : Load) :
    (mapStatus lo sh load).pickup = load.pickup ∧
      (mapStatus lo sh load).consignee = load.consignee := by
  unfold mapStatus
  cases sh.status with
  | none => exact ⟨rfl, rfl⟩
  | some st => simp only []; split_ifs <;> exact ⟨rfl, rfl⟩

theorem mapIdentity_groups (sh : TurvoShipmentCreateDetails) (load : Load) :
    (mapIdentity sh load).pickup = load.pickup ∧
      (mapIdentity sh load).consignee = load.consignee := by
  unfold mapIdentity
  simp only []
  split_ifs <;> exact ⟨rfl, rfl⟩

theorem turvoDetailsToDrumkit_times_kept (lo : Char → Char) (parse : String → Option Time)
    (sh : TurvoShipmentCreateDetails) :
    (turvoDetailsToDrumkit lo parse sh).readyTime = (afterGlobalRoute lo parse sh).readyTime ∧
      (turvoDetailsToDrumkit lo parse sh).deliveryTime =
        (afterGlobalRoute lo parse sh).deliveryTime := by
  obtain ⟨k1, k2, -⟩ := turvoDetailsToDrumkit_kept lo parse sh
  obtain ⟨c1, c2⟩ := mapCustomerOrder_times sh (afterGlobalRoute lo parse sh)
  unfold afterGlobalRoute at c1 c2 ⊢
  constructor
  · rw [← c1]; unfold Load.readyTime; rw [k1]
  · rw [← c2]; unfold Load.deliveryTime; rw [k2]

/-- C21 (as the code has it): in the detail view the pickup ready-time is the instant of
`startDate.date` when that string is not empty and parses, and no stop replaces it; when it
does not parse nothing is raised and the ready-time is the appointment of the first stop of
the global route that is not deleted, is a pickup stop and has an appointment that parses,
unset when there is none. The consignee appointment-time is the appointment of the last stop
that is not deleted, is a delivery stop and has an appointment that parses; when there is
none it is the instant of `endDate.date` when that parses, and unset otherwise. -/
theorem turvoDetailsToDrumkit_dates (lo : Char → Char) (parse : String → Option Time)
    (sh : TurvoShipmentCreateDetails) :
    (turvoDetailsToDrumkit lo parse sh).readyTime =
        (match parseDate parse sh.startDate.date with
          | some t => some t
          | none => (pickupAppointments parse sh.globalRoute).head?) ∧
      (turvoDetailsToDrumkit lo parse sh).deliveryTime =
        (match (deliveryAppointments parse sh.globalRoute).getLast? with
          | some t => some t
          | none => parseDate parse sh.endDate.date) := by
  obtain ⟨k1, k2⟩ := turvoDetailsToDrumkit_times_kept lo parse sh
  have g1 := foldl_globalRouteStop_readyTime parse sh.globalRoute (mapLane sh
    (mapDates parse sh (mapStatus lo sh (mapIdentity sh {}))))
  have g2 := foldl_globalRouteStop_deliveryTime parse sh.globalRoute (mapLane sh
    (mapDates parse sh (mapStatus lo sh (mapIdentity sh {}))))
  obtain ⟨l1, l2⟩ := mapLane_times sh (mapDates parse sh (mapStatus lo sh (mapIdentity sh {})))
  obtain ⟨d1, d2⟩ := mapDates_times parse sh (mapStatus lo sh (mapIdentity sh {}))
  obtain ⟨s1, s2⟩ := mapStatus_groups lo sh (mapIdentity sh {})
  obtain ⟨i1, i2⟩ := mapIdentity_groups sh {}
  have e1 : (mapStatus lo sh (mapIdentity sh {})).readyTime = none := by
    unfold Load.readyTime; rw [s1, i1]; rfl
  have e2 : (mapStatus lo sh (mapIdentity sh {})).deliveryTime = none := by
    unfold Load.deliveryTime; rw [s2, i2]; rfl
  rw [k1, k2]
  unfold afterGlobalRoute mapGlobalRoute
  rw [g1, g2, l1, l2, d1, d2, e1, e2]
  constructor
  · cases parseDate parse sh.startDate.date <;> rfl
  · cases (deliveryAppointments parse sh.globalRoute).getLast? <;>
      cases parseDate parse sh.endDate.date <;> rfl


/-- C21 (as stated) fails in its last part: the start date and the end date of
`unparsedDatesShipment` do not parse, and the pickup ready-time and the consignee
appointment-time of the load are set all the same, from the appointments of the stops. -/
theorem unparsed_date_field_is_set :
    (parseDate sampleParse unparsedDatesShipment.startDate.date).isNone = true ∧
      (parseDate sampleParse unparsedDatesShipment.endDate.date).isNone = true ∧
      (turvoDetailsToDrumkit id sampleParse unparsedDatesShipment).readyTime.map formatRFC3339 =
        some "2024-03-09T08:00:00Z" ∧
      (turvoDetailsToDrumkit id sampleParse unparsedDatesShipment).deliveryTime.map
        formatRFC3339 = some "2024-03-11T00:00:00Z" := by
  decide

theorem serviceFlags_eq (lo : Char → Char) (p : Bool) (spec : Specifications)
    (s : TurvoKeyValue) :
    serviceFlags lo p spec s =
      { spec with
        liftgatePickup :=
          if serviceNames lo "liftgate" s && p then some true else spec.liftgatePickup
        liftgateDelivery :=
          if serviceNames lo "liftgate" s && !p then some true else spec.liftgateDelivery
        insidePickup :=
          if serviceNames lo "inside" s && p then some true else spec.insidePickup
        insideDelivery :=
          if serviceNames lo "inside" s && !p then some true else spec.insideDelivery
        tarps := if serviceNames lo "tarp" s then some true else spec.tarps
        hazmat := if serviceNames lo "hazmat" s then some true else spec.hazmat
        straps := if serviceNames lo "strap" s then some true else spec.straps
        Seal := if serviceNames lo "seal" s then some true else spec.Seal } := by
  cases h1 : Contains (ToLower lo s.value) "liftgate" <;>
    cases h2 : Contains (ToLower lo s.value) "inside" <;>
    cases h3 : Contains (ToLower lo s.value) "tarp" <;>
    cases h4 : Contains (ToLower lo s.value) "hazmat" <;>
    cases h5 : Contains (ToLower lo s.value) "strap" <;>
    cases h6 : Contains (ToLower lo s.value) "seal" <;>
    cases p <;>
    simp only [serviceFlags, serviceNames, h1, h2, h3, h4, h5, h6, Bool.false_eq_true,
      if_false, if_true, Bool.and_true, Bool.and_false,
      Bool.true_and, Bool.false_and, Bool.not_true, Bool.not_false]

theorem foldl_flag {σ α : Type} (f : σ → α → σ) (flag : σ → Option Bool) (test : α → Bool)
    (h : ∀ s x, flag (f s x) = if test x then some true else flag s) (xs : List α) (s : σ) :
    flag (xs.foldl f s) = if xs.any test then some true else flag s := by
  induction xs generalizing s with
  | nil => simp
  | cons x rest ih =>
    rw [List.foldl_cons, ih, h, List.any_cons]
    cases test x <;> cases rest.any test <;> simp

theorem globalRouteStop_rest (parse : String → Option Time) (load : Load)
    (stop : TurvoGlobalRouteStopResponse) :
    (globalRouteStop parse load stop).specifications = load.specifications ∧
      (globalRouteStop parse load stop).carrier = load.carrier := by
  unfold globalRouteStop
  simp only []
  split_ifs <;> exact ⟨rfl, rfl⟩

theorem foldl_rest {α : Type} (f : Load → α → Load)
    (h : ∀ load x, (f load x).specifications = load.specifications ∧
      (f load x).carrier = load.carrier) (xs : List α) (load : Load) :
    (xs.foldl f load).specifications = load.specifications ∧
      (xs.foldl f load).carrier = load.carrier := by
  induction xs generalizing load with
  | nil => exact ⟨rfl, rfl⟩
  | cons x rest ih =>
    rw [List.foldl_cons]
    exact ⟨(ih _).1.trans (h _ _).1, (ih _).2.trans (h _ _).2⟩

theorem customerRouteStop_rest (load : Load) (stop : TurvoRouteStop) :
    (customerRouteStop load stop).specifications = load.specifications ∧
      (customerRouteStop load stop).carrier = load.carrier := by
  unfold customerRouteStop
  cases load.pickup <;> cases load.consignee <;> simp only [] <;> split_ifs <;>
    exact ⟨rfl, rfl⟩

theorem customerExternalId_rest (state : Load × List String) (e : TurvoExternalIdResponse) :
    (customerExternalId state e).1.specifications = state.1.specifications ∧
      (customerExternalId state e).1.carrier = state.1.carrier := by
  unfold customerExternalId
  split_ifs <;> exact ⟨rfl, rfl⟩

theorem foldl_customerExternalId_rest (extIds : List TurvoExternalIdResponse)
    (state : Load × List String) :
    (extIds.foldl customerExternalId state).1.specifications = state.1.specifications ∧
      (extIds.foldl customerExternalId state).1.carrier = state.1.carrier := by
  induction extIds generalizing state with
  | nil => exact ⟨rfl, rfl⟩
  | cons e rest ih =>
    simp only [List.foldl_cons]
    obtain ⟨h1, h2⟩ := ih (customerExternalId state e)
    obtain ⟨k1, k2⟩ := customerExternalId_rest state e
    exact ⟨h1.trans k1, h2.trans k2⟩

theorem mapCustomerOrder_rest (sh : TurvoShipmentCreateDetails) (load : Load) :
    (mapCustomerOrder sh load).specifications = load.specifications ∧
      (mapCustomerOrder sh load).carrier = load.carrier := by
  unfold mapCustomerOrder
  rcases sh.customerOrder with _ | ⟨co, _⟩
  · exact ⟨rfl, rfl⟩
  · simp only []
    have hroute : ∀ l : Load,
        (if co.route.length > 0 then co.route.foldl customerRouteStop l else l) =
          co.route.foldl customerRouteStop l := by
      intro l
      split_ifs with h
      · rfl
      · cases hr : co.route with
        | nil => rfl
        | cons a b => simp [hr] at h
    simp only [hroute]
    have hr := fun (l : Load) => foldl_rest customerRouteStop customerRouteStop_rest co.route l
    split_ifs
    all_goals first
      | exact ⟨rfl, rfl⟩
      | exact hr _
      | exact ⟨(foldl_customerExternalId_rest _ _).1.trans (hr _).1,
          (foldl_customerExternalId_rest _ _).2.trans (hr _).2⟩

theorem early_blocks_rest (lo : Char → Char) (parse : String → Option Time)
    (sh : TurvoShipmentCreateDetails) :
    (mapBillTo sh (mapCustomerOrder sh (afterGlobalRoute lo parse sh))).specifications = none ∧
      (mapBillTo sh (mapCustomerOrder sh (afterGlobalRoute lo parse sh))).carrier = none := by
  have a : ∀ load, (mapBillTo sh load).specifications = load.specifications ∧
      (mapBillTo sh load).carrier = load.carrier := by
    intro load; unfold mapBillTo; cases sh.party.find? _ <;> exact ⟨rfl, rfl⟩
  have b := mapCustomerOrder_rest sh
  have c : ∀ load, (mapGlobalRoute parse sh load).specifications = load.specifications ∧
      (mapGlobalRoute parse sh load).carrier = load.carrier :=
    fun load => foldl_rest _ (globalRouteStop_rest parse) _ _
  have d : ∀ load, (mapLane sh load).specifications = load.specifications ∧
      (mapLane sh load).carrier = load.carrier := by
    intro load; unfold mapLane; simp only []; split_ifs <;> exact ⟨rfl, rfl⟩
  have e : ∀ load, (mapDates parse sh load).specifications = load.specifications ∧
      (mapDates parse sh load).carrier = load.carrier := by
    intro load; unfold mapDates
    cases parse sh.startDate.date <;> cases parse sh.endDate.date <;> simp only [] <;>
      split_ifs <;> exact ⟨rfl, rfl⟩
  have f : ∀ load, (mapStatus lo sh load).specifications = load.specifications ∧
      (mapStatus lo sh load).carrier = load.carrier := by
    intro load; unfold mapStatus
    cases sh.status with
    | none => exact ⟨rfl, rfl⟩
    | some st => simp only []; split_ifs <;> exact ⟨rfl, rfl⟩
  have g : ∀ load, (mapIdentity sh load).specifications = load.specifications ∧
      (mapIdentity sh load).carrier = load.carrier := by
    intro load; unfold mapIdentity; simp only []; split_ifs <;> exact ⟨rfl, rfl⟩
  unfold afterGlobalRoute
  constructor
  · rw [(a _).1, (b _).1, (c _).1, (d _).1, (e _).1, (f _).1, (g _).1]
  · rw [(a _).2, (b _).2, (c _).2, (d _).2, (e _).2, (f _).2, (g _).2]

theorem any_and_const {α : Type} (t : α → Bool) (p : Bool) (xs : List α) :
    (xs.any fun x => t x && p) = (xs.any t && p) := by
  induction xs with
  | nil => simp
  | cons x rest ih => simp only [List.any_cons, ih]; cases t x <;> cases p <;> simp

theorem stopFlags_flags (lo : Char → Char) (spec : Specifications)
    (stop : TurvoGlobalRouteStopResponse) :
    (stopFlags lo spec stop).liftgatePickup =
        (if isPickupStop stop && stopOffers lo "liftgate" stop then some true
          else spec.liftgatePickup) ∧
      (stopFlags lo spec stop).liftgateDelivery =
        (if !isPickupStop stop && stopOffers lo "liftgate" stop then some true
          else spec.liftgateDelivery) ∧
      (stopFlags lo spec stop).insidePickup =
        (if isPickupStop stop && stopOffers lo "inside" stop then some true
          else spec.insidePickup) ∧
      (stopFlags lo spec stop).insideDelivery =
        (if !isPickupStop stop && stopOffers lo "inside" stop then some true
          else spec.insideDelivery) ∧
      (stopFlags lo spec stop).tarps =
        (if stopOffers lo "tarp" stop then some true else spec.tarps) ∧
      (stopFlags lo spec stop).hazmat =
        (if stopOffers lo "hazmat" stop then some true else spec.hazmat) ∧
      (stopFlags lo spec stop).straps =
        (if stopOffers lo "strap" stop then some true else spec.straps) ∧
      (stopFlags lo spec stop).Seal =
        (if stopOffers lo "seal" stop then some true else spec.Seal) := by
  unfold stopFlags stopOffers isPickupStop
  cases hd : stop.deleted
  · simp only [Bool.false_eq_true, if_false, Bool.not_false, Bool.true_and]
    generalize (stop.stopType.value == "Pickup" || stop.stopType.key == "1500") = p
    refine ⟨?_, ?_, ?_, ?_, ?_, ?_, ?_, ?_⟩
    · rw [foldl_flag (serviceFlags lo p) (fun s => s.liftgatePickup)
        (fun s => serviceNames lo "liftgate" s && p) (fun s x => by rw [serviceFlags_eq]),
        any_and_const, Bool.and_comm]
    · rw [foldl_flag (serviceFlags lo p) (fun s => s.liftgateDelivery)
        (fun s => serviceNames lo "liftgate" s && !p) (fun s x => by rw [serviceFlags_eq]),
        any_and_const, Bool.and_comm]
    · rw [foldl_flag (serviceFlags lo p) (fun s => s.insidePickup)
        (fun s => serviceNames lo "inside" s && p) (fun s x => by rw [serviceFlags_eq]),
        any_and_const, Bool.and_comm]
    · rw [foldl_flag (serviceFlags lo p) (fun s => s.insideDelivery)
        (fun s => serviceNames lo "inside" s && !p) (fun s x => by rw [serviceFlags_eq]),
        any_and_const, Bool.and_comm]
    · rw [foldl_flag (serviceFlags lo p) (fun s => s.tarps)
        (fun s => serviceNames lo "tarp" s) (fun s x => by rw [serviceFlags_eq])]
    · rw [foldl_flag (serviceFlags lo p) (fun s => s.hazmat)
        (fun s => serviceNames lo "hazmat" s) (fun s x => by rw [serviceFlags_eq])]
    · rw [foldl_flag (serviceFlags lo p) (fun s => s.straps)
        (fun s => serviceNames lo "strap" s) (fun s x => by rw [serviceFlags_eq])]
    · rw [foldl_flag (serviceFlags lo p) (fun s => s.Seal)
        (fun s => serviceNames lo "seal" s) (fun s x => by rw [serviceFlags_eq])]
  · simp

theorem mapEquipment_flags (sh : TurvoShipmentCreateDetails) (load : Load)
    (h : load.specifications = none) :
    (mapEquipment sh load).carrier = load.carrier ∧
      ∃ spec, (mapEquipment sh load).specifications.getD {} = spec ∧
        spec.liftgatePickup = none ∧ spec.liftgateDelivery = none ∧ spec.insidePickup = none ∧
        spec.insideDelivery = none ∧ spec.tarps = none ∧ spec.hazmat = none ∧
        spec.straps = none ∧ spec.Seal = none := by
  unfold mapEquipment
  rcases sh.equipment with _ | ⟨eq, _⟩
  · refine ⟨rfl, _, rfl, ?_⟩
    simp only [h]
    exact ⟨rfl, rfl, rfl, rfl, rfl, rfl, rfl, rfl⟩
  · refine ⟨rfl, _, rfl, ?_⟩
    simp only [h]
    split_ifs <;> exact ⟨rfl, rfl, rfl, rfl, rfl, rfl, rfl, rfl⟩

theorem late_blocks_specifications (lo : Char → Char) (sh : TurvoShipmentCreateDetails)
    (load : Load) :
    (mapDistance sh (mapCarrierRateData sh (mapCustomerRateData sh
      (mapCarrierExternalIds lo sh load)))).specifications = load.specifications := by
  have a : ∀ l, (mapDistance sh l).specifications = l.specifications := by
    intro l; unfold mapDistance
    rcases sh.customerOrder with _ | ⟨co, _⟩
    · rfl
    · simp only []; split_ifs <;> rfl
  have b : ∀ l, (mapCarrierRateData sh l).specifications = l.specifications := by
    intro l; unfold mapCarrierRateData
    generalize sh.carrierOrder = cos
    induction cos generalizing l with
    | nil => rfl
    | cons co rest ih =>
      rw [List.foldl_cons, ih]
      unfold carrierOrderRateData
      rcases co.costs with _ | costs
      · rfl
      · simp only []; split_ifs <;> rfl
  have c : ∀ l, (mapCustomerRateData sh l).specifications = l.specifications := by
    intro l; unfold mapCustomerRateData
    rcases sh.customerOrder with _ | ⟨co, _⟩
    · rfl
    · simp only []
      rcases co.costs with _ | costs <;> simp only [] <;> split_ifs <;> rfl
  have d : ∀ l, (mapCarrierExternalIds lo sh l).specifications = l.specifications := by
    intro l; unfold mapCarrierExternalIds
    generalize sh.carrierOrder = cos
    induction cos generalizing l with
    | nil => rfl
    | cons co rest ih =>
      rw [List.foldl_cons, ih]
      unfold carrierOrderExternalIds
      split_ifs <;> rfl
  rw [a, b, c, d]

/-- C22: in the detail view the specifications group is always produced, and each of its
eight service flags is true when some stop of the global route that is not deleted (for the
pickup flags a pickup stop, that is one whose stop-type value is "Pickup" or whose key is
"1500"; for the delivery flags any other stop) lists a service whose value, lowered,
contains the keyword of the flag, and is not set otherwise; no flag is ever false. -/
theorem turvoDetailsToDrumkit_flags (lo : Char → Char) (parse : String → Option Time)
    (sh : TurvoShipmentCreateDetails) :
    ∃ spec, (turvoDetailsToDrumkit lo parse sh).specifications = some spec ∧
      spec.liftgatePickup =
        flagWhen (sh.globalRoute.any fun s => isPickupStop s && stopOffers lo "liftgate" s) ∧
      spec.liftgateDelivery =
        flagWhen (sh.globalRoute.any fun s => !isPickupStop s && stopOffers lo "liftgate" s) ∧
      spec.insidePickup =
        flagWhen (sh.globalRoute.any fun s => isPickupStop s && stopOffers lo "inside" s) ∧
      spec.insideDelivery =
        flagWhen (sh.globalRoute.any fun s => !isPickupStop s && stopOffers lo "inside" s) ∧
      spec.tarps = flagWhen (sh.globalRoute.any (stopOffers lo "tarp")) ∧
      spec.hazmat = flagWhen (sh.globalRoute.any (stopOffers lo "hazmat")) ∧
      spec.straps = flagWhen (sh.globalRoute.any (stopOffers lo "strap")) ∧
      spec.Seal = flagWhen (sh.globalRoute.any (stopOffers lo "seal")) := by
  obtain ⟨hs, -⟩ := early_blocks_rest lo parse sh
  have hc : (mapCarrierOrder sh (mapBillTo sh (mapCustomerOrder sh
      (afterGlobalRoute lo parse sh)))).specifications = none := by
    rw [← hs]
    unfold mapCarrierOrder
    cases sh.carrierOrder.find? _ <;> rfl
  obtain ⟨-, init, hinit, f1, f2, f3, f4, f5, f6, f7, f8⟩ := mapEquipment_flags sh _ hc
  refine ⟨sh.globalRoute.foldl (stopFlags lo) init, ?_, ?_, ?_, ?_, ?_, ?_, ?_, ?_, ?_⟩
  · unfold turvoDetailsToDrumkit
    simp only []
    rw [late_blocks_specifications]
    unfold mapSpecifications
    simp only []
    unfold afterGlobalRoute at hinit
    rw [hinit]
  · rw [foldl_flag (stopFlags lo) (fun s => s.liftgatePickup) _
      (fun s x => (stopFlags_flags lo s x).1), f1]; rfl
  · rw [foldl_flag (stopFlags lo) (fun s => s.liftgateDelivery) _
      (fun s x => (stopFlags_flags lo s x).2.1), f2]; rfl
  · rw [foldl_flag (stopFlags lo) (fun s => s.insidePickup) _
      (fun s x => (stopFlags_flags lo s x).2.2.1), f3]; rfl
  · rw [foldl_flag (stopFlags lo) (fun s => s.insideDelivery) _
      (fun s x => (stopFlags_flags lo s x).2.2.2.1), f4]; rfl
  · rw [foldl_flag (stopFlags lo) (fun s => s.tarps) _
      (fun s x => (stopFlags_flags lo s x).2.2.2.2.1), f5]; rfl
  · rw [foldl_flag (stopFlags lo) (fun s => s.hazmat) _
      (fun s x => (stopFlags_flags lo s x).2.2.2.2.2.1), f6]; rfl
  · rw [foldl_flag (stopFlags lo) (fun s => s.straps) _
      (fun s x => (stopFlags_flags lo s x).2.2.2.2.2.2.1), f7]; rfl
  · rw [foldl_flag (stopFlags lo) (fun s => s.Seal) _
      (fun s x => (stopFlags_flags lo s x).2.2.2.2.2.2.2), f8]; rfl


theorem carrierExternalId_eq (lo : Char → Char) (c : Carrier) (e : TurvoExternalIdResponse) :
    carrierExternalId lo c e =
      { c with
        externalTMSTruckId :=
          if !e.deleted && isTruckId lo e then e.value else c.externalTMSTruckId
        externalTMSTrailerId :=
          if !e.deleted && isTrailerId lo e then e.value else c.externalTMSTrailerId
        sealNumber := if !e.deleted && isSealId lo e then e.value else c.sealNumber } := by
  cases h0 : e.deleted <;>
    cases h1 : (Contains (ToLower lo e.type.value) "truck" || e.type.key == "7605") <;>
    cases h2 : (Contains (ToLower lo e.type.value) "trailer" || e.type.key == "7606") <;>
    cases h3 : (Contains (ToLower lo e.type.value) "bol" || e.type.key == "7602") <;>
    simp only [carrierExternalId, isTruckId, isTrailerId, isSealId, h0, h1, h2, h3,
      Bool.false_eq_true, if_false, if_true, Bool.and_true, Bool.and_false,
      Bool.true_and, Bool.false_and, Bool.not_true, Bool.not_false]

theorem lastValue_append (test : TurvoExternalIdResponse → Bool)
    (l : List TurvoExternalIdResponse) (a : TurvoExternalIdResponse) (d : String) :
    lastValue test (l ++ [a]) d = if test a then a.value else lastValue test l d := by
  unfold lastValue
  rw [List.filter_append, List.getLast?_append]
  cases h : test a <;> simp [List.filter_cons, h]

theorem foldl_carrierExternalId (lo : Char → Char) (ids : List TurvoExternalIdResponse)
    (c : Carrier) :
    ids.foldl (carrierExternalId lo) c =
      { c with
        externalTMSTruckId :=
          lastValue (fun e => !e.deleted && isTruckId lo e) ids c.externalTMSTruckId
        externalTMSTrailerId :=
          lastValue (fun e => !e.deleted && isTrailerId lo e) ids c.externalTMSTrailerId
        sealNumber := lastValue (fun e => !e.deleted && isSealId lo e) ids c.sealNumber } := by
  induction ids using List.reverseRecOn with
  | nil => rfl
  | append_singleton l a ih =>
    rw [List.foldl_append, List.foldl_cons, List.foldl_nil, ih, carrierExternalId_eq,
      lastValue_append, lastValue_append, lastValue_append]

theorem carrierOrderExternalIds_carrier (lo : Char → Char) (load : Load)
    (co : TurvoCarrierOrderResponse) (c : Carrier) (h : load.carrier = some c) :
    (carrierOrderExternalIds lo load co).carrier =
      some ((if !co.deleted then co.externalIds else []).foldl (carrierExternalId lo) c) := by
  unfold carrierOrderExternalIds
  cases hd : co.deleted
  · rcases hx : co.externalIds with _ | ⟨e, rest⟩
    · simp [h]
    · simp [h]
  · simp [h]

theorem foldl_carrierOrderExternalIds_carrier (lo : Char → Char)
    (cos : List TurvoCarrierOrderResponse) (load : Load) (c : Carrier)
    (h : load.carrier = some c) :
    (cos.foldl (carrierOrderExternalIds lo) load).carrier =
      some (((cos.filter (fun co => !co.deleted)).flatMap (fun co => co.externalIds)).foldl
        (carrierExternalId lo) c) := by
  induction cos generalizing load c with
  | nil => simpa using h
  | cons co rest ih =>
    rw [List.foldl_cons, ih _ _ (carrierOrderExternalIds_carrier lo load co c h)]
    cases hd : co.deleted <;> simp [List.filter_cons, hd, List.foldl_append]

theorem foldl_carrierOrderExternalIds_deleted (lo : Char → Char)
    (cos : List TurvoCarrierOrderResponse) (load : Load)
    (h : cos.find? (fun co => !co.deleted) = none) :
    cos.foldl (carrierOrderExternalIds lo) load = load := by
  induction cos generalizing load with
  | nil => rfl
  | cons co rest ih =>
    rw [List.find?_cons] at h
    cases hd : co.deleted
    · simp [hd] at h
    · simp only [hd, Bool.not_true] at h
      rw [List.foldl_cons]
      have : carrierOrderExternalIds lo load co = load := by
        unfold carrierOrderExternalIds; simp [hd]
      rw [this]
      exact ih _ h

theorem mapCarrierOrder_carrier (sh : TurvoShipmentCreateDetails) (load : Load)
    (h : load.carrier = none) :
    (mapCarrierOrder sh load).carrier = (mapCarrierOrder sh {}).carrier := by
  unfold mapCarrierOrder
  cases hf : sh.carrierOrder.find? (fun carrierOrder => !carrierOrder.deleted) with
  | none => exact h
  | some co => simp only [h]

theorem mapCarrierOrder_none (sh : TurvoShipmentCreateDetails)
    (h : (mapCarrierOrder sh {}).carrier = none) :
    sh.carrierOrder.find? (fun co => !co.deleted) = none := by
  unfold mapCarrierOrder at h
  cases hf : sh.carrierOrder.find? (fun carrierOrder => !carrierOrder.deleted) with
  | none => rfl
  | some co => rw [hf] at h; cases h

theorem mapCarrierOrder_ids (sh : TurvoShipmentCreateDetails) (load : Load) :
    ((mapCarrierOrder sh load).carrier.getD {}).externalTMSTruckId =
        (load.carrier.getD {}).externalTMSTruckId ∧
      ((mapCarrierOrder sh load).carrier.getD {}).externalTMSTrailerId =
        (load.carrier.getD {}).externalTMSTrailerId ∧
      ((mapCarrierOrder sh load).carrier.getD {}).sealNumber =
        (load.carrier.getD {}).sealNumber := by
  cases hf : sh.carrierOrder.find? (fun carrierOrder => !carrierOrder.deleted) with
  | none => simp only [mapCarrierOrder, hf, and_self]
  | some co =>
    by_cases hid : co.carrier.id > 0 <;>
    rcases hdr : co.drivers with _ | ⟨d, more⟩
    all_goals first
      | (simp only [mapCarrierOrder, hf, hid, hdr, if_true, if_false, Option.getD_some,
          and_self]; done)
      | (rcases hc : d.context with _ | cx <;> rcases hp : d.phone with _ | ph <;>
          rcases he : d.email with _ | em <;> rcases hm : more with _ | ⟨d2, rest⟩ <;>
          first
            | (simp only [mapCarrierOrder, hf, hid, hdr, hc, hp, he, hm, if_true, if_false,
                Option.getD_some, and_self]; done)
            | (rcases hc2 : d2.context with _ | cx2 <;> rcases hp2 : d2.phone with _ | ph2 <;>
                simp only [mapCarrierOrder, hf, hid, hdr, hc, hp, he, hm, hc2, hp2, if_true,
                  if_false, Option.getD_some, and_self]))

theorem late_blocks_carrier (sh : TurvoShipmentCreateDetails) (load : Load) :
    (mapDistance sh (mapCarrierRateData sh (mapCustomerRateData sh load))).carrier =
      load.carrier := by
  have a : ∀ l, (mapDistance sh l).carrier = l.carrier := by
    intro l; unfold mapDistance
    rcases sh.customerOrder with _ | ⟨co, _⟩
    · rfl
    · simp only []; split_ifs <;> rfl
  have b : ∀ l, (mapCarrierRateData sh l).carrier = l.carrier := by
    intro l; unfold mapCarrierRateData
    generalize sh.carrierOrder = cos
    induction cos generalizing l with
    | nil => rfl
    | cons co rest ih =>
      rw [List.foldl_cons, ih]
      unfold carrierOrderRateData
      rcases co.costs with _ | costs
      · rfl
      · simp only []; split_ifs <;> rfl
  have c : ∀ l, (mapCustomerRateData sh l).carrier = l.carrier := by
    intro l; unfold mapCustomerRateData
    rcases sh.customerOrder with _ | ⟨co, _⟩
    · rfl
    · simp only []
      rcases co.costs with _ | costs <;> simp only [] <;> split_ifs <;> rfl
  rw [a, b, c]

theorem lastValue_carrierIdentifiers (test : TurvoExternalIdResponse → Bool)
    (sh : TurvoShipmentCreateDetails) (d : String) :
    lastValue (fun e => !e.deleted && test e)
        ((sh.carrierOrder.filter (fun co => !co.deleted)).flatMap (fun co => co.externalIds)) d =
      lastValue test (carrierIdentifiers sh) d := by
  unfold lastValue carrierIdentifiers
  congr 3
  generalize sh.carrierOrder.filter (fun co => !co.deleted) = cos
  induction cos with
  | nil => rfl
  | cons co rest ih =>
    simp only [List.flatMap_cons, List.filter_append, ih, List.filter_filter]
    congr 2
    funext e
    rw [Bool.and_comm]

theorem mapSpecifications_carrier (lo : Char → Char) (sh : TurvoShipmentCreateDetails)
    (load : Load) :
    (mapSpecifications lo sh (mapEquipment sh load)).carrier = load.carrier := by
  unfold mapSpecifications mapEquipment
  cases sh.equipment <;> rfl

/-- C23: an external identifier of a carrier order that is not deleted writes its value to
the truck id when its lowered type label contains "truck" or its key is "7605", otherwise to
the trailer id when the label contains "trailer" or the key is "7606", otherwise to the seal
number when the label contains "bol" or the key is "7602", and changes nothing else; a deleted
identifier and one of no such type leave the carrier as it is. In the load of the detail view
the carrier is the one built from the first carrier order that is not deleted, with each of
the three fields holding the value of the last identifier taken for it among the identifiers
that are not deleted of the carrier orders that are not deleted, and empty when there is
none. -/
theorem turvoDetailsToDrumkit_carrier_ids (lo : Char → Char) (parse : String → Option Time)
    (sh : TurvoShipmentCreateDetails) (carrier : Carrier) (extId : TurvoExternalIdResponse) :
    carrierExternalId lo carrier extId =
        { carrier with
          externalTMSTruckId :=
            if !extId.deleted && isTruckId lo extId then extId.value
            else carrier.externalTMSTruckId
          externalTMSTrailerId :=
            if !extId.deleted && isTrailerId lo extId then extId.value
            else carrier.externalTMSTrailerId
          sealNumber :=
            if !extId.deleted && isSealId lo extId then extId.value else carrier.sealNumber } ∧
    (turvoDetailsToDrumkit lo parse sh).carrier =
      (mapCarrierOrder sh {}).carrier.map (fun c =>
        { c with
          externalTMSTruckId := lastValue (isTruckId lo) (carrierIdentifiers sh) ""
          externalTMSTrailerId := lastValue (isTrailerId lo) (carrierIdentifiers sh) ""
          sealNumber := lastValue (isSealId lo) (carrierIdentifiers sh) "" }) := by
  refine ⟨carrierExternalId_eq lo carrier extId, ?_⟩
  obtain ⟨-, hB⟩ := early_blocks_rest lo parse sh
  have hX := (mapSpecifications_carrier lo sh _).trans (mapCarrierOrder_carrier sh _ hB)
  obtain ⟨i1, i2, i3⟩ := mapCarrierOrder_ids sh {}
  unfold turvoDetailsToDrumkit
  simp only []
  rw [late_blocks_carrier]
  unfold mapCarrierExternalIds
  cases hc : (mapCarrierOrder sh {}).carrier with
  | none =>
    rw [foldl_carrierOrderExternalIds_deleted lo _ _ (mapCarrierOrder_none sh hc)]
    rw [hc] at hX
    unfold afterGlobalRoute at hX
    exact hX
  | some c =>
    rw [hc] at hX i1 i2 i3
    unfold afterGlobalRoute at hX
    rw [foldl_carrierOrderExternalIds_carrier lo _ _ c hX, foldl_carrierExternalId,
      lastValue_carrierIdentifiers, lastValue_carrierIdentifiers, lastValue_carrierIdentifiers]
    simp only [Option.getD_some] at i1 i2 i3
    rw [i1, i2, i3]
    rfl


theorem foldl_filter_skip {σ α : Type} (f : σ → α → σ) (p : α → Bool)
    (h : ∀ s x, p x = false → f s x = s) (xs : List α) (s : σ) :
    (xs.filter p).foldl f s = xs.foldl f s := by
  induction xs generalizing s with
  | nil => rfl
  | cons x rest ih =>
    cases hp : p x
    · rw [List.filter_cons_of_neg (by simp [hp]), List.foldl_cons, h s x hp, ih]
    · rw [List.filter_cons_of_pos hp, List.foldl_cons, List.foldl_cons, ih]

theorem mapGlobalRoute_withoutDeleted (parse : String → Option Time)
    (sh : TurvoShipmentCreateDetails) (load : Load) :
    mapGlobalRoute parse (withoutDeleted sh) load = mapGlobalRoute parse sh load := by
  unfold mapGlobalRoute
  show (sh.globalRoute.filter (fun stop => !stop.deleted)).foldl _ _ = _
  apply foldl_filter_skip
  intro s x hx
  unfold globalRouteStop
  simp only [Bool.not_eq_false'] at hx
  simp only [hx, if_true]

theorem mapSpecifications_withoutDeleted (lo : Char → Char)
    (sh : TurvoShipmentCreateDetails) (load : Load) :
    mapSpecifications lo (withoutDeleted sh) load = mapSpecifications lo sh load := by
  unfold mapSpecifications
  have : (withoutDeleted sh).globalRoute.foldl (stopFlags lo) (load.specifications.getD {}) =
      sh.globalRoute.foldl (stopFlags lo) (load.specifications.getD {}) := by
    show (sh.globalRoute.filter (fun stop => !stop.deleted)).foldl _ _ = _
    apply foldl_filter_skip
    intro s x hx
    unfold stopFlags
    simp only [Bool.not_eq_false'] at hx
    simp only [hx, if_true]
  simp only [this]

theorem simple_blocks_withoutDeleted (lo : Char → Char) (parse : String → Option Time)
    (sh : TurvoShipmentCreateDetails) (load : Load) :
    mapIdentity (withoutDeleted sh) load = mapIdentity sh load ∧
      mapStatus lo (withoutDeleted sh) load = mapStatus lo sh load ∧
      mapDates parse (withoutDeleted sh) load = mapDates parse sh load ∧
      mapLane (withoutDeleted sh) load = mapLane sh load ∧
      mapBillTo (withoutDeleted sh) load = mapBillTo sh load ∧
      mapEquipment (withoutDeleted sh) load = mapEquipment sh load :=
  ⟨rfl, rfl, rfl, rfl, rfl, rfl⟩

theorem mapCustomerOrder_eq (sh : TurvoShipmentCreateDetails) (load : Load) :
    mapCustomerOrder sh load =
      match sh.customerOrder with
      | co :: _ =>
        if co.deleted then load
        else
          finishPoNums (co.externalIds.foldl customerExternalId
            (co.route.foldl customerRouteStop { load with customer := some (customerOfOrder co) },
              []))
      | [] => load := by
  unfold mapCustomerOrder
  rcases sh.customerOrder with _ | ⟨co, rest⟩
  · rfl
  · simp only []
    cases hd : co.deleted
    · by_cases hid : co.customer.id > 0 <;>
        rcases hR : co.route with _ | ⟨r, rs⟩ <;>
        rcases hE : co.externalIds with _ | ⟨e, es⟩ <;>
        simp only [hid, Bool.not_false, if_true, if_false, List.length_nil, List.length_cons,
          gt_iff_lt, lt_self_iff_false, Nat.succ_pos, Nat.lt_add_one, Nat.zero_lt_succ,
          List.foldl_nil, Bool.false_eq_true, finishPoNums, customerOfOrder]
    · simp only [Bool.not_true, Bool.false_eq_true, if_false, if_true]

theorem mapCustomerOrder_withoutDeleted (sh : TurvoShipmentCreateDetails) (load : Load) :
    mapCustomerOrder (withoutDeleted sh) load = mapCustomerOrder sh load := by
  rw [mapCustomerOrder_eq, mapCustomerOrder_eq]
  unfold withoutDeleted
  rcases sh.customerOrder with _ | ⟨co, rest⟩
  · rfl
  · simp only [List.map_cons]
    have hr : ∀ l : Load, (co.route.filter (fun s => !s.deleted)).foldl customerRouteStop l =
        co.route.foldl customerRouteStop l := by
      intro l
      apply foldl_filter_skip
      intro s x hx
      unfold customerRouteStop
      simp only [Bool.not_eq_false'] at hx
      simp only [hx, if_true]
    have he : ∀ st : Load × List String,
        (co.externalIds.filter (fun e => !e.deleted)).foldl customerExternalId st =
          co.externalIds.foldl customerExternalId st := by
      intro st
      apply foldl_filter_skip
      intro s x hx
      unfold customerExternalId
      simp only [Bool.not_eq_false'] at hx
      simp only [hx, Bool.not_true, Bool.false_eq_true, if_false]
    rw [hr, he]
    rfl

theorem head_blocks_withoutDeleted (sh : TurvoShipmentCreateDetails) (load : Load) :
    mapCustomerRateData (withoutDeleted sh) load = mapCustomerRateData sh load ∧
      mapDistance (withoutDeleted sh) load = mapDistance sh load := by
  unfold mapCustomerRateData mapDistance withoutDeleted
  rcases sh.customerOrder with _ | ⟨co, rest⟩ <;> exact ⟨rfl, rfl⟩

theorem mapCarrierRateData_withoutDeleted (sh : TurvoShipmentCreateDetails) (load : Load) :
    mapCarrierRateData (withoutDeleted sh) load = mapCarrierRateData sh load := by
  unfold mapCarrierRateData withoutDeleted
  simp only [List.foldl_map]
  rfl

theorem find_withoutDeleted (sh : TurvoShipmentCreateDetails) :
    (withoutDeleted sh).carrierOrder.find? (fun co => !co.deleted) =
      (sh.carrierOrder.find? (fun co => !co.deleted)).map (fun carrierOrder =>
        { carrierOrder with
          externalIds := carrierOrder.externalIds.filter (fun extId => !extId.deleted) }) := by
  show (sh.carrierOrder.map _).find? _ = _
  generalize sh.carrierOrder = cos
  induction cos with
  | nil => rfl
  | cons co rest ih =>
    rw [List.map_cons, List.find?_cons, List.find?_cons]
    by_cases hd : co.deleted = true
    · simp only [hd, Bool.not_true]
      exact ih
    · simp only [hd, Bool.not_false, Bool.not_eq_true, Option.map_some', Bool.not_eq_true',
        eq_false_of_ne_true hd]

theorem mapCarrierOrder_withoutDeleted (sh : TurvoShipmentCreateDetails) (load : Load) :
    mapCarrierOrder (withoutDeleted sh) load = mapCarrierOrder sh load := by
  unfold mapCarrierOrder
  rw [find_withoutDeleted]
  cases hf : sh.carrierOrder.find? (fun carrierOrder => !carrierOrder.deleted) with
  | none => rfl
  | some co => rfl

theorem foldl_carrierOrderExternalIds_frame (lo : Char → Char)
    (cos : List TurvoCarrierOrderResponse) (load : Load) :
    cos.foldl (carrierOrderExternalIds lo) load =
      { load with carrier := (cos.foldl (carrierOrderExternalIds lo) load).carrier } := by
  induction cos generalizing load with
  | nil => rfl
  | cons co rest ih =>
    rw [List.foldl_cons]
    have hstep : carrierOrderExternalIds lo load co =
        { load with carrier := (carrierOrderExternalIds lo load co).carrier } := by
      unfold carrierOrderExternalIds
      split_ifs <;> rfl
    rw [ih (carrierOrderExternalIds lo load co)]
    generalize (rest.foldl (carrierOrderExternalIds lo) (carrierOrderExternalIds lo load co)).carrier
      = c
    rw [hstep]

theorem flatMap_withoutDeleted (cos : List TurvoCarrierOrderResponse) :
    ((cos.map (fun carrierOrder =>
        { carrierOrder with
          externalIds := carrierOrder.externalIds.filter (fun extId => !extId.deleted) })).filter
      (fun co => !co.deleted)).flatMap (fun co => co.externalIds) =
    ((cos.filter (fun co => !co.deleted)).flatMap (fun co => co.externalIds)).filter
      (fun extId => !extId.deleted) := by
  induction cos with
  | nil => rfl
  | cons co rest ih =>
    rw [List.map_cons]
    by_cases hd : co.deleted = true
    · rw [List.filter_cons_of_neg (by simp [hd]), List.filter_cons_of_neg (by simp [hd])]
      exact ih
    · rw [List.filter_cons_of_pos (by simpa using hd), List.filter_cons_of_pos (by simpa using hd),
        List.flatMap_cons, List.flatMap_cons, List.filter_append, ih]

theorem mapCarrierExternalIds_withoutDeleted (lo : Char → Char)
    (sh : TurvoShipmentCreateDetails) (load : Load)
    (h : load.carrier = none → sh.carrierOrder.find? (fun co => !co.deleted) = none) :
    mapCarrierExternalIds lo (withoutDeleted sh) load = mapCarrierExternalIds lo sh load := by
  unfold mapCarrierExternalIds
  cases hc : load.carrier with
  | none =>
    have h1 := h hc
    have h2 : (withoutDeleted sh).carrierOrder.find? (fun co => !co.deleted) = none := by
      rw [find_withoutDeleted, h1]; rfl
    rw [foldl_carrierOrderExternalIds_deleted lo _ _ h1,
      foldl_carrierOrderExternalIds_deleted lo _ _ h2]
  | some c =>
    rw [foldl_carrierOrderExternalIds_frame lo (withoutDeleted sh).carrierOrder,
      foldl_carrierOrderExternalIds_frame lo sh.carrierOrder,
      foldl_carrierOrderExternalIds_carrier lo _ _ c hc,
      foldl_carrierOrderExternalIds_carrier lo _ _ c hc]
    have : (withoutDeleted sh).carrierOrder = sh.carrierOrder.map (fun carrierOrder =>
        { carrierOrder with
          externalIds := carrierOrder.externalIds.filter (fun extId => !extId.deleted) }) := rfl
    rw [this, flatMap_withoutDeleted, foldl_filter_skip]
    intro s x hx
    unfold carrierExternalId
    simp only [Bool.not_eq_false'] at hx
    simp only [hx, Bool.not_true, Bool.false_eq_true, if_false]

theorem turvoDetailsToDrumkit_withoutDeleted (lo : Char → Char)
    (parse : String → Option Time) (sh : TurvoShipmentCreateDetails) :
    turvoDetailsToDrumkit lo parse (withoutDeleted sh) = turvoDetailsToDrumkit lo parse sh := by
  obtain ⟨-, hB⟩ := early_blocks_rest lo parse sh
  have hX : (mapSpecifications lo sh (mapEquipment sh (mapCarrierOrder sh (mapBillTo sh
      (mapCustomerOrder sh (afterGlobalRoute lo parse sh)))))).carrier = none →
      sh.carrierOrder.find? (fun co => !co.deleted) = none := by
    intro h
    rw [mapSpecifications_carrier, mapCarrierOrder_carrier sh _ hB] at h
    exact mapCarrierOrder_none sh h
  unfold afterGlobalRoute at hX
  have s1 : ∀ l, mapIdentity (withoutDeleted sh) l = mapIdentity sh l := fun _ => rfl
  have s2 : ∀ l, mapStatus lo (withoutDeleted sh) l = mapStatus lo sh l := fun _ => rfl
  have s3 : ∀ l, mapDates parse (withoutDeleted sh) l = mapDates parse sh l := fun _ => rfl
  have s4 : ∀ l, mapLane (withoutDeleted sh) l = mapLane sh l := fun _ => rfl
  have s5 : ∀ l, mapBillTo (withoutDeleted sh) l = mapBillTo sh l := fun _ => rfl
  have s6 : ∀ l, mapEquipment (withoutDeleted sh) l = mapEquipment sh l := fun _ => rfl
  unfold turvoDetailsToDrumkit
  simp only [s1, s2, s3, s4, s5, s6, mapGlobalRoute_withoutDeleted,
    mapCustomerOrder_withoutDeleted, mapCarrierOrder_withoutDeleted,
    mapSpecifications_withoutDeleted, (head_blocks_withoutDeleted sh _).1,
    (head_blocks_withoutDeleted sh _).2, mapCarrierRateData_withoutDeleted]
  rw [mapCarrierExternalIds_withoutDeleted lo sh _ hX]


/-- C24: two detail shipments that differ only in entries marked deleted (stops of the global
route, stops of a customer order's route, external identifiers of a customer order, external
identifiers of a carrier order), that is, two shipments that are equal once these entries are
taken out, are translated to the same load. -/
theorem deleted_entries_invisible (lo : Char → Char) (parse : String → Option Time)
    (sh1 sh2 : TurvoShipmentCreateDetails) (h : withoutDeleted sh1 = withoutDeleted sh2) :
    turvoDetailsToDrumkit lo parse sh1 = turvoDetailsToDrumkit lo parse sh2 := by
  rw [← turvoDetailsToDrumkit_withoutDeleted lo parse sh1,
    ← turvoDetailsToDrumkit_withoutDeleted lo parse sh2, h]

theorem deleted_entries_invisible_witness :
    withoutDeleted deletedEntriesShipment = withoutDeleted livingEntriesShipment ∧
      turvoDetailsToDrumkit id sampleParse deletedEntriesShipment =
        turvoDetailsToDrumkit id sampleParse livingEntriesShipment :=
  ⟨rfl, deleted_entries_invisible id sampleParse _ _ rfl⟩

/-! ## The create response -/

theorem mapIdentity_unechoed (sh : TurvoShipmentCreateDetails) (load : Load) :
    (mapIdentity sh load).unechoed = load.unechoed := by
  unfold mapIdentity
  simp only []
  split_ifs <;> rfl

theorem mapStatus_unechoed (lo : Char → Char) (sh : TurvoShipmentCreateDetails) (load : Load) :
    (mapStatus lo sh load).unechoed = load.unechoed := by
  unfold mapStatus
  cases sh.status with
  | none => rfl
  | some st => simp only []; split_ifs <;> rfl

theorem overlayDates_unechoed (parse : String → Option Time) (sh : TurvoShipmentCreateDetails)
    (load : Load) : (overlayDates parse sh load).unechoed = load.unechoed := by
  unfold overlayDates Load.unechoed
  cases h1 : (sh.startDate.date != "") <;> cases h2 : (sh.endDate.date != "") <;>
    cases h3 : parse sh.startDate.date <;> cases h4 : parse sh.endDate.date <;>
    cases h5 : load.pickup <;> cases h6 : load.consignee <;>
    simp only [Bool.false_eq_true, if_false, if_true, h5, h6, Option.map_some', Option.map_none']

theorem overlayCustomerOrder_unechoed (sh : TurvoShipmentCreateDetails) (load : Load) :
    (overlayCustomerOrder sh load).unechoed = load.unechoed := by
  unfold overlayCustomerOrder
  rcases sh.customerOrder with _ | ⟨co, _⟩
  · rfl
  · simp only []
    split_ifs <;> rfl

theorem overlayCarrierOrder_unechoed (sh : TurvoShipmentCreateDetails) (load : Load) :
    (overlayCarrierOrder sh load).unechoed = load.unechoed := by
  unfold overlayCarrierOrder
  rcases sh.carrierOrder with _ | ⟨co, _⟩
  · rfl
  · simp only []
    split_ifs <;> rfl

/-- C25: a create response whose details id is 0 leaves the load as it is: the load
returned is the original load, whatever else the response holds. -/
theorem turvoCreateResponseToDrumkit_invalid (lo : Char → Char) (parse : String → Option Time)
    (response : TurvoShipmentCreateResponse) (load : Load) (h : response.details.id = 0) :
    turvoCreateResponseToDrumkit lo parse response load = load := by
  unfold turvoCreateResponseToDrumkit
  simp [h]

theorem turvoCreateResponseToDrumkit_invalid_witness :
    invalidResponse.details.id = 0 ∧
      turvoCreateResponseToDrumkit id sampleParse invalidResponse sampleLoad = sampleLoad :=
  ⟨rfl, turvoCreateResponseToDrumkit_invalid id sampleParse invalidResponse sampleLoad rfl⟩

theorem turvoCreateResponseToDrumkit_unechoed (lo : Char → Char)
    (parse : String → Option Time) (response : TurvoShipmentCreateResponse) (load : Load) :
    (turvoCreateResponseToDrumkit lo parse response load).unechoed = load.unechoed := by
  unfold turvoCreateResponseToDrumkit
  simp only []
  split_ifs
  · rfl
  · rw [overlayCarrierOrder_unechoed, overlayCustomerOrder_unechoed, overlayDates_unechoed,
      mapStatus_unechoed, mapIdentity_unechoed]

/-- C26: for every original load and every create response, the load returned agrees with
the original in the bill-to group, the rate data, the specifications, the pallet counts, the
number of commodities, the weights, the PO numbers, the operator and the route miles; its
pickup group is the original one up to the ready-time and its consignee group the original
one up to the appointment-time (a group that is absent stays absent); its customer and its
carrier agree with the original ones in every field but the name and `externalTMSId`, an
absent group being read as one with every field empty. -/
theorem turvoCreateResponseToDrumkit_frame (lo : Char → Char) (parse : String → Option Time)
    (response : TurvoShipmentCreateResponse) (load : Load) :
    (turvoCreateResponseToDrumkit lo parse response load).billTo = load.billTo ∧
    (turvoCreateResponseToDrumkit lo parse response load).rateData = load.rateData ∧
    (turvoCreateResponseToDrumkit lo parse response load).specifications =
      load.specifications ∧
    (turvoCreateResponseToDrumkit lo parse response load).inPalletCount = load.inPalletCount ∧
    (turvoCreateResponseToDrumkit lo parse response load).outPalletCount =
      load.outPalletCount ∧
    (turvoCreateResponseToDrumkit lo parse response load).numCommodities =
      load.numCommodities ∧
    (turvoCreateResponseToDrumkit lo parse response load).totalWeight = load.totalWeight ∧
    (turvoCreateResponseToDrumkit lo parse response load).billableWeight =
      load.billableWeight ∧
    (turvoCreateResponseToDrumkit lo parse response load).poNums = load.poNums ∧
    (turvoCreateResponseToDrumkit lo parse response load).operator = load.operator ∧
    (turvoCreateResponseToDrumkit lo parse response load).routeMiles = load.routeMiles ∧
    (turvoCreateResponseToDrumkit lo parse response load).pickup.map
        (fun p => { p with readyTime := none }) =
      load.pickup.map (fun p => { p with readyTime := none }) ∧
    (turvoCreateResponseToDrumkit lo parse response load).consignee.map
        (fun c => { c with apptTime := none }) =
      load.consignee.map (fun c => { c with apptTime := none }) ∧
    ((turvoCreateResponseToDrumkit lo parse response load).customer.getD {}).withoutOverlay =
      (load.customer.getD {}).withoutOverlay ∧
    ((turvoCreateResponseToDrumkit lo parse response load).carrier.getD {}).withoutOverlay =
      (load.carrier.getD {}).withoutOverlay := by
  have h := turvoCreateResponseToDrumkit_unechoed lo parse response load
  unfold Load.unechoed at h
  simp only [Prod.mk.injEq] at h
  exact h

theorem overlay_blocks_parties (lo : Char → Char) (parse : String → Option Time)
    (sh : TurvoShipmentCreateDetails) (load : Load) :
    (overlayDates parse sh (mapStatus lo sh (mapIdentity sh load))).customer = load.customer ∧
      (overlayDates parse sh (mapStatus lo sh (mapIdentity sh load))).carrier = load.carrier := by
  have a : ∀ l, (mapIdentity sh l).customer = l.customer ∧ (mapIdentity sh l).carrier = l.carrier := by
    intro l; unfold mapIdentity; simp only []; split_ifs <;> exact ⟨rfl, rfl⟩
  have b : ∀ l, (mapStatus lo sh l).customer = l.customer ∧
      (mapStatus lo sh l).carrier = l.carrier := by
    intro l; unfold mapStatus
    cases sh.status with
    | none => exact ⟨rfl, rfl⟩
    | some st => simp only []; split_ifs <;> exact ⟨rfl, rfl⟩
  have c : ∀ l, (overlayDates parse sh l).customer = l.customer ∧
      (overlayDates parse sh l).carrier = l.carrier := by
    intro l; unfold overlayDates
    cases h1 : (sh.startDate.date != "") <;> cases h2 : (sh.endDate.date != "") <;>
      cases h3 : parse sh.startDate.date <;> cases h4 : parse sh.endDate.date <;>
      cases h5 : l.pickup <;> cases h6 : l.consignee <;>
      simp only [Bool.false_eq_true, if_false, if_true, h5, h6, and_self]
  exact ⟨by rw [(c _).1, (b _).1, (a _).1], by rw [(c _).2, (b _).2, (a _).2]⟩

theorem overlayCustomerOrder_eq (sh : TurvoShipmentCreateDetails) (load : Load) :
    overlayCustomerOrder sh load =
      { load with
        customer :=
          match sh.customerOrder with
          | o :: _ =>
            some { (load.customer.getD {}) with
              name := if o.customer.name != "" then o.customer.name
                else (load.customer.getD {}).name
              externalTMSId := if o.customer.id > 0 then formatInt o.customer.id
                else (load.customer.getD {}).externalTMSId }
          | [] => load.customer } := by
  unfold overlayCustomerOrder
  rcases sh.customerOrder with _ | ⟨o, _⟩
  · rfl
  · cases h1 : (o.customer.name != "") <;> by_cases h2 : o.customer.id > 0 <;>
      simp only [h1, h2, Bool.false_eq_true, if_false, if_true]

theorem overlayCarrierOrder_eq (sh : TurvoShipmentCreateDetails) (load : Load) :
    overlayCarrierOrder sh load =
      { load with
        carrier :=
          match sh.carrierOrder with
          | o :: _ =>
            some { (load.carrier.getD {}) with
              name := if o.carrier.name != "" then o.carrier.name
                else (load.carrier.getD {}).name
              externalTMSId := if o.carrier.id > 0 then formatInt o.carrier.id
                else (load.carrier.getD {}).externalTMSId }
          | [] => load.carrier } := by
  unfold overlayCarrierOrder
  rcases sh.carrierOrder with _ | ⟨o, _⟩
  · rfl
  · cases h1 : (o.carrier.name != "") <;> by_cases h2 : o.carrier.id > 0 <;>
      simp only [h1, h2, Bool.false_eq_true, if_false, if_true]

/-- C27. On the create response `deletedFirstResponse`, whose id is not zero and whose first
customer order and first carrier order are marked deleted and are followed by orders that
are not, `turvoCreateResponseToDrumkit` overlays on the load the name and the id of the
deleted orders ("Old Customer" with "1", "Old Carrier" with "3"), and not those of the
orders that are not deleted ("Acme Produce" with "2", "Swift Lines" with "4"). -/
theorem createResponse_uses_deleted_order :
    deletedFirstResponse.details.id = 5 ∧
      (deletedFirstResponse.details.customerOrder.map (fun o => (o.deleted, o.customer.name)) =
        [(true, "Old Customer"), (false, "Acme Produce")]) ∧
      (deletedFirstResponse.details.carrierOrder.map (fun o => (o.deleted, o.carrier.name)) =
        [(true, "Old Carrier"), (false, "Swift Lines")]) ∧
      (turvoCreateResponseToDrumkit id sampleParse deletedFirstResponse sampleLoad).customer.map
        (fun c => (c.name, c.externalTMSId)) = some ("Old Customer", "1") ∧
      (turvoCreateResponseToDrumkit id sampleParse deletedFirstResponse sampleLoad).carrier.map
        (fun c => (c.name, c.externalTMSId)) = some ("Old Carrier", "3") := by
  decide

/-- What the overlay of the create response does: for a create response with a non-zero id,
the customer and the carrier are overlaid from the entry at index 0 of the customer orders
and of the carrier orders, whether that entry is marked deleted or not, and from no later
entry. Its name, if not empty, replaces the name and its id, if positive, replaces
`externalTMSId` as a decimal string, the other fields of the group being those of the
original load (of an empty group when the original has none); when there is no entry the
group is the original one. -/
theorem createResponse_first_orders (lo : Char → Char) (parse : String → Option Time)
    (response : TurvoShipmentCreateResponse) (load : Load) (hid : response.details.id ≠ 0) :
    (turvoCreateResponseToDrumkit lo parse response load).customer =
        (match response.details.customerOrder with
          | o :: _ =>
            some { (load.customer.getD {}) with
              name := if o.customer.name != "" then o.customer.name
                else (load.customer.getD {}).name
              externalTMSId := if o.customer.id > 0 then formatInt o.customer.id
                else (load.customer.getD {}).externalTMSId }
          | [] => load.customer) ∧
      (turvoCreateResponseToDrumkit lo parse response load).carrier =
        (match response.details.carrierOrder with
          | o :: _ =>
            some { (load.carrier.getD {}) with
              name := if o.carrier.name != "" then o.carrier.name
                else (load.carrier.getD {}).name
              externalTMSId := if o.carrier.id > 0 then formatInt o.carrier.id
                else (load.carrier.getD {}).externalTMSId }
          | [] => load.carrier) := by
  obtain ⟨h1, h2⟩ := overlay_blocks_parties lo parse response.details load
  have hb : (response.details.id == 0) = false := by simpa using hid
  unfold turvoCreateResponseToDrumkit
  simp only [hb, Bool.false_eq_true, if_false]
  rw [overlayCarrierOrder_eq, overlayCustomerOrder_eq]
  simp only [h1, h2, and_self]

theorem createResponse_first_orders_witness :
    liveFirstResponse.details.id ≠ 0 ∧
      (turvoCreateResponseToDrumkit id sampleParse liveFirstResponse sampleLoad).customer =
        some { (sampleLoad.customer.getD {}) with name := "Acme Produce", externalTMSId := "2" } ∧
      (turvoCreateResponseToDrumkit id sampleParse liveFirstResponse sampleLoad).carrier =
        some { name := "", externalTMSId := "4" } :=
  ⟨by decide,
    createResponse_first_orders id sampleParse liveFirstResponse sampleLoad (by decide)⟩

/-! ## The list path -/

theorem foldl_store_getElem? {α β : Type} (xs : List α) (w : Nat → α → β)
    (ws : List (Nat × α)) (hws : ∀ p ∈ ws, xs[p.1]? = some p.2)
    (init : List β) (hinit : init.length = xs.length) (i : Nat) :
    (ws.foldl (fun acc p => acc.set p.1 (w p.1 p.2)) init)[i]? =
      if i ∈ ws.map Prod.fst then (xs[i]?).map (w i) else init[i]? := by
  induction ws generalizing init with
  | nil => simp
  | cons p rest ih =>
    rw [List.foldl_cons, ih (fun q hq => hws q (List.mem_cons_of_mem _ hq)) _
      (by rw [List.length_set]; exact hinit)]
    have hp := hws p (List.mem_cons_self _ _)
    have hlt : p.1 < init.length := by
      rw [hinit]
      by_contra hge
      rw [List.getElem?_eq_none (Nat.le_of_not_lt hge)] at hp
      cases hp
    by_cases hmem : i ∈ rest.map Prod.fst
    · simp [hmem]
    · by_cases hi : i = p.1
      · subst hi
        simp [hmem, hp, List.getElem?_set, hlt]
      · have hi' : p.1 ≠ i := fun h => hi h.symm
        simp [hmem, hi, hi', List.getElem?_set]

theorem pageCount_isSome (filters : LoadFilters) (pg : TurvoPagination)
    (h : filters.limit ≠ 0) : ∃ pages, pageCount filters pg = some pages := by
  unfold pageCount divInt
  simp only [h, if_false]
  split_ifs <;> exact ⟨_, rfl⟩

theorem GetLoads_eq (lo : Char → Char) (parse : String → Option Time) (toUTC : Time → Time)
    (listShipments :
      TurvoShipmentFilters → Except String (List TurvoShipment × TurvoPagination))
    (getShipment : Nat → Int → Except String TurvoShipmentCreateDetails)
    (schedule : List Nat) (filters : LoadFilters)
    (shipments : List TurvoShipment) (pg : TurvoPagination)
    (hlist : listShipments (mapToTurvoFilters lo toUTC filters) = .ok (shipments, pg))
    (hsched : ∀ i, i < shipments.length → i ∈ schedule) :
    GetLoads lo parse toUTC listShipments getShipment schedule filters =
      (pageCount filters pg).map (fun pages =>
        .ok
          { data := shipments.enum.map (fun p =>
              expectedLoad lo parse getShipment filters.includeDetails p.1 p.2),
            pagination :=
              { total := pg.totalRecordsInPage, pages := pages, page := filters.page,
                limit := filters.limit } }) := by
  have hdata :
      (if filters.includeDetails then
        (schedule.filterMap (fun k => shipments.enum[k]?)).foldl
          (fun loads (p : Nat × TurvoShipment) =>
            loads.set p.1 (detailedLoad lo parse getShipment p.1 p.2))
          (List.replicate shipments.length ({} : Load))
      else
        shipments.enum.foldl
          (fun loads (p : Nat × TurvoShipment) => loads.set p.1 (turvoToDrumkit lo p.2))
          (List.replicate shipments.length ({} : Load))) =
      shipments.enum.map (fun p =>
        expectedLoad lo parse getShipment filters.includeDetails p.1 p.2) := by
    apply List.ext_getElem?
    intro i
    have hexp : (shipments.enum.map (fun p =>
        expectedLoad lo parse getShipment filters.includeDetails p.1 p.2))[i]? =
        (shipments[i]?).map (expectedLoad lo parse getShipment filters.includeDetails i) := by
      rw [List.getElem?_map, List.getElem?_enum]
      cases shipments[i]? <;> rfl
    rw [hexp]
    cases hinc : filters.includeDetails
    · simp only [Bool.false_eq_true, if_false]
      rw [foldl_store_getElem? shipments (fun _ sh => turvoToDrumkit lo sh) shipments.enum
        (fun p hp => List.mk_mem_enum_iff_getElem?.mp hp) _ (List.length_replicate _ _) i]
      have hw : (fun sh => turvoToDrumkit lo sh) = expectedLoad lo parse getShipment false i := by
        funext sh; unfold expectedLoad; simp
      rw [List.enum_map_fst, hw]
      by_cases hi : i < shipments.length
      · rw [if_pos (List.mem_range.mpr hi)]
      · rw [if_neg (fun h => hi (List.mem_range.mp h)),
          List.getElem?_eq_none (Nat.le_of_not_lt hi)]
        simp only [Option.map_none']
        rw [List.getElem?_eq_none]
        rw [List.length_replicate]
        exact Nat.le_of_not_lt hi
    · simp only [if_true]
      rw [foldl_store_getElem? shipments (detailedLoad lo parse getShipment)
        (schedule.filterMap (fun k => shipments.enum[k]?))
        (fun p hp => by
          obtain ⟨k, -, hk⟩ := List.mem_filterMap.mp hp
          exact List.mk_mem_enum_iff_getElem?.mp (List.getElem?_mem hk))
        _ (List.length_replicate _ _) i]
      have hw : detailedLoad lo parse getShipment i = expectedLoad lo parse getShipment true i := by
        funext sh; unfold expectedLoad detailedLoad
        simp only [if_true]
        cases getShipment i sh.id <;> rfl
      rw [hw]
      by_cases hi : i < shipments.length
      · have hmem : i ∈ (schedule.filterMap (fun k => shipments.enum[k]?)).map Prod.fst := by
          rw [List.mem_map]
          refine ⟨(i, shipments[i]), ?_, rfl⟩
          rw [List.mem_filterMap]
          refine ⟨i, hsched i hi, ?_⟩
          rw [List.getElem?_enum, List.getElem?_eq_getElem hi]
          rfl
        rw [if_pos hmem]
      · rw [List.getElem?_eq_none (Nat.le_of_not_lt hi)]
        split_ifs
        · rfl
        · simp only [Option.map_none']
          rw [List.getElem?_eq_none]
          rw [List.length_replicate]
          exact Nat.le_of_not_lt hi
  unfold GetLoads
  simp only [hlist]
  rw [hdata]
  cases pageCount filters pg <;> rfl

theorem ceil_div_eq (a b : Int) (hb : 0 < b) :
    ⌈(a : ℚ) / (b : ℚ)⌉ = (a + b - 1) / b := by
  rw [Int.ceil_eq_iff]
  have hbq : (0 : ℚ) < (b : ℚ) := by exact_mod_cast hb
  have h1 := Int.emod_add_ediv (a + b - 1) b
  have h2 := Int.emod_nonneg (a + b - 1) (ne_of_gt hb)
  have h3 := Int.emod_lt_of_pos (a + b - 1) hb
  set q := (a + b - 1) / b with hq
  set r := (a + b - 1) % b with hr
  constructor
  · rw [lt_div_iff₀ hbq]
    have : (q - 1) * b < a := by nlinarith
    exact_mod_cast this
  · rw [div_le_iff₀ hbq]
    have : a ≤ q * b := by nlinarith
    exact_mod_cast this

theorem pageCount_more (filters : LoadFilters) (pg : TurvoPagination)
    (hm : pg.moreAvailable = true) (h1 : -2 ^ 63 ≤ filters.page + 1)
    (h2 : filters.page + 1 < 2 ^ 63) :
    pageCount filters pg = some (filters.page + 1) := by
  unfold pageCount addInt wrapInt
  simp only [hm, if_true, Option.some.injEq]
  omega

theorem pageCount_exact (filters : LoadFilters) (pg : TurvoPagination)
    (hm : pg.moreAvailable = false) (h1 : 1 ≤ filters.limit)
    (h2 : 0 ≤ pg.totalRecordsInPage) (h3 : pg.totalRecordsInPage + filters.limit ≤ 2 ^ 63) :
    pageCount filters pg =
      some (max 1 ⌈(pg.totalRecordsInPage : ℚ) / (filters.limit : ℚ)⌉) := by
  have hsum : subInt (addInt pg.totalRecordsInPage filters.limit) 1 =
      pg.totalRecordsInPage + filters.limit - 1 := by
    unfold subInt addInt wrapInt
    omega
  have hne : filters.limit ≠ 0 := by omega
  have hq0 : 0 ≤ (pg.totalRecordsInPage + filters.limit - 1) / filters.limit :=
    Int.ediv_nonneg (by omega) (by omega)
  have hq1 : (pg.totalRecordsInPage + filters.limit - 1) / filters.limit ≤
      pg.totalRecordsInPage + filters.limit - 1 :=
    Int.ediv_le_self _ (by omega)
  have hdiv : divInt (pg.totalRecordsInPage + filters.limit - 1) filters.limit =
      some ((pg.totalRecordsInPage + filters.limit - 1) / filters.limit) := by
    unfold divInt
    rw [if_neg hne, Int.tdiv_eq_ediv (by omega) (by omega)]
    congr 1
    unfold wrapInt
    omega
  unfold pageCount
  simp only [hm, Bool.false_eq_true, if_false, hsum, hdiv, Option.some.injEq]
  rw [ceil_div_eq _ _ (by omega)]
  by_cases hz : (pg.totalRecordsInPage + filters.limit - 1) / filters.limit = 0
  · simp [hz]
  · have : ((pg.totalRecordsInPage + filters.limit - 1) / filters.limit == 0) = false := by
      simpa using hz
    rw [this]
    simp only [Bool.false_eq_true, if_false]
    rw [max_eq_right]
    omega

/-- C28 (as the code has it): when the remote's list call succeeds, `GetLoads` returns a
response whose total is the remote `totalRecordsInPage` and whose page and limit are those of
the filters. When `moreAvailable` is true, pages is `page + 1`, provided that sum is within
the range of `int`; when it is false, for every total >= 0 and limit >= 1 with
`total + limit <= 2 ^ 63`, so that `total + limit - 1` is within the range of `int`, pages is
`max(1, ceil(total / limit))`. -/
theorem GetLoads_pagination (lo : Char → Char) (parse : String → Option Time)
    (toUTC : Time → Time)
    (listShipments :
      TurvoShipmentFilters → Except String (List TurvoShipment × TurvoPagination))
    (getShipment : Nat → Int → Except String TurvoShipmentCreateDetails)
    (schedule : List Nat) (filters : LoadFilters)
    (shipments : List TurvoShipment) (pg : TurvoPagination)
    (hlist : listShipments (mapToTurvoFilters lo toUTC filters) = .ok (shipments, pg))
    (hmore : pg.moreAvailable = true →
      -2 ^ 63 ≤ filters.page + 1 ∧ filters.page + 1 < 2 ^ 63)
    (hexact : pg.moreAvailable = false →
      1 ≤ filters.limit ∧ 0 ≤ pg.totalRecordsInPage ∧
        pg.totalRecordsInPage + filters.limit ≤ 2 ^ 63) :
    ∃ response,
      GetLoads lo parse toUTC listShipments getShipment schedule filters =
        some (.ok response) ∧
      response.pagination.total = pg.totalRecordsInPage ∧
      response.pagination.page = filters.page ∧
      response.pagination.limit = filters.limit ∧
      response.pagination.pages =
        if pg.moreAvailable then filters.page + 1
        else max 1 ⌈(pg.totalRecordsInPage : ℚ) / (filters.limit : ℚ)⌉ := by
  have hpages : pageCount filters pg =
      some (if pg.moreAvailable then filters.page + 1
        else max 1 ⌈(pg.totalRecordsInPage : ℚ) / (filters.limit : ℚ)⌉) := by
    cases hm : pg.moreAvailable
    · obtain ⟨h1, h2, h3⟩ := hexact hm
      simpa using pageCount_exact filters pg hm h1 h2 h3
    · obtain ⟨h1, h2⟩ := hmore hm
      simpa using pageCount_more filters pg hm h1 h2
  unfold GetLoads
  simp only [hlist, hpages]
  exact ⟨_, rfl, rfl, rfl, rfl, rfl⟩

theorem GetLoads_pagination_witness :
    ∃ response,
      GetLoads id sampleParse id sampleList sampleGet [2, 0, 1]
          { page := 1, limit := 20, includeDetails := true } = some (.ok response) ∧
      response.pagination.total = 47 ∧ response.pagination.page = 1 ∧
      response.pagination.limit = 20 ∧
      response.pagination.pages =
        if false then (1 : Int) + 1 else max 1 ⌈((47 : Int) : ℚ) / ((20 : Int) : ℚ)⌉ :=
  GetLoads_pagination id sampleParse id sampleList sampleGet [2, 0, 1]
    { page := 1, limit := 20, includeDetails := true } threeShipments
    { totalRecordsInPage := 47, moreAvailable := false } rfl (by decide) (by decide)

/-- C28 (as stated) fails: with a total of `2 ^ 63 - 1` records and a limit of 2 the sum
`total + limit - 1` wraps around, and the pages reported are negative where
`max(1, ceil(total / limit))` is `2 ^ 62`. -/
theorem pages_overflow :
    reportedPages (GetLoads id sampleParse id hugeList sampleGet [] { page := 1, limit := 2 }) =
        some (-4611686018427387904) ∧
      max 1 ⌈((9223372036854775807 : Int) : ℚ) / ((2 : Int) : ℚ)⌉ = 4611686018427387904 := by
  constructor
  · decide
  · rw [ceil_div_eq _ _ (by decide)]
    decide

/-- C29: when the remote's list call succeeds and the limit is not zero (the page count
divides by it), `GetLoads` returns a response and does not fail, whatever the outcomes of the
detail fetches and whatever the order in which the goroutines store their results; the data
list is as long as the list of shipments, and its i-th element is the shallow translation of
shipment i when details are not asked for, and otherwise the detailed translation of what the
fetch for shipment i returned when that fetch succeeded and the shallow translation of
shipment i when it failed. -/
theorem GetLoads_order (lo : Char → Char) (parse : String → Option Time)
    (toUTC : Time → Time)
    (listShipments :
      TurvoShipmentFilters → Except String (List TurvoShipment × TurvoPagination))
    (getShipment : Nat → Int → Except String TurvoShipmentCreateDetails)
    (schedule : List Nat) (filters : LoadFilters)
    (shipments : List TurvoShipment) (pg : TurvoPagination)
    (hlist : listShipments (mapToTurvoFilters lo toUTC filters) = .ok (shipments, pg))
    (hschedule : schedule.Perm (List.range shipments.length))
    (hlimit : filters.limit ≠ 0) :
    ∃ response,
      GetLoads lo parse toUTC listShipments getShipment schedule filters =
        some (.ok response) ∧
      response.data.length = shipments.length ∧
      ∀ i shipment, shipments[i]? = some shipment →
        response.data[i]? =
          some (if filters.includeDetails then
              match getShipment i shipment.id with
              | .ok detail => turvoDetailsToDrumkit lo parse detail
              | .error _ => turvoToDrumkit lo shipment
            else turvoToDrumkit lo shipment) := by
  obtain ⟨pages, hpages⟩ := pageCount_isSome filters pg hlimit
  have hmem : ∀ i, i < shipments.length → i ∈ schedule :=
    fun i hi => hschedule.symm.subset (List.mem_range.mpr hi)
  rw [GetLoads_eq lo parse toUTC listShipments getShipment schedule filters shipments pg hlist
    hmem, hpages]
  refine ⟨_, rfl, ?_, ?_⟩
  · simp
  · intro i shipment hi
    simp only [List.getElem?_map, List.getElem?_enum, hi, Option.map_some']
    rfl

theorem GetLoads_order_witness :
    ∃ response,
      GetLoads id sampleParse id sampleList sampleGet [2, 0, 1]
          { page := 1, limit := 20, includeDetails := true } = some (.ok response) ∧
      response.data.length = threeShipments.length ∧
      ∀ i shipment, threeShipments[i]? = some shipment →
        response.data[i]? =
          some (if true then
              match sampleGet i shipment.id with
              | .ok detail => turvoDetailsToDrumkit id sampleParse detail
              | .error _ => turvoToDrumkit id shipment
            else turvoToDrumkit id shipment) :=
  GetLoads_order id sampleParse id sampleList sampleGet [2, 0, 1]
    { page := 1, limit := 20, includeDetails := true } threeShipments
    { totalRecordsInPage := 47, moreAvailable := false } rfl (by decide) (by decide)

/-- The example of the specification: for shipments A, B, C with details asked for and B's
fetch failing, the data are detail(A), shallow(B), detail(C); 47 records under a limit of 20
are 3 pages. -/
theorem GetLoads_three_shipments :
    (match GetLoads id sampleParse id sampleList sampleGet [2, 0, 1]
          { page := 1, limit := 20, includeDetails := true } with
      | some (.ok response) =>
        some (response.data.map (fun l => (l.externalTMSLoadID, l.freightLoadID)),
          response.pagination.pages)
      | _ => none) =
      some ([("101", "detail of 101"), ("102", "B"), ("103", "detail of 103")], 3) := by
  decide

/-- The other example of the specification: on page 2 with more available, the pages
reported are 3. -/
theorem GetLoads_more_available :
    reportedPages (GetLoads id sampleParse id sampleMoreList sampleGet []
      { page := 2, limit := 20 }) = some 3 := by
  decide

/-! ## Validation comes before the remote call -/

theorem Service_CreateLoadM_pure (lo : Char → Char)
    (createShipment : TurvoShipmentCreate → Except String TurvoShipmentCreateResponse)
    (sourceId : Nat) (now : Time) (load : Load) :
    @Service.CreateLoadM Id _ lo (fun shipment => pure (createShipment shipment)) sourceId now
        load =
      pure (Service.CreateLoad lo createShipment sourceId now load) := by
  unfold Service.CreateLoadM Service.CreateLoad
  cases h1 : ValidateLoad load with
  | some err => rfl
  | none =>
    cases h2 : drumkitToTurvo lo sourceId load with
    | none => rfl
    | some p =>
      cases h3 : ValidateTurvoShipment p with
      | some err => rfl
      | none =>
        simp only [pure_bind]
        cases h4 : createShipment p with
        | error e => rfl
        | ok r =>
          simp only []
          split_ifs <;> rfl

/-- C30: a load that `ValidateLoad` rejects with an error, and a load that it accepts whose
translated payload `ValidateTurvoShipment` rejects with an error, make `CreateLoad` return
that error prefixed with "validation error: " without performing the transport's create
operation: whatever the operation is, the run is a pure value; a transport that records what
it is sent has recorded nothing more afterwards; and the result is the same whatever the
transport would have answered. -/
theorem CreateLoad_validates_first {m : Type → Type} [Monad m] (lo : Char → Char)
    (createShipment : TurvoShipmentCreate → m (Except String TurvoShipmentCreateResponse))
    (reply : TurvoShipmentCreate → Except String TurvoShipmentCreateResponse)
    (sent : List TurvoShipmentCreate)
    (sourceId : Nat) (now : Time) (load : Load) (err : String)
    (h : ValidateLoad load = some err ∨
      (ValidateLoad load = none ∧
        ∃ p, drumkitToTurvo lo sourceId load = some p ∧ ValidateTurvoShipment p = some err)) :
    Service.CreateLoadM lo createShipment sourceId now load =
        pure (some (.error ("validation error: " ++ err))) ∧
      (Service.CreateLoadM lo (recordingCreate reply) sourceId now load).run sent =
        (some (.error ("validation error: " ++ err)), sent) ∧
      Service.CreateLoad lo reply sourceId now load =
        some (.error ("validation error: " ++ err)) := by
  have key : ∀ (n : Type → Type) [Monad n]
      (create : TurvoShipmentCreate → n (Except String TurvoShipmentCreateResponse)),
      Service.CreateLoadM lo create sourceId now load =
        pure (some (.error ("validation error: " ++ err))) := by
    intro n _ create
    unfold Service.CreateLoadM
    rcases h with h | ⟨h, p, hp, hq⟩
    · simp only [h]
    · simp only [h, hp, hq]
  refine ⟨key m createShipment, ?_, ?_⟩
  · rw [key]; rfl
  · have := Service_CreateLoadM_pure lo reply sourceId now load
    rw [key] at this
    exact (this.symm : _)


theorem CreateLoad_validates_first_witness :
    (ValidateLoad badIdLoad = none ∧
      ∃ p, drumkitToTurvo id 7 badIdLoad = some p ∧
        ValidateTurvoShipment p =
          some "validation failed: [customerOrder[0].customer.id is required]") ∧
      (Service.CreateLoadM id (recordingCreate (fun _ => .ok {})) 7 {} badIdLoad).run [] =
        (some (.error ("validation error: " ++
          "validation failed: [customerOrder[0].customer.id is required]")), []) :=
  ⟨⟨by decide, _, rfl, by decide⟩,
    (CreateLoad_validates_first id (recordingCreate (fun _ => .ok {})) (fun _ => .ok {}) [] 7 {}
      badIdLoad _ (Or.inr ⟨by decide, _, rfl, by decide⟩)).2.1⟩

/-! ## The filters of the list endpoint -/

theorem Atoi_empty : Atoi "" = none := by decide

theorem parseStatus_page_limit (query : String → String) (f : LoadFilters) :
    (parseStatus query f).page = f.page ∧ (parseStatus query f).limit = f.limit := by
  unfold parseStatus
  simp only []
  split_ifs <;> exact ⟨rfl, rfl⟩

theorem parseCustomerID_page_limit (query : String → String) (f : LoadFilters) :
    (parseCustomerID query f).page = f.page ∧ (parseCustomerID query f).limit = f.limit := by
  unfold parseCustomerID
  simp only []
  split_ifs <;> exact ⟨rfl, rfl⟩

theorem parsePickupDateFrom_page_limit (parse : String → Option Time)
    (query : String → String) (f : LoadFilters) :
    (parsePickupDateFrom parse query f).page = f.page ∧
      (parsePickupDateFrom parse query f).limit = f.limit := by
  unfold parsePickupDateFrom
  simp only []
  split_ifs
  · cases parse (query "pickupDateSearchFrom") <;> exact ⟨rfl, rfl⟩
  · exact ⟨rfl, rfl⟩

theorem parsePickupDateTo_page_limit (parse : String → Option Time)
    (query : String → String) (f : LoadFilters) :
    (parsePickupDateTo parse query f).page = f.page ∧
      (parsePickupDateTo parse query f).limit = f.limit := by
  unfold parsePickupDateTo
  simp only []
  split_ifs
  · cases parse (query "pickupDateSearchTo") <;> exact ⟨rfl, rfl⟩
  · exact ⟨rfl, rfl⟩

theorem parseIncludeDetails_page_limit (query : String → String) (f : LoadFilters) :
    (parseIncludeDetails query f).page = f.page ∧
      (parseIncludeDetails query f).limit = f.limit := by
  unfold parseIncludeDetails
  simp only []
  split_ifs <;> exact ⟨rfl, rfl⟩

theorem parsePage_page_limit (query : String → String) (f : LoadFilters) (h : f.page = 1) :
    (parsePage query f).page = pageOfQuery (query "page") ∧
      (parsePage query f).limit = f.limit := by
  unfold parsePage pageOfQuery
  simp only []
  by_cases hq : query "page" = ""
  · simp only [hq, bne_self_eq_false, Bool.false_eq_true, if_false, Atoi_empty, h, and_self]
  · have hq2 : (query "page" != "") = true := by simpa using hq
    simp only [hq2, if_true]
    cases Atoi (query "page") with
    | none => exact ⟨h, rfl⟩
    | some page =>
      simp only [ge_iff_le]
      split_ifs
      · exact ⟨rfl, rfl⟩
      · exact ⟨h, rfl⟩

theorem parseLimit_page_limit (query : String → String) (f : LoadFilters) (h : f.limit = 20) :
    (parseLimit query f).page = f.page ∧
      (parseLimit query f).limit = limitOfQuery (query "limit") := by
  unfold parseLimit limitOfQuery
  simp only []
  by_cases hq : query "limit" = ""
  · simp only [hq, bne_self_eq_false, Bool.false_eq_true, if_false, Atoi_empty, h, and_self]
  · have hq2 : (query "limit" != "") = true := by simpa using hq
    simp only [hq2, if_true]
    cases Atoi (query "limit") with
    | none => exact ⟨rfl, h⟩
    | some limit =>
      refine ⟨rfl, ?_⟩
      simp only [gt_iff_lt]
      split_ifs <;> first | rfl | omega

theorem parseFilters_page_limit (parse : String → Option Time) (query : String → String) :
    (parseFilters parse query).page = pageOfQuery (query "page") ∧
      (parseFilters parse query).limit = limitOfQuery (query "limit") := by
  unfold parseFilters
  simp only []
  have h1 := parseStatus_page_limit query { page := 1, limit := 20 }
  have h2 := parseCustomerID_page_limit query (parseStatus query { page := 1, limit := 20 })
  have h3 := parsePickupDateFrom_page_limit parse query
    (parseCustomerID query (parseStatus query { page := 1, limit := 20 }))
  have h4 := parsePickupDateTo_page_limit parse query
    (parsePickupDateFrom parse query
      (parseCustomerID query (parseStatus query { page := 1, limit := 20 })))
  have h5 := parsePage_page_limit query
    (parsePickupDateTo parse query (parsePickupDateFrom parse query
      (parseCustomerID query (parseStatus query { page := 1, limit := 20 }))))
    (by rw [h4.1, h3.1, h2.1, h1.1])
  have h6 := parseLimit_page_limit query
    (parsePage query (parsePickupDateTo parse query (parsePickupDateFrom parse query
      (parseCustomerID query (parseStatus query { page := 1, limit := 20 })))))
    (by rw [h5.2, h4.2, h3.2, h2.2, h1.2])
  have h7 := parseIncludeDetails_page_limit query
    (parseLimit query (parsePage query (parsePickupDateTo parse query
      (parsePickupDateFrom parse query
        (parseCustomerID query (parseStatus query { page := 1, limit := 20 }))))))
  exact ⟨by rw [h7.1, h6.1, h5.1], by rw [h7.2, h6.2]⟩

theorem pageOfQuery_ge (s : String) : 1 ≤ pageOfQuery s := by
  unfold pageOfQuery
  cases Atoi s with
  | none => exact le_refl _
  | some page =>
    simp only []
    split_ifs with h
    · exact h
    · exact le_refl _

theorem limitOfQuery_bounds (s : String) : 1 ≤ limitOfQuery s ∧ limitOfQuery s ≤ 100 := by
  unfold limitOfQuery
  cases Atoi s with
  | none => exact ⟨by decide, by decide⟩
  | some limit =>
    simp only []
    split_ifs <;> omega

/-- C35. The filters `parseFilters` builds from a query string have a page of at least 1 and
a limit from 1 to 100, whatever the values of the parameters `page` and `limit` are: the page
is the parsed value when that is an integer of at least 1 and is 1 otherwise, the limit is
the parsed value brought into the range from 1 to 100 and is 20 when the value is not an
integer. With these filters the page computation of `GetLoads` returns a number of pages, and
`GetLoads` itself returns: neither divides by zero. -/
theorem parseFilters_bounds (lo : Char → Char) (parse : String → Option Time)
    (toUTC : Time → Time) (query : String → String) :
    1 ≤ (parseFilters parse query).page ∧
      1 ≤ (parseFilters parse query).limit ∧ (parseFilters parse query).limit ≤ 100 ∧
      (parseFilters parse query).page =
        (match Atoi (query "page") with
          | some page => if 1 ≤ page then page else 1
          | none => 1) ∧
      (parseFilters parse query).limit =
        (match Atoi (query "limit") with
          | some limit => if limit < 1 then 1 else if 100 < limit then 100 else limit
          | none => 20) ∧
      (∀ pg, ∃ pages, pageCount (parseFilters parse query) pg = some pages) ∧
      ∀ listShipments getShipment schedule, ∃ result,
        GetLoads lo parse toUTC listShipments getShipment schedule (parseFilters parse query) =
          some result := by
  have h := parseFilters_page_limit parse query
  have hp := pageOfQuery_ge (query "page")
  have hl := limitOfQuery_bounds (query "limit")
  have hne : (parseFilters parse query).limit ≠ 0 := by rw [h.2]; omega
  refine ⟨by rw [h.1]; exact hp, by rw [h.2]; exact hl.1, by rw [h.2]; exact hl.2,
    h.1, h.2, fun pg => pageCount_isSome _ pg hne, ?_⟩
  intro listShipments getShipment schedule
  unfold GetLoads
  simp only []
  cases listShipments (mapToTurvoFilters lo toUTC (parseFilters parse query)) with
  | error err => exact ⟨_, rfl⟩
  | ok r =>
    obtain ⟨shipments, pg⟩ := r
    obtain ⟨pages, hpages⟩ := pageCount_isSome (parseFilters parse query) pg hne
    simp only [hpages]
    exact ⟨_, rfl⟩

theorem parseFilters_examples :
    ((parseFilters (fun _ => none) (pageLimitQuery "" "")).page,
        (parseFilters (fun _ => none) (pageLimitQuery "" "")).limit) = (1, 20) ∧
      ((parseFilters (fun _ => none) (pageLimitQuery "abc" "x")).page,
        (parseFilters (fun _ => none) (pageLimitQuery "abc" "x")).limit) = (1, 20) ∧
      ((parseFilters (fun _ => none) (pageLimitQuery "0" "0")).page,
        (parseFilters (fun _ => none) (pageLimitQuery "0" "0")).limit) = (1, 1) ∧
      ((parseFilters (fun _ => none) (pageLimitQuery "-3" "-7")).page,
        (parseFilters (fun _ => none) (pageLimitQuery "-3" "-7")).limit) = (1, 1) ∧
      ((parseFilters (fun _ => none) (pageLimitQuery "7" "1000")).page,
        (parseFilters (fun _ => none) (pageLimitQuery "7" "1000")).limit) = (7, 100) := by
  decide

/-! ## The result of the create path, the carrier id of the list view and the offsets -/

/-- C31. When `ValidateLoad` accepts the load, `ValidateTurvoShipment` accepts its payload and
the transport's create operation answers with a response, `CreateLoad` returns the decimal
string of the response's shipment id with the reading of the clock as `createdAt`, and no
error, if that id is greater than 0; it returns the error "invalid response: shipment ID is
missing", and no response value, if the id is not greater than 0, which is the case of a zero
or absent id. -/
theorem CreateLoad_remote_success (lo : Char → Char)
    (createShipment : TurvoShipmentCreate → Except String TurvoShipmentCreateResponse)
    (sourceId : Nat) (now : Time) (load : Load) (response : TurvoShipmentCreateResponse)
    (hload : ValidateLoad load = none)
    (hremote : ∃ p, drumkitToTurvo lo sourceId load = some p ∧
      ValidateTurvoShipment p = none ∧ createShipment p = .ok response) :
    (0 < response.details.id →
        Service.CreateLoad lo createShipment sourceId now load =
          some (.ok { id := formatInt response.details.id, createdAt := now })) ∧
      (response.details.id ≤ 0 →
        Service.CreateLoad lo createShipment sourceId now load =
          some (.error "invalid response: shipment ID is missing")) := by
  obtain ⟨p, hp, hv, hc⟩ := hremote
  unfold Service.CreateLoad
  simp only [hload, hp, hv, hc, gt_iff_lt]
  constructor
  · intro h
    rw [if_pos h]
  · intro h
    rw [if_neg (not_lt.mpr h)]

theorem CreateLoad_remote_success_witness :
    (Service.CreateLoad id (createdWithId 5120) 7 { year := 2024, month := 3, day := 9 }
        sampleLoad).map (fun r => r.toOption.map (fun c => (c.id, formatRFC3339 c.createdAt))) =
      some (some ("5120", "2024-03-09T00:00:00Z")) := by
  rw [(CreateLoad_remote_success id (createdWithId 5120) 7 { year := 2024, month := 3, day := 9 }
    sampleLoad { details := { id := 5120 } } (by decide)
    ⟨_, rfl, by decide, rfl⟩).1 (by decide)]
  decide

theorem CreateLoad_remote_zero_id :
    (Service.CreateLoad id (createdWithId 0) 7 {} sampleLoad).map
        (fun r => match r with
          | .error err => some err
          | .ok _ => none) =
      some (some "invalid response: shipment ID is missing") := by
  decide

/-- C36. On a shipment of the list endpoint whose first carrier order is not deleted and has
the carrier "Swift Lines" with id 4, `turvoToDrumkit` returns a carrier whose `externalTMSId`
is empty: the decimal string "4" of the id is in `mcNumber`. -/
theorem turvoToDrumkit_carrier_id_in_mcNumber :
    (turvoToDrumkit id carrierIdShipment).carrier.map
        (fun c => (c.name, c.externalTMSId, c.mcNumber)) =
      some ("Swift Lines", "", "4") := by
  decide

theorem mapToTurvoFilters_page (lo : Char → Char) (toUTC : Time → Time)
    (filters : LoadFilters) :
    (mapToTurvoFilters lo toUTC filters).pageSize = filters.limit ∧
      (mapToTurvoFilters lo toUTC filters).start =
        mulInt (subInt filters.page 1) filters.limit ∧
      (filters.status ≠ "" →
        (mapToTurvoFilters lo toUTC filters).status =
          (APIToTurvoStatus lo filters.status).1) := by
  cases h1 : (filters.status != "") <;> cases h2 : (filters.customerID != "") <;>
    cases h3 : filters.pickupDateFrom <;> cases h4 : filters.pickupDateTo <;>
    simp only [mapToTurvoFilters, h1, h2, h3, h4, Bool.false_eq_true, if_false, if_true,
      true_and, ne_eq] <;>
    first
    | (intro h; exfalso; exact h (by simpa using h1))
    | (intro _; trivial)

/-- C37. For filters with a page of at least 1 and a limit of at least 1 whose product
`(page - 1) * limit` is below 2^63, `mapToTurvoFilters` sets `pageSize` to the limit and
`start` to `(page - 1) * limit`, which is not negative; the start of the next page, when
`page * limit` is below 2^63 too, is the start of this page plus `pageSize`; and a non-empty
status filter is sent as the key `APIToTurvoStatus` gives for it. -/
theorem mapToTurvoFilters_offset (lo : Char → Char) (toUTC : Time → Time)
    (filters : LoadFilters) (hpage : 1 ≤ filters.page) (hlimit : 1 ≤ filters.limit)
    (hrange : (filters.page - 1) * filters.limit < 2 ^ 63) :
    (mapToTurvoFilters lo toUTC filters).pageSize = filters.limit ∧
      (mapToTurvoFilters lo toUTC filters).start = (filters.page - 1) * filters.limit ∧
      0 ≤ (mapToTurvoFilters lo toUTC filters).start ∧
      (∀ next : LoadFilters, next.page = filters.page + 1 → next.limit = filters.limit →
        filters.page * filters.limit < 2 ^ 63 →
        (mapToTurvoFilters lo toUTC next).start =
          (mapToTurvoFilters lo toUTC filters).start +
            (mapToTurvoFilters lo toUTC filters).pageSize) ∧
      (filters.status ≠ "" →
        (mapToTurvoFilters lo toUTC filters).status =
          (APIToTurvoStatus lo filters.status).1) := by
  have key : ∀ f : LoadFilters, 1 ≤ f.page → 1 ≤ f.limit →
      (f.page - 1) * f.limit < 2 ^ 63 →
      mulInt (subInt f.page 1) f.limit = (f.page - 1) * f.limit := by
    intro f hp hl hr
    have h0 : 0 ≤ f.page - 1 := by omega
    have hprod : 0 ≤ (f.page - 1) * f.limit := mul_nonneg h0 (by omega)
    have hle : f.page - 1 ≤ (f.page - 1) * f.limit := le_mul_of_one_le_right h0 hl
    have hsub : subInt f.page 1 = f.page - 1 := by
      unfold subInt wrapInt
      omega
    rw [hsub]
    unfold mulInt wrapInt
    generalize (f.page - 1) * f.limit = x at hprod hr
    omega
  obtain ⟨h1, h2, h3⟩ := mapToTurvoFilters_page lo toUTC filters
  have hs := key filters hpage hlimit hrange
  refine ⟨h1, by rw [h2, hs], by rw [h2, hs]; exact mul_nonneg (by omega) (by omega), ?_, h3⟩
  intro next hnp hnl hnr
  obtain ⟨_, n2, _⟩ := mapToTurvoFilters_page lo toUTC next
  rw [n2, key next (by omega) (by omega) (by rw [hnp, hnl]; simpa using hnr), h2, hs, h1, hnp,
    hnl]
  ring

theorem mapToTurvoFilters_offset_witness :
    ((mapToTurvoFilters id id { page := 3, limit := 20, status := "covered" }).pageSize,
      (mapToTurvoFilters id id { page := 3, limit := 20, status := "covered" }).start,
      (mapToTurvoFilters id id { page := 3, limit := 20, status := "covered" }).status) =
      (20, 40, "2102") := by
  obtain ⟨h1, h2, _, _, h5⟩ :=
    mapToTurvoFilters_offset id id { page := 3, limit := 20, status := "covered" }
      (by decide) (by decide) (by decide)
  rw [h1, h2, h5 (by decide)]
  decide

/-- C37 (as stated) fails: the offset `mapToTurvoFilters` computes for the query
`page=9223372036854775807&limit=100` is -200, the product `(page - 1) * limit` being outside
the range of `int`. -/
theorem mapToTurvoFilters_start_overflow :
    (parseFilters (fun _ => none) (pageLimitQuery "9223372036854775807" "100")).page =
        9223372036854775807 ∧
      (parseFilters (fun _ => none) (pageLimitQuery "9223372036854775807" "100")).limit = 100 ∧
      (mapToTurvoFilters id id
        (parseFilters (fun _ => none) (pageLimitQuery "9223372036854775807" "100"))).start =
        -200 := by
  decide

/-! ## The two validators -/

theorem formatRFC3339_ne_empty (t : Time) : formatRFC3339 t ≠ "" := by
  intro h
  have := congrArg String.length h
  unfold formatRFC3339 at this
  simp only [String.length_append] at this
  have h1 : ("-" : String).length = 1 := by decide
  have h0 : ("" : String).length = 0 := by decide
  omega

theorem lane_end_ne_empty (city state name : String)
    (h : (city ≠ "" ∧ state ≠ "") ∨ name ≠ "") :
    (if city != "" && state != "" then city ++ ", " ++ state else name) ≠ "" := by
  split_ifs with hc
  · exact append_comma_ne_empty city state
  · rcases h with ⟨h1, h2⟩ | h
    · exfalso
      apply hc
      simp [h1, h2]
    · exact h

theorem drumkitToTurvo_customerOrder (lo : Char → Char) (sourceId : Nat) (load : Load)
    (c : Customer) (p : Pickup) (n : Consignee) (t s : Time)
    (hc : load.customer = some c) (hp : load.pickup = some p) (hn : load.consignee = some n)
    (ht : n.apptTime = some t)
    (hs : p.readyTime = some s ∨ (p.readyTime = none ∧ p.apptTime = some s)) :
    ∃ payload, drumkitToTurvo lo sourceId load = some payload ∧
      payload.customerOrder =
        [{ customer :=
            { name := c.name,
              id := match Atoi c.externalTMSId with
                | some id => id
                | none => 0 },
           customerOrderSourceId := (sourceId : Int),
           externalIds :=
            if load.poNums != "" || c.refNumber != "" then
              (if load.poNums != "" then poExternalIds load.poNums else []) ++
                (if c.refNumber != "" then
                  [{ type := { key := "1401", value := "Reference Number" },
                     value := c.refNumber }]
                else [])
            else [] }] := by
  unfold drumkitToTurvo
  rcases hs with hs | ⟨hs0, hs⟩
  · simp only [hc, hp, hn, ht, hs, Option.bind_eq_bind, Option.some_bind, Option.pure_def,
      bind_pure_comp, Option.map_some']
    exact ⟨_, rfl, rfl⟩
  · simp only [hc, hp, hn, ht, hs, hs0, Option.bind_eq_bind, Option.some_bind, Option.pure_def,
      bind_pure_comp, Option.map_some']
    exact ⟨_, rfl, rfl⟩

/-- C38. For a load that `ValidateLoad` accepts, the payload of `drumkitToTurvo` has exactly
one customer order, whose customer id is the integer `customer.externalTMSId` parses as, or 0
when it does not parse, and whose `customerOrderSourceId` is the correlation id drawn; the
errors `ValidateTurvoShipment` finds in the payload are at most the two of that order, in
this order: the customer id when it is 0, the correlation id when it is 0. The payload is
accepted exactly when `customer.externalTMSId` parses as a non-zero integer and the
correlation id is not 0; it is rejected when `customer.externalTMSId` is "abc". -/
theorem validators_relation (lo : Char → Char) (sourceId : Nat) (load : Load)
    (payload : TurvoShipmentCreate) (hv : ValidateLoad load = none)
    (hpl : drumkitToTurvo lo sourceId load = some payload) :
    ∃ c o, load.customer = some c ∧ payload.customerOrder = [o] ∧
      o.customer.id =
        (match Atoi c.externalTMSId with
          | some id => id
          | none => 0) ∧
      o.customerOrderSourceId = (sourceId : Int) ∧
      validateTurvoShipmentErrors payload =
        (if o.customer.id = 0 then ["customerOrder[0].customer.id is required"] else []) ++
          (if o.customerOrderSourceId = 0 then
            ["customerOrder[0].customerOrderSourceId is required"]
          else []) ∧
      (ValidateTurvoShipment payload = none ↔
        (∃ id, Atoi c.externalTMSId = some id ∧ id ≠ 0) ∧ sourceId ≠ 0) ∧
      (c.externalTMSId = "abc" → ValidateTurvoShipment payload ≠ none) := by
  obtain ⟨c, p, n, t, s, hc, hp, hn, ht, hs, hlp, hln⟩ := validated_payload load hv
  obtain ⟨payload1, h1, hsd, hed, hls, hle⟩ :=
    drumkitToTurvo_fields lo sourceId load c p n t s hc hp hn ht hs
  obtain ⟨payload2, h2, hco⟩ :=
    drumkitToTurvo_customerOrder lo sourceId load c p n t s hc hp hn ht hs
  rw [hpl] at h1 h2
  cases Option.some.inj h1
  cases Option.some.inj h2
  have e1 : payload.startDate.date ≠ "" := by rw [hsd]; exact formatRFC3339_ne_empty s
  have e2 : payload.endDate.date ≠ "" := by rw [hed]; exact formatRFC3339_ne_empty t
  have e3 : payload.lane.start ≠ "" := by rw [hls]; exact lane_end_ne_empty _ _ _ hlp
  have e4 : payload.lane.end ≠ "" := by rw [hle]; exact lane_end_ne_empty _ _ _ hln
  have herr : validateTurvoShipmentErrors payload =
      (if (match Atoi c.externalTMSId with
          | some id => id
          | none => 0) = 0 then ["customerOrder[0].customer.id is required"] else []) ++
        (if (sourceId : Int) = 0 then
          ["customerOrder[0].customerOrderSourceId is required"]
        else []) := by
    rw [validateTurvoShipmentErrors_eq, hco]
    simp only [e1, e2, e3, e4, if_false, List.nil_append, List.length_singleton,
      Nat.succ_ne_zero, customerOrderErrors]
    have f0 : formatInt ((0 : Nat) : Int) = "0" := by decide
    rw [f0]
    split_ifs <;> rfl
  refine ⟨c, _, hc, hco, rfl, rfl, herr, ?_, ?_⟩
  · rw [ValidateTurvoShipment_eq, herr]
    cases hat : Atoi c.externalTMSId with
    | none => simp
    | some id =>
      by_cases hid : id = 0
      · simp [hid]
      · by_cases hsrc : sourceId = 0
        · simp [hid, hsrc]
        · simp [hid, hsrc]
  · intro habc
    rw [ValidateTurvoShipment_eq, herr, habc]
    have hat : Atoi "abc" = none := by decide
    rw [hat]
    simp

theorem validators_relation_witness :
    ValidateLoad badIdLoad = none ∧
      ∃ payload, drumkitToTurvo id 7 badIdLoad = some payload ∧
        ValidateTurvoShipment payload ≠ none := by
  refine ⟨by decide, _, rfl, ?_⟩
  obtain ⟨c, o, hc, _, _, _, _, _, h⟩ := validators_relation id 7 badIdLoad _ (by decide) rfl
  exact h (by cases Option.some.inj hc; rfl)

/-! ## The PO numbers, there and back -/

theorem intercalate_go_data (sep : String) (as : List String) :
    ∀ acc : String, (String.intercalate.go acc sep as).data =
      acc.data ++ as.flatMap (fun a => sep.data ++ a.data) := by
  induction as with
  | nil => intro acc; simp [String.intercalate.go]
  | cons a rest ih =>
    intro acc
    simp only [String.intercalate.go, ih, String.data_append, List.flatMap_cons,
      List.append_assoc]

theorem Join_data (v : String) (vs : List String) :
    (Join (v :: vs) ", ").data = v.data ++ vs.flatMap (fun a => ',' :: ' ' :: a.data) := by
  unfold Join String.intercalate
  rw [intercalate_go_data]
  rfl

theorem splitRunes_cons_sep (sep : Char) (cs : List Char) :
    splitRunes sep (sep :: cs) = [] :: splitRunes sep cs := by
  rw [splitRunes]
  simp only [if_true]

theorem splitRunes_cons_ne (sep c : Char) (cs p : List Char) (ps : List (List Char))
    (hc : c ≠ sep) (h : splitRunes sep cs = p :: ps) :
    splitRunes sep (c :: cs) = (c :: p) :: ps := by
  rw [splitRunes]
  simp only [hc, if_false, h]

theorem splitRunes_pieces (ws : List (List Char)) :
    ∀ v : List Char, ',' ∉ v → (∀ w ∈ ws, ',' ∉ w) →
      splitRunes ',' (v ++ ws.flatMap (fun a => ',' :: ' ' :: a)) =
        v :: ws.map (fun a => ' ' :: a) := by
  have step : ∀ (v rest : List Char) (p : List Char) (ps : List (List Char)), ',' ∉ v →
      splitRunes ',' rest = p :: ps → splitRunes ',' (v ++ rest) = (v ++ p) :: ps := by
    intro v
    induction v with
    | nil => intro rest p ps _ h; simpa using h
    | cons c cs ih =>
      intro rest p ps hv h
      have hc : c ≠ ',' := fun e => hv (by rw [e]; exact List.mem_cons_self _ _)
      have hcs : ',' ∉ cs := fun e => hv (List.mem_cons_of_mem _ e)
      rw [List.cons_append, splitRunes_cons_ne ',' c (cs ++ rest) (cs ++ p) ps hc
        (ih rest p ps hcs h)]
      rfl
  induction ws with
  | nil =>
    intro v hv _
    have := step v [] [] [] hv rfl
    simpa using this
  | cons w rest ih =>
    intro v hv hws
    have hw : ',' ∉ (' ' :: w) := by
      intro e
      rcases List.mem_cons.mp e with e | e
      · exact absurd e (by decide)
      · exact hws w (List.mem_cons_self _ _) e
    have hrest := ih (' ' :: w) hw (fun x hx => hws x (List.mem_cons_of_mem _ hx))
    have hcomma : splitRunes ',' (',' :: ((' ' :: w) ++
        rest.flatMap (fun a => ',' :: ' ' :: a))) =
        [] :: (' ' :: w) :: rest.map (fun a => ' ' :: a) := by
      rw [splitRunes_cons_sep, hrest]
    have := step v _ _ _ hv hcomma
    simpa using this

theorem TrimSpace_of_isTrimmed (v : String) (h : isTrimmed v = true) : TrimSpace v = v := by
  unfold TrimSpace
  obtain ⟨l⟩ := v
  congr 1
  simp only [isTrimmed, Bool.and_eq_true] at h
  obtain ⟨h1, h2⟩ := h
  cases l with
  | nil => rfl
  | cons c cs =>
    simp only [List.head?_cons, Bool.not_eq_true'] at h1
    have hd : (c :: cs).dropWhile isSpace = c :: cs := by
      simp [List.dropWhile_cons, h1]
    rw [hd]
    have hne : (c :: cs) ≠ [] := List.cons_ne_nil _ _
    rw [List.getLast?_eq_getLast _ hne] at h2
    simp only [Bool.not_eq_true'] at h2
    have hsplit := List.dropLast_append_getLast hne
    rw [← hsplit, List.reverse_append]
    simp only [List.reverse_cons, List.reverse_nil, List.nil_append, List.singleton_append]
    rw [List.dropWhile_cons]
    simp only [h2, Bool.false_eq_true, if_false, List.reverse_cons, List.reverse_reverse]

theorem TrimSpace_blank_cons (l : List Char) : TrimSpace ⟨' ' :: l⟩ = TrimSpace ⟨l⟩ := by
  unfold TrimSpace
  have : isSpace ' ' = true := by decide
  simp only [List.dropWhile_cons, this, if_true]

theorem poExternalIds_Join (v : String) (vs : List String)
    (h : ∀ w ∈ v :: vs, w ≠ "" ∧ ',' ∉ w.data ∧ isTrimmed w = true) :
    poExternalIds (Join (v :: vs) ", ") = (v :: vs).map purchaseOrderId := by
  unfold poExternalIds Split
  rw [Join_data]
  have hsplit := splitRunes_pieces (vs.map (fun a => a.data)) v.data
    (h v (List.mem_cons_self _ _)).2.1
    (by
      intro w hw
      obtain ⟨a, ha, rfl⟩ := List.mem_map.mp hw
      exact (h a (List.mem_cons_of_mem _ ha)).2.1)
  have hflat : vs.flatMap (fun a => ',' :: ' ' :: a.data) =
      (vs.map (fun a => a.data)).flatMap (fun a => ',' :: ' ' :: a) := by
    rw [List.flatMap_map]
  rw [hflat, hsplit]
  have hone : ∀ w : String, w ≠ "" → isTrimmed w = true → ∀ l : List Char,
      TrimSpace ⟨l⟩ = TrimSpace w →
      (let poNum := TrimSpace ⟨l⟩
        if poNum != "" then
          some ({ type := { key := "1400", value := "Purchase shipment #" },
                  value := poNum } : TurvoExternalId)
        else none) = some (purchaseOrderId w) := by
    intro w hw ht l hl
    simp only [hl, TrimSpace_of_isTrimmed w ht]
    have : (w != "") = true := by simpa using hw
    simp only [this, if_true, purchaseOrderId]
  simp only [List.map_cons, List.filterMap_cons, List.map_map]
  rw [hone v (h v (List.mem_cons_self _ _)).1 (h v (List.mem_cons_self _ _)).2.2 v.data rfl]
  simp only [List.map_cons, List.cons.injEq, true_and]
  have htail : ∀ ws : List String, (∀ w ∈ ws, w ≠ "" ∧ ',' ∉ w.data ∧ isTrimmed w = true) →
      List.filterMap (fun poNum =>
        let poNum := TrimSpace poNum
        if poNum != "" then
          some ({ type := { key := "1400", value := "Purchase shipment #" },
                  value := poNum } : TurvoExternalId)
        else none)
        (List.map ((fun piece => ({ data := piece } : String)) ∘ (fun a => ' ' :: a) ∘
          fun a => a.data) ws) = ws.map purchaseOrderId := by
    intro ws
    induction ws with
    | nil => intro _; rfl
    | cons w rest ih =>
      intro hws
      simp only [List.map_cons, List.filterMap_cons, Function.comp]
      rw [hone w (hws w (List.mem_cons_self _ _)).1 (hws w (List.mem_cons_self _ _)).2.2
        (' ' :: w.data) (TrimSpace_blank_cons w.data)]
      simp only [List.cons.injEq, true_and]
      exact ih (fun x hx => hws x (List.mem_cons_of_mem _ hx))
  exact htail vs (fun w hw => h w (List.mem_cons_of_mem _ hw))

theorem drumkitToTurvo_some (lo : Char → Char) (sourceId : Nat) (load : Load)
    (payload : TurvoShipmentCreate) (h : drumkitToTurvo lo sourceId load = some payload) :
    ∃ c p n t s, load.customer = some c ∧ load.pickup = some p ∧ load.consignee = some n ∧
      n.apptTime = some t ∧
      (p.readyTime = some s ∨ (p.readyTime = none ∧ p.apptTime = some s)) := by
  cases hp : load.pickup with
  | none => simp [drumkitToTurvo, hp] at h
  | some p =>
    cases hn : load.consignee with
    | none =>
      exfalso
      cases hr : p.readyTime <;> cases ha : p.apptTime <;>
        simp [drumkitToTurvo, hp, hn, hr, ha] at h
    | some n =>
      cases ht : n.apptTime with
      | none =>
        exfalso
        cases hr : p.readyTime <;> cases ha : p.apptTime <;>
          simp [drumkitToTurvo, hp, hn, hr, ha, ht] at h
      | some t =>
        cases hc : load.customer with
        | none =>
          exfalso
          cases hr : p.readyTime <;> cases ha : p.apptTime <;>
            simp [drumkitToTurvo, hp, hn, hr, ha, ht, hc] at h
        | some c =>
          cases hr : p.readyTime with
          | some s => exact ⟨c, p, n, t, s, rfl, rfl, rfl, ht, Or.inl hr⟩
          | none =>
            cases ha : p.apptTime with
            | some s => exact ⟨c, p, n, t, s, rfl, rfl, rfl, ht, Or.inr ⟨hr, ha⟩⟩
            | none =>
              exfalso
              simp [drumkitToTurvo, hp, hr, ha] at h

theorem Join_ne_empty (v : String) (vs : List String) (h : v ≠ "") :
    Join (v :: vs) ", " ≠ "" := by
  intro e
  have := congrArg String.data e
  rw [Join_data] at this
  have hv : v.data ≠ [] := fun e2 => h (String.ext e2)
  cases hd : v.data with
  | nil => exact hv hd
  | cons c cs => rw [hd] at this; simp at this

/-- C39. For a non-empty list of PO numbers, each non-empty, free of commas and with no white
space at its start or end: `turvoDetailsToDrumkit` gives as `poNums` the list joined with
", " when the numbers are the values of the PO identifiers of a first customer order that is
not deleted; the part of `drumkitToTurvo` that splits `poNums` makes of that string one
external identifier typed ("1400", "Purchase shipment #") for each number, with the numbers
as values in the same order; and the payload `drumkitToTurvo` builds from a load with that
`poNums` has one customer order whose external identifiers are these, followed only by the
reference number of the customer when there is one. -/
theorem poNums_round_trip (lo : Char → Char) (parse : String → Option Time) (sourceId : Nat)
    (vs : List String) (hne : vs ≠ [])
    (hvs : ∀ v ∈ vs, v ≠ "" ∧ ',' ∉ v.data ∧ isTrimmed v = true) :
    poExternalIds (Join vs ", ") = vs.map purchaseOrderId ∧
      (vs.map purchaseOrderId).length = vs.length ∧
      (∀ (sh : TurvoShipmentCreateDetails) co rest, sh.customerOrder = co :: rest →
        co.deleted = false → purchaseOrderValues co.externalIds = vs →
        (turvoDetailsToDrumkit lo parse sh).poNums = Join vs ", ") ∧
      ∀ load payload, load.poNums = Join vs ", " →
        drumkitToTurvo lo sourceId load = some payload →
        ∃ c o, load.customer = some c ∧ payload.customerOrder = [o] ∧
          o.externalIds = vs.map purchaseOrderId ++
            (if c.refNumber != "" then
              [{ type := { key := "1401", value := "Reference Number" }, value := c.refNumber }]
            else []) := by
  cases vs with
  | nil => exact absurd rfl hne
  | cons v vs =>
    have hsplit := poExternalIds_Join v vs hvs
    refine ⟨hsplit, List.length_map _ _, ?_, ?_⟩
    · intro sh co rest hco hd hpo
      rw [(turvoDetailsToDrumkit_kept lo parse sh).2.2, mapCustomerOrder_poNums]
      simp only [hco, hd, hpo, ne_eq, not_false_eq_true, and_self, if_true, List.cons_ne_nil]
    · intro load payload hpo hpl
      obtain ⟨c, p, n, t, s, hc, hp, hn, ht, hs⟩ := drumkitToTurvo_some lo sourceId load _ hpl
      obtain ⟨payload2, h2, hcust⟩ :=
        drumkitToTurvo_customerOrder lo sourceId load c p n t s hc hp hn ht hs
      rw [hpl] at h2
      cases Option.some.inj h2
      refine ⟨c, _, hc, hcust, ?_⟩
      have hj : (Join (v :: vs) ", " != "") = true := by
        simpa using Join_ne_empty v vs (hvs v (List.mem_cons_self _ _)).1
      simp only [hpo, hj, Bool.true_or, if_true, hsplit]

theorem poNums_round_trip_witness :
    (turvoDetailsToDrumkit id (fun _ => none) twoPoShipment).poNums = "PO-1, PO 2" ∧
      poExternalIds "PO-1, PO 2" = [purchaseOrderId "PO-1", purchaseOrderId "PO 2"] := by
  obtain ⟨h1, _, h2, _⟩ := poNums_round_trip id (fun _ => none) 7 ["PO-1", "PO 2"] (by decide)
    (by decide)
  exact ⟨h2 twoPoShipment _ _ rfl rfl rfl, h1⟩

/-! ## The fallback normalisation and the status table -/

theorem normalizeStatus_of_ascii (lo : Char → Char) (s : String)
    (h : ∀ c ∈ s.data, c.toNat < 128) : normalizeStatus lo s = normalizeStatus id s := by
  rw [normalizeStatus_eq_map, normalizeStatus_eq_map, ToLower_of_ascii lo s h,
    ToLower_of_ascii id s h]

theorem statusTable_ascii :
    ∀ row ∈ statusTable, ∀ c ∈ row.2.2.data, c.toNat < 128 := by
  decide

theorem statusTable_normalized :
    ∀ row ∈ statusTable, row.2.2 ∉ tenderDisplays → normalizeStatus id row.2.2 = row.2.1 := by
  decide

theorem toLower_ascii_all :
    ∀ n : Fin 128, (Char.ofNat n.val).toLower.toNat < 128 ∧
      (Char.ofNat n.val).toLower.toLower = (Char.ofNat n.val).toLower := by
  decide

theorem toLower_ascii (c : Char) (h : c.toNat < 128) :
    c.toLower.toNat < 128 ∧ c.toLower.toLower = c.toLower := by
  have := toLower_ascii_all ⟨c.toNat, h⟩
  simpa [Char.ofNat_toNat] using this

theorem toLowerRune_id_idem (c : Char) :
    toLowerRune id (toLowerRune id c) = toLowerRune id c := by
  unfold toLowerRune
  by_cases h : c.toNat < 128
  · simp only [h, if_true, (toLower_ascii c h).1, (toLower_ascii c h).2]
  · simp only [h, if_false, id]

theorem underscoreRune_lower (lo : Char → Char) (c : Char)
    (h : toLowerRune lo (toLowerRune lo c) = toLowerRune lo c) :
    underscoreRune (toLowerRune lo (underscoreRune (toLowerRune lo c))) =
      underscoreRune (toLowerRune lo c) := by
  have hu : underscoreRune (toLowerRune lo '_') = '_' := by
    have h95 : '_'.toNat < 128 := by decide
    unfold toLowerRune
    rw [if_pos h95]
    decide
  unfold underscoreRune at hu ⊢
  by_cases hc : toLowerRune lo c = ' ' ∨ toLowerRune lo c = '-'
  · simp only [hc, if_true]
    exact hu
  · simp only [hc, if_false, h]

theorem normalizeStatus_idem (lo : Char → Char)
    (h : ∀ c, toLowerRune lo (toLowerRune lo c) = toLowerRune lo c) (s : String) :
    normalizeStatus lo (normalizeStatus lo s) = normalizeStatus lo s := by
  rw [normalizeStatus_eq_map lo (normalizeStatus lo s), normalizeStatus_eq_map lo s]
  unfold ToLower
  simp only [List.map_map]
  congr 1
  apply List.map_congr_left
  intro c _
  exact underscoreRune_lower lo c (h c)

/-- C40. For every row of the status table other than the three tender rows, `normalizeStatus`
of the display value is the canonical status of the row, so `TurvoStatusToAPI` maps a key
that is not in the table, with that display value, to the canonical status of the row; for
the three tender rows `normalizeStatus` yields "tender___offered", "tender___accepted" and
"tender___rejected", which are not the canonical statuses of those rows. `normalizeStatus` is
idempotent when lower-casing a rune twice gives what lower-casing it once gives. -/
theorem normalizeStatus_agrees_with_table (lo : Char → Char) :
    (∀ key canonical display, (key, canonical, display) ∈ statusTable →
        display ∉ tenderDisplays →
        normalizeStatus lo display = canonical ∧
          ∀ missing, missing ∉ forwardKeys →
            TurvoStatusToAPI lo missing display = canonical) ∧
      (normalizeStatus lo "Tender - offered" = "tender___offered" ∧
        normalizeStatus lo "Tender - accepted" = "tender___accepted" ∧
        normalizeStatus lo "Tender - rejected" = "tender___rejected") ∧
      (∀ key canonical display, (key, canonical, display) ∈ statusTable →
        display ∈ tenderDisplays → normalizeStatus lo display ≠ canonical) ∧
      ((∀ c, toLowerRune lo (toLowerRune lo c) = toLowerRune lo c) →
        ∀ s, normalizeStatus lo (normalizeStatus lo s) = normalizeStatus lo s) := by
  have hid : ∀ row ∈ statusTable, normalizeStatus lo row.2.2 = normalizeStatus id row.2.2 :=
    fun row hrow => normalizeStatus_of_ascii lo row.2.2 (statusTable_ascii row hrow)
  have htender : ∀ row ∈ statusTable, row.2.2 ∈ tenderDisplays →
      normalizeStatus id row.2.2 ≠ row.2.1 := by
    decide
  refine ⟨?_, ⟨?_, ?_, ?_⟩, ?_, fun h s => normalizeStatus_idem lo h s⟩
  · intro key canonical display hrow hnot
    have hn : normalizeStatus lo display = canonical := by
      rw [hid _ hrow]
      exact statusTable_normalized _ hrow hnot
    refine ⟨hn, ?_⟩
    intro missing hmissing
    have hnone : forwardTable.lookup missing = none := by
      apply lookup_eq_none_of_not_mem
      simpa [forwardKeys, forwardTable, List.map_map] using hmissing
    rw [TurvoStatusToAPI_table, hnone]
    exact hn
  · rw [normalizeStatus_of_ascii lo _ (by decide)]
    decide
  · rw [normalizeStatus_of_ascii lo _ (by decide)]
    decide
  · rw [normalizeStatus_of_ascii lo _ (by decide)]
    decide
  · intro key canonical display hrow hin
    rw [hid _ hrow]
    exact htender _ hrow hin

theorem normalizeStatus_agrees_with_table_witness :
    normalizeStatus id (normalizeStatus id "In-Yard Hold") = normalizeStatus id "In-Yard Hold" :=
  (normalizeStatus_agrees_with_table id).2.2.2 toLowerRune_id_idem "In-Yard Hold"

/-! ## The transport: the three calls in one form -/

theorem ListShipments_eq (world : World) (filters : TurvoShipmentFilters) (c : Client)
    (t : Trace) :
    c.ListShipmentsWithFiltersAndPagination world filters t =
      callWithRetry world world.listReplies
        (fun req => Get (listQueryParams filters req) "/v1/shipments/list") {}
        (fun err => "failed to list shipments: " ++ err)
        (fun err => "failed to list shipments after re-auth: " ++ err)
        (fun status body _ => "turvo API error: " ++ status ++ " - " ++ body)
        (fun response _ _ => .ok (response.details.shipments, response.details.pagination))
        c t := by
  unfold Client.ListShipmentsWithFiltersAndPagination callWithRetry
  simp only []
  rcases c.getAuthenticatedRequest world t with ⟨_ | req, c1, w1⟩
  · rfl
  · simp only []
    rcases w1.execute world.listReplies (Get (listQueryParams filters req) "/v1/shipments/list")
      with ⟨_ | ⟨statusCode, status, body, result, error⟩, w2⟩
    · rfl
    · simp only []
      split_ifs
      · rcases c1.authenticate world w2 with ⟨_ | authErr, c3, w3⟩
        · simp only []
          rcases c3.getAuthenticatedRequest world w3 with ⟨_ | req2, c4, w4⟩
          · rfl
          · simp only []
            rcases w4.execute world.listReplies
              (Get (listQueryParams filters req2) "/v1/shipments/list")
              with ⟨_ | ⟨statusCode2, status2, body2, result2, error2⟩, w5⟩
            · rfl
            · rfl
        · rfl
      · rfl
      · rfl

theorem GetShipment_eq (world : World) (shipmentID : Int) (c : Client) (t : Trace) :
    c.GetShipment world shipmentID t =
      callWithRetry world world.getReplies
        (fun req => Get req ("/v1/shipments/" ++ formatInt shipmentID)) {}
        (fun err => "failed to get shipment: " ++ err)
        (fun err => "failed to get shipment after re-auth: " ++ err)
        (fun status body _ => "turvo API error: " ++ status ++ " - " ++ body)
        (fun response _ _ => gotShipment response) c t := by
  unfold Client.GetShipment callWithRetry
  simp only []
  rcases c.getAuthenticatedRequest world t with ⟨_ | req, c1, w1⟩
  · rfl
  · simp only []
    rcases w1.execute world.getReplies (Get req ("/v1/shipments/" ++ formatInt shipmentID))
      with ⟨_ | ⟨statusCode, status, body, result, error⟩, w2⟩
    · rfl
    · simp only []
      split_ifs
      · rcases c1.authenticate world w2 with ⟨_ | authErr, c3, w3⟩
        · simp only []
          rcases c3.getAuthenticatedRequest world w3 with ⟨_ | req2, c4, w4⟩
          · rfl
          · simp only []
            rcases w4.execute world.getReplies
              (Get req2 ("/v1/shipments/" ++ formatInt shipmentID))
              with ⟨_ | ⟨statusCode2, status2, body2, result2, error2⟩, w5⟩
            · rfl
            · rfl
        · rfl
      · rfl
      · rfl

theorem CreateShipment_eq (world : World)
    (unmarshalError :
      String → TurvoShipmentCreateErrorResponse → Except String TurvoShipmentCreateErrorResponse)
    (shipment : TurvoShipmentCreate) (c : Client) (t : Trace) :
    c.CreateShipment world unmarshalError shipment t =
      callWithRetry world world.createReplies
        (fun req => Post (SetBody req shipment) "/v1/shipments") {}
        (fun err => "failed to create shipment: " ++ err)
        (fun err => "failed to create shipment after re-auth: " ++ err)
        (fun _ _ errorResponse =>
          "turvo API error: " ++ errorResponse.status ++ " - " ++
            errorResponse.details.errorMessage)
        (createdShipment unmarshalError) c t := by
  unfold Client.CreateShipment callWithRetry
  simp only []
  rcases c.getAuthenticatedRequest world t with ⟨_ | req, c1, w1⟩
  · rfl
  · simp only []
    rcases w1.execute world.createReplies (Post (SetBody req shipment) "/v1/shipments")
      with ⟨_ | ⟨statusCode, status, body, result, error⟩, w2⟩
    · rfl
    · simp only []
      split_ifs
      · rcases c1.authenticate world w2 with ⟨_ | authErr, c3, w3⟩
        · simp only []
          rcases c3.getAuthenticatedRequest world w3 with ⟨_ | req2, c4, w4⟩
          · rfl
          · simp only []
            rcases w4.execute world.createReplies
              (Post (SetBody req2 shipment) "/v1/shipments")
              with ⟨_ | ⟨statusCode2, status2, body2, result2, error2⟩, w5⟩
            · rfl
            · rfl
        · rfl
      · rfl
      · rfl

/-! ## The transport: the record of what is sent -/

theorem requestsOf_append (a b : List Sent) :
    requestsOf (a ++ b) = requestsOf a ++ requestsOf b := by
  unfold requestsOf
  rw [List.filterMap_append]

theorem authenticationsOf_append (a b : List Sent) :
    authenticationsOf (a ++ b) = authenticationsOf a ++ authenticationsOf b := by
  unfold authenticationsOf
  rw [List.filterMap_append]

theorem requestsOf_authentications (extra : List TurvoAuthRequest) :
    requestsOf (extra.map Sent.authentication) = [] ∧
      authenticationsOf (extra.map Sent.authentication) = extra := by
  induction extra with
  | nil => exact ⟨rfl, rfl⟩
  | cons a rest ih =>
    obtain ⟨h1, h2⟩ := ih
    unfold requestsOf at h1 ⊢
    unfold authenticationsOf at h2 ⊢
    simp only [List.map_cons, List.filterMap_cons, h1, h2, and_self]

theorem requests_append_call (t : Trace) (req : Request) :
    ({ t with sent := t.sent ++ [Sent.call req] } : Trace).requests = t.requests ++ [req] ∧
      ({ t with sent := t.sent ++ [Sent.call req] } : Trace).authentications =
        t.authentications := by
  unfold Trace.requests Trace.authentications
  rw [requestsOf_append, authenticationsOf_append]
  exact ⟨rfl, List.append_nil _⟩

/-- The three ways `authenticate` ends on a client that has its credentials, read off the
exchange with the authentication endpoint. -/
theorem authenticate_eq (world : World) (c : Client) (t : Trace)
    (hcred : c.hasCredentials = true) :
    c.authenticate world t =
      match world.authReplies t.authentications.length with
      | .failed err =>
        (some ("failed to authenticate: " ++ err), c,
          { t with sent := t.sent ++ [Sent.authentication c.authRequest] })
      | .response statusCode status body result _ =>
        if statusCode > 399 then
          (some ("authentication failed: " ++ status ++ " - " ++ body), c,
            { t with sent := t.sent ++ [Sent.authentication c.authRequest] })
        else if (decodedResult statusCode result {}).accessToken = "" then
          (some "authentication response missing access token", c,
            { t with sent := t.sent ++ [Sent.authentication c.authRequest] })
        else
          (none,
            { c with
              token := (decodedResult statusCode result {}).accessToken,
              tokenExpiry := world.clock t.readings +
                mulInt (subInt (lifetime (decodedResult statusCode result {})) 300) 1000000000,
              authorization := (decodedResult statusCode result {}).tokenType ++ " " ++
                (decodedResult statusCode result {}).accessToken },
            { readings := t.readings + 1,
              sent := t.sent ++ [Sent.authentication c.authRequest] }) := by
  simp only [Client.hasCredentials, Bool.and_eq_true, bne_iff_ne, ne_eq] at hcred
  obtain ⟨⟨⟨h1, h2⟩, h3⟩, h4⟩ := hcred
  have hb1 : (c.clientName == "" || c.clientSecret == "") = false := by simp [h1, h2]
  have hb2 : (c.username == "" || c.password == "") = false := by simp [h3, h4]
  unfold Client.authenticate Trace.requestToken
  simp only [hb1, hb2, Bool.false_eq_true, if_false]
  cases world.authReplies t.authentications.length with
  | failed err => rfl
  | response statusCode status body result error =>
    simp only [beq_iff_eq, lifetime, Trace.Now, Client.authRequest]

theorem authenticate_sent (world : World) (c : Client) (t : Trace) :
    ∃ extra : List TurvoAuthRequest,
      (c.authenticate world t).2.2.sent = t.sent ++ extra.map Sent.authentication ∧
        extra.length ≤ 1 := by
  unfold Client.authenticate Trace.requestToken
  split_ifs
  · exact ⟨[], by simp, by simp⟩
  · exact ⟨[], by simp, by simp⟩
  · cases world.authReplies t.authentications.length with
    | failed err => exact ⟨[_], rfl, le_refl _⟩
    | response statusCode status body result error =>
      simp only []
      split_ifs <;> exact ⟨[_], rfl, le_refl _⟩

theorem ensureAuthenticated_eq (world : World) (c : Client) (t : Trace) :
    c.ensureAuthenticated world t =
      if c.token = "" then c.authenticate world t
      else if world.clock t.readings < c.tokenExpiry then
        (none, c, { t with readings := t.readings + 1 })
      else c.authenticate world { t with readings := t.readings + 1 } := by
  unfold Client.ensureAuthenticated Trace.Now
  by_cases h : c.token = ""
  · simp [h]
  · by_cases h2 : world.clock t.readings < c.tokenExpiry
    · simp [h, h2]
    · simp [h, h2]

theorem ensureAuthenticated_sent (world : World) (c : Client) (t : Trace) :
    ∃ extra : List TurvoAuthRequest,
      (c.ensureAuthenticated world t).2.2.sent = t.sent ++ extra.map Sent.authentication ∧
        extra.length ≤ 1 := by
  rw [ensureAuthenticated_eq]
  split_ifs
  · exact authenticate_sent world c t
  · exact ⟨[], by simp, by simp⟩
  · exact authenticate_sent world c { t with readings := t.readings + 1 }

theorem getAuthenticatedRequest_sent (world : World) (c : Client) (t : Trace) :
    ∃ extra : List TurvoAuthRequest,
      (c.getAuthenticatedRequest world t).2.2.sent = t.sent ++ extra.map Sent.authentication ∧
        extra.length ≤ 1 := by
  unfold Client.getAuthenticatedRequest
  have h := ensureAuthenticated_sent world c t
  rcases h0 : c.ensureAuthenticated world t with ⟨_ | err, c1, t1⟩
  · rw [h0] at h
    exact h
  · rw [h0] at h
    exact h

theorem requests_of_sent (t t1 : Trace) (extra : List TurvoAuthRequest)
    (h : t1.sent = t.sent ++ extra.map Sent.authentication) :
    t1.requests = t.requests ∧ t1.authentications = t.authentications ++ extra := by
  unfold Trace.requests Trace.authentications
  rw [h, requestsOf_append, authenticationsOf_append, (requestsOf_authentications extra).1,
    (requestsOf_authentications extra).2, List.append_nil]
  exact ⟨rfl, rfl⟩

theorem getAuthenticatedRequest_valid (world : World) (c : Client) (t : Trace)
    (htoken : c.token ≠ "") (hvalid : world.clock t.readings < c.tokenExpiry) :
    c.getAuthenticatedRequest world t =
      (.ok { authToken := c.token }, c, { t with readings := t.readings + 1 }) := by
  unfold Client.getAuthenticatedRequest
  rw [ensureAuthenticated_eq]
  simp only [htoken, hvalid, if_false, if_true]

theorem callWithRetry_requests {α β : Type} (world : World) (replies : Nat → Exchange α)
    (build : Request → Request) (zero : α) (failure retryFailure : String → String)
    (retryError : String → String → TurvoShipmentCreateErrorResponse → String)
    (finish : α → String → TurvoShipmentCreateErrorResponse → Except String β)
    (c : Client) (t : Trace) :
    ∃ extra,
      (callWithRetry world replies build zero failure retryFailure retryError finish
        c t).2.2.requests = t.requests ++ extra ∧ extra.length ≤ 2 := by
  unfold callWithRetry
  obtain ⟨e1, hs1, _⟩ := getAuthenticatedRequest_sent world c t
  rcases h1 : c.getAuthenticatedRequest world t with ⟨_ | req, c1, t1⟩
  · rw [h1] at hs1
    exact ⟨[], by simp [(requests_of_sent t t1 e1 hs1).1], by simp⟩
  · rw [h1] at hs1
    have hr1 := (requests_of_sent t t1 e1 hs1).1
    simp only [Trace.execute]
    have hq1 := (requests_append_call t1 (build req)).1
    cases replies t1.requests.length with
    | failed err => exact ⟨[build req], by simp only [hq1, hr1], by simp⟩
    | response statusCode status body result error =>
      simp only []
      split_ifs
      · obtain ⟨e2, hs2, _⟩ := authenticate_sent world c1
          { t1 with sent := t1.sent ++ [Sent.call (build req)] }
        rcases h2 : c1.authenticate world { t1 with sent := t1.sent ++ [Sent.call (build req)] }
          with ⟨_ | authErr, c2, t2⟩
        · rw [h2] at hs2
          have hr2 := (requests_of_sent _ t2 e2 hs2).1
          simp only []
          obtain ⟨e3, hs3, _⟩ := getAuthenticatedRequest_sent world c2 t2
          rcases h3 : c2.getAuthenticatedRequest world t2 with ⟨_ | req3, c3, t3⟩
          · rw [h3] at hs3
            have hr3 := (requests_of_sent t2 t3 e3 hs3).1
            exact ⟨[build req], by simp only [hr3, hr2, hq1, hr1], by simp⟩
          · rw [h3] at hs3
            have hr3 := (requests_of_sent t2 t3 e3 hs3).1
            have hq3 := (requests_append_call t3 (build req3)).1
            simp only []
            cases replies t3.requests.length with
            | failed err =>
              exact ⟨[build req, build req3],
                by simp only [hq3, hr3, hr2, hq1, hr1, List.append_assoc, List.singleton_append],
                by simp⟩
            | response statusCode2 status2 body2 result2 error2 =>
              simp only []
              split_ifs <;>
                exact ⟨[build req, build req3],
                  by simp only [hq3, hr3, hr2, hq1, hr1, List.append_assoc,
                    List.singleton_append],
                  by simp⟩
        · rw [h2] at hs2
          have hr2 := (requests_of_sent _ t2 e2 hs2).1
          exact ⟨[build req], by simp only [hr2, hq1, hr1], by simp⟩
      · exact ⟨[build req], by simp only [hq1, hr1], by simp⟩
      · exact ⟨[build req], by simp only [hq1, hr1], by simp⟩

theorem getAuthenticatedRequest_requests (world : World) (c : Client) (t : Trace) :
    (c.getAuthenticatedRequest world t).2.2.requests = t.requests := by
  obtain ⟨e1, hs1, _⟩ := getAuthenticatedRequest_sent world c t
  exact (requests_of_sent t _ e1 hs1).1

theorem authenticate_requests (world : World) (c : Client) (t : Trace) :
    (c.authenticate world t).2.2.requests = t.requests := by
  obtain ⟨e1, hs1, _⟩ := authenticate_sent world c t
  exact (requests_of_sent t _ e1 hs1).1

/-- A first response with an error status other than 401 ends the call: the error names the
status line and the body, and the request of the call is all that was sent after the
request was prepared. -/
theorem callWithRetry_error_status {α β : Type} (world : World) (replies : Nat → Exchange α)
    (build : Request → Request) (zero : α) (failure retryFailure : String → String)
    (retryError : String → String → TurvoShipmentCreateErrorResponse → String)
    (finish : α → String → TurvoShipmentCreateErrorResponse → Except String β)
    (c : Client) (t : Trace) (req : Request) (c1 : Client) (t1 : Trace)
    (statusCode : Int) (status body : String)
    (hprep : c.getAuthenticatedRequest world t = (.ok req, c1, t1))
    (hreply : (replies t.requests.length).outline = some (statusCode, status, body))
    (herror : 399 < statusCode) (hother : statusCode ≠ 401) :
    callWithRetry world replies build zero failure retryFailure retryError finish c t =
      (.error ("turvo API error: " ++ status ++ " - " ++ body), c1,
        { t1 with sent := t1.sent ++ [Sent.call (build req)] }) := by
  have hr1 := getAuthenticatedRequest_requests world c t
  rw [hprep] at hr1
  unfold callWithRetry
  simp only [hprep, Trace.execute]
  simp only [] at hr1
  rw [hr1]
  cases hrep : replies t.requests.length with
  | failed err => rw [hrep] at hreply; simp [Exchange.outline] at hreply
  | response code st bd result error =>
    rw [hrep] at hreply
    simp only [Exchange.outline, Option.some.injEq, Prod.mk.injEq] at hreply
    obtain ⟨h1, h2, h3⟩ := hreply
    subst h1 h2 h3
    have h401 : (code == 401) = false := by simpa using hother
    simp only [gt_iff_lt, herror, if_true, h401, Bool.false_eq_true, if_false]

/-- The retry of a call whose first response has status 401: when the second request was
sent and its response has an error status, the call ends with the error worded by
`retryError`, and nothing more is sent. -/
theorem callWithRetry_second_error {α β : Type} (world : World) (replies : Nat → Exchange α)
    (build : Request → Request) (zero : α) (failure retryFailure : String → String)
    (retryError : String → String → TurvoShipmentCreateErrorResponse → String)
    (finish : α → String → TurvoShipmentCreateErrorResponse → Except String β)
    (c : Client) (t : Trace) (status body : String) (result : Option α)
    (error : Option TurvoShipmentCreateErrorResponse)
    (statusCode2 : Int) (status2 body2 : String)
    (hfirst : replies t.requests.length = .response 401 status body result error)
    (hsecond : (replies (t.requests.length + 1)).outline = some (statusCode2, status2, body2))
    (herror : 399 < statusCode2)
    (hsent : (callWithRetry world replies build zero failure retryFailure retryError finish
      c t).2.2.requests.length = t.requests.length + 2) :
    (callWithRetry world replies build zero failure retryFailure retryError finish c t).1 =
      .error (retryError status2 body2 (decodedError 401 error {})) := by
  unfold callWithRetry at hsent ⊢
  have hr1 := getAuthenticatedRequest_requests world c t
  rcases h1 : c.getAuthenticatedRequest world t with ⟨_ | req, c1, t1⟩
  · rw [h1] at hr1 hsent
    simp only [] at hr1 hsent
    rw [hr1] at hsent
    omega
  · rw [h1] at hr1 hsent
    simp only [] at hr1
    simp only [Trace.execute, hr1, hfirst] at hsent ⊢
    have hq1 := (requests_append_call t1 (build req)).1
    have h401 : ((401 : Int) == 401) = true := by decide
    have h399 : (401 : Int) > 399 := by decide
    simp only [h399, if_true, h401] at hsent ⊢
    have hr2 := authenticate_requests world c1
      { t1 with sent := t1.sent ++ [Sent.call (build req)] }
    rcases h2 : c1.authenticate world { t1 with sent := t1.sent ++ [Sent.call (build req)] }
      with ⟨_ | authErr, c2, t2⟩
    · rw [h2] at hr2 hsent
      simp only [] at hr2 hsent ⊢
      have hr3 := getAuthenticatedRequest_requests world c2 t2
      rcases h3 : c2.getAuthenticatedRequest world t2 with ⟨_ | req3, c3, t3⟩
      · rw [h3] at hr3 hsent
        simp only [] at hr3 hsent
        rw [hr3, hr2, hq1, hr1] at hsent
        simp at hsent
      · rw [h3] at hr3
        simp only [] at hr3 ⊢
        have hidx : t3.requests.length = t.requests.length + 1 := by
          rw [hr3, hr2, hq1, hr1]
          simp
        rw [hidx]
        cases hrep : replies (t.requests.length + 1) with
        | failed err => rw [hrep] at hsecond; simp [Exchange.outline] at hsecond
        | response code st bd result2 error2 =>
          rw [hrep] at hsecond
          simp only [Exchange.outline, Option.some.injEq, Prod.mk.injEq] at hsecond
          obtain ⟨e1, e2, e3⟩ := hsecond
          subst e1 e2 e3
          simp only [gt_iff_lt, herror, if_true]
    · rw [h2] at hr2 hsent
      simp only [] at hr2 hsent
      rw [hr2, hq1, hr1] at hsent
      simp at hsent

theorem authenticate_sent_one (world : World) (c : Client) (t : Trace)
    (hcred : c.hasCredentials = true) :
    (c.authenticate world t).2.2.sent = t.sent ++ [Sent.authentication c.authRequest] := by
  rw [authenticate_eq world c t hcred]
  cases world.authReplies t.authentications.length with
  | failed err => rfl
  | response statusCode status body result error =>
    simp only []
    split_ifs <;> rfl

theorem authenticate_success (world : World) (c : Client) (t : Trace)
    (hcred : c.hasCredentials = true) (statusCode : Int) (status body : String)
    (authResp : TurvoAuthResponse) (error : Option TurvoShipmentCreateErrorResponse)
    (hreply : world.authReplies t.authentications.length =
      .response statusCode status body (some authResp) error)
    (hcode : 199 < statusCode ∧ statusCode < 300) (htoken : authResp.accessToken ≠ "") :
    c.authenticate world t =
      (none,
        { c with
          token := authResp.accessToken,
          tokenExpiry := world.clock t.readings +
            mulInt (subInt (lifetime authResp) 300) 1000000000,
          authorization := authResp.tokenType ++ " " ++ authResp.accessToken },
        { readings := t.readings + 1,
          sent := t.sent ++ [Sent.authentication c.authRequest] }) := by
  rw [authenticate_eq world c t hcred, hreply]
  have hd : decodedResult statusCode (some authResp) ({} : TurvoAuthResponse) = authResp := by
    unfold decodedResult
    rw [if_pos hcode]
    rfl
  have h399 : ¬ statusCode > 399 := by omega
  simp only [hd, h399, if_false, htoken]

theorem getAuthenticatedRequest_expired (world : World) (c : Client) (t : Trace)
    (hcred : c.hasCredentials = true) (htoken : c.token ≠ "")
    (hexpired : c.tokenExpiry ≤ world.clock t.readings) :
    (c.getAuthenticatedRequest world t).2.2.sent =
      t.sent ++ [Sent.authentication c.authRequest] := by
  have h := authenticate_sent_one world c { t with readings := t.readings + 1 } hcred
  unfold Client.getAuthenticatedRequest
  rw [ensureAuthenticated_eq]
  simp only [htoken, if_false, not_lt.mpr hexpired]
  rcases h0 : c.authenticate world { t with readings := t.readings + 1 } with ⟨_ | err, c1, t1⟩
  · rw [h0] at h
    exact h
  · rw [h0] at h
    exact h

/-- The record of a call starts with what the preparation of the request sends and goes on,
when a request was prepared, with the request of the call; nothing follows that request
when its response does not have status 401. -/
theorem callWithRetry_sent {α β : Type} (world : World) (replies : Nat → Exchange α)
    (build : Request → Request) (zero : α) (failure retryFailure : String → String)
    (retryError : String → String → TurvoShipmentCreateErrorResponse → String)
    (finish : α → String → TurvoShipmentCreateErrorResponse → Except String β)
    (c : Client) (t : Trace) :
    (∀ err c1 t1, c.getAuthenticatedRequest world t = (.error err, c1, t1) →
        callWithRetry world replies build zero failure retryFailure retryError finish c t =
          (.error err, c1, t1)) ∧
      ∀ req c1 t1, c.getAuthenticatedRequest world t = (.ok req, c1, t1) →
        ∃ rest,
          (callWithRetry world replies build zero failure retryFailure retryError finish
            c t).2.2.sent = t1.sent ++ Sent.call (build req) :: rest ∧
          ((replies t.requests.length).outline.map (fun r => r.1) ≠ some 401 → rest = []) := by
  constructor
  · intro err c1 t1 hprep
    unfold callWithRetry
    simp only [hprep]
  · intro req c1 t1 hprep
    have hr1 := getAuthenticatedRequest_requests world c t
    rw [hprep] at hr1
    simp only [] at hr1
    unfold callWithRetry
    simp only [hprep, Trace.execute, hr1]
    cases replies t.requests.length with
    | failed err => exact ⟨[], rfl, fun _ => rfl⟩
    | response statusCode status body result error =>
      simp only [Exchange.outline, Option.map_some', ne_eq, Option.some.injEq]
      by_cases h399 : statusCode > 399
      · by_cases h401 : statusCode = 401
        · subst h401
          simp only [h399, if_true, beq_self_eq_true, not_true_eq_false, false_implies,
            and_true]
          obtain ⟨e2, hs2, _⟩ := authenticate_sent world c1
            { t1 with sent := t1.sent ++ [Sent.call (build req)] }
          rcases h2 : c1.authenticate world
            { t1 with sent := t1.sent ++ [Sent.call (build req)] } with ⟨_ | authErr, c2, t2⟩
          · rw [h2] at hs2
            simp only [] at hs2 ⊢
            obtain ⟨e3, hs3, _⟩ := getAuthenticatedRequest_sent world c2 t2
            rcases h3 : c2.getAuthenticatedRequest world t2 with ⟨_ | req3, c3, t3⟩
            · rw [h3] at hs3
              simp only [] at hs3 ⊢
              exact ⟨e2.map Sent.authentication ++ e3.map Sent.authentication,
                by rw [hs3, hs2]; simp⟩
            · rw [h3] at hs3
              simp only [] at hs3 ⊢
              cases replies t3.requests.length with
              | failed err =>
                exact ⟨e2.map Sent.authentication ++ e3.map Sent.authentication ++
                  [Sent.call (build req3)], by simp only [hs3, hs2]; simp⟩
              | response statusCode2 status2 body2 result2 error2 =>
                simp only []
                split_ifs <;>
                  exact ⟨e2.map Sent.authentication ++ e3.map Sent.authentication ++
                    [Sent.call (build req3)], by simp only [hs3, hs2]; simp⟩
          · rw [h2] at hs2
            simp only [] at hs2 ⊢
            exact ⟨e2.map Sent.authentication, by rw [hs2]; simp⟩
        · have hb : (statusCode == 401) = false := by simpa using h401
          simp only [h399, if_true, hb, Bool.false_eq_true, if_false]
          exact ⟨[], rfl, fun _ => rfl⟩
      · simp only [h399, if_false]
        exact ⟨[], rfl, fun _ => rfl⟩

/-- The recovery from a first response with status 401, for a client whose token is valid
when the call starts: the client authenticates, with success; the token it gets is valid
when the request is prepared again; the second response has no error status. Then the
record gains the request, one authentication request and the request once more, built this
time of a request that has the new token. -/
theorem callWithRetry_recovery {α β : Type} (world : World) (replies : Nat → Exchange α)
    (build : Request → Request) (zero : α) (failure retryFailure : String → String)
    (retryError : String → String → TurvoShipmentCreateErrorResponse → String)
    (finish : α → String → TurvoShipmentCreateErrorResponse → Except String β)
    (c : Client) (t : Trace)
    (hcred : c.hasCredentials = true)
    (htoken : c.token ≠ "") (hvalid : world.clock t.readings < c.tokenExpiry)
    (hfirst : (replies t.requests.length).outline.map (fun r => r.1) = some 401)
    (authCode : Int) (authStatus authBody : String) (authResp : TurvoAuthResponse)
    (authError : Option TurvoShipmentCreateErrorResponse)
    (hauth : world.authReplies t.authentications.length =
      .response authCode authStatus authBody (some authResp) authError)
    (hcode : 199 < authCode ∧ authCode < 300) (hnew : authResp.accessToken ≠ "")
    (hfresh : world.clock (t.readings + 2) <
      world.clock (t.readings + 1) + mulInt (subInt (lifetime authResp) 300) 1000000000)
    (hretry : ∃ r, (replies (t.requests.length + 1)).outline = some r ∧ r.1 ≤ 399) :
    (callWithRetry world replies build zero failure retryFailure retryError finish c t).2.2 =
      { readings := t.readings + 3,
        sent := t.sent ++
          [Sent.call (build { authToken := c.token }),
            Sent.authentication c.authRequest,
            Sent.call (build { authToken := authResp.accessToken })] } := by
  have hprep := getAuthenticatedRequest_valid world c t htoken hvalid
  unfold callWithRetry
  simp only [hprep, Trace.execute]
  have hk : ({ t with readings := t.readings + 1 } : Trace).requests = t.requests := rfl
  rw [hk]
  cases hrep : replies t.requests.length with
  | failed err => rw [hrep] at hfirst; simp [Exchange.outline] at hfirst
  | response statusCode status body result error =>
    rw [hrep] at hfirst
    simp only [Exchange.outline, Option.map_some', Option.some.injEq] at hfirst
    subst hfirst
    have h401 : ((401 : Int) == 401) = true := by decide
    have h399 : (401 : Int) > 399 := by decide
    simp only [h399, if_true, h401]
    have hauths : (Trace.mk (t.readings + 1)
        (t.sent ++ [Sent.call (build { authToken := c.token })])).authentications =
        t.authentications :=
      (requests_append_call { t with readings := t.readings + 1 } _).2
    have hsucc := authenticate_success world c
      { readings := t.readings + 1,
        sent := t.sent ++ [Sent.call (build { authToken := c.token })] }
      hcred authCode authStatus authBody authResp authError (by rw [hauths]; exact hauth)
      hcode hnew
    rw [hsucc]
    simp only []
    have hprep2 := getAuthenticatedRequest_valid world
      { c with
        token := authResp.accessToken,
        tokenExpiry := world.clock (t.readings + 1) +
          mulInt (subInt (lifetime authResp) 300) 1000000000,
        authorization := authResp.tokenType ++ " " ++ authResp.accessToken }
      { readings := t.readings + 1 + 1,
        sent := t.sent ++ [Sent.call (build { authToken := c.token })] ++
          [Sent.authentication c.authRequest] }
      hnew hfresh
    rw [hprep2]
    simp only []
    have hidx : (Trace.mk (t.readings + 1 + 1 + 1)
        (t.sent ++ [Sent.call (build { authToken := c.token })] ++
          [Sent.authentication c.authRequest])).requests.length =
        t.requests.length + 1 := by
      unfold Trace.requests
      simp only [requestsOf_append]
      have e1 : requestsOf [Sent.call (build { authToken := c.token })] =
          [build { authToken := c.token }] := rfl
      have e2 : requestsOf [Sent.authentication c.authRequest] = [] := rfl
      rw [e1, e2]
      simp
    rw [hidx]
    obtain ⟨r, hr, hle⟩ := hretry
    cases hrep2 : replies (t.requests.length + 1) with
    | failed err => rw [hrep2] at hr; simp [Exchange.outline] at hr
    | response statusCode2 status2 body2 result2 error2 =>
      rw [hrep2] at hr
      simp only [Exchange.outline, Option.some.injEq] at hr
      subst hr
      have hno : ¬ statusCode2 > 399 := by simpa using hle
      simp only [hno, if_false, List.append_assoc, List.singleton_append]
      rfl

/-! ## The transport: the validity window, the recovery from a 401 and the single retry -/

theorem sameCall_SetQueryParam (p : Prop) [Decidable p] (param value : String)
    (a b : Request) (h : sameCall a b) :
    sameCall (if p then SetQueryParam a param value else a)
      (if p then SetQueryParam b param value else b) := by
  obtain ⟨h1, h2, h3, h4⟩ := h
  split_ifs
  · unfold SetQueryParam
    exact ⟨h1, h2, by simp only [h3], h4⟩
  · exact ⟨h1, h2, h3, h4⟩

theorem listQueryParams_authToken (filters : TurvoShipmentFilters) (a b : Request)
    (h : sameCall a b) : sameCall (listQueryParams filters a) (listQueryParams filters b) := by
  unfold listQueryParams
  simp only []
  exact sameCall_SetQueryParam _ _ _ _ _
    (sameCall_SetQueryParam _ _ _ _ _
      (sameCall_SetQueryParam _ _ _ _ _
        (sameCall_SetQueryParam _ _ _ _ _
          (sameCall_SetQueryParam _ _ _ _ _
            (sameCall_SetQueryParam _ _ _ _ _ h)))))

theorem Call_request_same (call : Call) (token1 token2 : String) :
    sameCall (call.request { authToken := token1 }) (call.request { authToken := token2 }) := by
  cases call with
  | list filters =>
    obtain ⟨h1, h2, h3, h4⟩ := listQueryParams_authToken filters { authToken := token1 }
      { authToken := token2 } ⟨rfl, rfl, rfl, rfl⟩
    exact ⟨rfl, rfl, h3, h4⟩
  | get shipmentID => exact ⟨rfl, rfl, rfl, rfl⟩
  | create shipment => exact ⟨rfl, rfl, rfl, rfl⟩

/-- The bound of the requests of a call and its two error ends, for the shared course: at
most two requests are sent; a second response with an error status, after a first one with
status 401, is returned as the error `retryError` words, which names a "turvo API error";
a first response with an error status other than 401 is returned as a "turvo API error"
with the status line and the body, and the request is all that was sent after it was
prepared. -/
theorem callWithRetry_at_most_one_retry {α β : Type} (world : World)
    (replies : Nat → Exchange α) (build : Request → Request) (zero : α)
    (failure retryFailure : String → String)
    (retryError : String → String → TurvoShipmentCreateErrorResponse → String)
    (finish : α → String → TurvoShipmentCreateErrorResponse → Except String β)
    (hword : ∀ status body errorResponse,
      ∃ detail, retryError status body errorResponse = "turvo API error: " ++ detail)
    (c : Client) (t : Trace) :
    (∃ extra,
        (callWithRetry world replies build zero failure retryFailure retryError finish
          c t).2.2.requests = t.requests ++ extra ∧ extra.length ≤ 2) ∧
      ((replies t.requests.length).outline.map (fun r => r.1) = some 401 →
        (replies (t.requests.length + 1)).outline.map (fun r => r.1) = some 401 →
        (callWithRetry world replies build zero failure retryFailure retryError finish
          c t).2.2.requests.length = t.requests.length + 2 →
        ∃ detail,
          errorOf (callWithRetry world replies build zero failure retryFailure retryError
            finish c t).1 = some ("turvo API error: " ++ detail)) ∧
      ∀ req c1 t1 statusCode status body,
        c.getAuthenticatedRequest world t = (.ok req, c1, t1) →
        (replies t.requests.length).outline = some (statusCode, status, body) →
        399 < statusCode → statusCode ≠ 401 →
        (errorOf (callWithRetry world replies build zero failure retryFailure retryError
            finish c t).1,
          (callWithRetry world replies build zero failure retryFailure retryError
            finish c t).2) =
          (some ("turvo API error: " ++ status ++ " - " ++ body), c1,
            { t1 with sent := t1.sent ++ [Sent.call (build req)] }) := by
  refine ⟨callWithRetry_requests world replies build zero failure retryFailure retryError
    finish c t, ?_, ?_⟩
  · intro h1 h2 hsent
    cases hrep1 : replies t.requests.length with
    | failed err => rw [hrep1] at h1; simp [Exchange.outline] at h1
    | response code1 status1 body1 result1 error1 =>
      rw [hrep1] at h1
      simp only [Exchange.outline, Option.map_some', Option.some.injEq] at h1
      subst h1
      cases hrep2 : replies (t.requests.length + 1) with
      | failed err => rw [hrep2] at h2; simp [Exchange.outline] at h2
      | response code2 status2 body2 result2 error2 =>
        rw [hrep2] at h2
        simp only [Exchange.outline, Option.map_some', Option.some.injEq] at h2
        subst h2
        have := callWithRetry_second_error world replies build zero failure retryFailure
          retryError finish c t status1 body1 result1 error1 401 status2 body2 hrep1
          (by rw [hrep2]; rfl) (by decide) hsent
        rw [this]
        obtain ⟨detail, hd⟩ := hword status2 body2 (decodedError 401 error1 {})
        exact ⟨detail, by rw [hd]; rfl⟩
  · intro req c1 t1 statusCode status body hprep hreply h399 h401
    rw [callWithRetry_error_status world replies build zero failure retryFailure retryError
      finish c t req c1 t1 statusCode status body hprep hreply h399 h401]
    rfl

/-- C34. One call of `ListShipmentsWithFiltersAndPagination`, `GetShipment` or
`CreateShipment` sends at most two requests, whatever the remote answers. When the first
response has status 401 and the response to the second request has status 401 too, the call
returns an error that starts with "turvo API error: ", and there is no third request. When
the first response has an error status other than 401, the call returns the error
"turvo API error: " with the status line and the body of that response, and after the
request was prepared nothing but that one request was sent: no retry and no
authentication. -/
theorem at_most_one_retry (world : World)
    (unmarshalError :
      String → TurvoShipmentCreateErrorResponse → Except String TurvoShipmentCreateErrorResponse)
    (call : Call) (c : Client) (t : Trace) :
    (∃ extra,
        (call.run world unmarshalError c t).2.2.requests = t.requests ++ extra ∧
          extra.length ≤ 2) ∧
      ((call.response world t.requests.length).map (fun r => r.1) = some 401 →
        (call.response world (t.requests.length + 1)).map (fun r => r.1) = some 401 →
        (call.run world unmarshalError c t).2.2.requests.length = t.requests.length + 2 →
        ∃ detail,
          (call.run world unmarshalError c t).1 = some ("turvo API error: " ++ detail)) ∧
      ∀ req c1 t1 statusCode status body,
        c.getAuthenticatedRequest world t = (.ok req, c1, t1) →
        call.response world t.requests.length = some (statusCode, status, body) →
        399 < statusCode → statusCode ≠ 401 →
        call.run world unmarshalError c t =
          (some ("turvo API error: " ++ status ++ " - " ++ body), c1,
            { t1 with sent := t1.sent ++ [Sent.call (call.request req)] }) := by
  cases call with
  | list filters =>
    have h := callWithRetry_at_most_one_retry world world.listReplies
      (fun req => Get (listQueryParams filters req) "/v1/shipments/list") {}
      (fun err => "failed to list shipments: " ++ err)
      (fun err => "failed to list shipments after re-auth: " ++ err)
      (fun status body _ => "turvo API error: " ++ status ++ " - " ++ body)
      (fun response _ _ => .ok (response.details.shipments, response.details.pagination))
      (fun status body _ => ⟨status ++ " - " ++ body, by simp only [String.append_assoc]⟩) c t
    simpa only [Call.run, Call.response, Call.request, ListShipments_eq] using h
  | get shipmentID =>
    have h := callWithRetry_at_most_one_retry world world.getReplies
      (fun req => Get req ("/v1/shipments/" ++ formatInt shipmentID)) {}
      (fun err => "failed to get shipment: " ++ err)
      (fun err => "failed to get shipment after re-auth: " ++ err)
      (fun status body _ => "turvo API error: " ++ status ++ " - " ++ body)
      (fun response _ _ => gotShipment response)
      (fun status body _ => ⟨status ++ " - " ++ body, by simp only [String.append_assoc]⟩) c t
    simpa only [Call.run, Call.response, Call.request, GetShipment_eq] using h
  | create shipment =>
    have h := callWithRetry_at_most_one_retry world world.createReplies
      (fun req => Post (SetBody req shipment) "/v1/shipments") {}
      (fun err => "failed to create shipment: " ++ err)
      (fun err => "failed to create shipment after re-auth: " ++ err)
      (fun _ _ errorResponse =>
        "turvo API error: " ++ errorResponse.status ++ " - " ++
          errorResponse.details.errorMessage)
      (createdShipment unmarshalError)
      (fun _ _ errorResponse =>
        ⟨errorResponse.status ++ " - " ++ errorResponse.details.errorMessage,
          by simp only [String.append_assoc]⟩) c t
    simpa only [Call.run, Call.response, Call.request, CreateShipment_eq] using h

theorem at_most_one_retry_witness :
    (∃ detail,
        ((Call.get 5).run (sampleWorld 3600 [401, 401]) sampleUnmarshal validClient {}).1 =
          some ("turvo API error: " ++ detail)) ∧
      ((Call.get 5).run (sampleWorld 3600 [401, 401]) sampleUnmarshal validClient
        {}).2.2.requests.length = 2 :=
  ⟨(at_most_one_retry (sampleWorld 3600 [401, 401]) sampleUnmarshal (Call.get 5) validClient
      {}).2.1 (by decide) (by decide) (by decide), by decide⟩

theorem run_examples :
    ((Call.get 5).run (sampleWorld 3600 [401, 401]) sampleUnmarshal validClient {}).1 =
        some "turvo API error: status - body" ∧
      ((Call.get 5).run (sampleWorld 3600 [500]) sampleUnmarshal validClient {}).1 =
        some "turvo API error: status - body" ∧
      ((Call.get 5).run (sampleWorld 3600 [500]) sampleUnmarshal validClient
        {}).2.2.requests.length = 1 ∧
      ((Call.get 5).run (sampleWorld 3600 [500]) sampleUnmarshal validClient
        {}).2.2.authentications.length = 0 ∧
      ((Call.get 5).run (sampleWorld 60 [401]) sampleUnmarshal validClient {}).1 = none ∧
      ((Call.get 5).run (sampleWorld 60 [401]) sampleUnmarshal validClient
        {}).2.2.authentications.length = 2 ∧
      ((Call.get 5).run (sampleWorld 3600 [401]) sampleUnmarshal validClient
        {}).2.2.authentications.length = 1 := by
  decide

/-- The record of a call by a client that has its credentials and a token, for the shared
course: when the clock reads an instant before the expiry of the token the record goes on
with the request of the call, and with nothing more when the response does not have status
401; when the clock reads the expiry or a later instant the record goes on with one
authentication request, then with the request of the call if there is one, and with nothing
more when the response does not have status 401. -/
theorem callWithRetry_window {α β : Type} (world : World) (replies : Nat → Exchange α)
    (build : Request → Request) (zero : α) (failure retryFailure : String → String)
    (retryError : String → String → TurvoShipmentCreateErrorResponse → String)
    (finish : α → String → TurvoShipmentCreateErrorResponse → Except String β)
    (c : Client) (t : Trace) (hcred : c.hasCredentials = true) (htoken : c.token ≠ "") :
    (world.clock t.readings < c.tokenExpiry →
        ∃ rest,
          (callWithRetry world replies build zero failure retryFailure retryError finish
            c t).2.2.sent = t.sent ++ Sent.call (build { authToken := c.token }) :: rest ∧
          ((replies t.requests.length).outline.map (fun r => r.1) ≠ some 401 → rest = [])) ∧
      (c.tokenExpiry ≤ world.clock t.readings →
        ∃ rest,
          (callWithRetry world replies build zero failure retryFailure retryError finish
            c t).2.2.sent = t.sent ++ Sent.authentication c.authRequest :: rest ∧
          (rest = [] ∨ ∃ req rest1, rest = Sent.call req :: rest1 ∧
            ((replies t.requests.length).outline.map (fun r => r.1) ≠ some 401 →
              rest1 = []))) := by
  obtain ⟨hfail, hok⟩ := callWithRetry_sent world replies build zero failure retryFailure
    retryError finish c t
  constructor
  · intro hvalid
    have h := hok _ _ _ (getAuthenticatedRequest_valid world c t htoken hvalid)
    exact h
  · intro hexpired
    have hs := getAuthenticatedRequest_expired world c t hcred htoken hexpired
    rcases hprep : c.getAuthenticatedRequest world t with ⟨err | req, c1, t1⟩
    · rw [hprep] at hs
      simp only [] at hs
      rw [hfail err c1 t1 hprep]
      exact ⟨[], by simp only []; rw [hs], Or.inl rfl⟩
    · rw [hprep] at hs
      simp only [] at hs
      obtain ⟨rest, h1, h2⟩ := hok req c1 t1 hprep
      exact ⟨Sent.call (build req) :: rest, by rw [h1, hs]; simp,
        Or.inr ⟨_, _, rfl, h2⟩⟩

theorem duration_in_range (e : Int)
    (h : -(2 ^ 63 : Int) ≤ (e - 300) * 1000000000 ∧ (e - 300) * 1000000000 < 2 ^ 63) :
    mulInt (subInt e 300) 1000000000 = (e - 300) * 1000000000 := by
  unfold mulInt subInt wrapInt
  omega

/-- C32. A client that has its credentials authenticates with success at the instant
`world.clock t0.readings`, and the response carries `expires_in = e` seconds, taken as 3600
when it is 0, with `(e - 300) * 10^9` in the range of a 64-bit integer. Let a call of
`ListShipmentsWithFiltersAndPagination`, `GetShipment` or `CreateShipment` be made later
with that client, at the instant `world.clock t.readings`. When that instant is before the
instant of the authentication plus `e - 300` seconds, the first thing the call sends is its
request, with the token of the authentication, so no authentication request is sent before
it, and it is the only thing sent when its response does not have status 401. When that
instant is not before, the first thing the call sends is one authentication request; what
follows, if anything, starts with the request of the call, which is the last thing sent when
its response does not have status 401. -/
theorem token_validity_window (world : World)
    (unmarshalError :
      String → TurvoShipmentCreateErrorResponse → Except String TurvoShipmentCreateErrorResponse)
    (c0 : Client) (t0 : Trace) (hcred : c0.hasCredentials = true)
    (authCode : Int) (authStatus authBody : String) (authResp : TurvoAuthResponse)
    (authError : Option TurvoShipmentCreateErrorResponse)
    (hauth : world.authReplies t0.authentications.length =
      .response authCode authStatus authBody (some authResp) authError)
    (hcode : 199 < authCode ∧ authCode < 300) (hnew : authResp.accessToken ≠ "")
    (hrange : -(2 ^ 63 : Int) ≤ (lifetime authResp - 300) * 1000000000 ∧
      (lifetime authResp - 300) * 1000000000 < 2 ^ 63) :
    (c0.authenticate world t0).1 = none ∧
      (c0.authenticate world t0).2.1.token = authResp.accessToken ∧
      (c0.authenticate world t0).2.1.tokenExpiry =
        world.clock t0.readings + (lifetime authResp - 300) * 1000000000 ∧
      ∀ (call : Call) (t : Trace),
        (world.clock t.readings <
            world.clock t0.readings + (lifetime authResp - 300) * 1000000000 →
          ∃ rest,
            (call.run world unmarshalError (c0.authenticate world t0).2.1 t).2.2.sent =
              t.sent ++
                Sent.call (call.request { authToken := authResp.accessToken }) :: rest ∧
            ((call.response world t.requests.length).map (fun r => r.1) ≠ some 401 →
              rest = [])) ∧
        (world.clock t0.readings + (lifetime authResp - 300) * 1000000000 ≤
            world.clock t.readings →
          ∃ rest,
            (call.run world unmarshalError (c0.authenticate world t0).2.1 t).2.2.sent =
              t.sent ++ Sent.authentication c0.authRequest :: rest ∧
            (rest = [] ∨ ∃ req rest1, rest = Sent.call req :: rest1 ∧
              ((call.response world t.requests.length).map (fun r => r.1) ≠ some 401 →
                rest1 = []))) := by
  have hsucc := authenticate_success world c0 t0 hcred authCode authStatus authBody authResp
    authError hauth hcode hnew
  rw [duration_in_range _ hrange] at hsucc
  rw [hsucc]
  refine ⟨rfl, rfl, rfl, ?_⟩
  intro call t
  simp only []
  cases call with
  | list filters =>
    have h := callWithRetry_window world world.listReplies
      (fun req => Get (listQueryParams filters req) "/v1/shipments/list") {}
      (fun err => "failed to list shipments: " ++ err)
      (fun err => "failed to list shipments after re-auth: " ++ err)
      (fun status body _ => "turvo API error: " ++ status ++ " - " ++ body)
      (fun response _ _ => .ok (response.details.shipments, response.details.pagination))
      { c0 with
        token := authResp.accessToken,
        tokenExpiry := world.clock t0.readings + (lifetime authResp - 300) * 1000000000,
        authorization := authResp.tokenType ++ " " ++ authResp.accessToken }
      t hcred hnew
    simpa only [Call.run, Call.response, Call.request, ListShipments_eq] using h
  | get shipmentID =>
    have h := callWithRetry_window world world.getReplies
      (fun req => Get req ("/v1/shipments/" ++ formatInt shipmentID)) {}
      (fun err => "failed to get shipment: " ++ err)
      (fun err => "failed to get shipment after re-auth: " ++ err)
      (fun status body _ => "turvo API error: " ++ status ++ " - " ++ body)
      (fun response _ _ => gotShipment response)
      { c0 with
        token := authResp.accessToken,
        tokenExpiry := world.clock t0.readings + (lifetime authResp - 300) * 1000000000,
        authorization := authResp.tokenType ++ " " ++ authResp.accessToken }
      t hcred hnew
    simpa only [Call.run, Call.response, Call.request, GetShipment_eq] using h
  | create shipment =>
    have h := callWithRetry_window world world.createReplies
      (fun req => Post (SetBody req shipment) "/v1/shipments") {}
      (fun err => "failed to create shipment: " ++ err)
      (fun err => "failed to create shipment after re-auth: " ++ err)
      (fun _ _ errorResponse =>
        "turvo API error: " ++ errorResponse.status ++ " - " ++
          errorResponse.details.errorMessage)
      (createdShipment unmarshalError)
      { c0 with
        token := authResp.accessToken,
        tokenExpiry := world.clock t0.readings + (lifetime authResp - 300) * 1000000000,
        authorization := authResp.tokenType ++ " " ++ authResp.accessToken }
      t hcred hnew
    simpa only [Call.run, Call.response, Call.request, CreateShipment_eq] using h

theorem token_validity_window_witness :
    ((Call.get 5).run (sampleWorld 3600 []) sampleUnmarshal
        (sampleClient.authenticate (sampleWorld 3600 []) {}).2.1
        { readings := 3299 }).2.2.sent =
      [Sent.call ((Call.get 5).request { authToken := "fresh" })] := by
  obtain ⟨rest, h1, h2⟩ :=
    ((token_validity_window (sampleWorld 3600 []) sampleUnmarshal sampleClient {} (by decide)
      200 "200 OK" "" { accessToken := "fresh", tokenType := "Bearer", expiresIn := 3600 } none
      rfl (by decide) (by decide) (by decide)).2.2.2 (Call.get 5) { readings := 3299 }).1
      (by decide)
  rw [h1, h2 (by decide)]
  rfl

/-- C32 (as stated) fails: the token of an authentication whose response carries
`expires_in = 9223372337` has its expiry before the authentication, the product
`(9223372337 - 300) * 10^9` being outside the range of a 64-bit integer. A call made one
second after the authentication, which is before the instant of the authentication plus
`9223372337 - 300` seconds, sends an authentication request: two have been sent then. -/
theorem window_overflow :
    (sampleClient.authenticate (sampleWorld 9223372337 []) {}).1 = none ∧
      (sampleClient.authenticate (sampleWorld 9223372337 []) {}).2.1.tokenExpiry =
        -9223372036709551616 ∧
      (sampleClient.authenticate (sampleWorld 9223372337 []) {}).2.2.readings = 1 ∧
      (sampleWorld 9223372337 []).clock 1 <
        (sampleWorld 9223372337 []).clock 0 + (9223372337 - 300) * 1000000000 ∧
      ((Call.get 5).run (sampleWorld 9223372337 []) sampleUnmarshal
        (sampleClient.authenticate (sampleWorld 9223372337 []) {}).2.1
        (sampleClient.authenticate (sampleWorld 9223372337 []) {}).2.2).2.2.authentications.length
        = 2 := by
  decide

/-- The recovery from a 401 when the fresh token is within its window. A call of
`ListShipmentsWithFiltersAndPagination`, `GetShipment` or `CreateShipment` is made by a
client that has its credentials and a token that is valid when the call starts. The first
response has status 401; the authentication that follows succeeds, and its token is valid
when the request is prepared again; the response to the second request has no error status.
Then the call sends exactly three things: its request, one authentication request, and its
request once more, which has the method, the path, the query parameters and the body of the
first and the new token. -/
theorem recovery_from_401 (world : World)
    (unmarshalError :
      String → TurvoShipmentCreateErrorResponse → Except String TurvoShipmentCreateErrorResponse)
    (call : Call) (c : Client) (t : Trace)
    (hcred : c.hasCredentials = true)
    (htoken : c.token ≠ "") (hvalid : world.clock t.readings < c.tokenExpiry)
    (hfirst : (call.response world t.requests.length).map (fun r => r.1) = some 401)
    (authCode : Int) (authStatus authBody : String) (authResp : TurvoAuthResponse)
    (authError : Option TurvoShipmentCreateErrorResponse)
    (hauth : world.authReplies t.authentications.length =
      .response authCode authStatus authBody (some authResp) authError)
    (hcode : 199 < authCode ∧ authCode < 300) (hnew : authResp.accessToken ≠ "")
    (hfresh : world.clock (t.readings + 2) <
      world.clock (t.readings + 1) + mulInt (subInt (lifetime authResp) 300) 1000000000)
    (hretry : ∃ r, call.response world (t.requests.length + 1) = some r ∧ r.1 ≤ 399) :
    (call.run world unmarshalError c t).2.2.sent =
        t.sent ++
          [Sent.call (call.request { authToken := c.token }),
            Sent.authentication c.authRequest,
            Sent.call (call.request { authToken := authResp.accessToken })] ∧
      (call.run world unmarshalError c t).2.2.authentications =
        t.authentications ++ [c.authRequest] ∧
      (call.run world unmarshalError c t).2.2.requests =
        t.requests ++
          [call.request { authToken := c.token },
            call.request { authToken := authResp.accessToken }] ∧
      sameCall (call.request { authToken := authResp.accessToken })
        (call.request { authToken := c.token }) := by
  have key : (call.run world unmarshalError c t).2.2 =
      { readings := t.readings + 3,
        sent := t.sent ++
          [Sent.call (call.request { authToken := c.token }),
            Sent.authentication c.authRequest,
            Sent.call (call.request { authToken := authResp.accessToken })] } := by
    cases call with
    | list filters =>
      have h := callWithRetry_recovery world world.listReplies
        (fun req => Get (listQueryParams filters req) "/v1/shipments/list") {}
        (fun err => "failed to list shipments: " ++ err)
        (fun err => "failed to list shipments after re-auth: " ++ err)
        (fun status body _ => "turvo API error: " ++ status ++ " - " ++ body)
        (fun response _ _ => .ok (response.details.shipments, response.details.pagination))
        c t hcred htoken hvalid hfirst authCode authStatus authBody authResp authError hauth
        hcode hnew hfresh hretry
      simpa only [Call.run, Call.response, Call.request, ListShipments_eq] using h
    | get shipmentID =>
      have h := callWithRetry_recovery world world.getReplies
        (fun req => Get req ("/v1/shipments/" ++ formatInt shipmentID)) {}
        (fun err => "failed to get shipment: " ++ err)
        (fun err => "failed to get shipment after re-auth: " ++ err)
        (fun status body _ => "turvo API error: " ++ status ++ " - " ++ body)
        (fun response _ _ => gotShipment response)
        c t hcred htoken hvalid hfirst authCode authStatus authBody authResp authError hauth
        hcode hnew hfresh hretry
      simpa only [Call.run, Call.response, Call.request, GetShipment_eq] using h
    | create shipment =>
      have h := callWithRetry_recovery world world.createReplies
        (fun req => Post (SetBody req shipment) "/v1/shipments") {}
        (fun err => "failed to create shipment: " ++ err)
        (fun err => "failed to create shipment after re-auth: " ++ err)
        (fun _ _ errorResponse =>
          "turvo API error: " ++ errorResponse.status ++ " - " ++
            errorResponse.details.errorMessage)
        (createdShipment unmarshalError)
        c t hcred htoken hvalid hfirst authCode authStatus authBody authResp authError hauth
        hcode hnew hfresh hretry
      simpa only [Call.run, Call.response, Call.request, CreateShipment_eq] using h
  rw [key]
  refine ⟨rfl, ?_, ?_, Call_request_same call _ _⟩
  · unfold Trace.authentications
    rw [authenticationsOf_append]
    rfl
  · unfold Trace.requests
    rw [requestsOf_append]
    rfl

theorem recovery_from_401_witness :
    ((Call.list { status := "2102", pageSize := 20 }).run (sampleWorld 3600 [401])
        sampleUnmarshal validClient {}).2.2.authentications.length = 1 ∧
      (((Call.list { status := "2102", pageSize := 20 }).run (sampleWorld 3600 [401])
        sampleUnmarshal validClient {}).2.2.requests.map
          (fun r => (r.method, r.path, r.query, r.authToken))) =
        [("GET", "/v1/shipments/list", [("status[eq]", "2102"), ("pageSize", "20")], "held"),
          ("GET", "/v1/shipments/list", [("status[eq]", "2102"), ("pageSize", "20")],
            "fresh")] := by
  obtain ⟨_, h2, h3, _⟩ := recovery_from_401 (sampleWorld 3600 [401]) sampleUnmarshal
    (Call.list { status := "2102", pageSize := 20 }) validClient {} (by decide) (by decide)
    (by decide) (by decide) 200 "200 OK" ""
    { accessToken := "fresh", tokenType := "Bearer", expiresIn := 3600 } none rfl (by decide)
    (by decide) (by decide) ⟨(200, "status", "body"), rfl, by decide⟩
  rw [h2, h3]
  decide

/-- C33. A call of `GetShipment` by a client that has a valid token, whose first response has
status 401 and whose retry succeeds, sends two authentication requests when the
authentication that follows the 401 returns a token that expires in 60 seconds: that is
less than the 300 seconds taken off, so the token is past its expiry when the request is
prepared again, and the client authenticates a second time before the retry. Two requests
of the call are sent and the call returns no error. -/
theorem reauthentication_repeated :
    validClient.hasCredentials = true ∧ validClient.token ≠ "" ∧
      (sampleWorld 60 [401]).clock 0 < validClient.tokenExpiry ∧
      ((Call.get 5).response (sampleWorld 60 [401]) 0).map (fun r => r.1) = some 401 ∧
      ((Call.get 5).response (sampleWorld 60 [401]) 1).map (fun r => r.1) = some 200 ∧
      ((Call.get 5).run (sampleWorld 60 [401]) sampleUnmarshal validClient {}).1 = none ∧
      ((Call.get 5).run (sampleWorld 60 [401]) sampleUnmarshal validClient
        {}).2.2.requests.length = 2 ∧
      ((Call.get 5).run (sampleWorld 60 [401]) sampleUnmarshal validClient
        {}).2.2.authentications.length = 2 := by
  decide

end TurvoBackend
